import Mathlib

/-!
# AR488 board layouts: register-level model of `AR488_Layouts.cpp`

Every board profile of `src/AR488/AR488_Layouts.cpp` is embedded in its own
namespace, named after the preprocessor symbol that selects it.

* A `uint8_t` is a `Fin 256` (`U8`), a `uint32_t` a `Fin 4294967296` (`U32`).
* C evaluates an expression on promoted integers and truncates when the result
  is stored in a `uint8_t`; accordingly expressions are computed on `Nat` and
  `u8` / `u32` truncate at every store, cast or return.
* C's `~x` is only ever used where the result is truncated to eight bits or
  and-ed with a byte, so it is modelled by `bnot`, the complement of the low
  eight bits (`not32` for the 32-bit GPIO words).
* The memory-mapped registers of a board are the fields of a record, and each
  C function that touches registers is a function on that record.
-/

namespace AR488

/-! ## Machine integers -/

/-- An 8-bit unsigned machine integer (`uint8_t`). -/
abbrev U8 := Fin 256

/-- A 32-bit unsigned machine integer (`uint32_t`). -/
abbrev U32 := Fin 4294967296

/-- Truncation to `uint8_t`. -/
def u8 (n : Nat) : U8 := ⟨n % 256, Nat.mod_lt n (by decide)⟩

/-- Truncation to `uint32_t`. -/
def u32 (n : Nat) : U32 := ⟨n % 4294967296, Nat.mod_lt n (by decide)⟩

/-- The low eight bits of C's `~x`. -/
def bnot (x : Nat) : Nat := 255 - x % 256

/-- The 32-bit complement `~x` of a `uint32_t`. -/
def not32 (x : Nat) : Nat := 4294967295 - x % 4294967296

/-- Bit `k` of a byte. -/
def U8.bit (x : U8) (k : Nat) : Bool := x.val.testBit k

/-! ## Bit reversal

`reverseBits(uint8_t)` is defined with the same body in the
`AR488_MEGA32U4_LR3`, `AR488_MEGA644P_MCGRAW` and `POE_ETHERNET_GPIB_ADAPTOR`
sections. -/

/-- The 8-bit `reverseBits`: nibble swap, pair swap, bit swap, each stored back
into the `uint8_t` argument. -/
def reverseBits (dbyte : U8) : U8 :=
  let dbyte := u8 ((dbyte.val &&& 0xF0) >>> 4 ||| (dbyte.val &&& 0x0F) <<< 4)
  let dbyte := u8 ((dbyte.val &&& 0xCC) >>> 2 ||| (dbyte.val &&& 0x33) <<< 2)
  let dbyte := u8 ((dbyte.val &&& 0xAA) >>> 1 ||| (dbyte.val &&& 0x55) <<< 1)
  dbyte

/-! ## AVR register file -/

/-- The I/O ports of the AVR parts used by the port-register profiles. -/
inductive PortId where
  | A | B | C | D | E | F | G | H | L
  deriving DecidableEq, Repr

/-- A physical pin: a port and a bit index within the port. -/
abbrev Pin := PortId × Nat

/-- The data-direction (`DDRx`), output/pull-up (`PORTx`) and input (`PINx`)
registers of every port. -/
structure AVR where
  DDRA : U8
  DDRB : U8
  DDRC : U8
  DDRD : U8
  DDRE : U8
  DDRF : U8
  DDRG : U8
  DDRH : U8
  DDRL : U8
  PORTA : U8
  PORTB : U8
  PORTC : U8
  PORTD : U8
  PORTE : U8
  PORTF : U8
  PORTG : U8
  PORTH : U8
  PORTL : U8
  PINA : U8
  PINB : U8
  PINC : U8
  PIND : U8
  PINE : U8
  PINF : U8
  PING : U8
  PINH : U8
  PINL : U8
  deriving DecidableEq, Repr

/-- The register file with every register holding the same byte. -/
def AVR.const (x : U8) : AVR :=
  ⟨x, x, x, x, x, x, x, x, x, x, x, x, x, x, x, x, x, x, x, x, x, x, x, x, x, x, x⟩

/-- The `DDRx` register of a port. -/
def AVR.DDR (s : AVR) : PortId → U8
  | .A => s.DDRA | .B => s.DDRB | .C => s.DDRC | .D => s.DDRD | .E => s.DDRE
  | .F => s.DDRF | .G => s.DDRG | .H => s.DDRH | .L => s.DDRL

/-- The `PORTx` register of a port. -/
def AVR.PORT (s : AVR) : PortId → U8
  | .A => s.PORTA | .B => s.PORTB | .C => s.PORTC | .D => s.PORTD | .E => s.PORTE
  | .F => s.PORTF | .G => s.PORTG | .H => s.PORTH | .L => s.PORTL

/-- The `PINx` register of a port. -/
def AVR.PIN (s : AVR) : PortId → U8
  | .A => s.PINA | .B => s.PINB | .C => s.PINC | .D => s.PIND | .E => s.PINE
  | .F => s.PINF | .G => s.PING | .H => s.PINH | .L => s.PINL

/-- The direction bit of a pin (1 = output). -/
def AVR.ddrBit (s : AVR) (p : Pin) : Bool := (s.DDR p.1).bit p.2

/-- The `PORT` bit of a pin (output level, or pull-up enable of an input). -/
def AVR.portBit (s : AVR) (p : Pin) : Bool := (s.PORT p.1).bit p.2

/-- The `PIN` bit of a pin (the level read from the line). -/
def AVR.pinBit (s : AVR) (p : Pin) : Bool := (s.PIN p.1).bit p.2

/-- The pins `pins` read back what is driven on them: in `t` the `PIN` bit of
each of them is the `PORT` bit it has in `drv`. -/
def AVR.readsBack (pins : Fin 8 → Pin) (drv t : AVR) : Prop :=
  ∀ k : Fin 8, t.pinBit (pins k) = drv.portBit (pins k)

instance (pins : Fin 8 → Pin) (drv t : AVR) : Decidable (AVR.readsBack pins drv t) :=
  inferInstanceAs (Decidable (∀ k : Fin 8, t.pinBit (pins k) = drv.portBit (pins k)))

/-- The input registers follow the output registers on every pin. -/
def AVR.latch (s : AVR) : AVR :=
  { s with PINA := s.PORTA, PINB := s.PORTB, PINC := s.PORTC, PIND := s.PORTD,
           PINE := s.PORTE, PINF := s.PORTF, PING := s.PORTG, PINH := s.PORTH,
           PINL := s.PORTL }

/-! ## UNO / NANO -/

namespace AR488_UNO

/-- Data pin map of the layout comment: DIO1..DIO6 on PC0..PC5, DIO7 on PD4,
DIO8 on PD5. -/
def dataPin : Fin 8 → Pin
  | 0 => (.C, 0) | 1 => (.C, 1) | 2 => (.C, 2) | 3 => (.C, 3)
  | 4 => (.C, 4) | 5 => (.C, 5) | 6 => (.D, 4) | 7 => (.D, 5)

/-- Control pins by logical bit (IFC, NDAC, NRFD, DAV, EOI, REN, SRQ, ATN):
Arduino pins 8..12, 3, 2, 7 of the layout comment, i.e. PB0..PB4, PD3, PD2,
PD7.  (The port column of the comment repeats PD2 for REN; pin 3 is PD3, which
is where `setGpibCtrlState` puts bit 5.) -/
def ctrlPin : Fin 8 → Pin
  | 0 => (.B, 0) | 1 => (.B, 1) | 2 => (.B, 2) | 3 => (.B, 3)
  | 4 => (.B, 4) | 5 => (.D, 3) | 6 => (.D, 2) | 7 => (.D, 7)

/-- Set the data bus to input with pull-up. -/
def readyGpibDbus (s : AVR) : AVR :=
  let s := { s with DDRD := u8 (s.DDRD.val &&& 0b11001111) }
  let s := { s with DDRC := u8 (s.DDRC.val &&& 0b11000000) }
  let s := { s with PORTD := u8 (s.PORTD.val ||| 0b00110000) }
  { s with PORTC := u8 (s.PORTC.val ||| 0b00111111) }

/-- Read the data byte from the bus. -/
def readGpibDbus (s : AVR) : U8 :=
  u8 (bnot (((s.PIND.val <<< 2) &&& 0b11000000) + (s.PINC.val &&& 0b00111111)))

/-- Drive the data bus with `db`. -/
def setGpibDbus (db : U8) (s : AVR) : AVR :=
  let s := { s with DDRD := u8 (s.DDRD.val ||| 0b00110000) }
  let s := { s with DDRC := u8 (s.DDRC.val ||| 0b00111111) }
  let db := u8 (bnot db.val)
  let s := { s with PORTC := u8 ((s.PORTC.val &&& bnot 0b00111111) ||| (db.val &&& 0b00111111)) }
  { s with PORTD := u8 ((s.PORTD.val &&& bnot 0b00110000) ||| ((db.val &&& 0b11000000) >>> 2)) }

/-- Port B fragment of a control byte: the expression assigned to `portBb`
(from `bits`) and to `portBm` (from `mask`). -/
def portB (x : U8) : U8 := u8 (x.val &&& 0x1F)

/-- Port D fragment of a control byte (`portDb`, `portDm`). -/
def portD (x : U8) : U8 :=
  u8 ((x.val &&& 0x80) + ((x.val &&& 0x40) >>> 4) + ((x.val &&& 0x20) >>> 2))

/-- Set the state of the control lines selected by `mask`. -/
def setGpibCtrlState (bits mask : U8) (s : AVR) : AVR :=
  if mask = 0 then s else
  let portBb := portB bits
  let portBm := portB mask
  let portDb := portD bits
  let portDm := portD mask
  let s := { s with PORTB := u8 ((s.PORTB.val &&& bnot portBm.val) ||| (portBb.val &&& portBm.val)) }
  { s with PORTD := u8 ((s.PORTD.val &&& bnot portDm.val) ||| (portDb.val &&& portDm.val)) }

end AR488_UNO

/-! ## MEGA2560, default layout -/

namespace AR488_MEGA2560_D

/-- Control pins by logical bit, as `setGpibCtrlState` places them: PH0, PH1,
PH3, PH4, PH5, PH6, PB4, PB5. -/
def ctrlPin : Fin 8 → Pin
  | 0 => (.H, 0) | 1 => (.H, 1) | 2 => (.H, 3) | 3 => (.H, 4)
  | 4 => (.H, 5) | 5 => (.H, 6) | 6 => (.B, 4) | 7 => (.B, 5)

/-- Port H fragment of a control byte (`portHb`, `portHm`). -/
def portH (x : U8) : U8 := u8 (((x.val &&& 0x3C) <<< 1) + (x.val &&& 0x03))

/-- Port B fragment of a control byte (`portBb`, `portBm`). -/
def portB (x : U8) : U8 := u8 ((x.val &&& 0xC0) >>> 2)

/-- Set the state of the control lines selected by `mask`. -/
def setGpibCtrlState (bits mask : U8) (s : AVR) : AVR :=
  let portHb := portH bits
  let portHm := portH mask
  let portBb := portB bits
  let portBm := portB mask
  let s := { s with PORTH := u8 ((s.PORTH.val &&& bnot portHm.val) ||| (portHb.val &&& portHm.val)) }
  { s with PORTB := u8 ((s.PORTB.val &&& bnot portBm.val) ||| (portBb.val &&& portBm.val)) }

end AR488_MEGA2560_D

/-! ## MEGA2560, layout E1 -/

namespace AR488_MEGA2560_E1

/-- Data pins by logical bit, as `setGpibDbus` and `readGpibDbus` wire them:
PC7, PC5, PC3, PC1, PA0, PA2, PA4, PA6.  (The layout comment lists the same
eight pins with each group of four in the opposite order.) -/
def dataPin : Fin 8 → Pin
  | 0 => (.C, 7) | 1 => (.C, 5) | 2 => (.C, 3) | 3 => (.C, 1)
  | 4 => (.A, 0) | 5 => (.A, 2) | 6 => (.A, 4) | 7 => (.A, 6)

/-- The eight single-bit moves of `readGpibDbus`, from `val` to `db`. -/
def valToDb (val : U8) : U8 :=
  let db : U8 := 0
  let db := u8 (db.val ||| (((val.val >>> 1) &&& 1) <<< 3))
  let db := u8 (db.val ||| (((val.val >>> 3) &&& 1) <<< 2))
  let db := u8 (db.val ||| (((val.val >>> 5) &&& 1) <<< 1))
  let db := u8 (db.val ||| (((val.val >>> 7) &&& 1) <<< 0))
  let db := u8 (db.val ||| (((val.val >>> 6) &&& 1) <<< 7))
  let db := u8 (db.val ||| (((val.val >>> 4) &&& 1) <<< 6))
  let db := u8 (db.val ||| (((val.val >>> 2) &&& 1) <<< 5))
  let db := u8 (db.val ||| (((val.val >>> 0) &&& 1) <<< 4))
  db

/-- Read the data byte from the bus. -/
def readGpibDbus (s : AVR) : U8 :=
  let val := u8 (bnot ((s.PINA.val &&& 0b01010101) + (s.PINC.val &&& 0b10101010)))
  valToDb val

/-- The eight single-bit moves of `setGpibDbus`, from (inverted) `db` to `val`. -/
def dbToVal (db : U8) : U8 :=
  let val : U8 := 0
  let val := u8 (val.val ||| (((db.val >>> 3) &&& 1) <<< 1))
  let val := u8 (val.val ||| (((db.val >>> 2) &&& 1) <<< 3))
  let val := u8 (val.val ||| (((db.val >>> 1) &&& 1) <<< 5))
  let val := u8 (val.val ||| (((db.val >>> 0) &&& 1) <<< 7))
  let val := u8 (val.val ||| (((db.val >>> 7) &&& 1) <<< 6))
  let val := u8 (val.val ||| (((db.val >>> 6) &&& 1) <<< 4))
  let val := u8 (val.val ||| (((db.val >>> 5) &&& 1) <<< 2))
  let val := u8 (val.val ||| (((db.val >>> 4) &&& 1) <<< 0))
  val

/-- Drive the data bus with `db`. -/
def setGpibDbus (db : U8) (s : AVR) : AVR :=
  let s := { s with DDRA := u8 (s.DDRA.val ||| 0b01010101) }
  let s := { s with DDRC := u8 (s.DDRC.val ||| 0b10101010) }
  let db := u8 (bnot db.val)
  let val := dbToVal db
  let s := { s with PORTA := u8 ((s.PORTA.val &&& bnot 0b01010101) ||| (val.val &&& 0b01010101)) }
  { s with PORTC := u8 ((s.PORTC.val &&& bnot 0b10101010) ||| (val.val &&& 0b10101010)) }

end AR488_MEGA2560_E1

/-! ## MEGA2560, layout E2 -/

namespace AR488_MEGA2560_E2

/-- Data pins by logical bit, as `setGpibDbus` and `readGpibDbus` wire them:
PC6, PC4, PC2, PC0, PA1, PA3, PA5, PA7.  (The layout comment lists the same
eight pins in another order.) -/
def dataPin : Fin 8 → Pin
  | 0 => (.C, 6) | 1 => (.C, 4) | 2 => (.C, 2) | 3 => (.C, 0)
  | 4 => (.A, 1) | 5 => (.A, 3) | 6 => (.A, 5) | 7 => (.A, 7)

/-- The eight single-bit moves of `readGpibDbus`, from `val` to `db`. -/
def valToDb (val : U8) : U8 :=
  let db : U8 := 0
  let db := u8 (db.val ||| (((val.val >>> 0) &&& 1) <<< 3))
  let db := u8 (db.val ||| (((val.val >>> 2) &&& 1) <<< 2))
  let db := u8 (db.val ||| (((val.val >>> 4) &&& 1) <<< 1))
  let db := u8 (db.val ||| (((val.val >>> 6) &&& 1) <<< 0))
  let db := u8 (db.val ||| (((val.val >>> 7) &&& 1) <<< 7))
  let db := u8 (db.val ||| (((val.val >>> 5) &&& 1) <<< 6))
  let db := u8 (db.val ||| (((val.val >>> 3) &&& 1) <<< 5))
  let db := u8 (db.val ||| (((val.val >>> 1) &&& 1) <<< 4))
  db

/-- Read the data byte from the bus. -/
def readGpibDbus (s : AVR) : U8 :=
  let val := u8 (bnot ((s.PINA.val &&& 0b10101010) + (s.PINC.val &&& 0b01010101)))
  valToDb val

/-- The eight single-bit moves of `setGpibDbus`, from (inverted) `db` to `val`. -/
def dbToVal (db : U8) : U8 :=
  let val : U8 := 0
  let val := u8 (val.val ||| (((db.val >>> 4) &&& 1) <<< 1))
  let val := u8 (val.val ||| (((db.val >>> 5) &&& 1) <<< 3))
  let val := u8 (val.val ||| (((db.val >>> 6) &&& 1) <<< 5))
  let val := u8 (val.val ||| (((db.val >>> 7) &&& 1) <<< 7))
  let val := u8 (val.val ||| (((db.val >>> 0) &&& 1) <<< 6))
  let val := u8 (val.val ||| (((db.val >>> 1) &&& 1) <<< 4))
  let val := u8 (val.val ||| (((db.val >>> 2) &&& 1) <<< 2))
  let val := u8 (val.val ||| (((db.val >>> 3) &&& 1) <<< 0))
  val

/-- Drive the data bus with `db`. -/
def setGpibDbus (db : U8) (s : AVR) : AVR :=
  let s := { s with DDRA := u8 (s.DDRA.val ||| 0b10101010) }
  let s := { s with DDRC := u8 (s.DDRC.val ||| 0b01010101) }
  let db := u8 (bnot db.val)
  let val := dbToVal db
  let s := { s with PORTA := u8 ((s.PORTA.val &&& bnot 0b10101010) ||| (val.val &&& 0b10101010)) }
  { s with PORTC := u8 ((s.PORTC.val &&& bnot 0b01010101) ||| (val.val &&& 0b01010101)) }

end AR488_MEGA2560_E2

/-! ## Micro Pro (32u4) -/

namespace AR488_MEGA32U4_MICRO

/-- Data pin map of the layout comment: DIO1 on PD0, DIO2..DIO7 on PB1..PB6,
DIO8 on PD7. -/
def dataPin : Fin 8 → Pin
  | 0 => (.D, 0) | 1 => (.B, 1) | 2 => (.B, 2) | 3 => (.B, 3)
  | 4 => (.B, 4) | 5 => (.B, 5) | 6 => (.B, 6) | 7 => (.D, 7)

/-- Read the data byte from the bus. -/
def readGpibDbus (s : AVR) : U8 :=
  u8 (bnot ((s.PIND.val &&& 0b10000001) ||| (s.PINB.val &&& 0b01111110)))

/-- Drive the data bus with `db`. -/
def setGpibDbus (db : U8) (s : AVR) : AVR :=
  let s := { s with DDRB := u8 (s.DDRB.val ||| 0b01111110) }
  let s := { s with DDRD := u8 (s.DDRD.val ||| 0b10000001) }
  let db := u8 (bnot db.val)
  let s := { s with PORTB := u8 ((s.PORTB.val &&& bnot 0b01111110) ||| (db.val &&& 0b01111110)) }
  { s with PORTD := u8 ((s.PORTD.val &&& bnot 0b10000001) ||| (db.val &&& 0b10000001)) }

end AR488_MEGA32U4_MICRO

/-! ## Leonardo R3 (32u4) -/

namespace AR488_MEGA32U4_LR3

/-- Data pins by logical bit, as `setGpibDbus` and `readGpibDbus` wire them:
PF7, PF6, PF5, PF4, PF1, PF0, PD4, PC6. -/
def dataPin : Fin 8 → Pin
  | 0 => (.F, 7) | 1 => (.F, 6) | 2 => (.F, 5) | 3 => (.F, 4)
  | 4 => (.F, 1) | 5 => (.F, 0) | 6 => (.D, 4) | 7 => (.C, 6)

/-- The local `portf` of `readGpibDbus`, computed from `PINF`. -/
def portfIn (pinf : U8) : U8 :=
  reverseBits (u8 ((pinf.val &&& 0b11110000) + ((pinf.val &&& 0b00000011) <<< 2)))

/-- Read the data byte from the bus. -/
def readGpibDbus (s : AVR) : U8 :=
  let portf := portfIn s.PINF
  u8 (bnot (((s.PIND.val &&& 0b00010000) <<< 2) + ((s.PINC.val &&& 0b01000000) <<< 1) + portf.val))

/-- The local `portf` of `setGpibDbus`, computed from the inverted `db`. -/
def portfOut (db : U8) : U8 :=
  reverseBits (u8 ((db.val &&& 0b00001111) + ((db.val &&& 0b00110000) <<< 2)))

/-- Drive the data bus with `db`. -/
def setGpibDbus (db : U8) (s : AVR) : AVR :=
  let s := { s with DDRC := u8 (s.DDRC.val ||| 0b01000000) }
  let s := { s with DDRD := u8 (s.DDRD.val ||| 0b00010000) }
  let s := { s with DDRF := u8 (s.DDRF.val ||| 0b11110011) }
  let db := u8 (bnot db.val)
  let portf := portfOut db
  let s := { s with PORTC := u8 ((s.PORTC.val &&& bnot 0b01000000) ||| ((db.val &&& 0b10000000) >>> 1)) }
  let s := { s with PORTD := u8 ((s.PORTD.val &&& bnot 0b00010000) ||| ((db.val &&& 0b01000000) >>> 2)) }
  { s with PORTF := u8 ((s.PORTF.val &&& bnot 0b11110011) ||| (portf.val &&& 0b11110011)) }

end AR488_MEGA32U4_LR3

/-! ## Panduino / MightyCore 644P (McGraw) -/

namespace AR488_MEGA644P_MCGRAW

/-- Data pin map of the layout comment: DIO1..DIO6 on PD2..PD7, DIO7 on PC0,
DIO8 on PC1. -/
def dataPin : Fin 8 → Pin
  | 0 => (.D, 2) | 1 => (.D, 3) | 2 => (.D, 4) | 3 => (.D, 5)
  | 4 => (.D, 6) | 5 => (.D, 7) | 6 => (.C, 0) | 7 => (.C, 1)

/-- Control pin map of the layout comment: IFC PC6, NDAC PC5, NRFD PC4,
DAV PC3, EOI PC2, REN PA0, SRQ PC7, ATN PA7. -/
def ctrlPin : Fin 8 → Pin
  | 0 => (.C, 6) | 1 => (.C, 5) | 2 => (.C, 4) | 3 => (.C, 3)
  | 4 => (.C, 2) | 5 => (.A, 0) | 6 => (.C, 7) | 7 => (.A, 7)

/-- Read the data byte from the bus. -/
def readGpibDbus (s : AVR) : U8 :=
  u8 (bnot (((s.PIND.val >>> 2) &&& 0b00111111) + ((s.PINC.val <<< 6) &&& 0b11000000)))

/-- Drive the data bus with `db`. -/
def setGpibDbus (db : U8) (s : AVR) : AVR :=
  let s := { s with DDRD := u8 (s.DDRD.val ||| 0b11111100) }
  let s := { s with DDRC := u8 (s.DDRC.val ||| 0b00000011) }
  let db := u8 (bnot db.val)
  let s := { s with PORTC := u8 ((s.PORTC.val &&& bnot 0b00000011) ||| ((db.val &&& 0b11000000) >>> 6)) }
  { s with PORTD := u8 ((s.PORTD.val &&& bnot 0b11111100) ||| ((db.val &&& 0b00111111) <<< 2)) }

/-- Port A fragment of a control byte (`portAb`, `portAm`). -/
def portA (x : U8) : U8 := u8 (((x.val &&& 0x20) >>> 5) + (x.val &&& 0x80))

/-- First summand of the port C fragment: bits 0..4 reversed into bits 6..2. -/
def portCrev (x : U8) : Nat := (reverseBits (u8 (x.val &&& 0x1F))).val >>> 1

/-- Second summand of the port C fragment: bit 6 moved to bit 7. -/
def portCsrq (x : U8) : Nat := (x.val &&& 0x40) <<< 1

/-- Port C fragment of a control byte (`portCb`, `portCm`). -/
def portC (x : U8) : U8 := u8 (portCrev x + portCsrq x)

/-- Set the state of the control lines selected by `mask`. -/
def setGpibCtrlState (bits mask : U8) (s : AVR) : AVR :=
  let portAb := portA bits
  let portAm := portA mask
  let portCb := portC bits
  let portCm := portC mask
  let s := { s with PORTA := u8 ((s.PORTA.val &&& bnot portAm.val) ||| (portAb.val &&& portAm.val)) }
  { s with PORTC := u8 ((s.PORTC.val &&& bnot portCm.val) ||| (portCb.val &&& portCm.val)) }

end AR488_MEGA644P_MCGRAW

/-! ## Pololu A-Star 328PB, alternative layout -/

namespace AR488_328PB_ALT

/-- Data pins by logical bit, as `setGpibDbus`, `readGpibDbus` and
`readyGpibDbus` use them: PC0..PC5, PE2, PE3.  (The layout comment names PD4
and PD5 for DIO7 and DIO8; the three functions use port E.) -/
def dataPin : Fin 8 → Pin
  | 0 => (.C, 0) | 1 => (.C, 1) | 2 => (.C, 2) | 3 => (.C, 3)
  | 4 => (.C, 4) | 5 => (.C, 5) | 6 => (.E, 2) | 7 => (.E, 3)

/-- Read the data byte from the bus. -/
def readGpibDbus (s : AVR) : U8 :=
  u8 (bnot (((s.PINE.val <<< 4) &&& 0b11000000) + (s.PINC.val &&& 0b00111111)))

/-- Drive the data bus with `db`. -/
def setGpibDbus (db : U8) (s : AVR) : AVR :=
  let s := { s with DDRE := u8 (s.DDRE.val ||| 0b00001100) }
  let s := { s with DDRC := u8 (s.DDRC.val ||| 0b00111111) }
  let db := u8 (bnot db.val)
  let s := { s with PORTC := u8 ((s.PORTC.val &&& bnot 0b00111111) ||| (db.val &&& 0b00111111)) }
  { s with PORTE := u8 ((s.PORTE.val &&& bnot 0b00001100) ||| ((db.val &&& 0b11000000) >>> 4)) }

end AR488_328PB_ALT

/-! ## PoE Ethernet GPIB adaptor (megaAVR 0-series port structs) -/

/-- The registers of one `PORT_t` port structure that the layout touches. -/
structure PORT_t where
  DIR : U8
  OUT : U8
  IN : U8
  PIN0CTRL : U8
  PIN1CTRL : U8
  PIN2CTRL : U8
  PIN3CTRL : U8
  PIN4CTRL : U8
  PIN5CTRL : U8
  PIN6CTRL : U8
  PIN7CTRL : U8
  deriving DecidableEq, Repr

/-- The two ports used by the PoE adaptor layout. -/
structure MegaAVR0 where
  PORTC : PORT_t
  PORTD : PORT_t
  deriving DecidableEq, Repr

namespace POE_ETHERNET_GPIB_ADAPTOR

/-- Control pin map of the layout comment, as the port C bit of each logical
bit: IFC PC4, NDAC PC3, NRFD PC2, DAV PC1, EOI PC0, REN PC7, SRQ PC5, ATN PC6. -/
def ctrlBit : Fin 8 → Fin 8
  | 0 => 4 | 1 => 3 | 2 => 2 | 3 => 1 | 4 => 0 | 5 => 7 | 6 => 5 | 7 => 6

/-- Map a control byte to its port C image. -/
def bitsToPort (bits : U8) : U8 :=
  u8 (((reverseBits (u8 (bits.val &&& 0x1F))).val >>> 3) ||| ((bits.val &&& 0x20) <<< 2)
      ||| ((bits.val &&& 0x40) >>> 1) ||| ((bits.val &&& 0x80) >>> 1))

/-- Set the state of the control lines selected by `mask`. -/
def setGpibCtrlState (bits mask : U8) (s : MegaAVR0) : MegaAVR0 :=
  if mask = 0 then s else
  let portCb := bitsToPort bits
  let portCm := bitsToPort mask
  { s with PORTC :=
      { s.PORTC with OUT := u8 ((s.PORTC.OUT.val &&& bnot portCm.val) ||| (portCb.val &&& portCm.val)) } }

end POE_ETHERNET_GPIB_ADAPTOR

/-! ## RP2040 GPIO bank and the Pico SDK primitives -/

/-- The 32-bit GPIO words of the RP2040: pin levels as read, output latch,
output enable, and pull-up enable. -/
structure RP2040 where
  gpio_in : U32
  gpio_out : U32
  gpio_oe : U32
  pull_up : U32
  deriving DecidableEq, Repr

/-- Modelled from the spec: Pico SDK `gpio_get_all`, which is not part of this
repository; it returns the levels of all GPIO pins. -/
def gpio_get_all (s : RP2040) : U32 := s.gpio_in

/-- Modelled from the spec: Pico SDK `gpio_put_masked`, which is not part of
this repository; `gpio_put_masked(m, x)` sets `out := (out & ~m) | (x & m)`. -/
def gpio_put_masked (mask value : U32) (s : RP2040) : RP2040 :=
  { s with gpio_out := u32 ((s.gpio_out.val &&& not32 mask.val) ||| (value.val &&& mask.val)) }

/-- Modelled from the spec: Pico SDK `gpio_set_dir_out_masked`, which is not
part of this repository; it switches the GPIOs in the mask to output. -/
def gpio_set_dir_out_masked (mask : U32) (s : RP2040) : RP2040 :=
  { s with gpio_oe := u32 (s.gpio_oe.val ||| mask.val) }

/-- Modelled from the spec: Pico SDK `gpio_set_dir_in_masked`, which is not
part of this repository; it switches the GPIOs in the mask to input. -/
def gpio_set_dir_in_masked (mask : U32) (s : RP2040) : RP2040 :=
  { s with gpio_oe := u32 (s.gpio_oe.val &&& not32 mask.val) }

/-- Modelled from the spec: Pico SDK `gpio_pull_up`, which is not part of this
repository; it enables the pull-up of one GPIO. -/
def gpio_pull_up (i : Nat) (s : RP2040) : RP2040 :=
  { s with pull_up := u32 (s.pull_up.val ||| (1 <<< i)) }

/-- Modelled from the spec: Pico SDK `gpio_disable_pulls`, which is not part of
this repository; it disables the pulls of one GPIO. -/
def gpio_disable_pulls (i : Nat) (s : RP2040) : RP2040 :=
  { s with pull_up := u32 (s.pull_up.val &&& not32 (1 <<< i)) }

/-- Enable the pull-up of every GPIO in the mask (loop over `i = 0 .. 31`);
defined with the same body in `RAS_PICO_L1` and `RAS_PICO_L2`. -/
def gpio_set_pullups_masked (mask : U32) (s : RP2040) : RP2040 :=
  (List.range 32).foldl
    (fun s i => if mask.val &&& (u32 (1 <<< i)).val ≠ 0 then gpio_pull_up i s else s) s

/-- Disable the pulls of every GPIO in the mask (loop over `i = 0 .. 31`);
defined with the same body in `RAS_PICO_L1` and `RAS_PICO_L2`. -/
def gpio_clear_pullups_masked (mask : U32) (s : RP2040) : RP2040 :=
  (List.range 32).foldl
    (fun s i => if mask.val &&& (u32 (1 <<< i)).val ≠ 0 then gpio_disable_pulls i s else s) s

/-- Every GPIO reads back the level of its output latch. -/
def RP2040.latch (s : RP2040) : RP2040 := { s with gpio_in := s.gpio_out }

/-! ## Raspberry Pi Pico, layout 1 -/

namespace RAS_PICO_L1

/-- Data-bus GPIO mask. -/
def gpioDbMask : U32 := 0x00003FC0

/-- Control-bus GPIO mask. -/
def gpioCtrlMask : U32 := 0x003FC000

/-- GPIO number of DIO1. -/
def gpioDbOffset : Nat := 6

/-- GPIO number of IFC. -/
def gpioCtrlOffset : Nat := 14

/-- Read the data byte from the bus. -/
def readGpibDbus (s : RP2040) : U8 :=
  let gpioall := gpio_get_all s
  let gpioall := u32 ((gpioall.val &&& gpioDbMask.val) >>> gpioDbOffset)
  u8 (not32 gpioall.val)

/-- Drive the data bus with `db`. -/
def setGpibDbus (db : U8) (s : RP2040) : RP2040 :=
  let gpioall := u32 ((u8 (bnot db.val)).val <<< gpioDbOffset)
  let s := gpio_clear_pullups_masked gpioDbMask s
  let s := gpio_set_dir_out_masked gpioDbMask s
  gpio_put_masked gpioDbMask gpioall s

end RAS_PICO_L1

/-! ## Raspberry Pi Pico, layout 2 -/

namespace RAS_PICO_L2

/-- Data-bus GPIO mask. -/
def gpioDbMask : U32 := 0x003FC000

/-- Control-bus GPIO mask. -/
def gpioCtrlMask : U32 := 0x00003FC0

/-- GPIO number of DIO1. -/
def gpioDbOffset : Nat := 14

/-- GPIO number of IFC. -/
def gpioCtrlOffset : Nat := 6

/-- Read the data byte from the bus. -/
def readGpibDbus (s : RP2040) : U8 :=
  let gpioall := gpio_get_all s
  let gpioall := u32 ((gpioall.val &&& gpioDbMask.val) >>> gpioDbOffset)
  u8 (not32 gpioall.val)

/-- Drive the data bus with `db`. -/
def setGpibDbus (db : U8) (s : RP2040) : RP2040 :=
  let gpioall := u32 ((u8 (bnot db.val)).val <<< gpioDbOffset)
  let s := gpio_clear_pullups_masked gpioDbMask s
  let s := gpio_set_dir_out_masked gpioDbMask s
  gpio_put_masked gpioDbMask gpioall s

end RAS_PICO_L2

/-! ## Arduino Nano RP2040 Connect -/

namespace RPI_NANO_RP2040

/-- Data-bus GPIO mask: GPIO 15..21 and GPIO 25. -/
def gpioDbMask : U32 := 0x23F8000

/-- Control-bus GPIO mask. -/
def gpioCtrlMask : U32 := 0x300030D0

/-- The `uint32_t` overload of `reverseBits` of this section: the byte masks of
the 8-bit routine applied to a 32-bit word. -/
def reverseBits (dbyte : U32) : U32 :=
  let dbyte := u32 ((dbyte.val &&& 0xF0) >>> 4 ||| (dbyte.val &&& 0x0F) <<< 4)
  let dbyte := u32 ((dbyte.val &&& 0xCC) >>> 2 ||| (dbyte.val &&& 0x33) <<< 2)
  let dbyte := u32 ((dbyte.val &&& 0xAA) >>> 1 ||| (dbyte.val &&& 0x55) <<< 1)
  dbyte

/-- Read the data byte from the bus. -/
def readGpibDbus (s : RP2040) : U8 :=
  let gpioall := gpio_get_all s
  let result1 := reverseBits (u32 (gpioall.val <<< 6))
  let result2 := u32 (gpioall.val >>> 25)
  let gpioall := u32 (result1.val + result2.val)
  u8 (not32 gpioall.val)

/-- Drive the data bus with `db`. -/
def setGpibDbus (db : U8) (s : RP2040) : RP2040 :=
  let gpioall := u32 (db.val <<< 6)
  let s := gpio_set_dir_out_masked 0x023F8000 s
  gpio_put_masked 0x023F8000 gpioall s

end RPI_NANO_RP2040

/-! ## Control lines: direction on UNO / NANO -/

namespace AR488_UNO

/-- Set the direction of the control lines selected by `mask` and enable the
pull-up of those that become inputs. -/
def setGpibCtrlDir (bits mask : U8) (s : AVR) : AVR :=
  let portBb := portB bits
  let portBm := portB mask
  let portDb := portD bits
  let portDm := portD mask
  let s := { s with DDRB := u8 ((s.DDRB.val &&& bnot portBm.val) ||| (portBb.val &&& portBm.val)) }
  let s := { s with DDRD := u8 ((s.DDRD.val &&& bnot portDm.val) ||| (portDb.val &&& portDm.val)) }
  let pmask := u8 (bnot portBb.val &&& portBm.val)
  let s := { s with PORTB := u8 ((s.PORTB.val &&& bnot pmask.val) ||| pmask.val) }
  let pmask := u8 (bnot portDb.val &&& portDm.val)
  { s with PORTD := u8 ((s.PORTD.val &&& bnot pmask.val) ||| pmask.val) }

end AR488_UNO

/-! ## Control lines: MEGA2560, layout E1 -/

namespace AR488_MEGA2560_E1

/-- Control pin map as the layout comment lists it: IFC PL1, NDAC PL3, NRFD PL5,
DAV PL7, EOI PG1, REN PB3, SRQ PD7, ATN PB1. -/
def docCtrlPin : Fin 8 → Pin
  | 0 => (.L, 1) | 1 => (.L, 3) | 2 => (.L, 5) | 3 => (.L, 7)
  | 4 => (.G, 1) | 5 => (.B, 3) | 6 => (.D, 7) | 7 => (.B, 1)

/-- Control pins by logical bit as `setGpibCtrlState` and `setGpibCtrlDir` place
them (and as their inline comments say: port B takes ATN and SRQ, port D takes
REN): IFC PL1, NDAC PL3, NRFD PL5, DAV PL7, EOI PG1, REN PD7, SRQ PB3, ATN PB1. -/
def ctrlPin : Fin 8 → Pin
  | 0 => (.L, 1) | 1 => (.L, 3) | 2 => (.L, 5) | 3 => (.L, 7)
  | 4 => (.G, 1) | 5 => (.D, 7) | 6 => (.B, 3) | 7 => (.B, 1)

/-- Port B fragment of a control byte (`portBb`, `portBm`). -/
def portB (x : U8) : U8 := u8 ((((x.val >>> 7) &&& 1) <<< 1) + (((x.val >>> 6) &&& 1) <<< 3))

/-- Port D fragment of a control byte (`portDb`, `portDm`). -/
def portD (x : U8) : U8 := u8 (((x.val >>> 5) &&& 1) <<< 7)

/-- Port G fragment of a control byte (`portGb`, `portGm`). -/
def portG (x : U8) : U8 := u8 (((x.val >>> 4) &&& 1) <<< 1)

/-- Port L fragment of a control byte (`portLb`, `portLm`). -/
def portL (x : U8) : U8 :=
  u8 ((((x.val >>> 0) &&& 1) <<< 1) + (((x.val >>> 1) &&& 1) <<< 3)
    + (((x.val >>> 2) &&& 1) <<< 5) + (((x.val >>> 3) &&& 1) <<< 7))

/-- Set the state of the control lines selected by `mask`. -/
def setGpibCtrlState (bits mask : U8) (s : AVR) : AVR :=
  let portBb := portB bits
  let portBm := portB mask
  let portDb := portD bits
  let portDm := portD mask
  let portGb := portG bits
  let portGm := portG mask
  let portLb := portL bits
  let portLm := portL mask
  let s := { s with PORTB := u8 ((s.PORTB.val &&& bnot portBm.val) ||| (portBb.val &&& portBm.val)) }
  let s := { s with PORTD := u8 ((s.PORTD.val &&& bnot portDm.val) ||| (portDb.val &&& portDm.val)) }
  let s := { s with PORTG := u8 ((s.PORTG.val &&& bnot portGm.val) ||| (portGb.val &&& portGm.val)) }
  { s with PORTL := u8 ((s.PORTL.val &&& bnot portLm.val) ||| (portLb.val &&& portLm.val)) }

end AR488_MEGA2560_E1

/-! ## Control lines: MEGA2560, layout E2 -/

namespace AR488_MEGA2560_E2

/-- Control pin map as the layout comment lists it: IFC PG0, NDAC PG2, NRFD PL6,
DAV PL4, EOI PL2, REN PB0, SRQ PL0, ATN PB2. -/
def docCtrlPin : Fin 8 → Pin
  | 0 => (.G, 0) | 1 => (.G, 2) | 2 => (.L, 6) | 3 => (.L, 4)
  | 4 => (.L, 2) | 5 => (.B, 0) | 6 => (.L, 0) | 7 => (.B, 2)

/-- Control pins by logical bit as `setGpibCtrlState` and `setGpibCtrlDir` place
them (and as their inline comments say: port B bits 0 and 2 take ATN and SRQ,
port G bits 0 and 2 take EOI and REN, port L bits 0, 2, 4, 6 take IFC, NDAC,
NRFD, DAV): IFC PL0, NDAC PL2, NRFD PL4, DAV PL6, EOI PG0, REN PG2, SRQ PB2,
ATN PB0. -/
def ctrlPin : Fin 8 → Pin
  | 0 => (.L, 0) | 1 => (.L, 2) | 2 => (.L, 4) | 3 => (.L, 6)
  | 4 => (.G, 0) | 5 => (.G, 2) | 6 => (.B, 2) | 7 => (.B, 0)

/-- Port B fragment of a control byte (`portBb`, `portBm`). -/
def portB (x : U8) : U8 := u8 ((((x.val >>> 7) &&& 1) <<< 0) + (((x.val >>> 6) &&& 1) <<< 2))

/-- Port G fragment of a control byte (`portGb`, `portGm`). -/
def portG (x : U8) : U8 := u8 ((((x.val >>> 4) &&& 1) <<< 0) + (((x.val >>> 5) &&& 1) <<< 2))

/-- Port L fragment of a control byte (`portLb`, `portLm`). -/
def portL (x : U8) : U8 :=
  u8 ((((x.val >>> 0) &&& 1) <<< 0) + (((x.val >>> 1) &&& 1) <<< 2)
    + (((x.val >>> 2) &&& 1) <<< 4) + (((x.val >>> 3) &&& 1) <<< 6))

/-- Set the state of the control lines selected by `mask`. -/
def setGpibCtrlState (bits mask : U8) (s : AVR) : AVR :=
  let portBb := portB bits
  let portBm := portB mask
  let portGb := portG bits
  let portGm := portG mask
  let portLb := portL bits
  let portLm := portL mask
  let s := { s with PORTB := u8 ((s.PORTB.val &&& bnot portBm.val) ||| (portBb.val &&& portBm.val)) }
  let s := { s with PORTG := u8 ((s.PORTG.val &&& bnot portGm.val) ||| (portGb.val &&& portGm.val)) }
  { s with PORTL := u8 ((s.PORTL.val &&& bnot portLm.val) ||| (portLb.val &&& portLm.val)) }

end AR488_MEGA2560_E2

/-! ## Control lines: Micro Pro (32u4) -/

namespace AR488_MEGA32U4_MICRO

/-- Control pin map of the layout comment: IFC PD4, NDAC PF4, NRFD PF5, DAV PF6,
EOI PF7, REN PC6, SRQ PE6, ATN PD1. -/
def ctrlPin : Fin 8 → Pin
  | 0 => (.D, 4) | 1 => (.F, 4) | 2 => (.F, 5) | 3 => (.F, 6)
  | 4 => (.F, 7) | 5 => (.C, 6) | 6 => (.E, 6) | 7 => (.D, 1)

/-- Port F fragment of a control byte (`portFb`, `portFm`). -/
def portF (x : U8) : U8 := u8 ((x.val &&& 0x1e) <<< 3)

/-- Port C fragment of a control byte (`portCb`, `portCm`). -/
def portC (x : U8) : U8 := u8 ((x.val &&& 0x20) <<< 1)

/-- Port D fragment of a control byte (`portDb`, `portDm`). -/
def portD (x : U8) : U8 := u8 (((x.val &&& 0x01) <<< 4) ||| ((x.val &&& 0x80) >>> 6))

/-- Port E fragment of a control byte (`portEb`, `portEm`). -/
def portE (x : U8) : U8 := u8 (x.val &&& 0x40)

/-- Set the state of the control lines selected by `mask`; each of the two
groups of ports is touched only when `mask` selects a line of the group. -/
def setGpibCtrlState (bits mask : U8) (s : AVR) : AVR :=
  let s :=
    if mask.val &&& 0b00011110 ≠ 0 then
      let portFb := portF bits
      let portFm := portF mask
      { s with PORTF := u8 ((s.PORTF.val &&& bnot portFm.val) ||| (portFb.val &&& portFm.val)) }
    else s
  if mask.val &&& 0b11100001 ≠ 0 then
    let portCb := portC bits
    let portCm := portC mask
    let portDb := portD bits
    let portDm := portD mask
    let portEb := portE bits
    let portEm := portE mask
    let s := { s with PORTC := u8 ((s.PORTC.val &&& bnot portCm.val) ||| (portCb.val &&& portCm.val)) }
    let s := { s with PORTD := u8 ((s.PORTD.val &&& bnot portDm.val) ||| (portDb.val &&& portDm.val)) }
    { s with PORTE := u8 ((s.PORTE.val &&& bnot portEm.val) ||| (portEb.val &&& portEm.val)) }
  else s

end AR488_MEGA32U4_MICRO

/-! ## Control lines: Leonardo R3 (32u4) -/

namespace AR488_MEGA32U4_LR3

/-- Control pin map as the layout comment lists it: IFC PB4, NDAC PB5, NRFD PB6,
DAV PB7, EOI PD6, REN PD1, SRQ PD0, ATN PE6. -/
def docCtrlPin : Fin 8 → Pin
  | 0 => (.B, 4) | 1 => (.B, 5) | 2 => (.B, 6) | 3 => (.B, 7)
  | 4 => (.D, 6) | 5 => (.D, 1) | 6 => (.D, 0) | 7 => (.E, 6)

/-- Control pins by logical bit as `setGpibCtrlState` and `setGpibCtrlDir` place
them: IFC PB4, NDAC PB5, NRFD PB6, DAV PB7, EOI PD6, REN PD0, SRQ PD1, ATN PE6. -/
def ctrlPin : Fin 8 → Pin
  | 0 => (.B, 4) | 1 => (.B, 5) | 2 => (.B, 6) | 3 => (.B, 7)
  | 4 => (.D, 6) | 5 => (.D, 0) | 6 => (.D, 1) | 7 => (.E, 6)

/-- Port B fragment of a control byte (`portBb`, `portBm`). -/
def portB (x : U8) : U8 := u8 ((x.val &&& 0x0F) <<< 4)

/-- Port D fragment of a control byte (`portDb`, `portDm`). -/
def portD (x : U8) : U8 :=
  u8 (((x.val &&& 0x10) <<< 2) + ((x.val &&& 0x20) >>> 5) + ((x.val &&& 0x40) >>> 5))

/-- Port E fragment of a control byte (`portEb`, `portEm`). -/
def portE (x : U8) : U8 := u8 ((x.val &&& 0x80) >>> 1)

/-- Set the state of the control lines selected by `mask`. -/
def setGpibCtrlState (bits mask : U8) (s : AVR) : AVR :=
  let portBb := portB bits
  let portBm := portB mask
  let portDb := portD bits
  let portDm := portD mask
  let portEb := portE bits
  let portEm := portE mask
  let s := { s with PORTB := u8 ((s.PORTB.val &&& bnot portBm.val) ||| (portBb.val &&& portBm.val)) }
  let s := { s with PORTD := u8 ((s.PORTD.val &&& bnot portDm.val) ||| (portDb.val &&& portDm.val)) }
  { s with PORTE := u8 ((s.PORTE.val &&& bnot portEm.val) ||| (portEb.val &&& portEm.val)) }

end AR488_MEGA32U4_LR3

/-! ## Control lines: Pololu A-Star 328PB, alternative layout -/

namespace AR488_328PB_ALT

/-- Control pin map of the layout comment: IFC PD5, NDAC PD6, NRFD PD7, DAV PB0,
EOI PB1, REN PD2, SRQ PD3, ATN PD4. -/
def ctrlPin : Fin 8 → Pin
  | 0 => (.D, 5) | 1 => (.D, 6) | 2 => (.D, 7) | 3 => (.B, 0)
  | 4 => (.B, 1) | 5 => (.D, 2) | 6 => (.D, 3) | 7 => (.D, 4)

/-- Port B fragment of a control byte (`portBb`, `portBm`). -/
def portB (x : U8) : U8 := u8 ((x.val &&& 0x18) >>> 3)

/-- Port D fragment of a control byte (`portDb`, `portDm`). -/
def portD (x : U8) : U8 := u8 (((x.val &&& 0x07) <<< 5) + ((x.val &&& 0xE0) >>> 3))

/-- Set the state of the control lines selected by `mask`. -/
def setGpibCtrlState (bits mask : U8) (s : AVR) : AVR :=
  if mask = 0 then s else
  let portBb := portB bits
  let portBm := portB mask
  let portDb := portD bits
  let portDm := portD mask
  let s := { s with PORTB := u8 ((s.PORTB.val &&& bnot portBm.val) ||| (portBb.val &&& portBm.val)) }
  { s with PORTD := u8 ((s.PORTD.val &&& bnot portDm.val) ||| (portDb.val &&& portDm.val)) }

/-- Set the direction of the control lines selected by `mask` and enable the
pull-up of those that become inputs. -/
def setGpibCtrlDir (bits mask : U8) (s : AVR) : AVR :=
  let portBb := portB bits
  let portBm := portB mask
  let portDb := portD bits
  let portDm := portD mask
  let s := { s with DDRB := u8 ((s.DDRB.val &&& bnot portBm.val) ||| (portBb.val &&& portBm.val)) }
  let s := { s with DDRD := u8 ((s.DDRD.val &&& bnot portDm.val) ||| (portDb.val &&& portDm.val)) }
  let pmask := u8 (bnot portBb.val &&& portBm.val)
  let s := { s with PORTB := u8 ((s.PORTB.val &&& bnot pmask.val) ||| pmask.val) }
  let pmask := u8 (bnot portDb.val &&& portDm.val)
  { s with PORTD := u8 ((s.PORTD.val &&& bnot pmask.val) ||| pmask.val) }

end AR488_328PB_ALT

/-! ## MCP23S17 expander (SPI) -/

/-- The expander registers the layout names.  Their identifiers (`MCPPORTA`,
...) are macros of a header that is not part of the sources at hand; they are
taken as distinct register names. -/
inductive McpReg where
  | MCPDIRA | MCPDIRB | MCPPUA | MCPPUB | MCPPORTA | MCPPORTB
  | MCPCON | MCPINTCONA | MCPINTENA | MCPINTCAPA
  deriving DecidableEq, Repr

/-- One select-gated serial transaction with the expander: a register read or a
register write. -/
inductive SpiXfer where
  | read (reg : McpReg)
  | write (reg : McpReg) (db : U8)
  deriving DecidableEq, Repr

/-- The expander as a register map, the log of the serial transactions made so
far, and the global `mcpIntAReg` of the layout. -/
structure Expander where
  regs : McpReg → U8
  spi : List SpiXfer
  mcpIntAReg : U8

namespace AR488_MCP23S17

/-- Read one expander register: one serial transaction (select, opcode with
address, register, data byte, deselect); the device answers with the content of
the register. -/
def mcpByteRead (reg : McpReg) (s : Expander) : U8 × Expander :=
  (s.regs reg, { s with spi := s.spi ++ [SpiXfer.read reg] })

/-- Write one expander register: one serial transaction; the device stores the
data byte in the register. -/
def mcpByteWrite (reg : McpReg) (db : U8) (s : Expander) : Expander :=
  { s with regs := Function.update s.regs reg db, spi := s.spi ++ [SpiXfer.write reg db] }

/-- Set the state of the control lines selected by `mask`: read-modify-write of
port A. -/
def setGpibCtrlState (bits mask : U8) (s : Expander) : Expander :=
  let portAb := bits
  let portAm := mask
  let r := mcpByteRead McpReg.MCPPORTA s
  let regByte := r.1
  let s := r.2
  let regMod := u8 ((regByte.val &&& bnot portAm.val) ||| (portAb.val &&& portAm.val))
  mcpByteWrite McpReg.MCPPORTA regMod s

end AR488_MCP23S17

/-! ## Control lines: Raspberry Pi Pico layouts -/

namespace RAS_PICO_L1

/-- Set the state of the control lines selected by `mask`. -/
def setGpibCtrlState (bits mask : U8) (s : RP2040) : RP2040 :=
  let gpiobits := u32 ((u8 (bits.val &&& mask.val)).val <<< gpioCtrlOffset)
  let gpioOmask := u32 (mask.val <<< gpioCtrlOffset)
  gpio_put_masked gpioOmask gpiobits s

end RAS_PICO_L1

namespace RAS_PICO_L2

/-- Set the state of the control lines selected by `mask`. -/
def setGpibCtrlState (bits mask : U8) (s : RP2040) : RP2040 :=
  let gpiobits := u32 ((u8 (bits.val &&& mask.val)).val <<< gpioCtrlOffset)
  let gpioOmask := u32 (mask.val <<< gpioCtrlOffset)
  gpio_put_masked gpioOmask gpiobits s

end RAS_PICO_L2

/-! ## Custom pin layout (Arduino `digitalWrite`) -/

/-- The output level of every Arduino pin, by pin number. -/
structure ArduinoPins where
  level : U8 → Bool

/-- Modelled from the spec: Arduino core `digitalWrite`, which is not part of
this repository; it drives one pin HIGH (`true`) or LOW (`false`). -/
def digitalWrite (pin : U8) (val : Bool) (s : ArduinoPins) : ArduinoPins :=
  { s with level := Function.update s.level pin val }

namespace AR488_CUSTOM

/-- Set the state of the control lines selected by `mask`: the loop over
`i = 0 .. 7` writing `ctrlbus[i]`.  The pin numbers of `ctrlbus` are macros of a
header that is not part of the sources at hand and are a parameter. -/
def setGpibCtrlState (ctrlbus : Fin 8 → U8) (bits mask : U8) (s : ArduinoPins) : ArduinoPins :=
  ([0, 1, 2, 3, 4, 5, 6, 7] : List (Fin 8)).foldl
    (fun s i =>
      if mask.val &&& (1 <<< i.val) ≠ 0 then
        digitalWrite (ctrlbus i) (decide (bits.val &&& (1 <<< i.val) ≠ 0)) s
      else s) s

end AR488_CUSTOM

/-! ## Register accesses of `setGpibCtrlState` -/

/-- One access to a (volatile) `PORTx` register. -/
inductive PortAccess where
  | read (p : PortId)
  | write (p : PortId)
  deriving DecidableEq, Repr

namespace AR488_UNO

/-- The `PORTx` accesses `setGpibCtrlState` performs, in order: none after the
early return on an empty mask, otherwise one read and one write for each of the
two assignments. -/
def setGpibCtrlStateAccesses (_bits mask : U8) : List PortAccess :=
  if mask = 0 then [] else
  [PortAccess.read .B, PortAccess.write .B, PortAccess.read .D, PortAccess.write .D]

end AR488_UNO

namespace AR488_MEGA2560_D

/-- The `PORTx` accesses `setGpibCtrlState` performs, in order: one read and one
write for each of the two assignments, whatever the arguments. -/
def setGpibCtrlStateAccesses (_bits _mask : U8) : List PortAccess :=
  [PortAccess.read .H, PortAccess.write .H, PortAccess.read .B, PortAccess.write .B]

end AR488_MEGA2560_D

/-! ## Data bus of the MEGA2560 default layout -/

namespace AR488_MEGA2560_D

/-- Data pin map of the layout comment: DIO1..DIO8 on PF0..PF7. -/
def dataPin : Fin 8 → Pin
  | 0 => (.F, 0) | 1 => (.F, 1) | 2 => (.F, 2) | 3 => (.F, 3)
  | 4 => (.F, 4) | 5 => (.F, 5) | 6 => (.F, 6) | 7 => (.F, 7)

/-- Set the data bus to input with pull-up. -/
def readyGpibDbus (s : AVR) : AVR :=
  let s := { s with DDRF := u8 (s.DDRF.val &&& 0b00000000) }
  { s with PORTF := u8 (s.PORTF.val ||| 0b11111111) }

/-- Read the data byte from the bus. -/
def readGpibDbus (s : AVR) : U8 :=
  u8 (bnot (s.PINF.val &&& 0b11111111))

/-- Drive the data bus with `db`. -/
def setGpibDbus (db : U8) (s : AVR) : AVR :=
  let s := { s with DDRF := u8 (s.DDRF.val ||| 0b11111111) }
  { s with PORTF := u8 (bnot db.val) }

end AR488_MEGA2560_D

/-! ## Data bus to input with pull-up: the other AVR profiles -/

namespace AR488_MEGA2560_E1

/-- Set the data bus to input with pull-up. -/
def readyGpibDbus (s : AVR) : AVR :=
  let s := { s with DDRA := u8 (s.DDRA.val &&& 0b10101010) }
  let s := { s with DDRC := u8 (s.DDRC.val &&& 0b01010101) }
  let s := { s with PORTA := u8 (s.PORTA.val ||| 0b01010101) }
  { s with PORTC := u8 (s.PORTC.val ||| 0b10101010) }

end AR488_MEGA2560_E1

namespace AR488_MEGA2560_E2

/-- Set the data bus to input with pull-up. -/
def readyGpibDbus (s : AVR) : AVR :=
  let s := { s with DDRA := u8 (s.DDRA.val &&& 0b01010101) }
  let s := { s with DDRC := u8 (s.DDRC.val &&& 0b10101010) }
  let s := { s with PORTA := u8 (s.PORTA.val ||| 0b10101010) }
  { s with PORTC := u8 (s.PORTC.val ||| 0b01010101) }

end AR488_MEGA2560_E2

namespace AR488_MEGA32U4_MICRO

/-- Set the data bus to input with pull-up. -/
def readyGpibDbus (s : AVR) : AVR :=
  let s := { s with DDRB := u8 (s.DDRB.val &&& 0b10000001) }
  let s := { s with DDRD := u8 (s.DDRD.val &&& 0b01111110) }
  let s := { s with PORTB := u8 (s.PORTB.val ||| 0b01111110) }
  { s with PORTD := u8 (s.PORTD.val ||| 0b10000001) }

end AR488_MEGA32U4_MICRO

namespace AR488_MEGA32U4_LR3

/-- Set the data bus to input with pull-up. -/
def readyGpibDbus (s : AVR) : AVR :=
  let s := { s with DDRC := u8 (s.DDRC.val &&& 0b10111111) }
  let s := { s with DDRD := u8 (s.DDRD.val &&& 0b11101111) }
  let s := { s with DDRF := u8 (s.DDRF.val &&& 0b00001100) }
  let s := { s with PORTC := u8 (s.PORTC.val ||| 0b01000000) }
  let s := { s with PORTD := u8 (s.PORTD.val ||| 0b00010000) }
  { s with PORTF := u8 (s.PORTF.val ||| 0b11110011) }

end AR488_MEGA32U4_LR3

namespace AR488_MEGA644P_MCGRAW

/-- Set the data bus to input with pull-up. -/
def readyGpibDbus (s : AVR) : AVR :=
  let s := { s with DDRD := u8 (s.DDRD.val &&& 0b00000011) }
  let s := { s with DDRC := u8 (s.DDRC.val &&& 0b11111100) }
  let s := { s with PORTD := u8 (s.PORTD.val ||| 0b11111100) }
  { s with PORTC := u8 (s.PORTC.val ||| 0b00000011) }

end AR488_MEGA644P_MCGRAW

namespace AR488_328PB_ALT

/-- Set the data bus to input with pull-up. -/
def readyGpibDbus (s : AVR) : AVR :=
  let s := { s with DDRC := u8 (s.DDRC.val &&& 0b11000000) }
  let s := { s with DDRE := u8 (s.DDRE.val &&& 0b11110011) }
  let s := { s with PORTC := u8 (s.PORTC.val ||| 0b00111111) }
  { s with PORTE := u8 (s.PORTE.val ||| 0b00001100) }

end AR488_328PB_ALT

/-! ## Control lines: direction on the other AVR profiles

In these six profiles `setGpibCtrlDir` computes the same port fragments as
`setGpibCtrlState` and writes the `DDRx` registers only. -/

namespace AR488_MEGA2560_D

/-- Set the direction of the control lines selected by `mask`. -/
def setGpibCtrlDir (bits mask : U8) (s : AVR) : AVR :=
  let portHb := portH bits
  let portHm := portH mask
  let portBb := portB bits
  let portBm := portB mask
  let s := { s with DDRH := u8 ((s.DDRH.val &&& bnot portHm.val) ||| (portHb.val &&& portHm.val)) }
  { s with DDRB := u8 ((s.DDRB.val &&& bnot portBm.val) ||| (portBb.val &&& portBm.val)) }

end AR488_MEGA2560_D

namespace AR488_MEGA2560_E1

/-- Set the direction of the control lines selected by `mask`. -/
def setGpibCtrlDir (bits mask : U8) (s : AVR) : AVR :=
  let portBb := portB bits
  let portBm := portB mask
  let portDb := portD bits
  let portDm := portD mask
  let portGb := portG bits
  let portGm := portG mask
  let portLb := portL bits
  let portLm := portL mask
  let s := { s with DDRB := u8 ((s.DDRB.val &&& bnot portBm.val) ||| (portBb.val &&& portBm.val)) }
  let s := { s with DDRD := u8 ((s.DDRD.val &&& bnot portDm.val) ||| (portDb.val &&& portDm.val)) }
  let s := { s with DDRG := u8 ((s.DDRG.val &&& bnot portGm.val) ||| (portGb.val &&& portGm.val)) }
  { s with DDRL := u8 ((s.DDRL.val &&& bnot portLm.val) ||| (portLb.val &&& portLm.val)) }

end AR488_MEGA2560_E1

namespace AR488_MEGA2560_E2

/-- Set the direction of the control lines selected by `mask`. -/
def setGpibCtrlDir (bits mask : U8) (s : AVR) : AVR :=
  let portBb := portB bits
  let portBm := portB mask
  let portGb := portG bits
  let portGm := portG mask
  let portLb := portL bits
  let portLm := portL mask
  let s := { s with DDRB := u8 ((s.DDRB.val &&& bnot portBm.val) ||| (portBb.val &&& portBm.val)) }
  let s := { s with DDRG := u8 ((s.DDRG.val &&& bnot portGm.val) ||| (portGb.val &&& portGm.val)) }
  { s with DDRL := u8 ((s.DDRL.val &&& bnot portLm.val) ||| (portLb.val &&& portLm.val)) }

end AR488_MEGA2560_E2

namespace AR488_MEGA32U4_MICRO

/-- Set the direction of the control lines selected by `mask`; each of the two
groups of ports is touched only when `mask` selects a line of the group. -/
def setGpibCtrlDir (bits mask : U8) (s : AVR) : AVR :=
  let s :=
    if mask.val &&& 0b00011110 ≠ 0 then
      let portFb := portF bits
      let portFm := portF mask
      { s with DDRF := u8 ((s.DDRF.val &&& bnot portFm.val) ||| (portFb.val &&& portFm.val)) }
    else s
  if mask.val &&& 0b11100001 ≠ 0 then
    let portCb := portC bits
    let portCm := portC mask
    let portDb := portD bits
    let portDm := portD mask
    let portEb := portE bits
    let portEm := portE mask
    let s := { s with DDRC := u8 ((s.DDRC.val &&& bnot portCm.val) ||| (portCb.val &&& portCm.val)) }
    let s := { s with DDRD := u8 ((s.DDRD.val &&& bnot portDm.val) ||| (portDb.val &&& portDm.val)) }
    { s with DDRE := u8 ((s.DDRE.val &&& bnot portEm.val) ||| (portEb.val &&& portEm.val)) }
  else s

end AR488_MEGA32U4_MICRO

namespace AR488_MEGA32U4_LR3

/-- Set the direction of the control lines selected by `mask`. -/
def setGpibCtrlDir (bits mask : U8) (s : AVR) : AVR :=
  let portBb := portB bits
  let portBm := portB mask
  let portDb := portD bits
  let portDm := portD mask
  let portEb := portE bits
  let portEm := portE mask
  let s := { s with DDRB := u8 ((s.DDRB.val &&& bnot portBm.val) ||| (portBb.val &&& portBm.val)) }
  let s := { s with DDRD := u8 ((s.DDRD.val &&& bnot portDm.val) ||| (portDb.val &&& portDm.val)) }
  { s with DDRE := u8 ((s.DDRE.val &&& bnot portEm.val) ||| (portEb.val &&& portEm.val)) }

end AR488_MEGA32U4_LR3

namespace AR488_MEGA644P_MCGRAW

/-- Set the direction of the control lines selected by `mask`. -/
def setGpibCtrlDir (bits mask : U8) (s : AVR) : AVR :=
  let portAb := portA bits
  let portAm := portA mask
  let portCb := portC bits
  let portCm := portC mask
  let s := { s with DDRA := u8 ((s.DDRA.val &&& bnot portAm.val) ||| (portAb.val &&& portAm.val)) }
  { s with DDRC := u8 ((s.DDRC.val &&& bnot portCm.val) ||| (portCb.val &&& portCm.val)) }

end AR488_MEGA644P_MCGRAW

/-! ## MCP23S17 expander: control-line direction and pin state -/

/-- Arduino core constant `HIGH` (`Arduino.h`, not part of the sources at
hand). -/
def HIGH : U8 := 0x1

/-- Arduino core constant `LOW` (`Arduino.h`, not part of the sources at
hand). -/
def LOW : U8 := 0x0

namespace AR488_MCP23S17

/-- Set the direction of the control lines selected by `mask`:
read-modify-write of the port A direction register, complemented on the way in
and on the way out (on the expander 0 = output, 1 = input). -/
def setGpibCtrlDir (bits mask : U8) (s : Expander) : Expander :=
  let portAb := bits
  let portAm := mask
  let r := mcpByteRead McpReg.MCPDIRA s
  let regByte := u8 (bnot r.1.val)
  let s := r.2
  let regMod := u8 ((regByte.val &&& bnot portAm.val) ||| (portAb.val &&& portAm.val))
  mcpByteWrite McpReg.MCPDIRA (u8 (bnot regMod.val)) s

/-- Read the state of one control pin (port A); pins above 7 give 0 without a
register read. -/
def mcpDigitalRead (pin : U8) (s : Expander) : U8 × Expander :=
  if pin.val > 7 then (0x0, s) else
  let r := mcpByteRead McpReg.MCPPORTA s
  (if r.1.val &&& (1 <<< pin.val) ≠ 0 then HIGH else LOW, r.2)

/-- Get the state of an expander pin. -/
def getGpibPinState (pin : U8) (s : Expander) : U8 × Expander :=
  mcpDigitalRead pin s

end AR488_MCP23S17

/-! ## PoE Ethernet GPIB adaptor: pull-ups and data bus to input -/

namespace POE_ETHERNET_GPIB_ADAPTOR

/-- Pull-up enable bit of a `PINnCTRL` register.  The macro comes from the
device header, which is not part of the sources at hand; there it is bit 3. -/
def PORT_PULLUPEN_bm : U8 := 0x08

/-- Collect the pull-up enable bits of the eight `PINnCTRL` registers of a port
structure into one byte, bit `n` for pin `n`. -/
def readPortPullupReg (port : PORT_t) : U8 :=
  let reg : U8 := 0
  let reg := u8 (reg.val ||| ((port.PIN0CTRL.val &&& PORT_PULLUPEN_bm.val) >>> 3))
  let reg := u8 (reg.val ||| ((port.PIN1CTRL.val &&& PORT_PULLUPEN_bm.val) >>> 2))
  let reg := u8 (reg.val ||| ((port.PIN2CTRL.val &&& PORT_PULLUPEN_bm.val) >>> 1))
  let reg := u8 (reg.val ||| (port.PIN3CTRL.val &&& PORT_PULLUPEN_bm.val))
  let reg := u8 (reg.val ||| ((port.PIN4CTRL.val &&& PORT_PULLUPEN_bm.val) <<< 1))
  let reg := u8 (reg.val ||| ((port.PIN5CTRL.val &&& PORT_PULLUPEN_bm.val) <<< 2))
  let reg := u8 (reg.val ||| ((port.PIN6CTRL.val &&& PORT_PULLUPEN_bm.val) <<< 3))
  let reg := u8 (reg.val ||| ((port.PIN7CTRL.val &&& PORT_PULLUPEN_bm.val) <<< 4))
  reg

/-- The body of `setPortPullupBits(PORT_t port, uint8_t reg)`, as the final
value of its parameter `port`.  The parameter is a `PORT_t` passed by value:
the function works on its own copy of the structure and returns nothing, so the
result computed here is lost when the function returns. -/
def setPortPullupBits (port : PORT_t) (reg : U8) : PORT_t :=
  let port := { port with PIN0CTRL := u8 (port.PIN0CTRL.val ||| ((reg.val <<< 3) &&& PORT_PULLUPEN_bm.val)) }
  let port := { port with PIN1CTRL := u8 (port.PIN1CTRL.val ||| ((reg.val <<< 2) &&& PORT_PULLUPEN_bm.val)) }
  let port := { port with PIN2CTRL := u8 (port.PIN2CTRL.val ||| ((reg.val <<< 1) &&& PORT_PULLUPEN_bm.val)) }
  let port := { port with PIN3CTRL := u8 (port.PIN3CTRL.val ||| (reg.val &&& PORT_PULLUPEN_bm.val)) }
  let port := { port with PIN4CTRL := u8 (port.PIN4CTRL.val ||| ((reg.val >>> 1) &&& PORT_PULLUPEN_bm.val)) }
  let port := { port with PIN5CTRL := u8 (port.PIN5CTRL.val ||| ((reg.val >>> 2) &&& PORT_PULLUPEN_bm.val)) }
  let port := { port with PIN6CTRL := u8 (port.PIN6CTRL.val ||| ((reg.val >>> 3) &&& PORT_PULLUPEN_bm.val)) }
  { port with PIN7CTRL := u8 (port.PIN7CTRL.val ||| ((reg.val >>> 4) &&& PORT_PULLUPEN_bm.val)) }

/-- Set the data bus to input with pull-up.  The call
`setPortPullupBits(PORTD, 0b11111111)` hands a copy of the port structure to the
callee; the copy it modifies is dropped, and the registers of port D stay as
the first statement left them. -/
def readyGpibDbus (s : MegaAVR0) : MegaAVR0 :=
  let s := { s with PORTD := { s.PORTD with DIR := u8 (s.PORTD.DIR.val &&& 0b00000000) } }
  let _port := setPortPullupBits s.PORTD 0b11111111
  s

end POE_ETHERNET_GPIB_ADAPTOR

/-! ## Control lines: direction on the Raspberry Pi Pico layouts -/

/-- One call of a Pico SDK pin primitive, as `setGpibCtrlDir` and the two
pull-up loops issue them. -/
inductive PicoCall where
  | pull_up (i : Nat)
  | disable_pulls (i : Nat)
  | set_dir_out_masked (mask : U32)
  | set_dir_in_masked (mask : U32)
  deriving DecidableEq, Repr

/-- The effect of one SDK call on the GPIO bank. -/
def PicoCall.run : PicoCall → RP2040 → RP2040
  | .pull_up i => gpio_pull_up i
  | .disable_pulls i => gpio_disable_pulls i
  | .set_dir_out_masked m => gpio_set_dir_out_masked m
  | .set_dir_in_masked m => gpio_set_dir_in_masked m

/-- The SDK calls of `gpio_set_pullups_masked(mask)`, in order. -/
def gpio_set_pullups_masked_calls (mask : U32) : List PicoCall :=
  (List.range 32).foldl
    (fun t i => if mask.val &&& (u32 (1 <<< i)).val ≠ 0 then t ++ [PicoCall.pull_up i] else t) []

/-- The SDK calls of `gpio_clear_pullups_masked(mask)`, in order. -/
def gpio_clear_pullups_masked_calls (mask : U32) : List PicoCall :=
  (List.range 32).foldl
    (fun t i => if mask.val &&& (u32 (1 <<< i)).val ≠ 0 then t ++ [PicoCall.disable_pulls i] else t) []

/-- The place of an SDK call in the order `setGpibCtrlDir` issues its calls:
pull disables of the output group, the direction call of the output group, pull-up
enables of the input group, the direction call of the input group. -/
def PicoCall.phase : PicoCall → Nat
  | .disable_pulls _ => 0
  | .set_dir_out_masked _ => 1
  | .pull_up _ => 2
  | .set_dir_in_masked _ => 3

/-- The calls `setGpibCtrlDir` makes for the lines it switches to output,
given their GPIO mask: nothing for an empty mask, otherwise the pull disables
and then the direction call. -/
def pico_out_group (o : U32) : List PicoCall :=
  if o ≠ 0 then gpio_clear_pullups_masked_calls o ++ [PicoCall.set_dir_out_masked o] else []

/-- The calls `setGpibCtrlDir` makes for the lines it switches to input, given
their GPIO mask: nothing for an empty mask, otherwise the pull-up enables and
then the direction call. -/
def pico_in_group (i : U32) : List PicoCall :=
  if i ≠ 0 then gpio_set_pullups_masked_calls i ++ [PicoCall.set_dir_in_masked i] else []

namespace RAS_PICO_L1

/-- Set the direction of the control lines selected by `mask`. -/
def setGpibCtrlDir (bits mask : U8) (s : RP2040) : RP2040 :=
  let gpioOmask := u32 ((bits.val &&& mask.val) <<< gpioCtrlOffset)
  let gpioImask := u32 (((u8 (bnot bits.val)).val &&& mask.val) <<< gpioCtrlOffset)
  let s :=
    if gpioOmask ≠ 0 then
      let s := gpio_clear_pullups_masked gpioOmask s
      gpio_set_dir_out_masked gpioOmask s
    else s
  if gpioImask ≠ 0 then
    let s := gpio_set_pullups_masked gpioImask s
    gpio_set_dir_in_masked gpioImask s
  else s

/-- The SDK calls `setGpibCtrlDir` makes, in order. -/
def setGpibCtrlDirCalls (bits mask : U8) : List PicoCall :=
  let gpioOmask := u32 ((bits.val &&& mask.val) <<< gpioCtrlOffset)
  let gpioImask := u32 (((u8 (bnot bits.val)).val &&& mask.val) <<< gpioCtrlOffset)
  let t : List PicoCall :=
    if gpioOmask ≠ 0 then
      gpio_clear_pullups_masked_calls gpioOmask ++ [PicoCall.set_dir_out_masked gpioOmask]
    else []
  if gpioImask ≠ 0 then
    t ++ gpio_set_pullups_masked_calls gpioImask ++ [PicoCall.set_dir_in_masked gpioImask]
  else t

end RAS_PICO_L1

namespace RAS_PICO_L2

/-- Set the direction of the control lines selected by `mask`. -/
def setGpibCtrlDir (bits mask : U8) (s : RP2040) : RP2040 :=
  let gpioOmask := u32 ((bits.val &&& mask.val) <<< gpioCtrlOffset)
  let gpioImask := u32 (((u8 (bnot bits.val)).val &&& mask.val) <<< gpioCtrlOffset)
  let s :=
    if gpioOmask ≠ 0 then
      let s := gpio_clear_pullups_masked gpioOmask s
      gpio_set_dir_out_masked gpioOmask s
    else s
  if gpioImask ≠ 0 then
    let s := gpio_set_pullups_masked gpioImask s
    gpio_set_dir_in_masked gpioImask s
  else s

/-- The SDK calls `setGpibCtrlDir` makes, in order. -/
def setGpibCtrlDirCalls (bits mask : U8) : List PicoCall :=
  let gpioOmask := u32 ((bits.val &&& mask.val) <<< gpioCtrlOffset)
  let gpioImask := u32 (((u8 (bnot bits.val)).val &&& mask.val) <<< gpioCtrlOffset)
  let t : List PicoCall :=
    if gpioOmask ≠ 0 then
      gpio_clear_pullups_masked_calls gpioOmask ++ [PicoCall.set_dir_out_masked gpioOmask]
    else []
  if gpioImask ≠ 0 then
    t ++ gpio_set_pullups_masked_calls gpioImask ++ [PicoCall.set_dir_in_masked gpioImask]
  else t

end RAS_PICO_L2

/-! ## MCP23S17 expander: the pin-change interrupt handler -/

namespace AR488_MCP23S17

/-- The interrupt handler: store the byte read from the capture register of
port A in `mcpIntAReg`. -/
def mcpIntHandler (s : Expander) : Expander :=
  let r := mcpByteRead McpReg.MCPINTCAPA s
  { r.2 with mcpIntAReg := r.1 }

/-- Return the byte the interrupt handler stored. -/
def getMcpIntAReg (s : Expander) : U8 := s.mcpIntAReg

end AR488_MCP23S17

/-! ## PoE Ethernet GPIB adaptor: control-line direction -/

namespace POE_ETHERNET_GPIB_ADAPTOR

/-- Set the direction of the control lines selected by `mask`.  The pull-up
byte computed in `reg` goes to `setPortPullupBits`, which works on its own copy
of the port structure: the registers change in `PORTC.DIR` only. -/
def setGpibCtrlDir (bits mask : U8) (s : MegaAVR0) : MegaAVR0 :=
  let portCb := bitsToPort bits
  let portCm := bitsToPort mask
  let s := { s with PORTC :=
      { s.PORTC with DIR := u8 ((s.PORTC.DIR.val &&& bnot portCm.val) ||| (portCb.val &&& portCm.val)) } }
  let reg := u8 ((readPortPullupReg s.PORTC).val &&& bnot portCm.val)
  let toset := u8 (bnot portCb.val &&& portCm.val)
  let reg := u8 (reg.val ||| toset.val)
  let _port := setPortPullupBits s.PORTC reg
  s

end POE_ETHERNET_GPIB_ADAPTOR

/-! ## Custom pin layout: control-line direction (Arduino `pinMode`) -/

/-- Arduino pin modes (`Arduino.h`, not part of the sources at hand). -/
inductive PinMode where
  | INPUT
  | OUTPUT
  | INPUT_PULLUP
  deriving DecidableEq, Repr

/-- The mode of every Arduino pin, by pin number. -/
structure ArduinoModes where
  mode : U8 → PinMode

/-- Modelled from the spec: Arduino core `pinMode`, which is not part of this
repository; it makes one pin an input, an output, or an input with pull-up. -/
def pinMode (pin : U8) (m : PinMode) (s : ArduinoModes) : ArduinoModes :=
  { s with mode := Function.update s.mode pin m }

namespace AR488_CUSTOM

/-- Set the direction of the control lines selected by `mask`: the loop over
`i = 0 .. 7` setting the mode of `ctrlbus[i]`. -/
def setGpibCtrlDir (ctrlbus : Fin 8 → U8) (bits mask : U8) (s : ArduinoModes) : ArduinoModes :=
  ([0, 1, 2, 3, 4, 5, 6, 7] : List (Fin 8)).foldl
    (fun s i =>
      if mask.val &&& (1 <<< i.val) ≠ 0 then
        pinMode (ctrlbus i)
          (if bits.val &&& (1 <<< i.val) ≠ 0 then PinMode.OUTPUT else PinMode.INPUT_PULLUP) s
      else s) s

end AR488_CUSTOM

/-! ## Counting the set bits of a byte -/

/-- The number of set bits of a byte: the sum of its eight bits, each taken as
0 or 1. -/
def U8.popcount (x : U8) : Nat :=
  (x.val &&& 1) + ((x.val >>> 1) &&& 1) + ((x.val >>> 2) &&& 1) + ((x.val >>> 3) &&& 1)
    + ((x.val >>> 4) &&& 1) + ((x.val >>> 5) &&& 1) + ((x.val >>> 6) &&& 1) + ((x.val >>> 7) &&& 1)

/-! ## Data bus to input with pull-up on the Raspberry Pi Pico layouts -/

namespace RAS_PICO_L1

/-- Set the data bus to input with pull-up: the direction call on the data
pins, then the pull-up loop over them. -/
def readyGpibDbus (s : RP2040) : RP2040 :=
  let s := gpio_set_dir_in_masked gpioDbMask s
  gpio_set_pullups_masked gpioDbMask s

/-- The SDK calls `readyGpibDbus` makes, in order. -/
def readyGpibDbusCalls : List PicoCall :=
  [PicoCall.set_dir_in_masked gpioDbMask] ++ gpio_set_pullups_masked_calls gpioDbMask

end RAS_PICO_L1

namespace RAS_PICO_L2

/-- Set the data bus to input with pull-up: the direction call on the data
pins, then the pull-up loop over them. -/
def readyGpibDbus (s : RP2040) : RP2040 :=
  let s := gpio_set_dir_in_masked gpioDbMask s
  gpio_set_pullups_masked gpioDbMask s

/-- The SDK calls `readyGpibDbus` makes, in order. -/
def readyGpibDbusCalls : List PicoCall :=
  [PicoCall.set_dir_in_masked gpioDbMask] ++ gpio_set_pullups_masked_calls gpioDbMask

end RAS_PICO_L2

/-! # Theorems -/

/-! ## Bit-level lemmas -/

theorem u8_val (n : Nat) : (u8 n).val = n % 256 := rfl

theorem testBit_u8 (n i : Nat) : (u8 n).val.testBit i = (decide (i < 8) && n.testBit i) := by
  rw [u8_val]
  have h : (256 : Nat) = 2 ^ 8 := by norm_num
  rw [h, Nat.testBit_mod_two_pow]

theorem testBit_val_ge (x : U8) (i : Nat) (h : 8 ≤ i) : x.val.testBit i = false := by
  apply Nat.testBit_lt_two_pow
  calc x.val < 2 ^ 8 := x.isLt
    _ ≤ 2 ^ i := Nat.pow_le_pow_right (by decide) h

theorem testBit_bnot (x i : Nat) : (bnot x).testBit i = (decide (i < 8) && !x.testBit i) := by
  unfold bnot
  have h256 : (256 : Nat) = 2 ^ 8 := by norm_num
  have hlt : x % 256 < 2 ^ 8 := by omega
  have h := Nat.testBit_two_pow_sub_succ hlt i
  have e : 2 ^ 8 - (x % 256 + 1) = 255 - x % 256 := by omega
  rw [e] at h
  rw [h, h256, Nat.testBit_mod_two_pow]
  by_cases hi : i < 8 <;> simp [hi]

/-- Addition of two numbers without a common set bit is bitwise or. -/
theorem add_eq_or_of_and_eq_zero (a b : Nat) (h : a &&& b = 0) : a + b = a ||| b := by
  obtain ⟨w, hw⟩ : ∃ w, a < 2 ^ w ∧ b < 2 ^ w := by
    refine ⟨a + b, ?_, ?_⟩
    · exact lt_of_le_of_lt (Nat.le_add_right a b) (Nat.lt_two_pow (a + b))
    · exact lt_of_le_of_lt (Nat.le_add_left b a) (Nat.lt_two_pow (a + b))
  have hx : (BitVec.ofNat (w+1) a).toNat = a := by
    simp [BitVec.toNat_ofNat]; apply Nat.mod_eq_of_lt; rw [pow_succ]; omega
  have hy : (BitVec.ofNat (w+1) b).toNat = b := by
    simp [BitVec.toNat_ofNat]; apply Nat.mod_eq_of_lt; rw [pow_succ]; omega
  have hz : BitVec.ofNat (w+1) a &&& BitVec.ofNat (w+1) b = 0#(w+1) := by
    apply BitVec.eq_of_toNat_eq
    rw [BitVec.toNat_and, hx, hy, h]; simp
  have key := BitVec.add_eq_or_of_and_eq_zero _ _ hz
  have k2 := congrArg BitVec.toNat key
  rw [BitVec.toNat_add, BitVec.toNat_or, hx, hy] at k2
  rw [← k2]; symm; apply Nat.mod_eq_of_lt; rw [pow_succ]; omega

/-- Two terms confined to disjoint masks add without carry. -/
theorem and_add_and (a b m n : Nat) (h : m &&& n = 0) :
    (a &&& m) + (b &&& n) = (a &&& m) ||| (b &&& n) := by
  apply add_eq_or_of_and_eq_zero
  apply Nat.eq_of_testBit_eq
  intro i
  have hi := congrArg (fun x => Nat.testBit x i) h
  simp only [Nat.testBit_and, Nat.zero_testBit] at hi ⊢
  cases hm : m.testBit i <;> cases hn : n.testBit i <;> simp_all

/-- Two numbers below disjoint masks add without carry. -/
theorem add_eq_or_of_masks (x y m n : Nat) (hx : x &&& m = x) (hy : y &&& n = y)
    (h : m &&& n = 0) : x + y = x ||| y := by
  have e := and_add_and x y m n h
  rwa [hx, hy] at e

/-- The union of two numbers below masks is below the union of the masks. -/
theorem or_and_masks (x y m n : Nat) (hx : x &&& m = x) (hy : y &&& n = y) :
    (x ||| y) &&& (m ||| n) = x ||| y := by
  apply Nat.eq_of_testBit_eq
  intro i
  have h1 := congrArg (fun z => Nat.testBit z i) hx
  have h2 := congrArg (fun z => Nat.testBit z i) hy
  simp only [Nat.testBit_and, Nat.testBit_or] at h1 h2 ⊢
  cases hxi : x.testBit i <;> cases hyi : y.testBit i <;>
    cases hm : m.testBit i <;> cases hn : n.testBit i <;> simp_all

/-- Bytes are determined by their eight bits. -/
theorem U8.ext_bits (a b : U8) (h : ∀ k : Fin 8, a.bit k = b.bit k) : a = b := by
  apply Fin.ext
  apply Nat.eq_of_testBit_eq
  intro i
  by_cases hi : i < 8
  · exact h ⟨i, hi⟩
  · rw [testBit_val_ge a i (by omega), testBit_val_ge b i (by omega)]

/-- A reader that inverts the `PIN` bits of `pins` returns the byte whose
inverted bits were driven on `pins`. -/
theorem roundtrip_of_bits (pins : Fin 8 → Pin) (v r : U8) (drv t : AVR)
    (hr : ∀ k : Fin 8, r.bit k = !t.pinBit (pins k))
    (hs : ∀ k : Fin 8, drv.portBit (pins k) = !v.bit k)
    (h : AVR.readsBack pins drv t) : r = v := by
  apply U8.ext_bits
  intro k
  rw [hr k, h k, hs k, Bool.not_not]

/-- A register file whose `PIN` registers mirror its `PORT` registers reads
back every pin. -/
theorem readsBack_latch (pins : Fin 8 → Pin) (s : AVR) : AVR.readsBack pins s s.latch := by
  intro k
  rcases pins k with ⟨p, i⟩
  cases p <;> rfl

/-! ## Data bus of the profiles with contiguous data pins -/

section
open AR488_UNO

theorem uno_readGpibDbus_bit (t : AVR) (k : Fin 8) :
    (readGpibDbus t).bit k = !t.pinBit (dataPin k) := by
  unfold readGpibDbus
  rw [and_add_and _ _ _ _ (by decide)]
  fin_cases k <;> rw [Bool.eq_iff_iff] <;>
    simp +decide [-Nat.testBit_zero, U8.bit, AVR.pinBit, AVR.PIN, dataPin, testBit_u8,
      testBit_bnot]

theorem uno_setGpibDbus_portBit (v : U8) (s : AVR) (k : Fin 8) :
    (setGpibDbus v s).portBit (dataPin k) = !v.bit k := by
  fin_cases k <;> rw [Bool.eq_iff_iff] <;>
    simp +decide [-Nat.testBit_zero, setGpibDbus, U8.bit, AVR.portBit, AVR.PORT, dataPin,
      testBit_u8, testBit_bnot]

theorem uno_setGpibDbus_ddrBit (v : U8) (s : AVR) (k : Fin 8) :
    (setGpibDbus v s).ddrBit (dataPin k) = true := by
  fin_cases k <;>
    simp +decide [-Nat.testBit_zero, setGpibDbus, U8.bit, AVR.ddrBit, AVR.DDR, dataPin,
      testBit_u8]

end

section
open AR488_328PB_ALT

theorem alt328pb_readGpibDbus_bit (t : AVR) (k : Fin 8) :
    (readGpibDbus t).bit k = !t.pinBit (dataPin k) := by
  unfold readGpibDbus
  rw [and_add_and _ _ _ _ (by decide)]
  fin_cases k <;> rw [Bool.eq_iff_iff] <;>
    simp +decide [-Nat.testBit_zero, U8.bit, AVR.pinBit, AVR.PIN, dataPin, testBit_u8,
      testBit_bnot]

theorem alt328pb_setGpibDbus_portBit (v : U8) (s : AVR) (k : Fin 8) :
    (setGpibDbus v s).portBit (dataPin k) = !v.bit k := by
  fin_cases k <;> rw [Bool.eq_iff_iff] <;>
    simp +decide [-Nat.testBit_zero, setGpibDbus, U8.bit, AVR.portBit, AVR.PORT, dataPin,
      testBit_u8, testBit_bnot]

end

section
open AR488_MEGA644P_MCGRAW

theorem mcgraw_readGpibDbus_bit (t : AVR) (k : Fin 8) :
    (readGpibDbus t).bit k = !t.pinBit (dataPin k) := by
  unfold readGpibDbus
  rw [and_add_and _ _ _ _ (by decide)]
  fin_cases k <;> rw [Bool.eq_iff_iff] <;>
    simp +decide [-Nat.testBit_zero, U8.bit, AVR.pinBit, AVR.PIN, dataPin, testBit_u8,
      testBit_bnot]

theorem mcgraw_setGpibDbus_portBit (v : U8) (s : AVR) (k : Fin 8) :
    (setGpibDbus v s).portBit (dataPin k) = !v.bit k := by
  fin_cases k <;> rw [Bool.eq_iff_iff] <;>
    simp +decide [-Nat.testBit_zero, setGpibDbus, U8.bit, AVR.portBit, AVR.PORT, dataPin,
      testBit_u8, testBit_bnot]

theorem mcgraw_setGpibDbus_ddrBit (v : U8) (s : AVR) (k : Fin 8) :
    (setGpibDbus v s).ddrBit (dataPin k) = true := by
  fin_cases k <;>
    simp +decide [-Nat.testBit_zero, setGpibDbus, U8.bit, AVR.ddrBit, AVR.DDR, dataPin,
      testBit_u8]

end

/-- C1: on the UNO/NANO, 328PB_ALT and MEGA644P_MCGRAW profiles, for every byte
`v` and every prior register content `s`, `setGpibDbus v` followed by
`readGpibDbus` returns `v`, in any register state `t` whose `PIN` bits on the
eight data pins read back the `PORT` bits just written. -/
theorem C1_dbus_roundtrip (v : U8) (s t : AVR) :
    (AVR.readsBack AR488_UNO.dataPin (AR488_UNO.setGpibDbus v s) t →
      AR488_UNO.readGpibDbus t = v) ∧
    (AVR.readsBack AR488_328PB_ALT.dataPin (AR488_328PB_ALT.setGpibDbus v s) t →
      AR488_328PB_ALT.readGpibDbus t = v) ∧
    (AVR.readsBack AR488_MEGA644P_MCGRAW.dataPin (AR488_MEGA644P_MCGRAW.setGpibDbus v s) t →
      AR488_MEGA644P_MCGRAW.readGpibDbus t = v) :=
  ⟨roundtrip_of_bits _ v _ _ t (uno_readGpibDbus_bit t)
      (uno_setGpibDbus_portBit v s),
   roundtrip_of_bits _ v _ _ t (alt328pb_readGpibDbus_bit t)
      (alt328pb_setGpibDbus_portBit v s),
   roundtrip_of_bits _ v _ _ t (mcgraw_readGpibDbus_bit t)
      (mcgraw_setGpibDbus_portBit v s)⟩

/-- Witness for C1: the bytes 0x55, 0xAA and 0x81 driven over a register file
filled with 0xA7 and read back through the latched pins. -/
theorem C1_dbus_roundtrip_witness :
    (AVR.readsBack AR488_UNO.dataPin (AR488_UNO.setGpibDbus 0x55 (AVR.const 0xA7))
        (AR488_UNO.setGpibDbus 0x55 (AVR.const 0xA7)).latch ∧
      AR488_UNO.readGpibDbus (AR488_UNO.setGpibDbus 0x55 (AVR.const 0xA7)).latch = 0x55) ∧
    (AVR.readsBack AR488_328PB_ALT.dataPin (AR488_328PB_ALT.setGpibDbus 0xAA (AVR.const 0xA7))
        (AR488_328PB_ALT.setGpibDbus 0xAA (AVR.const 0xA7)).latch ∧
      AR488_328PB_ALT.readGpibDbus
        (AR488_328PB_ALT.setGpibDbus 0xAA (AVR.const 0xA7)).latch = 0xAA) ∧
    (AVR.readsBack AR488_MEGA644P_MCGRAW.dataPin
        (AR488_MEGA644P_MCGRAW.setGpibDbus 0x81 (AVR.const 0xA7))
        (AR488_MEGA644P_MCGRAW.setGpibDbus 0x81 (AVR.const 0xA7)).latch ∧
      AR488_MEGA644P_MCGRAW.readGpibDbus
        (AR488_MEGA644P_MCGRAW.setGpibDbus 0x81 (AVR.const 0xA7)).latch = 0x81) :=
  ⟨⟨by decide, (C1_dbus_roundtrip 0x55 (AVR.const 0xA7) _).1 (by decide)⟩,
   ⟨by decide, (C1_dbus_roundtrip 0xAA (AVR.const 0xA7) _).2.1 (by decide)⟩,
   ⟨by decide, (C1_dbus_roundtrip 0x81 (AVR.const 0xA7) _).2.2 (by decide)⟩⟩

/-! ## Data bus of the MEGA2560 E1 and E2 profiles -/

section
open AR488_MEGA2560_E1

theorem e1_valToDb_bit : ∀ (x : U8) (k : Fin 8), (valToDb x).bit k = x.bit (dataPin k).2 := by
  decide!

theorem e1_dbToVal_bit : ∀ (x : U8) (k : Fin 8), (dbToVal x).bit (dataPin k).2 = x.bit k := by
  decide!

theorem e1_valToDb_dbToVal : ∀ x : U8, valToDb (dbToVal x) = x := by
  decide!

theorem e1_dbToVal_valToDb : ∀ x : U8, dbToVal (valToDb x) = x := by
  decide!

theorem e1_readGpibDbus_bit (t : AVR) (k : Fin 8) :
    (readGpibDbus t).bit k = !t.pinBit (dataPin k) := by
  unfold readGpibDbus
  rw [e1_valToDb_bit, and_add_and _ _ _ _ (by decide)]
  fin_cases k <;> rw [Bool.eq_iff_iff] <;>
    simp +decide [-Nat.testBit_zero, U8.bit, AVR.pinBit, AVR.PIN, dataPin, testBit_u8,
      testBit_bnot]

theorem e1_setGpibDbus_portBit (v : U8) (s : AVR) (k : Fin 8) :
    (setGpibDbus v s).portBit (dataPin k) = !v.bit k := by
  have h := e1_dbToVal_bit (u8 (bnot v.val)) k
  revert h
  fin_cases k <;> intro h <;> rw [Bool.eq_iff_iff] at h ⊢ <;>
    simp +decide [-Nat.testBit_zero, setGpibDbus, U8.bit, AVR.portBit, AVR.PORT, dataPin,
      testBit_u8, testBit_bnot] at h ⊢ <;>
    simp [h]

end

section
open AR488_MEGA2560_E2

theorem e2_valToDb_bit : ∀ (x : U8) (k : Fin 8), (valToDb x).bit k = x.bit (dataPin k).2 := by
  decide!

theorem e2_dbToVal_bit : ∀ (x : U8) (k : Fin 8), (dbToVal x).bit (dataPin k).2 = x.bit k := by
  decide!

theorem e2_valToDb_dbToVal : ∀ x : U8, valToDb (dbToVal x) = x := by
  decide!

theorem e2_dbToVal_valToDb : ∀ x : U8, dbToVal (valToDb x) = x := by
  decide!

theorem e2_readGpibDbus_bit (t : AVR) (k : Fin 8) :
    (readGpibDbus t).bit k = !t.pinBit (dataPin k) := by
  unfold readGpibDbus
  rw [e2_valToDb_bit, and_add_and _ _ _ _ (by decide)]
  fin_cases k <;> rw [Bool.eq_iff_iff] <;>
    simp +decide [-Nat.testBit_zero, U8.bit, AVR.pinBit, AVR.PIN, dataPin, testBit_u8,
      testBit_bnot]

theorem e2_setGpibDbus_portBit (v : U8) (s : AVR) (k : Fin 8) :
    (setGpibDbus v s).portBit (dataPin k) = !v.bit k := by
  have h := e2_dbToVal_bit (u8 (bnot v.val)) k
  revert h
  fin_cases k <;> intro h <;> rw [Bool.eq_iff_iff] at h ⊢ <;>
    simp +decide [-Nat.testBit_zero, setGpibDbus, U8.bit, AVR.portBit, AVR.PORT, dataPin,
      testBit_u8, testBit_bnot] at h ⊢ <;>
    simp [h]

end

/-- C2: on the MEGA2560_E1 and MEGA2560_E2 profiles, for every byte `v` and
every prior register content `s`, `setGpibDbus v` followed by `readGpibDbus`
returns `v`, in any register state `t` whose `PINA`/`PINC` bits on the eight
data pins read back the `PORTA`/`PORTC` bits just written; and the eight
single-bit moves of `readGpibDbus` (`valToDb`) and the eight single-bit moves
of `setGpibDbus` (`dbToVal`) are permutations of the byte inverse to each
other. -/
theorem C2_dbus_roundtrip_scattered (v : U8) (s t : AVR) :
    ((AVR.readsBack AR488_MEGA2560_E1.dataPin (AR488_MEGA2560_E1.setGpibDbus v s) t →
        AR488_MEGA2560_E1.readGpibDbus t = v) ∧
      AR488_MEGA2560_E1.valToDb (AR488_MEGA2560_E1.dbToVal v) = v ∧
      AR488_MEGA2560_E1.dbToVal (AR488_MEGA2560_E1.valToDb v) = v) ∧
    ((AVR.readsBack AR488_MEGA2560_E2.dataPin (AR488_MEGA2560_E2.setGpibDbus v s) t →
        AR488_MEGA2560_E2.readGpibDbus t = v) ∧
      AR488_MEGA2560_E2.valToDb (AR488_MEGA2560_E2.dbToVal v) = v ∧
      AR488_MEGA2560_E2.dbToVal (AR488_MEGA2560_E2.valToDb v) = v) :=
  ⟨⟨roundtrip_of_bits _ v _ _ t (e1_readGpibDbus_bit t) (e1_setGpibDbus_portBit v s),
    e1_valToDb_dbToVal v, e1_dbToVal_valToDb v⟩,
   ⟨roundtrip_of_bits _ v _ _ t (e2_readGpibDbus_bit t) (e2_setGpibDbus_portBit v s),
    e2_valToDb_dbToVal v, e2_dbToVal_valToDb v⟩⟩

/-- Witness for C2: the bytes 0x18 and 0x81 driven over a register file filled
with 0x3C and read back through the latched pins. -/
theorem C2_dbus_roundtrip_scattered_witness :
    (AVR.readsBack AR488_MEGA2560_E1.dataPin
        (AR488_MEGA2560_E1.setGpibDbus 0x18 (AVR.const 0x3C))
        (AR488_MEGA2560_E1.setGpibDbus 0x18 (AVR.const 0x3C)).latch ∧
      AR488_MEGA2560_E1.readGpibDbus
        (AR488_MEGA2560_E1.setGpibDbus 0x18 (AVR.const 0x3C)).latch = 0x18) ∧
    (AVR.readsBack AR488_MEGA2560_E2.dataPin
        (AR488_MEGA2560_E2.setGpibDbus 0x81 (AVR.const 0x3C))
        (AR488_MEGA2560_E2.setGpibDbus 0x81 (AVR.const 0x3C)).latch ∧
      AR488_MEGA2560_E2.readGpibDbus
        (AR488_MEGA2560_E2.setGpibDbus 0x81 (AVR.const 0x3C)).latch = 0x81) :=
  ⟨⟨by decide, (C2_dbus_roundtrip_scattered 0x18 (AVR.const 0x3C) _).1.1 (by decide)⟩,
   ⟨by decide, (C2_dbus_roundtrip_scattered 0x81 (AVR.const 0x3C) _).2.1 (by decide)⟩⟩

/-! ## Data bus of the Leonardo R3 profile -/

section
open AR488_MEGA32U4_LR3

/-- Bit reversal sends bit `7 - i` to bit `i`. -/
theorem reverseBits_bit : ∀ (x : U8) (i : Fin 8), (reverseBits x).bit i = x.bit (7 - i.val) := by
  decide!

theorem lr3_portfIn_bit : ∀ (f : U8) (k : Fin 8),
    (portfIn f).bit k = (decide ((dataPin k).1 = PortId.F) && f.bit (dataPin k).2) := by
  decide!

theorem lr3_portfIn_le : ∀ f : U8, (portfIn f).val &&& 0x3F = (portfIn f).val := by
  decide!

theorem lr3_pind_le : ∀ d : U8, ((d.val &&& 0b00010000) <<< 2) &&& 0x40 = (d.val &&& 0b00010000) <<< 2 := by
  decide!

theorem lr3_pinc_le : ∀ c : U8, ((c.val &&& 0b01000000) <<< 1) &&& 0x80 = (c.val &&& 0b01000000) <<< 1 := by
  decide!

theorem lr3_portfOut_bit : ∀ (x : U8) (k : Fin 8),
    (dataPin k).1 = PortId.F → (portfOut x).bit (dataPin k).2 = x.bit k := by
  decide!

theorem lr3_readGpibDbus_bit (t : AVR) (k : Fin 8) :
    (readGpibDbus t).bit k = !t.pinBit (dataPin k) := by
  unfold readGpibDbus
  dsimp only
  have hd := lr3_pind_le t.PIND
  have hc := lr3_pinc_le t.PINC
  have hf := lr3_portfIn_le t.PINF
  rw [add_eq_or_of_masks _ _ _ _ hd hc (by decide),
    add_eq_or_of_masks _ _ _ _ (or_and_masks _ _ _ _ hd hc) hf (by decide)]
  have h := lr3_portfIn_bit t.PINF k
  revert h
  fin_cases k <;> intro h <;> rw [Bool.eq_iff_iff] at h ⊢ <;>
    simp +decide [-Nat.testBit_zero, U8.bit, AVR.pinBit, AVR.PIN, dataPin, testBit_u8,
      testBit_bnot] at h ⊢ <;>
    simp [h]

theorem lr3_setGpibDbus_portBit (v : U8) (s : AVR) (k : Fin 8) :
    (setGpibDbus v s).portBit (dataPin k) = !v.bit k := by
  have h := lr3_portfOut_bit (u8 (bnot v.val)) k
  revert h
  fin_cases k <;> intro h <;> rw [Bool.eq_iff_iff] at h ⊢ <;>
    simp +decide [-Nat.testBit_zero, setGpibDbus, U8.bit, AVR.portBit, AVR.PORT, dataPin,
      testBit_u8, testBit_bnot] at h ⊢ <;>
    simp [h]

end

/-- C3: on the MEGA32U4_LR3 (Leonardo R3) profile, for every byte `v` and every
prior content `s` of the registers (`PORTC`, `PORTD`, `PORTF` among them),
`setGpibDbus v` followed by `readGpibDbus` returns `v`, in any register state
`t` whose `PINC` bit 6, `PIND` bit 4 and `PINF` bits 7-4 and 1-0 read back the
`PORT` bits just written. -/
theorem C3_dbus_roundtrip_lr3 (v : U8) (s t : AVR)
    (h : AVR.readsBack AR488_MEGA32U4_LR3.dataPin (AR488_MEGA32U4_LR3.setGpibDbus v s) t) :
    AR488_MEGA32U4_LR3.readGpibDbus t = v :=
  roundtrip_of_bits _ v _ _ t (lr3_readGpibDbus_bit t) (lr3_setGpibDbus_portBit v s) h

/-- Witness for C3: the byte 0xAA driven over a register file filled with 0x5A
and read back through the latched pins. -/
theorem C3_dbus_roundtrip_lr3_witness :
    AVR.readsBack AR488_MEGA32U4_LR3.dataPin
        (AR488_MEGA32U4_LR3.setGpibDbus 0xAA (AVR.const 0x5A))
        (AR488_MEGA32U4_LR3.setGpibDbus 0xAA (AVR.const 0x5A)).latch ∧
      AR488_MEGA32U4_LR3.readGpibDbus
        (AR488_MEGA32U4_LR3.setGpibDbus 0xAA (AVR.const 0x5A)).latch = 0xAA :=
  ⟨by decide, C3_dbus_roundtrip_lr3 0xAA (AVR.const 0x5A) _ (by decide)⟩

/-! ## Data bus of the RP2040 profiles -/

theorem u32_val (n : Nat) : (u32 n).val = n % 4294967296 := rfl

theorem testBit_u32 (n i : Nat) : (u32 n).val.testBit i = (decide (i < 32) && n.testBit i) := by
  rw [u32_val]
  have h : (4294967296 : Nat) = 2 ^ 32 := by norm_num
  rw [h, Nat.testBit_mod_two_pow]

theorem testBit_not32 (x i : Nat) : (not32 x).testBit i = (decide (i < 32) && !x.testBit i) := by
  unfold not32
  have hp : (4294967296 : Nat) = 2 ^ 32 := by norm_num
  have hlt : x % 4294967296 < 2 ^ 32 := by omega
  have h := Nat.testBit_two_pow_sub_succ hlt i
  have e : 2 ^ 32 - (x % 4294967296 + 1) = 4294967295 - x % 4294967296 := by omega
  rw [e] at h
  rw [h, hp, Nat.testBit_mod_two_pow]
  by_cases hi : i < 32 <;> simp [hi]

/-- After a masked 32-bit update the bits under the mask are those of the
written value. -/
theorem masked32_and (p x : Nat) (m : U32) :
    (u32 ((p &&& not32 m.val) ||| (x &&& m.val))).val &&& m.val = x &&& m.val := by
  apply Nat.eq_of_testBit_eq
  intro i
  by_cases hi : i < 32
  · simp only [Nat.testBit_and, Nat.testBit_or, testBit_u32, testBit_not32, hi, decide_True,
      Bool.true_and]
    cases p.testBit i <;> cases x.testBit i <;> cases m.val.testBit i <;> rfl
  · have hm : m.val.testBit i = false := by
      apply Nat.testBit_lt_two_pow
      calc m.val < 2 ^ 32 := m.isLt
        _ ≤ 2 ^ i := Nat.pow_le_pow_right (by decide) (by omega)
    simp [Nat.testBit_and, hm]

theorem gpio_clear_pullups_masked_out (m : U32) (s : RP2040) :
    (gpio_clear_pullups_masked m s).gpio_out = s.gpio_out := by
  unfold gpio_clear_pullups_masked
  generalize List.range 32 = l
  induction l generalizing s with
  | nil => rfl
  | cons i l ih =>
    rw [List.foldl_cons, ih]
    split <;> rfl

theorem pico_l1_byte : ∀ v : U8,
    u8 (not32 (u32 (((u32 ((u8 (bnot v.val)).val <<< RAS_PICO_L1.gpioDbOffset)).val &&&
      RAS_PICO_L1.gpioDbMask.val) >>> RAS_PICO_L1.gpioDbOffset)).val) = v := by
  decide!

theorem pico_l2_byte : ∀ v : U8,
    u8 (not32 (u32 (((u32 ((u8 (bnot v.val)).val <<< RAS_PICO_L2.gpioDbOffset)).val &&&
      RAS_PICO_L2.gpioDbMask.val) >>> RAS_PICO_L2.gpioDbOffset)).val) = v := by
  decide!

theorem pico_l1_roundtrip (v : U8) (s t : RP2040)
    (h : (gpio_get_all t).val &&& RAS_PICO_L1.gpioDbMask.val =
      (RAS_PICO_L1.setGpibDbus v s).gpio_out.val &&& RAS_PICO_L1.gpioDbMask.val) :
    RAS_PICO_L1.readGpibDbus t = v := by
  unfold RAS_PICO_L1.readGpibDbus
  dsimp only
  rw [h]
  simp only [RAS_PICO_L1.setGpibDbus, gpio_put_masked, gpio_set_dir_out_masked,
    gpio_clear_pullups_masked_out, masked32_and]
  exact pico_l1_byte v

theorem pico_l2_roundtrip (v : U8) (s t : RP2040)
    (h : (gpio_get_all t).val &&& RAS_PICO_L2.gpioDbMask.val =
      (RAS_PICO_L2.setGpibDbus v s).gpio_out.val &&& RAS_PICO_L2.gpioDbMask.val) :
    RAS_PICO_L2.readGpibDbus t = v := by
  unfold RAS_PICO_L2.readGpibDbus
  dsimp only
  rw [h]
  simp only [RAS_PICO_L2.setGpibDbus, gpio_put_masked, gpio_set_dir_out_masked,
    gpio_clear_pullups_masked_out, masked32_and]
  exact pico_l2_byte v

theorem nano_rp2040_value_masked : ∀ v : U8,
    (u32 (v.val <<< 6)).val &&& (0x023F8000 : U32).val = 0 := by
  decide!

/-- C4: on the RPI_NANO_RP2040 profile the round trip fails.  Driving 0x00 on a
bank whose GPIOs are all low and reading the latched levels back returns 0xFF;
and for every prior state the state left by `setGpibDbus v` is the same for
every byte `v`, with all eight data GPIOs of `gpioDbMask` low: the value
`db << 6` lies on GPIO 6..13, outside the mask. -/
theorem C4_nano_rp2040_roundtrip_fails :
    RPI_NANO_RP2040.readGpibDbus
        (RPI_NANO_RP2040.setGpibDbus 0x00 ⟨0, 0, 0, 0⟩).latch = 0xFF ∧
    (∀ (v w : U8) (s : RP2040),
        RPI_NANO_RP2040.setGpibDbus v s = RPI_NANO_RP2040.setGpibDbus w s) ∧
    (∀ (v : U8) (s : RP2040),
        (RPI_NANO_RP2040.setGpibDbus v s).gpio_out.val &&&
          RPI_NANO_RP2040.gpioDbMask.val = 0) := by
  refine ⟨by decide, ?_, ?_⟩
  · intro v w s
    simp only [RPI_NANO_RP2040.setGpibDbus, gpio_put_masked, nano_rp2040_value_masked]
  · intro v s
    have e : RPI_NANO_RP2040.gpioDbMask = (0x023F8000 : U32) := rfl
    simp only [RPI_NANO_RP2040.setGpibDbus, gpio_put_masked, gpio_set_dir_out_masked, e]
    rw [masked32_and]
    exact nano_rp2040_value_masked v

/-- C5: on the RAS_PICO_L1 and RAS_PICO_L2 profiles, for every byte `v` and
every prior GPIO state `s`, `setGpibDbus v` followed by `readGpibDbus` returns
`v`, in any state `t` in which `gpio_get_all` reads back the output word on the
pins of `gpioDbMask`. -/
theorem C5_dbus_roundtrip_pico (v : U8) (s t : RP2040) :
    ((gpio_get_all t).val &&& RAS_PICO_L1.gpioDbMask.val =
        (RAS_PICO_L1.setGpibDbus v s).gpio_out.val &&& RAS_PICO_L1.gpioDbMask.val →
      RAS_PICO_L1.readGpibDbus t = v) ∧
    ((gpio_get_all t).val &&& RAS_PICO_L2.gpioDbMask.val =
        (RAS_PICO_L2.setGpibDbus v s).gpio_out.val &&& RAS_PICO_L2.gpioDbMask.val →
      RAS_PICO_L2.readGpibDbus t = v) :=
  ⟨pico_l1_roundtrip v s t, pico_l2_roundtrip v s t⟩

/-- Witness for C5: the bytes 0x55 and 0x18 driven over an output word of
0xDEADBEEF and read back through the latched pins. -/
theorem C5_dbus_roundtrip_pico_witness :
    RAS_PICO_L1.readGpibDbus
        (RAS_PICO_L1.setGpibDbus 0x55 ⟨0, 0xDEADBEEF, 0, 0⟩).latch = 0x55 ∧
    RAS_PICO_L2.readGpibDbus
        (RAS_PICO_L2.setGpibDbus 0x18 ⟨0, 0xDEADBEEF, 0, 0⟩).latch = 0x18 :=
  ⟨(C5_dbus_roundtrip_pico 0x55 ⟨0, 0xDEADBEEF, 0, 0⟩ _).1 (by decide),
   (C5_dbus_roundtrip_pico 0x18 ⟨0, 0xDEADBEEF, 0, 0⟩ _).2 (by decide)⟩

/-! ## Data pin maps -/

section
open AR488_MEGA32U4_MICRO

theorem micro_readGpibDbus_bit (t : AVR) (k : Fin 8) :
    (readGpibDbus t).bit k = !t.pinBit (dataPin k) := by
  unfold readGpibDbus
  fin_cases k <;> rw [Bool.eq_iff_iff] <;>
    simp +decide [-Nat.testBit_zero, U8.bit, AVR.pinBit, AVR.PIN, dataPin, testBit_u8,
      testBit_bnot]

theorem micro_setGpibDbus_portBit (v : U8) (s : AVR) (k : Fin 8) :
    (setGpibDbus v s).portBit (dataPin k) = !v.bit k := by
  fin_cases k <;> rw [Bool.eq_iff_iff] <;>
    simp +decide [-Nat.testBit_zero, setGpibDbus, U8.bit, AVR.portBit, AVR.PORT, dataPin,
      testBit_u8, testBit_bnot]

theorem micro_setGpibDbus_ddrBit (v : U8) (s : AVR) (k : Fin 8) :
    (setGpibDbus v s).ddrBit (dataPin k) = true := by
  fin_cases k <;>
    simp +decide [-Nat.testBit_zero, setGpibDbus, U8.bit, AVR.ddrBit, AVR.DDR, dataPin,
      testBit_u8]

end

/-- A reader that inverts the `PIN` bits of `pins` returns 0x00 when all of
them are high. -/
theorem read_zero_of_high (pins : Fin 8 → Pin) (r : U8) (t : AVR)
    (hr : ∀ k : Fin 8, r.bit k = !t.pinBit (pins k))
    (h : ∀ k : Fin 8, t.pinBit (pins k) = true) : r = 0 := by
  apply U8.ext_bits
  intro k
  rw [hr k, h k]
  simp [U8.bit]

/-- C6: on the UNO/NANO, MEGA32U4_MICRO and MEGA644P_MCGRAW profiles the data
lines follow the documented data pin map with inverted polarity: for every
byte `v` and every line `k` (DIO`k+1`), after `setGpibDbus v` the `DDR` bit of
the pin listed for the line is 1 and its `PORT` bit is the complement of bit
`k` of `v`; bit `k` of the byte returned by `readGpibDbus` is the complement of
the `PIN` bit of that pin; so with all eight lines high `readGpibDbus` returns
0x00. -/
theorem C6_dbus_pin_map (v : U8) (s t : AVR) (k : Fin 8) :
    ((AR488_UNO.setGpibDbus v s).ddrBit (AR488_UNO.dataPin k) = true ∧
      (AR488_UNO.setGpibDbus v s).portBit (AR488_UNO.dataPin k) = !v.bit k ∧
      (AR488_UNO.readGpibDbus t).bit k = !t.pinBit (AR488_UNO.dataPin k) ∧
      ((∀ j : Fin 8, t.pinBit (AR488_UNO.dataPin j) = true) →
        AR488_UNO.readGpibDbus t = 0x00)) ∧
    ((AR488_MEGA32U4_MICRO.setGpibDbus v s).ddrBit (AR488_MEGA32U4_MICRO.dataPin k) = true ∧
      (AR488_MEGA32U4_MICRO.setGpibDbus v s).portBit (AR488_MEGA32U4_MICRO.dataPin k)
        = !v.bit k ∧
      (AR488_MEGA32U4_MICRO.readGpibDbus t).bit k
        = !t.pinBit (AR488_MEGA32U4_MICRO.dataPin k) ∧
      ((∀ j : Fin 8, t.pinBit (AR488_MEGA32U4_MICRO.dataPin j) = true) →
        AR488_MEGA32U4_MICRO.readGpibDbus t = 0x00)) ∧
    ((AR488_MEGA644P_MCGRAW.setGpibDbus v s).ddrBit (AR488_MEGA644P_MCGRAW.dataPin k) = true ∧
      (AR488_MEGA644P_MCGRAW.setGpibDbus v s).portBit (AR488_MEGA644P_MCGRAW.dataPin k)
        = !v.bit k ∧
      (AR488_MEGA644P_MCGRAW.readGpibDbus t).bit k
        = !t.pinBit (AR488_MEGA644P_MCGRAW.dataPin k) ∧
      ((∀ j : Fin 8, t.pinBit (AR488_MEGA644P_MCGRAW.dataPin j) = true) →
        AR488_MEGA644P_MCGRAW.readGpibDbus t = 0x00)) :=
  ⟨⟨uno_setGpibDbus_ddrBit v s k, uno_setGpibDbus_portBit v s k, uno_readGpibDbus_bit t k,
      read_zero_of_high _ _ t (uno_readGpibDbus_bit t)⟩,
   ⟨micro_setGpibDbus_ddrBit v s k, micro_setGpibDbus_portBit v s k,
      micro_readGpibDbus_bit t k, read_zero_of_high _ _ t (micro_readGpibDbus_bit t)⟩,
   ⟨mcgraw_setGpibDbus_ddrBit v s k, mcgraw_setGpibDbus_portBit v s k,
      mcgraw_readGpibDbus_bit t k, read_zero_of_high _ _ t (mcgraw_readGpibDbus_bit t)⟩⟩

/-- Witness for C6: with every register at 0xFF all eight data lines are high
and each of the three profiles reads 0x00. -/
theorem C6_dbus_pin_map_witness :
    AR488_UNO.readGpibDbus (AVR.const 0xFF) = 0x00 ∧
    AR488_MEGA32U4_MICRO.readGpibDbus (AVR.const 0xFF) = 0x00 ∧
    AR488_MEGA644P_MCGRAW.readGpibDbus (AVR.const 0xFF) = 0x00 :=
  ⟨(C6_dbus_pin_map 0 (AVR.const 0) (AVR.const 0xFF) 0).1.2.2.2 (by decide),
   (C6_dbus_pin_map 0 (AVR.const 0) (AVR.const 0xFF) 0).2.1.2.2.2 (by decide),
   (C6_dbus_pin_map 0 (AVR.const 0) (AVR.const 0xFF) 0).2.2.2.2.2 (by decide)⟩

/-! ## Control-line state -/

/-- Bit `i` of a masked register update: the new bit where the mask selects,
the old bit elsewhere. -/
theorem testBit_masked (p b m i : Nat) (hi : i < 8) :
    (u8 ((p &&& bnot m) ||| (b &&& m))).val.testBit i
      = if m.testBit i then b.testBit i else p.testBit i := by
  simp only [testBit_u8, Nat.testBit_or, Nat.testBit_and, testBit_bnot, hi, decide_True,
    Bool.true_and]
  cases p.testBit i <;> cases b.testBit i <;> cases m.testBit i <;> rfl

section
open AR488_UNO

/-- The port B fragment as the lines it carries, each moved to its pin. -/
theorem uno_portB_nf : ∀ x : U8,
    (portB x).val = (x.val &&& 0x01) ||| (x.val &&& 0x02) ||| (x.val &&& 0x04) ||| (x.val &&& 0x08) ||| (x.val &&& 0x10) := by
  decide!

theorem uno_portB_bit : ∀ (x : U8) (k : Fin 8),
    (ctrlPin k).1 = PortId.B → (portB x).bit (ctrlPin k).2 = x.bit k := by
  intro x k
  have e := uno_portB_nf x
  fin_cases k <;> intro h <;>
    first
    | exact absurd h (by decide)
    | (simp only [U8.bit, ctrlPin, e]
       rw [Bool.eq_iff_iff]
       simp +decide [-Nat.testBit_zero, -Nat.and_one_is_mod])

/-- The port D fragment as the lines it carries, each moved to its pin. -/
theorem uno_portD_nf : ∀ x : U8,
    (portD x).val = ((x.val &&& 0x20) >>> 2) ||| ((x.val &&& 0x40) >>> 4) ||| (x.val &&& 0x80) := by
  decide!

theorem uno_portD_bit : ∀ (x : U8) (k : Fin 8),
    (ctrlPin k).1 = PortId.D → (portD x).bit (ctrlPin k).2 = x.bit k := by
  intro x k
  have e := uno_portD_nf x
  fin_cases k <;> intro h <;>
    first
    | exact absurd h (by decide)
    | (simp only [U8.bit, ctrlPin, e]
       rw [Bool.eq_iff_iff]
       simp +decide [-Nat.testBit_zero, -Nat.and_one_is_mod])

theorem uno_portB_off : ∀ (x : U8) (i : Fin 8),
    (∀ k : Fin 8, ctrlPin k ≠ (PortId.B, i.val)) → (portB x).bit i = false := by
  intro x i h
  have e := uno_portB_nf x
  fin_cases i <;>
    first
    | exact absurd rfl (h 0) | exact absurd rfl (h 1) | exact absurd rfl (h 2)
    | exact absurd rfl (h 3) | exact absurd rfl (h 4) | exact absurd rfl (h 5)
    | exact absurd rfl (h 6) | exact absurd rfl (h 7)
    | (simp only [U8.bit, e]
       rw [Bool.eq_iff_iff]
       simp +decide [-Nat.testBit_zero, -Nat.and_one_is_mod])

theorem uno_portD_off : ∀ (x : U8) (i : Fin 8),
    (∀ k : Fin 8, ctrlPin k ≠ (PortId.D, i.val)) → (portD x).bit i = false := by
  intro x i h
  have e := uno_portD_nf x
  fin_cases i <;>
    first
    | exact absurd rfl (h 0) | exact absurd rfl (h 1) | exact absurd rfl (h 2)
    | exact absurd rfl (h 3) | exact absurd rfl (h 4) | exact absurd rfl (h 5)
    | exact absurd rfl (h 6) | exact absurd rfl (h 7)
    | (simp only [U8.bit, e]
       rw [Bool.eq_iff_iff]
       simp +decide [-Nat.testBit_zero, -Nat.and_one_is_mod])

theorem uno_ctrlState_line (bits mask : U8) (s : AVR) (k : Fin 8) :
    (setGpibCtrlState bits mask s).portBit (ctrlPin k)
      = if mask.bit k then bits.bit k else s.portBit (ctrlPin k) := by
  by_cases hm : mask = 0
  · subst hm
    simp [setGpibCtrlState, U8.bit]
  · have hBm := uno_portB_bit mask k
    have hBb := uno_portB_bit bits k
    have hDm := uno_portD_bit mask k
    have hDb := uno_portD_bit bits k
    simp only [setGpibCtrlState, if_neg hm, AVR.portBit, U8.bit] at hBm hBb hDm hDb ⊢
    revert hBm hBb hDm hDb
    fin_cases k <;> intro hBm hBb hDm hDb <;>
      simp only [ctrlPin, AVR.PORT, true_implies] at hBm hBb hDm hDb ⊢ <;>
      rw [testBit_masked _ _ _ _ (by decide)] <;>
      simp only [hBm, hBb, hDm, hDb]

theorem uno_ctrlState_frame (bits mask : U8) (s : AVR) (p : PortId) (i : Fin 8)
    (h : ∀ k : Fin 8, ctrlPin k ≠ (p, i.val)) :
    (setGpibCtrlState bits mask s).portBit (p, i.val) = s.portBit (p, i.val) := by
  by_cases hm : mask = 0
  · subst hm
    simp [setGpibCtrlState]
  · simp only [setGpibCtrlState, if_neg hm, AVR.portBit, U8.bit]
    cases p with
    | B =>
      have hoff := uno_portB_off mask i h
      simp only [U8.bit] at hoff
      simp only [AVR.PORT]
      rw [testBit_masked _ _ _ _ i.isLt, hoff]
      simp
    | D =>
      have hoff := uno_portD_off mask i h
      simp only [U8.bit] at hoff
      simp only [AVR.PORT]
      rw [testBit_masked _ _ _ _ i.isLt, hoff]
      simp
    | _ => rfl

end

/-- C7: on the UNO/NANO profile, with the control lines on PB0..PB4, PD3, PD2
and PD7, for every `bits`, `mask` and prior register content, after
`setGpibCtrlState bits mask` the `PORT` bit of control line `k` is bit `k` of
`bits` if bit `k` of `mask` is set and is unchanged otherwise, and every
`PORT` bit that is not a control line (the data bits PD4 and PD5 included) is
unchanged. -/
theorem C7_uno_ctrl_state (bits mask : U8) (s : AVR) :
    (∀ k : Fin 8, (AR488_UNO.setGpibCtrlState bits mask s).portBit (AR488_UNO.ctrlPin k)
        = if mask.bit k then bits.bit k else s.portBit (AR488_UNO.ctrlPin k)) ∧
    (∀ (p : PortId) (i : Fin 8), (∀ k : Fin 8, AR488_UNO.ctrlPin k ≠ (p, i.val)) →
        (AR488_UNO.setGpibCtrlState bits mask s).portBit (p, i.val) = s.portBit (p, i.val)) :=
  ⟨uno_ctrlState_line bits mask s, uno_ctrlState_frame bits mask s⟩

/-- Witness for C7: setting ATN and clearing IFC over registers filled with
0x5A leaves the data bit PD4 as it was. -/
theorem C7_uno_ctrl_state_witness :
    (AR488_UNO.setGpibCtrlState 0x80 0x81 (AVR.const 0x5A)).portBit (PortId.D, 4)
      = (AVR.const 0x5A).portBit (PortId.D, 4) :=
  (C7_uno_ctrl_state 0x80 0x81 (AVR.const 0x5A)).2 PortId.D 4 (by decide)

section
open AR488_MEGA2560_D

/-- The port H fragment as the lines it carries, each moved to its pin. -/
theorem mega_d_portH_nf : ∀ x : U8,
    (portH x).val = (x.val &&& 0x01) ||| (x.val &&& 0x02) ||| ((x.val &&& 0x04) <<< 1) ||| ((x.val &&& 0x08) <<< 1) ||| ((x.val &&& 0x10) <<< 1) ||| ((x.val &&& 0x20) <<< 1) := by
  decide!

theorem mega_d_portH_bit : ∀ (x : U8) (k : Fin 8),
    (ctrlPin k).1 = PortId.H → (portH x).bit (ctrlPin k).2 = x.bit k := by
  intro x k
  have e := mega_d_portH_nf x
  fin_cases k <;> intro h <;>
    first
    | exact absurd h (by decide)
    | (simp only [U8.bit, ctrlPin, e]
       rw [Bool.eq_iff_iff]
       simp +decide [-Nat.testBit_zero, -Nat.and_one_is_mod])

/-- The port B fragment as the lines it carries, each moved to its pin. -/
theorem mega_d_portB_nf : ∀ x : U8,
    (portB x).val = ((x.val &&& 0x40) >>> 2) ||| ((x.val &&& 0x80) >>> 2) := by
  decide!

theorem mega_d_portB_bit : ∀ (x : U8) (k : Fin 8),
    (ctrlPin k).1 = PortId.B → (portB x).bit (ctrlPin k).2 = x.bit k := by
  intro x k
  have e := mega_d_portB_nf x
  fin_cases k <;> intro h <;>
    first
    | exact absurd h (by decide)
    | (simp only [U8.bit, ctrlPin, e]
       rw [Bool.eq_iff_iff]
       simp +decide [-Nat.testBit_zero, -Nat.and_one_is_mod])

theorem mega_d_portH_off : ∀ (x : U8) (i : Fin 8),
    (∀ k : Fin 8, ctrlPin k ≠ (PortId.H, i.val)) → (portH x).bit i = false := by
  intro x i h
  have e := mega_d_portH_nf x
  fin_cases i <;>
    first
    | exact absurd rfl (h 0) | exact absurd rfl (h 1) | exact absurd rfl (h 2)
    | exact absurd rfl (h 3) | exact absurd rfl (h 4) | exact absurd rfl (h 5)
    | exact absurd rfl (h 6) | exact absurd rfl (h 7)
    | (simp only [U8.bit, e]
       rw [Bool.eq_iff_iff]
       simp +decide [-Nat.testBit_zero, -Nat.and_one_is_mod])

theorem mega_d_portB_off : ∀ (x : U8) (i : Fin 8),
    (∀ k : Fin 8, ctrlPin k ≠ (PortId.B, i.val)) → (portB x).bit i = false := by
  intro x i h
  have e := mega_d_portB_nf x
  fin_cases i <;>
    first
    | exact absurd rfl (h 0) | exact absurd rfl (h 1) | exact absurd rfl (h 2)
    | exact absurd rfl (h 3) | exact absurd rfl (h 4) | exact absurd rfl (h 5)
    | exact absurd rfl (h 6) | exact absurd rfl (h 7)
    | (simp only [U8.bit, e]
       rw [Bool.eq_iff_iff]
       simp +decide [-Nat.testBit_zero, -Nat.and_one_is_mod])

theorem mega_d_ctrlState_line (bits mask : U8) (s : AVR) (k : Fin 8) :
    (setGpibCtrlState bits mask s).portBit (ctrlPin k)
      = if mask.bit k then bits.bit k else s.portBit (ctrlPin k) := by
  have h1m := mega_d_portH_bit mask k
  have h1b := mega_d_portH_bit bits k
  have h2m := mega_d_portB_bit mask k
  have h2b := mega_d_portB_bit bits k
  simp only [setGpibCtrlState, AVR.portBit, U8.bit] at h1m h1b h2m h2b ⊢
  revert h1m h1b h2m h2b
  fin_cases k <;> intro h1m h1b h2m h2b <;>
    simp only [ctrlPin, AVR.PORT, true_implies] at h1m h1b h2m h2b ⊢ <;>
    rw [testBit_masked _ _ _ _ (by decide)] <;>
    simp only [h1m, h1b, h2m, h2b]

theorem mega_d_ctrlState_frame (bits mask : U8) (s : AVR) (p : PortId) (i : Fin 8)
    (h : ∀ k : Fin 8, ctrlPin k ≠ (p, i.val)) :
    (setGpibCtrlState bits mask s).portBit (p, i.val) = s.portBit (p, i.val) := by
  simp only [setGpibCtrlState, AVR.portBit, U8.bit]
  cases p with
  | H =>
    have hoff := mega_d_portH_off mask i h
    simp only [U8.bit] at hoff
    simp only [AVR.PORT]
    rw [testBit_masked _ _ _ _ i.isLt, hoff]
    simp
  | B =>
    have hoff := mega_d_portB_off mask i h
    simp only [U8.bit] at hoff
    simp only [AVR.PORT]
    rw [testBit_masked _ _ _ _ i.isLt, hoff]
    simp
  | _ => rfl

end

/-- The byte 0x80 has bit 7 set and no other. -/
theorem bit_0x80 : ∀ k : Fin 8, (0x80 : U8).bit k = decide (k = 7) := by
  decide

/-- C8: on the MEGA2560_D profile, with the control lines on PH0, PH1, PH3,
PH4, PH5, PH6, PB4 and PB5, for every `bits`, `mask` and prior register
content, after `setGpibCtrlState bits mask` the `PORT` bit of control line `k`
is bit `k` of `bits` if bit `k` of `mask` is set and is unchanged otherwise,
and every `PORT` bit that is not a control line is unchanged; in particular
`setGpibCtrlState 0x80 0x80` sets PB5 (ATN) and leaves the other seven control
lines as they were. -/
theorem C8_mega2560_d_ctrl_state (bits mask : U8) (s : AVR) :
    (∀ k : Fin 8,
      (AR488_MEGA2560_D.setGpibCtrlState bits mask s).portBit (AR488_MEGA2560_D.ctrlPin k)
        = if mask.bit k then bits.bit k else s.portBit (AR488_MEGA2560_D.ctrlPin k)) ∧
    (∀ (p : PortId) (i : Fin 8), (∀ k : Fin 8, AR488_MEGA2560_D.ctrlPin k ≠ (p, i.val)) →
      (AR488_MEGA2560_D.setGpibCtrlState bits mask s).portBit (p, i.val)
        = s.portBit (p, i.val)) ∧
    (AR488_MEGA2560_D.setGpibCtrlState 0x80 0x80 s).portBit (PortId.B, 5) = true ∧
    (∀ k : Fin 8,
      (AR488_MEGA2560_D.setGpibCtrlState 0x80 0x80 s).portBit (AR488_MEGA2560_D.ctrlPin k)
        = if k = 7 then true else s.portBit (AR488_MEGA2560_D.ctrlPin k)) := by
  have key : ∀ k : Fin 8,
      (AR488_MEGA2560_D.setGpibCtrlState 0x80 0x80 s).portBit (AR488_MEGA2560_D.ctrlPin k)
        = if k = 7 then true else s.portBit (AR488_MEGA2560_D.ctrlPin k) := by
    intro k
    rw [mega_d_ctrlState_line, bit_0x80]
    by_cases hk : k = 7 <;> simp [hk]
  exact ⟨mega_d_ctrlState_line bits mask s, mega_d_ctrlState_frame bits mask s, key 7, key⟩

/-- Witness for C8: asserting ATN alone over registers filled with 0x5A leaves
PH2, which is no control line, as it was. -/
theorem C8_mega2560_d_ctrl_state_witness :
    (AR488_MEGA2560_D.setGpibCtrlState 0x80 0x80 (AVR.const 0x5A)).portBit (PortId.H, 2)
      = (AVR.const 0x5A).portBit (PortId.H, 2) :=
  (C8_mega2560_d_ctrl_state 0x80 0x80 (AVR.const 0x5A)).2.1 PortId.H 2 (by decide)

section
open AR488_MEGA644P_MCGRAW

/-- The port A fragment as the lines it carries, each moved to its pin. -/
theorem mcgraw_portA_nf : ∀ x : U8,
    (portA x).val = ((x.val &&& 0x20) >>> 5) ||| (x.val &&& 0x80) := by
  decide!

theorem mcgraw_portA_bit : ∀ (x : U8) (k : Fin 8),
    (ctrlPin k).1 = PortId.A → (portA x).bit (ctrlPin k).2 = x.bit k := by
  intro x k
  have e := mcgraw_portA_nf x
  fin_cases k <;> intro h <;>
    first
    | exact absurd h (by decide)
    | (simp only [U8.bit, ctrlPin, e]
       rw [Bool.eq_iff_iff]
       simp +decide [-Nat.testBit_zero, -Nat.and_one_is_mod])

/-- The port C fragment as the lines it carries, each moved to its pin. -/
theorem mcgraw_portC_nf : ∀ x : U8,
    (portC x).val = ((x.val &&& 0x01) <<< 6) ||| ((x.val &&& 0x02) <<< 4) ||| ((x.val &&& 0x04) <<< 2) ||| (x.val &&& 0x08) ||| ((x.val &&& 0x10) >>> 2) ||| ((x.val &&& 0x40) <<< 1) := by
  decide!

theorem mcgraw_portC_bit : ∀ (x : U8) (k : Fin 8),
    (ctrlPin k).1 = PortId.C → (portC x).bit (ctrlPin k).2 = x.bit k := by
  intro x k
  have e := mcgraw_portC_nf x
  fin_cases k <;> intro h <;>
    first
    | exact absurd h (by decide)
    | (simp only [U8.bit, ctrlPin, e]
       rw [Bool.eq_iff_iff]
       simp +decide [-Nat.testBit_zero, -Nat.and_one_is_mod])

theorem mcgraw_portA_off : ∀ (x : U8) (i : Fin 8),
    (∀ k : Fin 8, ctrlPin k ≠ (PortId.A, i.val)) → (portA x).bit i = false := by
  intro x i h
  have e := mcgraw_portA_nf x
  fin_cases i <;>
    first
    | exact absurd rfl (h 0) | exact absurd rfl (h 1) | exact absurd rfl (h 2)
    | exact absurd rfl (h 3) | exact absurd rfl (h 4) | exact absurd rfl (h 5)
    | exact absurd rfl (h 6) | exact absurd rfl (h 7)
    | (simp only [U8.bit, e]
       rw [Bool.eq_iff_iff]
       simp +decide [-Nat.testBit_zero, -Nat.and_one_is_mod])

theorem mcgraw_portC_off : ∀ (x : U8) (i : Fin 8),
    (∀ k : Fin 8, ctrlPin k ≠ (PortId.C, i.val)) → (portC x).bit i = false := by
  intro x i h
  have e := mcgraw_portC_nf x
  fin_cases i <;>
    first
    | exact absurd rfl (h 0) | exact absurd rfl (h 1) | exact absurd rfl (h 2)
    | exact absurd rfl (h 3) | exact absurd rfl (h 4) | exact absurd rfl (h 5)
    | exact absurd rfl (h 6) | exact absurd rfl (h 7)
    | (simp only [U8.bit, e]
       rw [Bool.eq_iff_iff]
       simp +decide [-Nat.testBit_zero, -Nat.and_one_is_mod])

theorem mcgraw_ctrlState_line (bits mask : U8) (s : AVR) (k : Fin 8) :
    (setGpibCtrlState bits mask s).portBit (ctrlPin k)
      = if mask.bit k then bits.bit k else s.portBit (ctrlPin k) := by
  have h1m := mcgraw_portA_bit mask k
  have h1b := mcgraw_portA_bit bits k
  have h2m := mcgraw_portC_bit mask k
  have h2b := mcgraw_portC_bit bits k
  simp only [setGpibCtrlState, AVR.portBit, U8.bit] at h1m h1b h2m h2b ⊢
  revert h1m h1b h2m h2b
  fin_cases k <;> intro h1m h1b h2m h2b <;>
    simp only [ctrlPin, AVR.PORT, true_implies] at h1m h1b h2m h2b ⊢ <;>
    rw [testBit_masked _ _ _ _ (by decide)] <;>
    simp only [h1m, h1b, h2m, h2b]

theorem mcgraw_ctrlState_frame (bits mask : U8) (s : AVR) (p : PortId) (i : Fin 8)
    (h : ∀ k : Fin 8, ctrlPin k ≠ (p, i.val)) :
    (setGpibCtrlState bits mask s).portBit (p, i.val) = s.portBit (p, i.val) := by
  simp only [setGpibCtrlState, AVR.portBit, U8.bit]
  cases p with
  | A =>
    have hoff := mcgraw_portA_off mask i h
    simp only [U8.bit] at hoff
    simp only [AVR.PORT]
    rw [testBit_masked _ _ _ _ i.isLt, hoff]
    simp
  | C =>
    have hoff := mcgraw_portC_off mask i h
    simp only [U8.bit] at hoff
    simp only [AVR.PORT]
    rw [testBit_masked _ _ _ _ i.isLt, hoff]
    simp
  | _ => rfl

end

/-- Two numbers below disjoint masks have no common set bit. -/
theorem and_eq_zero_of_masks (x y m n : Nat) (hx : x &&& m = x) (hy : y &&& n = y)
    (h : m &&& n = 0) : x &&& y = 0 := by
  apply Nat.eq_of_testBit_eq
  intro i
  have h1 := congrArg (fun z => Nat.testBit z i) hx
  have h2 := congrArg (fun z => Nat.testBit z i) hy
  have h3 := congrArg (fun z => Nat.testBit z i) h
  simp only [Nat.testBit_and, Nat.zero_testBit] at h1 h2 h3 ⊢
  cases hxi : x.testBit i <;> cases hyi : y.testBit i <;>
    cases hm : m.testBit i <;> cases hn : n.testBit i <;> simp_all

theorem mcgraw_portCrev_le : ∀ x : U8,
    AR488_MEGA644P_MCGRAW.portCrev x &&& 0x7C = AR488_MEGA644P_MCGRAW.portCrev x := by
  decide!

theorem mcgraw_portCsrq_le : ∀ x : U8,
    AR488_MEGA644P_MCGRAW.portCsrq x &&& 0x80 = AR488_MEGA644P_MCGRAW.portCsrq x := by
  decide!

/-- C9: on the MEGA644P_MCGRAW profile `setGpibCtrlState` implements the
documented control pin map (IFC PC6, NDAC PC5, NRFD PC4, DAV PC3, EOI PC2,
REN PA0, SRQ PC7, ATN PA7): for every `bits`, `mask` and prior register
content, afterwards the `PORT` bit of control line `k` is bit `k` of `bits` if
bit `k` of `mask` is set and is unchanged otherwise, and every `PORT` bit that
is not a control line (PC0, PC1, PA1..PA6 included) is unchanged; the fragment
`reverseBits(x & 0x1F) >> 1` lies in bits 6..2 and the fragment
`(y & 0x40) << 1` in bit 7, so the two never overlap, for any two bytes. -/
theorem C9_mcgraw_ctrl_state (bits mask : U8) (s : AVR) :
    (∀ k : Fin 8,
      (AR488_MEGA644P_MCGRAW.setGpibCtrlState bits mask s).portBit
          (AR488_MEGA644P_MCGRAW.ctrlPin k)
        = if mask.bit k then bits.bit k else s.portBit (AR488_MEGA644P_MCGRAW.ctrlPin k)) ∧
    (∀ (p : PortId) (i : Fin 8), (∀ k : Fin 8, AR488_MEGA644P_MCGRAW.ctrlPin k ≠ (p, i.val)) →
      (AR488_MEGA644P_MCGRAW.setGpibCtrlState bits mask s).portBit (p, i.val)
        = s.portBit (p, i.val)) ∧
    (∀ x y : U8, AR488_MEGA644P_MCGRAW.portCrev x &&& AR488_MEGA644P_MCGRAW.portCsrq y = 0) ∧
    (∀ x : U8, AR488_MEGA644P_MCGRAW.portCrev x &&& 0x7C = AR488_MEGA644P_MCGRAW.portCrev x ∧
      AR488_MEGA644P_MCGRAW.portCsrq x &&& 0x80 = AR488_MEGA644P_MCGRAW.portCsrq x) :=
  ⟨mcgraw_ctrlState_line bits mask s, mcgraw_ctrlState_frame bits mask s,
   fun x y => and_eq_zero_of_masks _ _ _ _ (mcgraw_portCrev_le x) (mcgraw_portCsrq_le y)
      (by decide),
   fun x => ⟨mcgraw_portCrev_le x, mcgraw_portCsrq_le x⟩⟩

/-- Witness for C9: setting SRQ and clearing IFC over registers filled with
0xA5 leaves the data bit PC1 as it was. -/
theorem C9_mcgraw_ctrl_state_witness :
    (AR488_MEGA644P_MCGRAW.setGpibCtrlState 0x40 0x41 (AVR.const 0xA5)).portBit (PortId.C, 1)
      = (AVR.const 0xA5).portBit (PortId.C, 1) :=
  (C9_mcgraw_ctrl_state 0x40 0x41 (AVR.const 0xA5)).2.1 PortId.C 1 (by decide)

section
open POE_ETHERNET_GPIB_ADAPTOR

theorem poe_bitsToPort_bit : ∀ (b : U8) (k : Fin 8),
    (bitsToPort b).bit (ctrlBit k) = b.bit k := by
  decide!

theorem poe_ctrlBit_bijective : Function.Bijective ctrlBit := by
  decide

theorem poe_ctrlState_line (bits mask : U8) (s : MegaAVR0) (k : Fin 8) (hm : mask ≠ 0) :
    (setGpibCtrlState bits mask s).PORTC.OUT.bit (ctrlBit k)
      = if mask.bit k then bits.bit k else s.PORTC.OUT.bit (ctrlBit k) := by
  have hb := poe_bitsToPort_bit bits k
  have hk := poe_bitsToPort_bit mask k
  simp only [setGpibCtrlState, if_neg hm, U8.bit] at hb hk ⊢
  rw [testBit_masked _ _ _ _ (ctrlBit k).isLt, hb, hk]

end

/-- C10: on the POE_ETHERNET_GPIB_ADAPTOR profile `bitsToPort` is the bit
permutation of the documented control pin map (IFC PC4, NDAC PC3, NRFD PC2,
DAV PC1, EOI PC0, REN PC7, SRQ PC5, ATN PC6): the map is a bijection of the
eight bit positions and bit `ctrlBit k` of `bitsToPort b` is bit `k` of `b`;
consequently, for every `bits`, non-zero `mask` and prior `PORTC.OUT`, after
`setGpibCtrlState bits mask` the `PORTC.OUT` bit of line `k` is bit `k` of
`bits` if bit `k` of `mask` is set and is unchanged otherwise. -/
theorem C10_poe_ctrl_state (b bits mask : U8) (s : MegaAVR0) (k : Fin 8) :
    Function.Bijective POE_ETHERNET_GPIB_ADAPTOR.ctrlBit ∧
    (POE_ETHERNET_GPIB_ADAPTOR.bitsToPort b).bit (POE_ETHERNET_GPIB_ADAPTOR.ctrlBit k)
      = b.bit k ∧
    (mask ≠ 0 →
      (POE_ETHERNET_GPIB_ADAPTOR.setGpibCtrlState bits mask s).PORTC.OUT.bit
          (POE_ETHERNET_GPIB_ADAPTOR.ctrlBit k)
        = if mask.bit k then bits.bit k
          else s.PORTC.OUT.bit (POE_ETHERNET_GPIB_ADAPTOR.ctrlBit k)) :=
  ⟨poe_ctrlBit_bijective, poe_bitsToPort_bit b k, poe_ctrlState_line bits mask s k⟩

/-- Witness for C10: with mask 0x81 and bits 0x80 over a `PORTC.OUT` of 0x00,
ATN (PC6) is set. -/
theorem C10_poe_ctrl_state_witness :
    (0x81 : U8) ≠ 0 ∧
    (POE_ETHERNET_GPIB_ADAPTOR.setGpibCtrlState 0x80 0x81
        ⟨⟨0, 0, 0, 0, 0, 0, 0, 0, 0, 0, 0⟩, ⟨0, 0, 0, 0, 0, 0, 0, 0, 0, 0, 0⟩⟩).PORTC.OUT.bit
          (POE_ETHERNET_GPIB_ADAPTOR.ctrlBit 7)
      = if (0x81 : U8).bit (7 : Fin 8) then (0x80 : U8).bit (7 : Fin 8)
        else (0 : U8).bit (POE_ETHERNET_GPIB_ADAPTOR.ctrlBit 7) :=
  ⟨by decide,
   (C10_poe_ctrl_state 0 0x80 0x81
      ⟨⟨0, 0, 0, 0, 0, 0, 0, 0, 0, 0, 0⟩, ⟨0, 0, 0, 0, 0, 0, 0, 0, 0, 0, 0⟩⟩ 7).2.2
      (by decide)⟩

/-! ## Control-line state of the remaining AVR profiles -/

section
open AR488_MEGA32U4_MICRO

/-- The port F fragment as the lines it carries, each moved to its pin. -/
theorem micro_portF_nf : ∀ x : U8,
    (portF x).val = ((x.val &&& 0x02) <<< 3) ||| ((x.val &&& 0x04) <<< 3) ||| ((x.val &&& 0x08) <<< 3) ||| ((x.val &&& 0x10) <<< 3) := by
  decide!

theorem micro_portF_bit : ∀ (x : U8) (k : Fin 8),
    (ctrlPin k).1 = PortId.F → (portF x).bit (ctrlPin k).2 = x.bit k := by
  intro x k
  have e := micro_portF_nf x
  fin_cases k <;> intro h <;>
    first
    | exact absurd h (by decide)
    | (simp only [U8.bit, ctrlPin, e]
       rw [Bool.eq_iff_iff]
       simp +decide [-Nat.testBit_zero, -Nat.and_one_is_mod])

/-- The port C fragment as the lines it carries, each moved to its pin. -/
theorem micro_portC_nf : ∀ x : U8,
    (portC x).val = ((x.val &&& 0x20) <<< 1) := by
  decide!

theorem micro_portC_bit : ∀ (x : U8) (k : Fin 8),
    (ctrlPin k).1 = PortId.C → (portC x).bit (ctrlPin k).2 = x.bit k := by
  intro x k
  have e := micro_portC_nf x
  fin_cases k <;> intro h <;>
    first
    | exact absurd h (by decide)
    | (simp only [U8.bit, ctrlPin, e]
       rw [Bool.eq_iff_iff]
       simp +decide [-Nat.testBit_zero, -Nat.and_one_is_mod])

/-- The port D fragment as the lines it carries, each moved to its pin. -/
theorem micro_portD_nf : ∀ x : U8,
    (portD x).val = ((x.val &&& 0x01) <<< 4) ||| ((x.val &&& 0x80) >>> 6) := by
  decide!

theorem micro_portD_bit : ∀ (x : U8) (k : Fin 8),
    (ctrlPin k).1 = PortId.D → (portD x).bit (ctrlPin k).2 = x.bit k := by
  intro x k
  have e := micro_portD_nf x
  fin_cases k <;> intro h <;>
    first
    | exact absurd h (by decide)
    | (simp only [U8.bit, ctrlPin, e]
       rw [Bool.eq_iff_iff]
       simp +decide [-Nat.testBit_zero, -Nat.and_one_is_mod])

/-- The port E fragment as the lines it carries, each moved to its pin. -/
theorem micro_portE_nf : ∀ x : U8,
    (portE x).val = (x.val &&& 0x40) := by
  decide!

theorem micro_portE_bit : ∀ (x : U8) (k : Fin 8),
    (ctrlPin k).1 = PortId.E → (portE x).bit (ctrlPin k).2 = x.bit k := by
  intro x k
  have e := micro_portE_nf x
  fin_cases k <;> intro h <;>
    first
    | exact absurd h (by decide)
    | (simp only [U8.bit, ctrlPin, e]
       rw [Bool.eq_iff_iff]
       simp +decide [-Nat.testBit_zero, -Nat.and_one_is_mod])

theorem micro_portF_off : ∀ (x : U8) (i : Fin 8),
    (∀ k : Fin 8, ctrlPin k ≠ (PortId.F, i.val)) → (portF x).bit i = false := by
  intro x i h
  have e := micro_portF_nf x
  fin_cases i <;>
    first
    | exact absurd rfl (h 0) | exact absurd rfl (h 1) | exact absurd rfl (h 2)
    | exact absurd rfl (h 3) | exact absurd rfl (h 4) | exact absurd rfl (h 5)
    | exact absurd rfl (h 6) | exact absurd rfl (h 7)
    | (simp only [U8.bit, e]
       rw [Bool.eq_iff_iff]
       simp +decide [-Nat.testBit_zero, -Nat.and_one_is_mod])

theorem micro_portC_off : ∀ (x : U8) (i : Fin 8),
    (∀ k : Fin 8, ctrlPin k ≠ (PortId.C, i.val)) → (portC x).bit i = false := by
  intro x i h
  have e := micro_portC_nf x
  fin_cases i <;>
    first
    | exact absurd rfl (h 0) | exact absurd rfl (h 1) | exact absurd rfl (h 2)
    | exact absurd rfl (h 3) | exact absurd rfl (h 4) | exact absurd rfl (h 5)
    | exact absurd rfl (h 6) | exact absurd rfl (h 7)
    | (simp only [U8.bit, e]
       rw [Bool.eq_iff_iff]
       simp +decide [-Nat.testBit_zero, -Nat.and_one_is_mod])

theorem micro_portD_off : ∀ (x : U8) (i : Fin 8),
    (∀ k : Fin 8, ctrlPin k ≠ (PortId.D, i.val)) → (portD x).bit i = false := by
  intro x i h
  have e := micro_portD_nf x
  fin_cases i <;>
    first
    | exact absurd rfl (h 0) | exact absurd rfl (h 1) | exact absurd rfl (h 2)
    | exact absurd rfl (h 3) | exact absurd rfl (h 4) | exact absurd rfl (h 5)
    | exact absurd rfl (h 6) | exact absurd rfl (h 7)
    | (simp only [U8.bit, e]
       rw [Bool.eq_iff_iff]
       simp +decide [-Nat.testBit_zero, -Nat.and_one_is_mod])

theorem micro_portE_off : ∀ (x : U8) (i : Fin 8),
    (∀ k : Fin 8, ctrlPin k ≠ (PortId.E, i.val)) → (portE x).bit i = false := by
  intro x i h
  have e := micro_portE_nf x
  fin_cases i <;>
    first
    | exact absurd rfl (h 0) | exact absurd rfl (h 1) | exact absurd rfl (h 2)
    | exact absurd rfl (h 3) | exact absurd rfl (h 4) | exact absurd rfl (h 5)
    | exact absurd rfl (h 6) | exact absurd rfl (h 7)
    | (simp only [U8.bit, e]
       rw [Bool.eq_iff_iff]
       simp +decide [-Nat.testBit_zero, -Nat.and_one_is_mod])

/-- When the first guard is false no line of port F is selected. -/
theorem micro_guardF_bit : ∀ (m : U8) (k : Fin 8),
    m.val &&& 0b00011110 = 0 → (ctrlPin k).1 = PortId.F → m.bit k = false := by
  decide!

/-- When the second guard is false no line of ports C, D, E is selected. -/
theorem micro_guardCDE_bit : ∀ (m : U8) (k : Fin 8),
    m.val &&& 0b11100001 = 0 → (ctrlPin k).1 ≠ PortId.F → m.bit k = false := by
  decide!

theorem micro_ctrlState_line (bits mask : U8) (s : AVR) (k : Fin 8) :
    (setGpibCtrlState bits mask s).portBit (ctrlPin k)
      = if mask.bit k then bits.bit k else s.portBit (ctrlPin k) := by
  have hFm := micro_portF_bit mask k
  have hFb := micro_portF_bit bits k
  have hCm := micro_portC_bit mask k
  have hCb := micro_portC_bit bits k
  have hDm := micro_portD_bit mask k
  have hDb := micro_portD_bit bits k
  have hEm := micro_portE_bit mask k
  have hEb := micro_portE_bit bits k
  have gF := micro_guardF_bit mask k
  have gO := micro_guardCDE_bit mask k
  simp only [AVR.portBit, U8.bit] at hFm hFb hCm hCb hDm hDb hEm hEb gF gO ⊢
  by_cases h1 : mask.val &&& 0b00011110 = 0 <;> by_cases h2 : mask.val &&& 0b11100001 = 0 <;>
    simp only [setGpibCtrlState, h1, h2, ne_eq, not_true_eq_false, not_false_eq_true,
      if_true, if_false] <;>
    revert hFm hFb hCm hCb hDm hDb hEm hEb gF gO <;>
    fin_cases k <;> intro hFm hFb hCm hCb hDm hDb hEm hEb gF gO <;>
    simp only [ctrlPin, AVR.PORT, true_implies, ne_eq, reduceCtorEq, not_false_eq_true,
      not_true_eq_false, false_implies, h1, h2] at hFm hFb hCm hCb hDm hDb hEm hEb gF gO ⊢ <;>
    first
    | (rw [testBit_masked _ _ _ _ (by decide)]
       simp only [hFm, hFb, hCm, hCb, hDm, hDb, hEm, hEb])
    | simp [gF, gO]

theorem micro_ctrlState_frame (bits mask : U8) (s : AVR) (p : PortId) (i : Fin 8)
    (h : ∀ k : Fin 8, ctrlPin k ≠ (p, i.val)) :
    (setGpibCtrlState bits mask s).portBit (p, i.val) = s.portBit (p, i.val) := by
  have oF := micro_portF_off mask i
  have oC := micro_portC_off mask i
  have oD := micro_portD_off mask i
  have oE := micro_portE_off mask i
  simp only [U8.bit] at oF oC oD oE
  by_cases h1 : mask.val &&& 0b00011110 = 0 <;> by_cases h2 : mask.val &&& 0b11100001 = 0 <;>
    simp only [setGpibCtrlState, h1, h2, ne_eq, not_true_eq_false, not_false_eq_true,
      if_true, if_false, AVR.portBit, U8.bit] <;>
    cases p <;> simp only [AVR.PORT] <;>
    first
    | rfl
    | (rw [testBit_masked _ _ _ _ i.isLt]
       first
       | (rw [oF h]; simp)
       | (rw [oC h]; simp)
       | (rw [oD h]; simp)
       | (rw [oE h]; simp))

end

/-- C11: on the MEGA32U4_MICRO profile `setGpibCtrlState` implements the
documented control pin map (IFC PD4, NDAC PF4, NRFD PF5, DAV PF6, EOI PF7,
REN PC6, SRQ PE6, ATN PD1) as a masked update whichever of its two guarded
branches run: for every `bits`, `mask` and prior register content, afterwards
the `PORT` bit of control line `k` is bit `k` of `bits` if bit `k` of `mask` is
set and is unchanged otherwise, and every `PORT` bit that is not a control line
(PD0 and PD7 included) is unchanged; a masked line always has the guard of its
branch true, so no masked line is skipped. -/
theorem C11_micro_ctrl_state (bits mask : U8) (s : AVR) :
    (∀ k : Fin 8,
      (AR488_MEGA32U4_MICRO.setGpibCtrlState bits mask s).portBit
          (AR488_MEGA32U4_MICRO.ctrlPin k)
        = if mask.bit k then bits.bit k else s.portBit (AR488_MEGA32U4_MICRO.ctrlPin k)) ∧
    (∀ (p : PortId) (i : Fin 8), (∀ k : Fin 8, AR488_MEGA32U4_MICRO.ctrlPin k ≠ (p, i.val)) →
      (AR488_MEGA32U4_MICRO.setGpibCtrlState bits mask s).portBit (p, i.val)
        = s.portBit (p, i.val)) ∧
    (∀ k : Fin 8, mask.bit k = true →
      if (AR488_MEGA32U4_MICRO.ctrlPin k).1 = PortId.F then mask.val &&& 0b00011110 ≠ 0
      else mask.val &&& 0b11100001 ≠ 0) := by
  refine ⟨micro_ctrlState_line bits mask s, micro_ctrlState_frame bits mask s, ?_⟩
  intro k hk
  by_cases hF : (AR488_MEGA32U4_MICRO.ctrlPin k).1 = PortId.F
  · rw [if_pos hF]
    intro h0
    rw [micro_guardF_bit mask k h0 hF] at hk
    exact Bool.false_ne_true hk
  · rw [if_neg hF]
    intro h0
    rw [micro_guardCDE_bit mask k h0 hF] at hk
    exact Bool.false_ne_true hk

/-- Witness for C11: with mask 0x20 (REN only, second branch only) over
registers filled with 0xA5 the data bit PD7 is left as it was. -/
theorem C11_micro_ctrl_state_witness :
    (AR488_MEGA32U4_MICRO.setGpibCtrlState 0x20 0x20 (AVR.const 0xA5)).portBit (PortId.D, 7)
        = (AVR.const 0xA5).portBit (PortId.D, 7) ∧
    (0x20 : U8).val &&& 0b11100001 ≠ 0 :=
  ⟨(C11_micro_ctrl_state 0x20 0x20 (AVR.const 0xA5)).2.1 PortId.D 7 (by decide),
   (C11_micro_ctrl_state 0x20 0x20 (AVR.const 0xA5)).2.2 5 (by decide)⟩

section
open AR488_MEGA2560_E1

/-- The port B fragment as the lines it carries, each moved to its pin. -/
theorem e1_portB_nf : ∀ x : U8,
    (portB x).val = ((x.val &&& 0x40) >>> 3) ||| ((x.val &&& 0x80) >>> 6) := by
  decide!

theorem e1_portB_bit : ∀ (x : U8) (k : Fin 8),
    (ctrlPin k).1 = PortId.B → (portB x).bit (ctrlPin k).2 = x.bit k := by
  intro x k
  have e := e1_portB_nf x
  fin_cases k <;> intro h <;>
    first
    | exact absurd h (by decide)
    | (simp only [U8.bit, ctrlPin, e]
       rw [Bool.eq_iff_iff]
       simp +decide [-Nat.testBit_zero, -Nat.and_one_is_mod])

theorem e1_portB_off : ∀ (x : U8) (i : Fin 8),
    (∀ k : Fin 8, ctrlPin k ≠ (PortId.B, i.val)) → (portB x).bit i = false := by
  intro x i h
  have e := e1_portB_nf x
  fin_cases i <;>
    first
    | exact absurd rfl (h 0) | exact absurd rfl (h 1) | exact absurd rfl (h 2)
    | exact absurd rfl (h 3) | exact absurd rfl (h 4) | exact absurd rfl (h 5)
    | exact absurd rfl (h 6) | exact absurd rfl (h 7)
    | (simp only [U8.bit, e]
       rw [Bool.eq_iff_iff]
       simp +decide [-Nat.testBit_zero, -Nat.and_one_is_mod])

/-- The port D fragment as the lines it carries, each moved to its pin. -/
theorem e1_portD_nf : ∀ x : U8,
    (portD x).val = ((x.val &&& 0x20) <<< 2) := by
  decide!

theorem e1_portD_bit : ∀ (x : U8) (k : Fin 8),
    (ctrlPin k).1 = PortId.D → (portD x).bit (ctrlPin k).2 = x.bit k := by
  intro x k
  have e := e1_portD_nf x
  fin_cases k <;> intro h <;>
    first
    | exact absurd h (by decide)
    | (simp only [U8.bit, ctrlPin, e]
       rw [Bool.eq_iff_iff]
       simp +decide [-Nat.testBit_zero, -Nat.and_one_is_mod])

theorem e1_portD_off : ∀ (x : U8) (i : Fin 8),
    (∀ k : Fin 8, ctrlPin k ≠ (PortId.D, i.val)) → (portD x).bit i = false := by
  intro x i h
  have e := e1_portD_nf x
  fin_cases i <;>
    first
    | exact absurd rfl (h 0) | exact absurd rfl (h 1) | exact absurd rfl (h 2)
    | exact absurd rfl (h 3) | exact absurd rfl (h 4) | exact absurd rfl (h 5)
    | exact absurd rfl (h 6) | exact absurd rfl (h 7)
    | (simp only [U8.bit, e]
       rw [Bool.eq_iff_iff]
       simp +decide [-Nat.testBit_zero, -Nat.and_one_is_mod])

/-- The port G fragment as the lines it carries, each moved to its pin. -/
theorem e1_portG_nf : ∀ x : U8,
    (portG x).val = ((x.val &&& 0x10) >>> 3) := by
  decide!

theorem e1_portG_bit : ∀ (x : U8) (k : Fin 8),
    (ctrlPin k).1 = PortId.G → (portG x).bit (ctrlPin k).2 = x.bit k := by
  intro x k
  have e := e1_portG_nf x
  fin_cases k <;> intro h <;>
    first
    | exact absurd h (by decide)
    | (simp only [U8.bit, ctrlPin, e]
       rw [Bool.eq_iff_iff]
       simp +decide [-Nat.testBit_zero, -Nat.and_one_is_mod])

theorem e1_portG_off : ∀ (x : U8) (i : Fin 8),
    (∀ k : Fin 8, ctrlPin k ≠ (PortId.G, i.val)) → (portG x).bit i = false := by
  intro x i h
  have e := e1_portG_nf x
  fin_cases i <;>
    first
    | exact absurd rfl (h 0) | exact absurd rfl (h 1) | exact absurd rfl (h 2)
    | exact absurd rfl (h 3) | exact absurd rfl (h 4) | exact absurd rfl (h 5)
    | exact absurd rfl (h 6) | exact absurd rfl (h 7)
    | (simp only [U8.bit, e]
       rw [Bool.eq_iff_iff]
       simp +decide [-Nat.testBit_zero, -Nat.and_one_is_mod])

/-- The port L fragment as the lines it carries, each moved to its pin. -/
theorem e1_portL_nf : ∀ x : U8,
    (portL x).val = ((x.val &&& 0x01) <<< 1) ||| ((x.val &&& 0x02) <<< 2) ||| ((x.val &&& 0x04) <<< 3) ||| ((x.val &&& 0x08) <<< 4) := by
  decide!

theorem e1_portL_bit : ∀ (x : U8) (k : Fin 8),
    (ctrlPin k).1 = PortId.L → (portL x).bit (ctrlPin k).2 = x.bit k := by
  intro x k
  have e := e1_portL_nf x
  fin_cases k <;> intro h <;>
    first
    | exact absurd h (by decide)
    | (simp only [U8.bit, ctrlPin, e]
       rw [Bool.eq_iff_iff]
       simp +decide [-Nat.testBit_zero, -Nat.and_one_is_mod])

theorem e1_portL_off : ∀ (x : U8) (i : Fin 8),
    (∀ k : Fin 8, ctrlPin k ≠ (PortId.L, i.val)) → (portL x).bit i = false := by
  intro x i h
  have e := e1_portL_nf x
  fin_cases i <;>
    first
    | exact absurd rfl (h 0) | exact absurd rfl (h 1) | exact absurd rfl (h 2)
    | exact absurd rfl (h 3) | exact absurd rfl (h 4) | exact absurd rfl (h 5)
    | exact absurd rfl (h 6) | exact absurd rfl (h 7)
    | (simp only [U8.bit, e]
       rw [Bool.eq_iff_iff]
       simp +decide [-Nat.testBit_zero, -Nat.and_one_is_mod])

theorem e1_ctrlState_line (bits mask : U8) (s : AVR) (k : Fin 8) :
    (setGpibCtrlState bits mask s).portBit (ctrlPin k)
      = if mask.bit k then bits.bit k else s.portBit (ctrlPin k) := by
  have hBm := e1_portB_bit mask k
  have hBb := e1_portB_bit bits k
  have hDm := e1_portD_bit mask k
  have hDb := e1_portD_bit bits k
  have hGm := e1_portG_bit mask k
  have hGb := e1_portG_bit bits k
  have hLm := e1_portL_bit mask k
  have hLb := e1_portL_bit bits k
  simp only [setGpibCtrlState, AVR.portBit, U8.bit] at hBm hBb hDm hDb hGm hGb hLm hLb ⊢
  revert hBm hBb hDm hDb hGm hGb hLm hLb
  fin_cases k <;> intro hBm hBb hDm hDb hGm hGb hLm hLb <;>
    simp only [ctrlPin, AVR.PORT, true_implies] at hBm hBb hDm hDb hGm hGb hLm hLb ⊢ <;>
    rw [testBit_masked _ _ _ _ (by decide)] <;>
    simp only [hBm, hBb, hDm, hDb, hGm, hGb, hLm, hLb]

theorem e1_ctrlState_frame (bits mask : U8) (s : AVR) (p : PortId) (i : Fin 8)
    (h : ∀ k : Fin 8, ctrlPin k ≠ (p, i.val)) :
    (setGpibCtrlState bits mask s).portBit (p, i.val) = s.portBit (p, i.val) := by
  simp only [setGpibCtrlState, AVR.portBit, U8.bit]
  cases p with
  | B =>
    have hoff := e1_portB_off mask i h
    simp only [U8.bit] at hoff
    simp only [AVR.PORT]
    rw [testBit_masked _ _ _ _ i.isLt, hoff]
    simp
  | D =>
    have hoff := e1_portD_off mask i h
    simp only [U8.bit] at hoff
    simp only [AVR.PORT]
    rw [testBit_masked _ _ _ _ i.isLt, hoff]
    simp
  | G =>
    have hoff := e1_portG_off mask i h
    simp only [U8.bit] at hoff
    simp only [AVR.PORT]
    rw [testBit_masked _ _ _ _ i.isLt, hoff]
    simp
  | L =>
    have hoff := e1_portL_off mask i h
    simp only [U8.bit] at hoff
    simp only [AVR.PORT]
    rw [testBit_masked _ _ _ _ i.isLt, hoff]
    simp
  | _ => rfl

end

/-- C12, as stated, fails: with `bits = mask = 0x20` (REN alone) over cleared
registers the pin the layout comment lists for REN, PB3, stays 0 although bit 5
of `bits` is 1 (the call sets PD7); with `bits = mask = 0x40` (SRQ alone) the
pin listed for SRQ, PD7, stays 0 (the call sets PB3). -/
theorem C12_e1_doc_map_counterexample :
    ((0x20 : U8).bit 5 = true ∧
      (AR488_MEGA2560_E1.setGpibCtrlState 0x20 0x20 (AVR.const 0)).portBit
          (AR488_MEGA2560_E1.docCtrlPin 5) = false ∧
      (AR488_MEGA2560_E1.setGpibCtrlState 0x20 0x20 (AVR.const 0)).portBit (PortId.D, 7)
          = true) ∧
    ((0x40 : U8).bit 6 = true ∧
      (AR488_MEGA2560_E1.setGpibCtrlState 0x40 0x40 (AVR.const 0)).portBit
          (AR488_MEGA2560_E1.docCtrlPin 6) = false ∧
      (AR488_MEGA2560_E1.setGpibCtrlState 0x40 0x40 (AVR.const 0)).portBit (PortId.B, 3)
          = true) := by
  decide

/-- C12, amended: on the MEGA2560_E1 profile `setGpibCtrlState` implements the
control pin map IFC PL1, NDAC PL3, NRFD PL5, DAV PL7, EOI PG1, REN PD7, SRQ PB3,
ATN PB1: for every `bits`, `mask` and prior register content, after the call
the `PORT` bit of each masked logical line equals the corresponding bit of
`bits`. -/
theorem C12_e1_ctrl_state (bits mask : U8) (s : AVR) (k : Fin 8) (h : mask.bit k = true) :
    (AR488_MEGA2560_E1.setGpibCtrlState bits mask s).portBit (AR488_MEGA2560_E1.ctrlPin k)
      = bits.bit k := by
  rw [e1_ctrlState_line, h, if_pos rfl]

/-- Witness for C12: REN alone, set over cleared registers, appears on PD7. -/
theorem C12_e1_ctrl_state_witness :
    (0x20 : U8).bit (5 : Fin 8) = true ∧
    (AR488_MEGA2560_E1.setGpibCtrlState 0x20 0x20 (AVR.const 0)).portBit
        (AR488_MEGA2560_E1.ctrlPin 5) = (0x20 : U8).bit (5 : Fin 8) :=
  ⟨by decide, C12_e1_ctrl_state 0x20 0x20 (AVR.const 0) 5 (by decide)⟩

section
open AR488_MEGA2560_E2

/-- The port B fragment as the lines it carries, each moved to its pin. -/
theorem e2_portB_nf : ∀ x : U8,
    (portB x).val = ((x.val &&& 0x40) >>> 4) ||| ((x.val &&& 0x80) >>> 7) := by
  decide!

theorem e2_portB_bit : ∀ (x : U8) (k : Fin 8),
    (ctrlPin k).1 = PortId.B → (portB x).bit (ctrlPin k).2 = x.bit k := by
  intro x k
  have e := e2_portB_nf x
  fin_cases k <;> intro h <;>
    first
    | exact absurd h (by decide)
    | (simp only [U8.bit, ctrlPin, e]
       rw [Bool.eq_iff_iff]
       simp +decide [-Nat.testBit_zero, -Nat.and_one_is_mod])

theorem e2_portB_off : ∀ (x : U8) (i : Fin 8),
    (∀ k : Fin 8, ctrlPin k ≠ (PortId.B, i.val)) → (portB x).bit i = false := by
  intro x i h
  have e := e2_portB_nf x
  fin_cases i <;>
    first
    | exact absurd rfl (h 0) | exact absurd rfl (h 1) | exact absurd rfl (h 2)
    | exact absurd rfl (h 3) | exact absurd rfl (h 4) | exact absurd rfl (h 5)
    | exact absurd rfl (h 6) | exact absurd rfl (h 7)
    | (simp only [U8.bit, e]
       rw [Bool.eq_iff_iff]
       simp +decide [-Nat.testBit_zero, -Nat.and_one_is_mod])

/-- The port G fragment as the lines it carries, each moved to its pin. -/
theorem e2_portG_nf : ∀ x : U8,
    (portG x).val = ((x.val &&& 0x10) >>> 4) ||| ((x.val &&& 0x20) >>> 3) := by
  decide!

theorem e2_portG_bit : ∀ (x : U8) (k : Fin 8),
    (ctrlPin k).1 = PortId.G → (portG x).bit (ctrlPin k).2 = x.bit k := by
  intro x k
  have e := e2_portG_nf x
  fin_cases k <;> intro h <;>
    first
    | exact absurd h (by decide)
    | (simp only [U8.bit, ctrlPin, e]
       rw [Bool.eq_iff_iff]
       simp +decide [-Nat.testBit_zero, -Nat.and_one_is_mod])

theorem e2_portG_off : ∀ (x : U8) (i : Fin 8),
    (∀ k : Fin 8, ctrlPin k ≠ (PortId.G, i.val)) → (portG x).bit i = false := by
  intro x i h
  have e := e2_portG_nf x
  fin_cases i <;>
    first
    | exact absurd rfl (h 0) | exact absurd rfl (h 1) | exact absurd rfl (h 2)
    | exact absurd rfl (h 3) | exact absurd rfl (h 4) | exact absurd rfl (h 5)
    | exact absurd rfl (h 6) | exact absurd rfl (h 7)
    | (simp only [U8.bit, e]
       rw [Bool.eq_iff_iff]
       simp +decide [-Nat.testBit_zero, -Nat.and_one_is_mod])

/-- The port L fragment as the lines it carries, each moved to its pin. -/
theorem e2_portL_nf : ∀ x : U8,
    (portL x).val = (x.val &&& 0x01) ||| ((x.val &&& 0x02) <<< 1) ||| ((x.val &&& 0x04) <<< 2) ||| ((x.val &&& 0x08) <<< 3) := by
  decide!

theorem e2_portL_bit : ∀ (x : U8) (k : Fin 8),
    (ctrlPin k).1 = PortId.L → (portL x).bit (ctrlPin k).2 = x.bit k := by
  intro x k
  have e := e2_portL_nf x
  fin_cases k <;> intro h <;>
    first
    | exact absurd h (by decide)
    | (simp only [U8.bit, ctrlPin, e]
       rw [Bool.eq_iff_iff]
       simp +decide [-Nat.testBit_zero, -Nat.and_one_is_mod])

theorem e2_portL_off : ∀ (x : U8) (i : Fin 8),
    (∀ k : Fin 8, ctrlPin k ≠ (PortId.L, i.val)) → (portL x).bit i = false := by
  intro x i h
  have e := e2_portL_nf x
  fin_cases i <;>
    first
    | exact absurd rfl (h 0) | exact absurd rfl (h 1) | exact absurd rfl (h 2)
    | exact absurd rfl (h 3) | exact absurd rfl (h 4) | exact absurd rfl (h 5)
    | exact absurd rfl (h 6) | exact absurd rfl (h 7)
    | (simp only [U8.bit, e]
       rw [Bool.eq_iff_iff]
       simp +decide [-Nat.testBit_zero, -Nat.and_one_is_mod])

theorem e2_ctrlState_line (bits mask : U8) (s : AVR) (k : Fin 8) :
    (setGpibCtrlState bits mask s).portBit (ctrlPin k)
      = if mask.bit k then bits.bit k else s.portBit (ctrlPin k) := by
  have hBm := e2_portB_bit mask k
  have hBb := e2_portB_bit bits k
  have hGm := e2_portG_bit mask k
  have hGb := e2_portG_bit bits k
  have hLm := e2_portL_bit mask k
  have hLb := e2_portL_bit bits k
  simp only [setGpibCtrlState, AVR.portBit, U8.bit] at hBm hBb hGm hGb hLm hLb ⊢
  revert hBm hBb hGm hGb hLm hLb
  fin_cases k <;> intro hBm hBb hGm hGb hLm hLb <;>
    simp only [ctrlPin, AVR.PORT, true_implies] at hBm hBb hGm hGb hLm hLb ⊢ <;>
    rw [testBit_masked _ _ _ _ (by decide)] <;>
    simp only [hBm, hBb, hGm, hGb, hLm, hLb]

theorem e2_ctrlState_frame (bits mask : U8) (s : AVR) (p : PortId) (i : Fin 8)
    (h : ∀ k : Fin 8, ctrlPin k ≠ (p, i.val)) :
    (setGpibCtrlState bits mask s).portBit (p, i.val) = s.portBit (p, i.val) := by
  simp only [setGpibCtrlState, AVR.portBit, U8.bit]
  cases p with
  | B =>
    have hoff := e2_portB_off mask i h
    simp only [U8.bit] at hoff
    simp only [AVR.PORT]
    rw [testBit_masked _ _ _ _ i.isLt, hoff]
    simp
  | G =>
    have hoff := e2_portG_off mask i h
    simp only [U8.bit] at hoff
    simp only [AVR.PORT]
    rw [testBit_masked _ _ _ _ i.isLt, hoff]
    simp
  | L =>
    have hoff := e2_portL_off mask i h
    simp only [U8.bit] at hoff
    simp only [AVR.PORT]
    rw [testBit_masked _ _ _ _ i.isLt, hoff]
    simp
  | _ => rfl

end

/-- C13, as stated, fails on every line: with `bits = mask` selecting a single
control line over cleared registers, the pin the layout comment lists for that
line stays 0 although the bit of `bits` is 1. -/
theorem C13_e2_doc_map_counterexample :
    ((0x01 : U8).bit 0 = true ∧
      (AR488_MEGA2560_E2.setGpibCtrlState 0x01 0x01 (AVR.const 0)).portBit
          (AR488_MEGA2560_E2.docCtrlPin 0) = false) ∧
    ((0x02 : U8).bit 1 = true ∧
      (AR488_MEGA2560_E2.setGpibCtrlState 0x02 0x02 (AVR.const 0)).portBit
          (AR488_MEGA2560_E2.docCtrlPin 1) = false) ∧
    ((0x04 : U8).bit 2 = true ∧
      (AR488_MEGA2560_E2.setGpibCtrlState 0x04 0x04 (AVR.const 0)).portBit
          (AR488_MEGA2560_E2.docCtrlPin 2) = false) ∧
    ((0x08 : U8).bit 3 = true ∧
      (AR488_MEGA2560_E2.setGpibCtrlState 0x08 0x08 (AVR.const 0)).portBit
          (AR488_MEGA2560_E2.docCtrlPin 3) = false) ∧
    ((0x10 : U8).bit 4 = true ∧
      (AR488_MEGA2560_E2.setGpibCtrlState 0x10 0x10 (AVR.const 0)).portBit
          (AR488_MEGA2560_E2.docCtrlPin 4) = false) ∧
    ((0x20 : U8).bit 5 = true ∧
      (AR488_MEGA2560_E2.setGpibCtrlState 0x20 0x20 (AVR.const 0)).portBit
          (AR488_MEGA2560_E2.docCtrlPin 5) = false) ∧
    ((0x40 : U8).bit 6 = true ∧
      (AR488_MEGA2560_E2.setGpibCtrlState 0x40 0x40 (AVR.const 0)).portBit
          (AR488_MEGA2560_E2.docCtrlPin 6) = false) ∧
    ((0x80 : U8).bit 7 = true ∧
      (AR488_MEGA2560_E2.setGpibCtrlState 0x80 0x80 (AVR.const 0)).portBit
          (AR488_MEGA2560_E2.docCtrlPin 7) = false) := by
  decide

/-- C13, amended: on the MEGA2560_E2 profile `setGpibCtrlState` implements the
control pin map IFC PL0, NDAC PL2, NRFD PL4, DAV PL6, EOI PG0, REN PG2, SRQ PB2,
ATN PB0: for every `bits`, `mask` and prior register content, after the call
the `PORT` bit of each masked logical line equals the corresponding bit of
`bits`. -/
theorem C13_e2_ctrl_state (bits mask : U8) (s : AVR) (k : Fin 8) (h : mask.bit k = true) :
    (AR488_MEGA2560_E2.setGpibCtrlState bits mask s).portBit (AR488_MEGA2560_E2.ctrlPin k)
      = bits.bit k := by
  rw [e2_ctrlState_line, h, if_pos rfl]

/-- Witness for C13: IFC alone, set over cleared registers, appears on PL0. -/
theorem C13_e2_ctrl_state_witness :
    (0x01 : U8).bit (0 : Fin 8) = true ∧
    (AR488_MEGA2560_E2.setGpibCtrlState 0x01 0x01 (AVR.const 0)).portBit
        (AR488_MEGA2560_E2.ctrlPin 0) = (0x01 : U8).bit (0 : Fin 8) :=
  ⟨by decide, C13_e2_ctrl_state 0x01 0x01 (AVR.const 0) 0 (by decide)⟩

section
open AR488_MEGA32U4_LR3

/-- The port B fragment as the lines it carries, each moved to its pin. -/
theorem lr3_portB_nf : ∀ x : U8,
    (portB x).val = ((x.val &&& 0x01) <<< 4) ||| ((x.val &&& 0x02) <<< 4) ||| ((x.val &&& 0x04) <<< 4) ||| ((x.val &&& 0x08) <<< 4) := by
  decide!

theorem lr3_portB_bit : ∀ (x : U8) (k : Fin 8),
    (ctrlPin k).1 = PortId.B → (portB x).bit (ctrlPin k).2 = x.bit k := by
  intro x k
  have e := lr3_portB_nf x
  fin_cases k <;> intro h <;>
    first
    | exact absurd h (by decide)
    | (simp only [U8.bit, ctrlPin, e]
       rw [Bool.eq_iff_iff]
       simp +decide [-Nat.testBit_zero, -Nat.and_one_is_mod])

theorem lr3_portB_off : ∀ (x : U8) (i : Fin 8),
    (∀ k : Fin 8, ctrlPin k ≠ (PortId.B, i.val)) → (portB x).bit i = false := by
  intro x i h
  have e := lr3_portB_nf x
  fin_cases i <;>
    first
    | exact absurd rfl (h 0) | exact absurd rfl (h 1) | exact absurd rfl (h 2)
    | exact absurd rfl (h 3) | exact absurd rfl (h 4) | exact absurd rfl (h 5)
    | exact absurd rfl (h 6) | exact absurd rfl (h 7)
    | (simp only [U8.bit, e]
       rw [Bool.eq_iff_iff]
       simp +decide [-Nat.testBit_zero, -Nat.and_one_is_mod])

/-- The port D fragment as the lines it carries, each moved to its pin. -/
theorem lr3_portD_nf : ∀ x : U8,
    (portD x).val = ((x.val &&& 0x10) <<< 2) ||| ((x.val &&& 0x20) >>> 5) ||| ((x.val &&& 0x40) >>> 5) := by
  decide!

theorem lr3_portD_bit : ∀ (x : U8) (k : Fin 8),
    (ctrlPin k).1 = PortId.D → (portD x).bit (ctrlPin k).2 = x.bit k := by
  intro x k
  have e := lr3_portD_nf x
  fin_cases k <;> intro h <;>
    first
    | exact absurd h (by decide)
    | (simp only [U8.bit, ctrlPin, e]
       rw [Bool.eq_iff_iff]
       simp +decide [-Nat.testBit_zero, -Nat.and_one_is_mod])

theorem lr3_portD_off : ∀ (x : U8) (i : Fin 8),
    (∀ k : Fin 8, ctrlPin k ≠ (PortId.D, i.val)) → (portD x).bit i = false := by
  intro x i h
  have e := lr3_portD_nf x
  fin_cases i <;>
    first
    | exact absurd rfl (h 0) | exact absurd rfl (h 1) | exact absurd rfl (h 2)
    | exact absurd rfl (h 3) | exact absurd rfl (h 4) | exact absurd rfl (h 5)
    | exact absurd rfl (h 6) | exact absurd rfl (h 7)
    | (simp only [U8.bit, e]
       rw [Bool.eq_iff_iff]
       simp +decide [-Nat.testBit_zero, -Nat.and_one_is_mod])

/-- The port E fragment as the lines it carries, each moved to its pin. -/
theorem lr3_portE_nf : ∀ x : U8,
    (portE x).val = ((x.val &&& 0x80) >>> 1) := by
  decide!

theorem lr3_portE_bit : ∀ (x : U8) (k : Fin 8),
    (ctrlPin k).1 = PortId.E → (portE x).bit (ctrlPin k).2 = x.bit k := by
  intro x k
  have e := lr3_portE_nf x
  fin_cases k <;> intro h <;>
    first
    | exact absurd h (by decide)
    | (simp only [U8.bit, ctrlPin, e]
       rw [Bool.eq_iff_iff]
       simp +decide [-Nat.testBit_zero, -Nat.and_one_is_mod])

theorem lr3_portE_off : ∀ (x : U8) (i : Fin 8),
    (∀ k : Fin 8, ctrlPin k ≠ (PortId.E, i.val)) → (portE x).bit i = false := by
  intro x i h
  have e := lr3_portE_nf x
  fin_cases i <;>
    first
    | exact absurd rfl (h 0) | exact absurd rfl (h 1) | exact absurd rfl (h 2)
    | exact absurd rfl (h 3) | exact absurd rfl (h 4) | exact absurd rfl (h 5)
    | exact absurd rfl (h 6) | exact absurd rfl (h 7)
    | (simp only [U8.bit, e]
       rw [Bool.eq_iff_iff]
       simp +decide [-Nat.testBit_zero, -Nat.and_one_is_mod])

theorem lr3_ctrlState_line (bits mask : U8) (s : AVR) (k : Fin 8) :
    (setGpibCtrlState bits mask s).portBit (ctrlPin k)
      = if mask.bit k then bits.bit k else s.portBit (ctrlPin k) := by
  have hBm := lr3_portB_bit mask k
  have hBb := lr3_portB_bit bits k
  have hDm := lr3_portD_bit mask k
  have hDb := lr3_portD_bit bits k
  have hEm := lr3_portE_bit mask k
  have hEb := lr3_portE_bit bits k
  simp only [setGpibCtrlState, AVR.portBit, U8.bit] at hBm hBb hDm hDb hEm hEb ⊢
  revert hBm hBb hDm hDb hEm hEb
  fin_cases k <;> intro hBm hBb hDm hDb hEm hEb <;>
    simp only [ctrlPin, AVR.PORT, true_implies] at hBm hBb hDm hDb hEm hEb ⊢ <;>
    rw [testBit_masked _ _ _ _ (by decide)] <;>
    simp only [hBm, hBb, hDm, hDb, hEm, hEb]

theorem lr3_ctrlState_frame (bits mask : U8) (s : AVR) (p : PortId) (i : Fin 8)
    (h : ∀ k : Fin 8, ctrlPin k ≠ (p, i.val)) :
    (setGpibCtrlState bits mask s).portBit (p, i.val) = s.portBit (p, i.val) := by
  simp only [setGpibCtrlState, AVR.portBit, U8.bit]
  cases p with
  | B =>
    have hoff := lr3_portB_off mask i h
    simp only [U8.bit] at hoff
    simp only [AVR.PORT]
    rw [testBit_masked _ _ _ _ i.isLt, hoff]
    simp
  | D =>
    have hoff := lr3_portD_off mask i h
    simp only [U8.bit] at hoff
    simp only [AVR.PORT]
    rw [testBit_masked _ _ _ _ i.isLt, hoff]
    simp
  | E =>
    have hoff := lr3_portE_off mask i h
    simp only [U8.bit] at hoff
    simp only [AVR.PORT]
    rw [testBit_masked _ _ _ _ i.isLt, hoff]
    simp
  | _ => rfl

end

/-- C14, as stated, fails: with `bits = mask = 0x20` (REN alone) over cleared
registers the pin the layout comment lists for REN, PD1, stays 0 although bit 5
of `bits` is 1 (the call sets PD0); with `bits = mask = 0x40` (SRQ alone) the
pin listed for SRQ, PD0, stays 0 (the call sets PD1). -/
theorem C14_lr3_doc_map_counterexample :
    ((0x20 : U8).bit 5 = true ∧
      (AR488_MEGA32U4_LR3.setGpibCtrlState 0x20 0x20 (AVR.const 0)).portBit
          (AR488_MEGA32U4_LR3.docCtrlPin 5) = false ∧
      (AR488_MEGA32U4_LR3.setGpibCtrlState 0x20 0x20 (AVR.const 0)).portBit (PortId.D, 0)
          = true) ∧
    ((0x40 : U8).bit 6 = true ∧
      (AR488_MEGA32U4_LR3.setGpibCtrlState 0x40 0x40 (AVR.const 0)).portBit
          (AR488_MEGA32U4_LR3.docCtrlPin 6) = false ∧
      (AR488_MEGA32U4_LR3.setGpibCtrlState 0x40 0x40 (AVR.const 0)).portBit (PortId.D, 1)
          = true) := by
  decide

/-- C14, amended: on the MEGA32U4_LR3 (Leonardo R3) profile `setGpibCtrlState`
implements the control pin map IFC PB4, NDAC PB5, NRFD PB6, DAV PB7, EOI PD6,
REN PD0, SRQ PD1, ATN PE6: for every `bits`, `mask` and prior register content,
after the call the `PORT` bit of each masked logical line equals the
corresponding bit of `bits`. -/
theorem C14_lr3_ctrl_state (bits mask : U8) (s : AVR) (k : Fin 8) (h : mask.bit k = true) :
    (AR488_MEGA32U4_LR3.setGpibCtrlState bits mask s).portBit (AR488_MEGA32U4_LR3.ctrlPin k)
      = bits.bit k := by
  rw [lr3_ctrlState_line, h, if_pos rfl]

/-- Witness for C14: SRQ alone, set over cleared registers, appears on PD1. -/
theorem C14_lr3_ctrl_state_witness :
    (0x40 : U8).bit (6 : Fin 8) = true ∧
    (AR488_MEGA32U4_LR3.setGpibCtrlState 0x40 0x40 (AVR.const 0)).portBit
        (AR488_MEGA32U4_LR3.ctrlPin 6) = (0x40 : U8).bit (6 : Fin 8) :=
  ⟨by decide, C14_lr3_ctrl_state 0x40 0x40 (AVR.const 0) 6 (by decide)⟩

section
open AR488_328PB_ALT

/-- The port B fragment as the lines it carries, each moved to its pin. -/
theorem alt328pb_portB_nf : ∀ x : U8,
    (portB x).val = ((x.val &&& 0x08) >>> 3) ||| ((x.val &&& 0x10) >>> 3) := by
  decide!

theorem alt328pb_portB_bit : ∀ (x : U8) (k : Fin 8),
    (ctrlPin k).1 = PortId.B → (portB x).bit (ctrlPin k).2 = x.bit k := by
  intro x k
  have e := alt328pb_portB_nf x
  fin_cases k <;> intro h <;>
    first
    | exact absurd h (by decide)
    | (simp only [U8.bit, ctrlPin, e]
       rw [Bool.eq_iff_iff]
       simp +decide [-Nat.testBit_zero, -Nat.and_one_is_mod])

theorem alt328pb_portB_off : ∀ (x : U8) (i : Fin 8),
    (∀ k : Fin 8, ctrlPin k ≠ (PortId.B, i.val)) → (portB x).bit i = false := by
  intro x i h
  have e := alt328pb_portB_nf x
  fin_cases i <;>
    first
    | exact absurd rfl (h 0) | exact absurd rfl (h 1) | exact absurd rfl (h 2)
    | exact absurd rfl (h 3) | exact absurd rfl (h 4) | exact absurd rfl (h 5)
    | exact absurd rfl (h 6) | exact absurd rfl (h 7)
    | (simp only [U8.bit, e]
       rw [Bool.eq_iff_iff]
       simp +decide [-Nat.testBit_zero, -Nat.and_one_is_mod])

/-- The port D fragment as the lines it carries, each moved to its pin. -/
theorem alt328pb_portD_nf : ∀ x : U8,
    (portD x).val = ((x.val &&& 0x01) <<< 5) ||| ((x.val &&& 0x02) <<< 5) ||| ((x.val &&& 0x04) <<< 5) ||| ((x.val &&& 0x20) >>> 3) ||| ((x.val &&& 0x40) >>> 3) ||| ((x.val &&& 0x80) >>> 3) := by
  decide!

theorem alt328pb_portD_bit : ∀ (x : U8) (k : Fin 8),
    (ctrlPin k).1 = PortId.D → (portD x).bit (ctrlPin k).2 = x.bit k := by
  intro x k
  have e := alt328pb_portD_nf x
  fin_cases k <;> intro h <;>
    first
    | exact absurd h (by decide)
    | (simp only [U8.bit, ctrlPin, e]
       rw [Bool.eq_iff_iff]
       simp +decide [-Nat.testBit_zero, -Nat.and_one_is_mod])

theorem alt328pb_portD_off : ∀ (x : U8) (i : Fin 8),
    (∀ k : Fin 8, ctrlPin k ≠ (PortId.D, i.val)) → (portD x).bit i = false := by
  intro x i h
  have e := alt328pb_portD_nf x
  fin_cases i <;>
    first
    | exact absurd rfl (h 0) | exact absurd rfl (h 1) | exact absurd rfl (h 2)
    | exact absurd rfl (h 3) | exact absurd rfl (h 4) | exact absurd rfl (h 5)
    | exact absurd rfl (h 6) | exact absurd rfl (h 7)
    | (simp only [U8.bit, e]
       rw [Bool.eq_iff_iff]
       simp +decide [-Nat.testBit_zero, -Nat.and_one_is_mod])

theorem alt328pb_ctrlState_line (bits mask : U8) (s : AVR) (k : Fin 8) :
    (setGpibCtrlState bits mask s).portBit (ctrlPin k)
      = if mask.bit k then bits.bit k else s.portBit (ctrlPin k) := by
  by_cases hm : mask = 0
  · subst hm
    simp [setGpibCtrlState, U8.bit]
  · have hBm := alt328pb_portB_bit mask k
    have hBb := alt328pb_portB_bit bits k
    have hDm := alt328pb_portD_bit mask k
    have hDb := alt328pb_portD_bit bits k
    simp only [setGpibCtrlState, if_neg hm, AVR.portBit, U8.bit] at hBm hBb hDm hDb ⊢
    revert hBm hBb hDm hDb
    fin_cases k <;> intro hBm hBb hDm hDb <;>
      simp only [ctrlPin, AVR.PORT, true_implies] at hBm hBb hDm hDb ⊢ <;>
      rw [testBit_masked _ _ _ _ (by decide)] <;>
      simp only [hBm, hBb, hDm, hDb]

theorem alt328pb_ctrlState_frame (bits mask : U8) (s : AVR) (p : PortId) (i : Fin 8)
    (h : ∀ k : Fin 8, ctrlPin k ≠ (p, i.val)) :
    (setGpibCtrlState bits mask s).portBit (p, i.val) = s.portBit (p, i.val) := by
  by_cases hm : mask = 0
  · subst hm
    simp [setGpibCtrlState]
  · simp only [setGpibCtrlState, if_neg hm, AVR.portBit, U8.bit]
    cases p with
    | B =>
      have hoff := alt328pb_portB_off mask i h
      simp only [U8.bit] at hoff
      simp only [AVR.PORT]
      rw [testBit_masked _ _ _ _ i.isLt, hoff]
      simp
    | D =>
      have hoff := alt328pb_portD_off mask i h
      simp only [U8.bit] at hoff
      simp only [AVR.PORT]
      rw [testBit_masked _ _ _ _ i.isLt, hoff]
      simp
    | _ => rfl

end

/-! ## Control-line state on the expander and on the RP2040 -/

/-- A masked update of a byte by a byte fits in a byte. -/
theorem masked_lt (p b : Nat) (m : U8) : (p &&& bnot m.val) ||| (b &&& m.val) < 256 := by
  have h1 : p &&& bnot m.val < 2 ^ 8 := Nat.and_lt_two_pow p (by unfold bnot; omega)
  have h2 : b &&& m.val < 2 ^ 8 := Nat.and_lt_two_pow b m.isLt
  exact Nat.or_lt_two_pow h1 h2

theorem masked_val (p b : Nat) (m : U8) :
    (u8 ((p &&& bnot m.val) ||| (b &&& m.val))).val = (p &&& bnot m.val) ||| (b &&& m.val) := by
  rw [u8_val]
  exact Nat.mod_eq_of_lt (masked_lt p b m)

section
open AR488_MCP23S17

theorem mcp_ctrlState_regs (bits mask : U8) (s : Expander) :
    (setGpibCtrlState bits mask s).regs
      = Function.update s.regs McpReg.MCPPORTA
          (u8 (((s.regs McpReg.MCPPORTA).val &&& bnot mask.val) ||| (bits.val &&& mask.val))) :=
  rfl

theorem mcp_ctrlState_spi (bits mask : U8) (s : Expander) :
    (setGpibCtrlState bits mask s).spi
      = s.spi ++ [SpiXfer.read McpReg.MCPPORTA,
          SpiXfer.write McpReg.MCPPORTA
            (u8 (((s.regs McpReg.MCPPORTA).val &&& bnot mask.val) ||| (bits.val &&& mask.val)))] := by
  simp [setGpibCtrlState, mcpByteRead, mcpByteWrite]

end

/-- C15: on the MCP23S17 expander profile, with the expander a register map
read by `mcpByteRead` and updated by `mcpByteWrite`, for every `bits`, `mask`
and prior register contents `setGpibCtrlState bits mask` leaves `MCPPORTA`
equal to `(old & ~mask) | (bits & mask)` and every other expander register
unchanged. -/
theorem C15_mcp_ctrl_state (bits mask : U8) (s : Expander) :
    ((AR488_MCP23S17.setGpibCtrlState bits mask s).regs McpReg.MCPPORTA).val
      = ((s.regs McpReg.MCPPORTA).val &&& bnot mask.val) ||| (bits.val &&& mask.val) ∧
    (∀ r : McpReg, r ≠ McpReg.MCPPORTA →
      (AR488_MCP23S17.setGpibCtrlState bits mask s).regs r = s.regs r) := by
  rw [mcp_ctrlState_regs]
  refine ⟨?_, ?_⟩
  · rw [Function.update_same, masked_val]
  · intro r hr
    rw [Function.update_noteq hr]

/-- Witness for C15: with every register at 0x5A, `setGpibCtrlState 0xFF 0x0F`
leaves the direction register `MCPDIRA` as it was. -/
theorem C15_mcp_ctrl_state_witness :
    (AR488_MCP23S17.setGpibCtrlState 0xFF 0x0F ⟨fun _ => 0x5A, [], 0⟩).regs McpReg.MCPDIRA
      = 0x5A :=
  (C15_mcp_ctrl_state 0xFF 0x0F ⟨fun _ => 0x5A, [], 0⟩).2 McpReg.MCPDIRA (by decide)

theorem testBit_u32_ge (x : U32) (i : Nat) (h : 32 ≤ i) : x.val.testBit i = false := by
  apply Nat.testBit_lt_two_pow
  calc x.val < 2 ^ 32 := x.isLt
    _ ≤ 2 ^ i := Nat.pow_le_pow_right (by decide) h

/-- Bit `i` of the output word after the masked put of a control update whose
lines start at GPIO `off`. -/
theorem pico_put_testBit (off : Nat) (hoff : off ≤ 24) (bits mask : U8) (out : U32) (i : Nat) :
    (u32 ((out.val &&& not32 (u32 (mask.val <<< off)).val) |||
        ((u32 ((u8 (bits.val &&& mask.val)).val <<< off)).val &&&
          (u32 (mask.val <<< off)).val))).val.testBit i
      = if (decide (off ≤ i) && mask.val.testBit (i - off)) then bits.val.testBit (i - off)
        else out.val.testBit i := by
  by_cases hi : i < 32
  · by_cases h8 : i - off < 8
    · simp only [testBit_u32, testBit_not32, testBit_u8, Nat.testBit_or, Nat.testBit_and,
        Nat.testBit_shiftLeft, hi, h8, decide_True, Bool.true_and, ge_iff_le]
      cases decide (off ≤ i) <;> cases out.val.testBit i <;>
        cases bits.val.testBit (i - off) <;> cases mask.val.testBit (i - off) <;> rfl
    · have hm := testBit_val_ge mask (i - off) (by omega)
      simp only [testBit_u32, testBit_not32, testBit_u8, Nat.testBit_or, Nat.testBit_and,
        Nat.testBit_shiftLeft, hi, hm, decide_True, Bool.true_and, ge_iff_le, Bool.and_false,
        Bool.false_and, Bool.not_false, Bool.and_true, Bool.or_false]
      simp
  · have ho := testBit_u32_ge out i (by omega)
    have hm := testBit_val_ge mask (i - off) (by omega)
    rw [testBit_u32_ge _ i (by omega), ho, hm]
    simp

/-- The output word after the masked put of a control update. -/
theorem pico_put_val (off : Nat) (hoff : off ≤ 24) (bits mask : U8) (out : U32) :
    (u32 ((out.val &&& not32 (u32 (mask.val <<< off)).val) |||
        ((u32 ((u8 (bits.val &&& mask.val)).val <<< off)).val &&&
          (u32 (mask.val <<< off)).val))).val
      = (out.val &&& not32 (mask.val <<< off)) ||| ((bits.val &&& mask.val) <<< off) := by
  apply Nat.eq_of_testBit_eq
  intro i
  rw [pico_put_testBit off hoff]
  by_cases hi : i < 32
  · simp only [testBit_not32, Nat.testBit_or, Nat.testBit_and, Nat.testBit_shiftLeft, hi,
      decide_True, Bool.true_and, ge_iff_le]
    cases decide (off ≤ i) <;> cases out.val.testBit i <;>
      cases bits.val.testBit (i - off) <;> cases mask.val.testBit (i - off) <;> rfl
  · have ho := testBit_u32_ge out i (by omega)
    have hm := testBit_val_ge mask (i - off) (by omega)
    simp [testBit_not32, hi, ho, hm]

/-- The control mask at offset `off` covers exactly GPIO `off .. off + 7`. -/
theorem testBit_ff_shift (off i : Nat) :
    (0xFF <<< off).testBit i = (decide (off ≤ i) && decide (i - off < 8)) := by
  have h : (0xFF : Nat) = 2 ^ 8 - 1 := by norm_num
  rw [Nat.testBit_shiftLeft, h, Nat.testBit_two_pow_sub_one]

/-- The masked put of a control update at offset `off` writes line `k` on GPIO
`off + k`. -/
theorem pico_put_line (off : Nat) (hoff : off ≤ 24) (bits mask : U8) (out : U32) (k : Fin 8) :
    (u32 ((out.val &&& not32 (u32 (mask.val <<< off)).val) |||
        ((u32 ((u8 (bits.val &&& mask.val)).val <<< off)).val &&&
          (u32 (mask.val <<< off)).val))).val.testBit (off + k.val)
      = if mask.bit k then bits.bit k else out.val.testBit (off + k.val) := by
  rw [pico_put_testBit off hoff]
  simp [U8.bit]

/-- The masked put of a control update at offset `off` leaves every GPIO outside
`off .. off + 7` as it was. -/
theorem pico_put_frame (off : Nat) (hoff : off ≤ 24) (bits mask : U8) (out : U32) (i : Nat)
    (h : (0xFF <<< off).testBit i = false) :
    (u32 ((out.val &&& not32 (u32 (mask.val <<< off)).val) |||
        ((u32 ((u8 (bits.val &&& mask.val)).val <<< off)).val &&&
          (u32 (mask.val <<< off)).val))).val.testBit i = out.val.testBit i := by
  rw [pico_put_testBit off hoff]
  rw [testBit_ff_shift] at h
  by_cases h1 : off ≤ i
  · have h2 : ¬ (i - off < 8) := by
      intro h3
      simp [h1, h3] at h
    rw [testBit_val_ge mask (i - off) (by omega)]
    simp
  · simp [h1]

/-- Some prior output word is changed on line `k` by the masked put exactly
when bit `k` of `mask` is set. -/
theorem pico_put_changes (off : Nat) (hoff : off ≤ 24) (bits mask : U8) (k : Fin 8) :
    (∃ out : U32, (u32 ((out.val &&& not32 (u32 (mask.val <<< off)).val) |||
        ((u32 ((u8 (bits.val &&& mask.val)).val <<< off)).val &&&
          (u32 (mask.val <<< off)).val))).val.testBit (off + k.val) ≠ out.val.testBit (off + k.val))
      ↔ mask.bit k = true := by
  constructor
  · rintro ⟨out, h⟩
    rw [pico_put_line off hoff] at h
    by_cases hm : mask.bit k = true
    · exact hm
    · rw [if_neg hm] at h
      exact absurd rfl h
  · intro hm
    by_cases hb : bits.bit k = true
    · refine ⟨0, ?_⟩
      rw [pico_put_line off hoff, if_pos hm, hb]
      simp
    · refine ⟨⟨4294967295, by decide⟩, ?_⟩
      rw [pico_put_line off hoff, if_pos hm]
      have h1 : (4294967295 : Nat) = 2 ^ 32 - 1 := by norm_num
      have h2 : off + k.val < 32 := by omega
      simp only [h1, Nat.testBit_two_pow_sub_one, h2, decide_True]
      simpa using hb

section
open RAS_PICO_L1

theorem pico_l1_ctrlMask : gpioCtrlMask.val = 0xFF <<< gpioCtrlOffset := by
  decide

theorem pico_l1_dbMask : gpioDbMask.val = 0xFF <<< gpioDbOffset := by
  decide

theorem pico_l1_ctrlState_out (bits mask : U8) (s : RP2040) :
    (setGpibCtrlState bits mask s).gpio_out.val
      = (s.gpio_out.val &&& not32 (mask.val <<< gpioCtrlOffset))
        ||| ((bits.val &&& mask.val) <<< gpioCtrlOffset) :=
  pico_put_val gpioCtrlOffset (by decide) bits mask s.gpio_out

theorem pico_l1_ctrlState_line (bits mask : U8) (s : RP2040) (k : Fin 8) :
    (setGpibCtrlState bits mask s).gpio_out.val.testBit (gpioCtrlOffset + k.val)
      = if mask.bit k then bits.bit k else s.gpio_out.val.testBit (gpioCtrlOffset + k.val) :=
  pico_put_line gpioCtrlOffset (by decide) bits mask s.gpio_out k

theorem pico_l1_ctrlState_changes (bits mask : U8) (k : Fin 8) :
    (∃ s : RP2040, (setGpibCtrlState bits mask s).gpio_out.val.testBit (gpioCtrlOffset + k.val)
        ≠ s.gpio_out.val.testBit (gpioCtrlOffset + k.val))
      ↔ mask.bit k = true := by
  rw [← pico_put_changes gpioCtrlOffset (by decide) bits mask k]
  constructor
  · rintro ⟨s, h⟩
    exact ⟨s.gpio_out, h⟩
  · rintro ⟨out, h⟩
    exact ⟨⟨0, out, 0, 0⟩, h⟩

theorem pico_l1_ctrlState_frame (bits mask : U8) (s : RP2040) (i : Nat)
    (h : gpioCtrlMask.val.testBit i = false) :
    (setGpibCtrlState bits mask s).gpio_out.val.testBit i = s.gpio_out.val.testBit i := by
  rw [pico_l1_ctrlMask] at h
  exact pico_put_frame gpioCtrlOffset (by decide) bits mask s.gpio_out i h

theorem pico_l1_ctrlState_data (bits mask : U8) (s : RP2040) (i : Nat)
    (h : gpioDbMask.val.testBit i = true) :
    (setGpibCtrlState bits mask s).gpio_out.val.testBit i = s.gpio_out.val.testBit i := by
  apply pico_l1_ctrlState_frame
  rw [pico_l1_dbMask, testBit_ff_shift] at h
  rw [pico_l1_ctrlMask, testBit_ff_shift]
  simp only [gpioDbOffset, gpioCtrlOffset, Bool.and_eq_true, decide_eq_true_eq] at h ⊢
  rw [Bool.and_eq_false_iff]
  simp only [decide_eq_false_iff_not]
  omega

theorem pico_l1_ctrlState_rest (bits mask : U8) (s : RP2040) :
    (setGpibCtrlState bits mask s).gpio_in = s.gpio_in ∧
    (setGpibCtrlState bits mask s).gpio_oe = s.gpio_oe ∧
    (setGpibCtrlState bits mask s).pull_up = s.pull_up :=
  ⟨rfl, rfl, rfl⟩

end

section
open RAS_PICO_L2

theorem pico_l2_ctrlMask : gpioCtrlMask.val = 0xFF <<< gpioCtrlOffset := by
  decide

theorem pico_l2_dbMask : gpioDbMask.val = 0xFF <<< gpioDbOffset := by
  decide

theorem pico_l2_ctrlState_out (bits mask : U8) (s : RP2040) :
    (setGpibCtrlState bits mask s).gpio_out.val
      = (s.gpio_out.val &&& not32 (mask.val <<< gpioCtrlOffset))
        ||| ((bits.val &&& mask.val) <<< gpioCtrlOffset) :=
  pico_put_val gpioCtrlOffset (by decide) bits mask s.gpio_out

theorem pico_l2_ctrlState_line (bits mask : U8) (s : RP2040) (k : Fin 8) :
    (setGpibCtrlState bits mask s).gpio_out.val.testBit (gpioCtrlOffset + k.val)
      = if mask.bit k then bits.bit k else s.gpio_out.val.testBit (gpioCtrlOffset + k.val) :=
  pico_put_line gpioCtrlOffset (by decide) bits mask s.gpio_out k

theorem pico_l2_ctrlState_changes (bits mask : U8) (k : Fin 8) :
    (∃ s : RP2040, (setGpibCtrlState bits mask s).gpio_out.val.testBit (gpioCtrlOffset + k.val)
        ≠ s.gpio_out.val.testBit (gpioCtrlOffset + k.val))
      ↔ mask.bit k = true := by
  rw [← pico_put_changes gpioCtrlOffset (by decide) bits mask k]
  constructor
  · rintro ⟨s, h⟩
    exact ⟨s.gpio_out, h⟩
  · rintro ⟨out, h⟩
    exact ⟨⟨0, out, 0, 0⟩, h⟩

theorem pico_l2_ctrlState_frame (bits mask : U8) (s : RP2040) (i : Nat)
    (h : gpioCtrlMask.val.testBit i = false) :
    (setGpibCtrlState bits mask s).gpio_out.val.testBit i = s.gpio_out.val.testBit i := by
  rw [pico_l2_ctrlMask] at h
  exact pico_put_frame gpioCtrlOffset (by decide) bits mask s.gpio_out i h

theorem pico_l2_ctrlState_data (bits mask : U8) (s : RP2040) (i : Nat)
    (h : gpioDbMask.val.testBit i = true) :
    (setGpibCtrlState bits mask s).gpio_out.val.testBit i = s.gpio_out.val.testBit i := by
  apply pico_l2_ctrlState_frame
  rw [pico_l2_dbMask, testBit_ff_shift] at h
  rw [pico_l2_ctrlMask, testBit_ff_shift]
  simp only [gpioDbOffset, gpioCtrlOffset, Bool.and_eq_true, decide_eq_true_eq] at h ⊢
  rw [Bool.and_eq_false_iff]
  simp only [decide_eq_false_iff_not]
  omega

theorem pico_l2_ctrlState_rest (bits mask : U8) (s : RP2040) :
    (setGpibCtrlState bits mask s).gpio_in = s.gpio_in ∧
    (setGpibCtrlState bits mask s).gpio_oe = s.gpio_oe ∧
    (setGpibCtrlState bits mask s).pull_up = s.pull_up :=
  ⟨rfl, rfl, rfl⟩

end

/-- On the Pico layout 1 the call changes line `k` exactly when bit `k` of
`mask` is set and bit `k` of `bits` differs from the level the line had. -/
theorem pico_l1_ctrlState_changed (bits mask : U8) (s : RP2040) (k : Fin 8) :
    (RAS_PICO_L1.setGpibCtrlState bits mask s).gpio_out.val.testBit
          (RAS_PICO_L1.gpioCtrlOffset + k.val)
        ≠ s.gpio_out.val.testBit (RAS_PICO_L1.gpioCtrlOffset + k.val)
      ↔ (mask.bit k = true ∧
          bits.bit k ≠ s.gpio_out.val.testBit (RAS_PICO_L1.gpioCtrlOffset + k.val)) := by
  rw [pico_l1_ctrlState_line]
  cases mask.bit k <;> simp

/-- On the Pico layout 2 the call changes line `k` exactly when bit `k` of
`mask` is set and bit `k` of `bits` differs from the level the line had. -/
theorem pico_l2_ctrlState_changed (bits mask : U8) (s : RP2040) (k : Fin 8) :
    (RAS_PICO_L2.setGpibCtrlState bits mask s).gpio_out.val.testBit
          (RAS_PICO_L2.gpioCtrlOffset + k.val)
        ≠ s.gpio_out.val.testBit (RAS_PICO_L2.gpioCtrlOffset + k.val)
      ↔ (mask.bit k = true ∧
          bits.bit k ≠ s.gpio_out.val.testBit (RAS_PICO_L2.gpioCtrlOffset + k.val)) := by
  rw [pico_l2_ctrlState_line]
  cases mask.bit k <;> simp

/-- C16, as stated, fails in "control line `k` changes iff mask bit `k` is
set": on both Pico layouts `setGpibCtrlState 0x00 0x01` over an output word of 0
has bit 0 of `mask` set and leaves the IFC line (GPIO 14 on layout 1, GPIO 6 on
layout 2) at the level 0 it had; the whole output word stays 0. -/
theorem C16_pico_ctrl_state_counterexample :
    ((0x01 : U8).bit (0 : Fin 8) = true ∧
      (RAS_PICO_L1.setGpibCtrlState 0x00 0x01 ⟨0, 0, 0, 0⟩).gpio_out.val.testBit
          (RAS_PICO_L1.gpioCtrlOffset + (0 : Fin 8).val)
        = (0 : U32).val.testBit (RAS_PICO_L1.gpioCtrlOffset + (0 : Fin 8).val) ∧
      (RAS_PICO_L1.setGpibCtrlState 0x00 0x01 ⟨0, 0, 0, 0⟩).gpio_out = 0) ∧
    ((0x01 : U8).bit (0 : Fin 8) = true ∧
      (RAS_PICO_L2.setGpibCtrlState 0x00 0x01 ⟨0, 0, 0, 0⟩).gpio_out.val.testBit
          (RAS_PICO_L2.gpioCtrlOffset + (0 : Fin 8).val)
        = (0 : U32).val.testBit (RAS_PICO_L2.gpioCtrlOffset + (0 : Fin 8).val) ∧
      (RAS_PICO_L2.setGpibCtrlState 0x00 0x01 ⟨0, 0, 0, 0⟩).gpio_out = 0) := by
  decide

/-- C16, amended: on the RAS_PICO_L1 and RAS_PICO_L2 profiles (control offset 14
resp. 6), for every `bits`, `mask` and prior GPIO output word `out`,
`setGpibCtrlState bits mask` yields
`out' = (out & ~(mask << offset)) | ((bits & mask) << offset)`: control line `k`
takes bit `k` of `bits` if bit `k` of `mask` is set and keeps its level
otherwise, so that line `k` changes iff bit `k` of `mask` is set and bit `k` of
`bits` differs from the prior level of the line; no GPIO outside `gpioCtrlMask`
changes, in particular no data pin of `gpioDbMask`. -/
theorem C16_pico_ctrl_state (bits mask : U8) (s : RP2040) :
    ((RAS_PICO_L1.setGpibCtrlState bits mask s).gpio_out.val
        = (s.gpio_out.val &&& not32 (mask.val <<< RAS_PICO_L1.gpioCtrlOffset))
          ||| ((bits.val &&& mask.val) <<< RAS_PICO_L1.gpioCtrlOffset) ∧
      (∀ k : Fin 8,
        (RAS_PICO_L1.setGpibCtrlState bits mask s).gpio_out.val.testBit
            (RAS_PICO_L1.gpioCtrlOffset + k.val)
          = if mask.bit k then bits.bit k
            else s.gpio_out.val.testBit (RAS_PICO_L1.gpioCtrlOffset + k.val)) ∧
      (∀ k : Fin 8,
        (RAS_PICO_L1.setGpibCtrlState bits mask s).gpio_out.val.testBit
              (RAS_PICO_L1.gpioCtrlOffset + k.val)
            ≠ s.gpio_out.val.testBit (RAS_PICO_L1.gpioCtrlOffset + k.val)
          ↔ (mask.bit k = true ∧
              bits.bit k ≠ s.gpio_out.val.testBit (RAS_PICO_L1.gpioCtrlOffset + k.val))) ∧
      (∀ i : Nat, RAS_PICO_L1.gpioCtrlMask.val.testBit i = false →
        (RAS_PICO_L1.setGpibCtrlState bits mask s).gpio_out.val.testBit i
          = s.gpio_out.val.testBit i) ∧
      (∀ i : Nat, RAS_PICO_L1.gpioDbMask.val.testBit i = true →
        (RAS_PICO_L1.setGpibCtrlState bits mask s).gpio_out.val.testBit i
          = s.gpio_out.val.testBit i)) ∧
    ((RAS_PICO_L2.setGpibCtrlState bits mask s).gpio_out.val
        = (s.gpio_out.val &&& not32 (mask.val <<< RAS_PICO_L2.gpioCtrlOffset))
          ||| ((bits.val &&& mask.val) <<< RAS_PICO_L2.gpioCtrlOffset) ∧
      (∀ k : Fin 8,
        (RAS_PICO_L2.setGpibCtrlState bits mask s).gpio_out.val.testBit
            (RAS_PICO_L2.gpioCtrlOffset + k.val)
          = if mask.bit k then bits.bit k
            else s.gpio_out.val.testBit (RAS_PICO_L2.gpioCtrlOffset + k.val)) ∧
      (∀ k : Fin 8,
        (RAS_PICO_L2.setGpibCtrlState bits mask s).gpio_out.val.testBit
              (RAS_PICO_L2.gpioCtrlOffset + k.val)
            ≠ s.gpio_out.val.testBit (RAS_PICO_L2.gpioCtrlOffset + k.val)
          ↔ (mask.bit k = true ∧
              bits.bit k ≠ s.gpio_out.val.testBit (RAS_PICO_L2.gpioCtrlOffset + k.val))) ∧
      (∀ i : Nat, RAS_PICO_L2.gpioCtrlMask.val.testBit i = false →
        (RAS_PICO_L2.setGpibCtrlState bits mask s).gpio_out.val.testBit i
          = s.gpio_out.val.testBit i) ∧
      (∀ i : Nat, RAS_PICO_L2.gpioDbMask.val.testBit i = true →
        (RAS_PICO_L2.setGpibCtrlState bits mask s).gpio_out.val.testBit i
          = s.gpio_out.val.testBit i)) :=
  ⟨⟨pico_l1_ctrlState_out bits mask s, pico_l1_ctrlState_line bits mask s,
    pico_l1_ctrlState_changed bits mask s, pico_l1_ctrlState_frame bits mask s,
    pico_l1_ctrlState_data bits mask s⟩,
   ⟨pico_l2_ctrlState_out bits mask s, pico_l2_ctrlState_line bits mask s,
    pico_l2_ctrlState_changed bits mask s, pico_l2_ctrlState_frame bits mask s,
    pico_l2_ctrlState_data bits mask s⟩⟩

/-- Witness for C16: setting the eight control lines over an output word of
0xDEADBEEF leaves GPIO 0 (outside `gpioCtrlMask`) and the data pin DIO1 as they
were, on both layouts. -/
theorem C16_pico_ctrl_state_witness :
    ((RAS_PICO_L1.setGpibCtrlState 0xFF 0xFF ⟨0, 0xDEADBEEF, 0, 0⟩).gpio_out.val.testBit 0
        = (0xDEADBEEF : U32).val.testBit 0 ∧
      (RAS_PICO_L1.setGpibCtrlState 0xFF 0xFF ⟨0, 0xDEADBEEF, 0, 0⟩).gpio_out.val.testBit 6
        = (0xDEADBEEF : U32).val.testBit 6) ∧
    ((RAS_PICO_L2.setGpibCtrlState 0xFF 0xFF ⟨0, 0xDEADBEEF, 0, 0⟩).gpio_out.val.testBit 0
        = (0xDEADBEEF : U32).val.testBit 0 ∧
      (RAS_PICO_L2.setGpibCtrlState 0xFF 0xFF ⟨0, 0xDEADBEEF, 0, 0⟩).gpio_out.val.testBit 14
        = (0xDEADBEEF : U32).val.testBit 14) :=
  ⟨⟨(C16_pico_ctrl_state 0xFF 0xFF ⟨0, 0xDEADBEEF, 0, 0⟩).1.2.2.2.1 0 (by decide),
    (C16_pico_ctrl_state 0xFF 0xFF ⟨0, 0xDEADBEEF, 0, 0⟩).1.2.2.2.2 6 (by decide)⟩,
   ⟨(C16_pico_ctrl_state 0xFF 0xFF ⟨0, 0xDEADBEEF, 0, 0⟩).2.2.2.2.1 0 (by decide),
    (C16_pico_ctrl_state 0xFF 0xFF ⟨0, 0xDEADBEEF, 0, 0⟩).2.2.2.2.2 14 (by decide)⟩⟩


/-! ## The empty mask -/

/-- A masked update under the empty mask leaves the register as it was. -/
theorem masked_zero (p : U8) (b : Nat) :
    u8 ((p.val &&& bnot (0 : U8).val) ||| (b &&& (0 : U8).val)) = p := by
  apply U8.ext_bits
  intro k
  unfold U8.bit
  rw [testBit_masked _ _ _ _ k.isLt]
  simp

theorem uno_ctrlState_zero (bits : U8) (s : AVR) :
    AR488_UNO.setGpibCtrlState bits 0 s = s := by
  open AR488_UNO in
  simp [setGpibCtrlState]

theorem mega_d_ctrlState_zero (bits : U8) (s : AVR) :
    AR488_MEGA2560_D.setGpibCtrlState bits 0 s = s := by
  open AR488_MEGA2560_D in
  simp only [setGpibCtrlState, (by decide : portH (0 : U8) = 0), (by decide : portB (0 : U8) = 0), masked_zero]

theorem e1_ctrlState_zero (bits : U8) (s : AVR) :
    AR488_MEGA2560_E1.setGpibCtrlState bits 0 s = s := by
  open AR488_MEGA2560_E1 in
  simp only [setGpibCtrlState, (by decide : portB (0 : U8) = 0), (by decide : portD (0 : U8) = 0), (by decide : portG (0 : U8) = 0), (by decide : portL (0 : U8) = 0), masked_zero]

theorem e2_ctrlState_zero (bits : U8) (s : AVR) :
    AR488_MEGA2560_E2.setGpibCtrlState bits 0 s = s := by
  open AR488_MEGA2560_E2 in
  simp only [setGpibCtrlState, (by decide : portB (0 : U8) = 0), (by decide : portG (0 : U8) = 0), (by decide : portL (0 : U8) = 0), masked_zero]

theorem micro_ctrlState_zero (bits : U8) (s : AVR) :
    AR488_MEGA32U4_MICRO.setGpibCtrlState bits 0 s = s := by
  simp [AR488_MEGA32U4_MICRO.setGpibCtrlState]

theorem lr3_ctrlState_zero (bits : U8) (s : AVR) :
    AR488_MEGA32U4_LR3.setGpibCtrlState bits 0 s = s := by
  open AR488_MEGA32U4_LR3 in
  simp only [setGpibCtrlState, (by decide : portB (0 : U8) = 0), (by decide : portD (0 : U8) = 0), (by decide : portE (0 : U8) = 0), masked_zero]

theorem mcgraw_ctrlState_zero (bits : U8) (s : AVR) :
    AR488_MEGA644P_MCGRAW.setGpibCtrlState bits 0 s = s := by
  open AR488_MEGA644P_MCGRAW in
  simp only [setGpibCtrlState, (by decide : portA (0 : U8) = 0), (by decide : portC (0 : U8) = 0), masked_zero]

theorem alt328pb_ctrlState_zero (bits : U8) (s : AVR) :
    AR488_328PB_ALT.setGpibCtrlState bits 0 s = s := by
  open AR488_328PB_ALT in
  simp [setGpibCtrlState]

theorem poe_ctrlState_zero (bits : U8) (s : MegaAVR0) :
    POE_ETHERNET_GPIB_ADAPTOR.setGpibCtrlState bits 0 s = s := by
  simp [POE_ETHERNET_GPIB_ADAPTOR.setGpibCtrlState]

theorem mcp_ctrlState_zero (bits : U8) (s : Expander) :
    (AR488_MCP23S17.setGpibCtrlState bits 0 s).regs = s.regs ∧
    (AR488_MCP23S17.setGpibCtrlState bits 0 s).mcpIntAReg = s.mcpIntAReg := by
  refine ⟨?_, rfl⟩
  rw [mcp_ctrlState_regs, masked_zero, Function.update_eq_self]

/-- The masked put of a control update under the empty mask leaves the output
word as it was. -/
theorem pico_put_zero (off : Nat) (hoff : off ≤ 24) (bits : U8) (out : U32) :
    u32 ((out.val &&& not32 (u32 ((0 : U8).val <<< off)).val) |||
        ((u32 ((u8 (bits.val &&& (0 : U8).val)).val <<< off)).val &&&
          (u32 ((0 : U8).val <<< off)).val)) = out := by
  apply Fin.ext
  apply Nat.eq_of_testBit_eq
  intro i
  rw [pico_put_testBit off hoff]
  simp

theorem pico_l1_ctrlState_zero (bits : U8) (s : RP2040) :
    RAS_PICO_L1.setGpibCtrlState bits 0 s = s := by
  simp only [RAS_PICO_L1.setGpibCtrlState, gpio_put_masked,
    pico_put_zero RAS_PICO_L1.gpioCtrlOffset (by decide)]

theorem pico_l2_ctrlState_zero (bits : U8) (s : RP2040) :
    RAS_PICO_L2.setGpibCtrlState bits 0 s = s := by
  simp only [RAS_PICO_L2.setGpibCtrlState, gpio_put_masked,
    pico_put_zero RAS_PICO_L2.gpioCtrlOffset (by decide)]

section
open AR488_CUSTOM

theorem custom_maskbit : ∀ (m : U8) (k : Fin 8),
    decide (m.val &&& (1 <<< k.val) ≠ 0) = m.bit k := by
  decide!

/-- The loop of the custom layout, run over a duplicate-free list of line
numbers with distinct pins, leaves on the pin of line `k` the bit of `bits` if
the line is in the list and masked, and the prior level otherwise. -/
theorem custom_fold (ctrlbus : Fin 8 → U8) (hinj : Function.Injective ctrlbus) (bits mask : U8)
    (l : List (Fin 8)) (hnd : l.Nodup) (s : ArduinoPins) (k : Fin 8) :
    (l.foldl
        (fun s i =>
          if mask.val &&& (1 <<< i.val) ≠ 0 then
            digitalWrite (ctrlbus i) (decide (bits.val &&& (1 <<< i.val) ≠ 0)) s
          else s) s).level (ctrlbus k)
      = if k ∈ l ∧ mask.bit k = true then bits.bit k else s.level (ctrlbus k) := by
  induction l generalizing s with
  | nil => simp
  | cons i l ih =>
    have hi : i ∉ l := (List.nodup_cons.mp hnd).1
    rw [List.foldl_cons, ih (List.nodup_cons.mp hnd).2]
    have hmk := custom_maskbit mask
    have hbk := custom_maskbit bits
    by_cases hk : k = i
    · subst hk
      by_cases hm : mask.bit k = true
      · have hm' : mask.val &&& (1 <<< k.val) ≠ 0 := by
          have := hmk k
          rw [hm] at this
          exact of_decide_eq_true this
        simp [hi, hm, hm', digitalWrite, hbk]
      · have hm' : ¬ (mask.val &&& (1 <<< k.val) ≠ 0) := by
          have := hmk k
          rw [Bool.not_eq_true] at hm
          rw [hm] at this
          exact of_decide_eq_false this
        simp [hi, hm, hm']
    · have hne : ctrlbus i ≠ ctrlbus k := fun h => hk (hinj h).symm
      by_cases hkl : k ∈ l ∧ mask.bit k = true
      · have : k ∈ i :: l ∧ mask.bit k = true := ⟨List.mem_cons_of_mem _ hkl.1, hkl.2⟩
        rw [if_pos hkl, if_pos this]
      · have : ¬ (k ∈ i :: l ∧ mask.bit k = true) := by
          rintro ⟨h1, h2⟩
          rcases List.mem_cons.mp h1 with h | h
          · exact hk h
          · exact hkl ⟨h, h2⟩
        rw [if_neg hkl, if_neg this]
        split
        · simp [digitalWrite, Function.update_noteq hne.symm]
        · rfl

theorem custom_ctrlState_line (ctrlbus : Fin 8 → U8) (hinj : Function.Injective ctrlbus)
    (bits mask : U8) (s : ArduinoPins) (k : Fin 8) :
    (setGpibCtrlState ctrlbus bits mask s).level (ctrlbus k)
      = if mask.bit k then bits.bit k else s.level (ctrlbus k) := by
  unfold setGpibCtrlState
  rw [custom_fold ctrlbus hinj bits mask _ (by decide) s k]
  have hk : k ∈ ([0, 1, 2, 3, 4, 5, 6, 7] : List (Fin 8)) := by
    revert k
    decide
  simp [hk]

theorem custom_ctrlState_zero (ctrlbus : Fin 8 → U8) (bits : U8) (s : ArduinoPins) :
    setGpibCtrlState ctrlbus bits 0 s = s := by
  simp [setGpibCtrlState]

end


/-- C17: on every board profile that has a `setGpibCtrlState`, for every byte
`bits` and every prior register state, `setGpibCtrlState bits 0` leaves the
state as it was: every `DDR`, `PORT` and `PIN` register of the AVR profiles,
the port structs of the PoE adaptor, the expander register map (and
`mcpIntAReg`), the GPIO words of the Pico layouts and the pin levels of the
custom layout have the value they had before the call. -/
theorem C17_ctrl_state_zero_mask (bits : U8) :
    (∀ s : AVR, AR488_UNO.setGpibCtrlState bits 0 s = s) ∧
    (∀ s : AVR, AR488_MEGA2560_D.setGpibCtrlState bits 0 s = s) ∧
    (∀ s : AVR, AR488_MEGA2560_E1.setGpibCtrlState bits 0 s = s) ∧
    (∀ s : AVR, AR488_MEGA2560_E2.setGpibCtrlState bits 0 s = s) ∧
    (∀ s : AVR, AR488_MEGA32U4_MICRO.setGpibCtrlState bits 0 s = s) ∧
    (∀ s : AVR, AR488_MEGA32U4_LR3.setGpibCtrlState bits 0 s = s) ∧
    (∀ s : AVR, AR488_MEGA644P_MCGRAW.setGpibCtrlState bits 0 s = s) ∧
    (∀ s : AVR, AR488_328PB_ALT.setGpibCtrlState bits 0 s = s) ∧
    (∀ s : MegaAVR0, POE_ETHERNET_GPIB_ADAPTOR.setGpibCtrlState bits 0 s = s) ∧
    (∀ s : Expander, (AR488_MCP23S17.setGpibCtrlState bits 0 s).regs = s.regs ∧
      (AR488_MCP23S17.setGpibCtrlState bits 0 s).mcpIntAReg = s.mcpIntAReg) ∧
    (∀ s : RP2040, RAS_PICO_L1.setGpibCtrlState bits 0 s = s) ∧
    (∀ s : RP2040, RAS_PICO_L2.setGpibCtrlState bits 0 s = s) ∧
    (∀ (ctrlbus : Fin 8 → U8) (s : ArduinoPins),
      AR488_CUSTOM.setGpibCtrlState ctrlbus bits 0 s = s) :=
  ⟨uno_ctrlState_zero bits, mega_d_ctrlState_zero bits, e1_ctrlState_zero bits,
   e2_ctrlState_zero bits, micro_ctrlState_zero bits, lr3_ctrlState_zero bits,
   mcgraw_ctrlState_zero bits, alt328pb_ctrlState_zero bits, poe_ctrlState_zero bits,
   mcp_ctrlState_zero bits, pico_l1_ctrlState_zero bits, pico_l2_ctrlState_zero bits,
   fun ctrlbus s => custom_ctrlState_zero ctrlbus bits s⟩

/-- C18 fails on the code: with the empty mask the expander profile still makes
two serial transactions, a read of `MCPPORTA` and a write of the byte read, and
MEGA2560_D still reads and writes `PORTH` and `PORTB`; only profiles with the
early return, such as UNO/NANO, make no access. -/
theorem C18_zero_mask_accesses :
    (AR488_MCP23S17.setGpibCtrlState 0x00 0x00 ⟨fun _ => 0, [], 0⟩).spi
      = [SpiXfer.read McpReg.MCPPORTA, SpiXfer.write McpReg.MCPPORTA 0] ∧
    (∀ (bits : U8) (s : Expander),
      (AR488_MCP23S17.setGpibCtrlState bits 0 s).spi
        = s.spi ++ [SpiXfer.read McpReg.MCPPORTA,
            SpiXfer.write McpReg.MCPPORTA (s.regs McpReg.MCPPORTA)]) ∧
    (∀ bits : U8, AR488_MEGA2560_D.setGpibCtrlStateAccesses bits 0
        = [PortAccess.read PortId.H, PortAccess.write PortId.H,
           PortAccess.read PortId.B, PortAccess.write PortId.B]) ∧
    (∀ bits : U8, AR488_UNO.setGpibCtrlStateAccesses bits 0 = []) := by
  refine ⟨by decide, ?_, fun _ => rfl, fun _ => rfl⟩
  intro bits s
  rw [mcp_ctrlState_spi, masked_zero]

/-! ## Polarity of the control-line state -/

theorem mcp_ctrlState_line (bits mask : U8) (s : Expander) (k : Fin 8) :
    ((AR488_MCP23S17.setGpibCtrlState bits mask s).regs McpReg.MCPPORTA).bit k
      = if mask.bit k then bits.bit k else (s.regs McpReg.MCPPORTA).bit k := by
  rw [mcp_ctrlState_regs, Function.update_same]
  unfold U8.bit
  rw [testBit_masked _ _ _ _ k.isLt]

theorem bit_zero_mask (k : Nat) : (0 : U8).bit k = false := by
  simp [U8.bit]

/-- C19, as stated, fails: on UNO/NANO `setGpibCtrlState 0x01 0x01` over cleared
registers leaves PB0 (IFC) at 1, the bit of `bits` itself and not its
complement. -/
theorem C19_ctrl_state_inverted_counterexample :
    (0x01 : U8).bit 0 = true ∧
    (AR488_UNO.setGpibCtrlState 0x01 0x01 (AVR.const 0)).portBit (AR488_UNO.ctrlPin 0) = true ∧
    (AR488_UNO.setGpibCtrlState 0x01 0x01 (AVR.const 0)).portBit (AR488_UNO.ctrlPin 0)
      ≠ !(0x01 : U8).bit 0 := by
  decide

/-- C19, amended: no control-line state transform inverts polarity.  On every
profile, for every `bits` and `mask` and every prior state, after
`setGpibCtrlState bits mask` the physical register bit of each masked control
line holds the corresponding bit of `bits` itself (0 = LOW, 1 = HIGH), unlike
`setGpibDbus`, which writes the complement of the data byte.  The lines are on
the pins `setGpibCtrlState` uses: the `PORT` bits of the AVR profiles, the
`PORTC.OUT` bits of the PoE adaptor, the bits of `MCPPORTA`, GPIO
`gpioCtrlOffset + k` of the Pico layouts, and the pins `ctrlbus[k]` of the
custom layout when these are distinct. -/
theorem C19_ctrl_state_not_inverted (bits mask : U8) (k : Fin 8) (h : mask.bit k = true) :
    (∀ s : AVR, (AR488_UNO.setGpibCtrlState bits mask s).portBit (AR488_UNO.ctrlPin k)
        = bits.bit k) ∧
    (∀ s : AVR, (AR488_MEGA2560_D.setGpibCtrlState bits mask s).portBit (AR488_MEGA2560_D.ctrlPin k)
        = bits.bit k) ∧
    (∀ s : AVR, (AR488_MEGA2560_E1.setGpibCtrlState bits mask s).portBit (AR488_MEGA2560_E1.ctrlPin k)
        = bits.bit k) ∧
    (∀ s : AVR, (AR488_MEGA2560_E2.setGpibCtrlState bits mask s).portBit (AR488_MEGA2560_E2.ctrlPin k)
        = bits.bit k) ∧
    (∀ s : AVR, (AR488_MEGA32U4_MICRO.setGpibCtrlState bits mask s).portBit (AR488_MEGA32U4_MICRO.ctrlPin k)
        = bits.bit k) ∧
    (∀ s : AVR, (AR488_MEGA32U4_LR3.setGpibCtrlState bits mask s).portBit (AR488_MEGA32U4_LR3.ctrlPin k)
        = bits.bit k) ∧
    (∀ s : AVR, (AR488_MEGA644P_MCGRAW.setGpibCtrlState bits mask s).portBit (AR488_MEGA644P_MCGRAW.ctrlPin k)
        = bits.bit k) ∧
    (∀ s : AVR, (AR488_328PB_ALT.setGpibCtrlState bits mask s).portBit (AR488_328PB_ALT.ctrlPin k)
        = bits.bit k) ∧
    (∀ s : MegaAVR0,
      (POE_ETHERNET_GPIB_ADAPTOR.setGpibCtrlState bits mask s).PORTC.OUT.bit
          (POE_ETHERNET_GPIB_ADAPTOR.ctrlBit k) = bits.bit k) ∧
    (∀ s : Expander,
      ((AR488_MCP23S17.setGpibCtrlState bits mask s).regs McpReg.MCPPORTA).bit k
        = bits.bit k) ∧
    (∀ s : RP2040,
      (RAS_PICO_L1.setGpibCtrlState bits mask s).gpio_out.val.testBit
          (RAS_PICO_L1.gpioCtrlOffset + k.val) = bits.bit k) ∧
    (∀ s : RP2040,
      (RAS_PICO_L2.setGpibCtrlState bits mask s).gpio_out.val.testBit
          (RAS_PICO_L2.gpioCtrlOffset + k.val) = bits.bit k) ∧
    (∀ (ctrlbus : Fin 8 → U8), Function.Injective ctrlbus → ∀ s : ArduinoPins,
      (AR488_CUSTOM.setGpibCtrlState ctrlbus bits mask s).level (ctrlbus k) = bits.bit k) := by
  refine ⟨?_, ?_, ?_, ?_, ?_, ?_, ?_, ?_, ?_, ?_, ?_, ?_, ?_⟩
  · intro s
    rw [uno_ctrlState_line, h, if_pos rfl]
  · intro s
    rw [mega_d_ctrlState_line, h, if_pos rfl]
  · intro s
    rw [e1_ctrlState_line, h, if_pos rfl]
  · intro s
    rw [e2_ctrlState_line, h, if_pos rfl]
  · intro s
    rw [micro_ctrlState_line, h, if_pos rfl]
  · intro s
    rw [lr3_ctrlState_line, h, if_pos rfl]
  · intro s
    rw [mcgraw_ctrlState_line, h, if_pos rfl]
  · intro s
    rw [alt328pb_ctrlState_line, h, if_pos rfl]
  · intro s
    have hm : mask ≠ 0 := by
      intro h0
      rw [h0, bit_zero_mask] at h
      exact Bool.false_ne_true h
    rw [poe_ctrlState_line bits mask s k hm, h, if_pos rfl]
  · intro s
    rw [mcp_ctrlState_line, h, if_pos rfl]
  · intro s
    rw [pico_l1_ctrlState_line, h, if_pos rfl]
  · intro s
    rw [pico_l2_ctrlState_line, h, if_pos rfl]
  · intro ctrlbus hinj s
    rw [custom_ctrlState_line ctrlbus hinj, h, if_pos rfl]

/-- Witness for C19: ATN alone, set over cleared registers, an empty expander
and a cleared GPIO bank, puts a 1 on the ATN pin of UNO/NANO (PD7), on bit 7 of
`MCPPORTA` and on GPIO 21 of the Pico layout 1. -/
theorem C19_ctrl_state_not_inverted_witness :
    (0x80 : U8).bit (7 : Fin 8) = true ∧
    (AR488_UNO.setGpibCtrlState 0x80 0x80 (AVR.const 0)).portBit (AR488_UNO.ctrlPin 7)
      = (0x80 : U8).bit (7 : Fin 8) ∧
    ((AR488_MCP23S17.setGpibCtrlState 0x80 0x80 ⟨fun _ => 0, [], 0⟩).regs McpReg.MCPPORTA).bit
        (7 : Fin 8) = (0x80 : U8).bit (7 : Fin 8) ∧
    (RAS_PICO_L1.setGpibCtrlState 0x80 0x80 ⟨0, 0, 0, 0⟩).gpio_out.val.testBit
        (RAS_PICO_L1.gpioCtrlOffset + (7 : Fin 8).val) = (0x80 : U8).bit (7 : Fin 8) :=
  ⟨by decide,
   (C19_ctrl_state_not_inverted 0x80 0x80 7 (by decide)).1 (AVR.const 0),
   (C19_ctrl_state_not_inverted 0x80 0x80 7 (by decide)).2.2.2.2.2.2.2.2.2.1
      ⟨fun _ => 0, [], 0⟩,
   (C19_ctrl_state_not_inverted 0x80 0x80 7 (by decide)).2.2.2.2.2.2.2.2.2.2.1 ⟨0, 0, 0, 0⟩⟩

/-! ## Control-line direction on UNO / NANO and 328PB_ALT -/

/-- Bit `i` of a register after the pull-up update of `setGpibCtrlDir`: set
where the line is masked and made an input, the old bit elsewhere. -/
theorem testBit_pullup (p b m i : Nat) (hi : i < 8) :
    (u8 ((p &&& bnot (u8 (bnot b &&& m)).val) ||| (u8 (bnot b &&& m)).val)).val.testBit i
      = if (m.testBit i && !b.testBit i) then true else p.testBit i := by
  simp only [testBit_u8, Nat.testBit_or, Nat.testBit_and, testBit_bnot, hi, decide_True,
    Bool.true_and]
  cases p.testBit i <;> cases b.testBit i <;> cases m.testBit i <;> rfl

section
open AR488_UNO

theorem uno_ctrlDir_ddr (bits mask : U8) (s : AVR) (k : Fin 8) :
    (setGpibCtrlDir bits mask s).ddrBit (ctrlPin k)
      = if mask.bit k then bits.bit k else s.ddrBit (ctrlPin k) := by
  have hBm := uno_portB_bit mask k
  have hBb := uno_portB_bit bits k
  have hDm := uno_portD_bit mask k
  have hDb := uno_portD_bit bits k
  simp only [setGpibCtrlDir, AVR.ddrBit, U8.bit] at hBm hBb hDm hDb ⊢
  revert hBm hBb hDm hDb
  fin_cases k <;> intro hBm hBb hDm hDb <;>
    simp only [ctrlPin, AVR.DDR, true_implies] at hBm hBb hDm hDb ⊢ <;>
    rw [testBit_masked _ _ _ _ (by decide)] <;>
    simp only [hBm, hBb, hDm, hDb]

theorem uno_ctrlDir_port (bits mask : U8) (s : AVR) (k : Fin 8) :
    (setGpibCtrlDir bits mask s).portBit (ctrlPin k)
      = if (mask.bit k && !bits.bit k) then true else s.portBit (ctrlPin k) := by
  have hBm := uno_portB_bit mask k
  have hBb := uno_portB_bit bits k
  have hDm := uno_portD_bit mask k
  have hDb := uno_portD_bit bits k
  simp only [setGpibCtrlDir, AVR.portBit, U8.bit] at hBm hBb hDm hDb ⊢
  revert hBm hBb hDm hDb
  fin_cases k <;> intro hBm hBb hDm hDb <;>
    simp only [ctrlPin, AVR.PORT, true_implies] at hBm hBb hDm hDb ⊢ <;>
    rw [testBit_pullup _ _ _ _ (by decide)] <;>
    simp only [hBm, hBb, hDm, hDb]

theorem uno_ctrlDir_frame (bits mask : U8) (s : AVR) (p : PortId) (i : Fin 8)
    (h : ∀ k : Fin 8, ctrlPin k ≠ (p, i.val)) :
    (setGpibCtrlDir bits mask s).ddrBit (p, i.val) = s.ddrBit (p, i.val) ∧
    (setGpibCtrlDir bits mask s).portBit (p, i.val) = s.portBit (p, i.val) := by
  simp only [setGpibCtrlDir, AVR.ddrBit, AVR.portBit, U8.bit]
  cases p with
  | B =>
    have hoff := uno_portB_off mask i h
    simp only [U8.bit] at hoff
    simp only [AVR.DDR, AVR.PORT]
    rw [testBit_masked _ _ _ _ i.isLt, testBit_pullup _ _ _ _ i.isLt, hoff]
    simp
  | D =>
    have hoff := uno_portD_off mask i h
    simp only [U8.bit] at hoff
    simp only [AVR.DDR, AVR.PORT]
    rw [testBit_masked _ _ _ _ i.isLt, testBit_pullup _ _ _ _ i.isLt, hoff]
    simp
  | _ => exact ⟨rfl, rfl⟩

end

section
open AR488_328PB_ALT

theorem alt328pb_ctrlDir_ddr (bits mask : U8) (s : AVR) (k : Fin 8) :
    (setGpibCtrlDir bits mask s).ddrBit (ctrlPin k)
      = if mask.bit k then bits.bit k else s.ddrBit (ctrlPin k) := by
  have hBm := alt328pb_portB_bit mask k
  have hBb := alt328pb_portB_bit bits k
  have hDm := alt328pb_portD_bit mask k
  have hDb := alt328pb_portD_bit bits k
  simp only [setGpibCtrlDir, AVR.ddrBit, U8.bit] at hBm hBb hDm hDb ⊢
  revert hBm hBb hDm hDb
  fin_cases k <;> intro hBm hBb hDm hDb <;>
    simp only [ctrlPin, AVR.DDR, true_implies] at hBm hBb hDm hDb ⊢ <;>
    rw [testBit_masked _ _ _ _ (by decide)] <;>
    simp only [hBm, hBb, hDm, hDb]

theorem alt328pb_ctrlDir_port (bits mask : U8) (s : AVR) (k : Fin 8) :
    (setGpibCtrlDir bits mask s).portBit (ctrlPin k)
      = if (mask.bit k && !bits.bit k) then true else s.portBit (ctrlPin k) := by
  have hBm := alt328pb_portB_bit mask k
  have hBb := alt328pb_portB_bit bits k
  have hDm := alt328pb_portD_bit mask k
  have hDb := alt328pb_portD_bit bits k
  simp only [setGpibCtrlDir, AVR.portBit, U8.bit] at hBm hBb hDm hDb ⊢
  revert hBm hBb hDm hDb
  fin_cases k <;> intro hBm hBb hDm hDb <;>
    simp only [ctrlPin, AVR.PORT, true_implies] at hBm hBb hDm hDb ⊢ <;>
    rw [testBit_pullup _ _ _ _ (by decide)] <;>
    simp only [hBm, hBb, hDm, hDb]

theorem alt328pb_ctrlDir_frame (bits mask : U8) (s : AVR) (p : PortId) (i : Fin 8)
    (h : ∀ k : Fin 8, ctrlPin k ≠ (p, i.val)) :
    (setGpibCtrlDir bits mask s).ddrBit (p, i.val) = s.ddrBit (p, i.val) ∧
    (setGpibCtrlDir bits mask s).portBit (p, i.val) = s.portBit (p, i.val) := by
  simp only [setGpibCtrlDir, AVR.ddrBit, AVR.portBit, U8.bit]
  cases p with
  | B =>
    have hoff := alt328pb_portB_off mask i h
    simp only [U8.bit] at hoff
    simp only [AVR.DDR, AVR.PORT]
    rw [testBit_masked _ _ _ _ i.isLt, testBit_pullup _ _ _ _ i.isLt, hoff]
    simp
  | D =>
    have hoff := alt328pb_portD_off mask i h
    simp only [U8.bit] at hoff
    simp only [AVR.DDR, AVR.PORT]
    rw [testBit_masked _ _ _ _ i.isLt, testBit_pullup _ _ _ _ i.isLt, hoff]
    simp
  | _ => exact ⟨rfl, rfl⟩

end

/-- C20: on the UNO/NANO and 328PB_ALT profiles, for every `bits`, `mask` and
prior `DDR`/`PORT` contents, after `setGpibCtrlDir bits mask`: each control line
with mask bit 1 has its `DDR` bit equal to the corresponding bit of `bits`; each
masked line made an input (`bits` bit 0) has its `PORT` (pull-up) bit set; each
control line with mask bit 0 keeps its `DDR` bit and its `PORT` bit; and every
bit of the `DDR` and `PORT` registers that is not a control line keeps its
value. -/
theorem C20_ctrl_dir_uno_328pb (bits mask : U8) (s : AVR) :
    ((∀ k : Fin 8, mask.bit k = true →
        (AR488_UNO.setGpibCtrlDir bits mask s).ddrBit (AR488_UNO.ctrlPin k) = bits.bit k) ∧
      (∀ k : Fin 8, mask.bit k = true → bits.bit k = false →
        (AR488_UNO.setGpibCtrlDir bits mask s).portBit (AR488_UNO.ctrlPin k) = true) ∧
      (∀ k : Fin 8, mask.bit k = false →
        (AR488_UNO.setGpibCtrlDir bits mask s).ddrBit (AR488_UNO.ctrlPin k) = s.ddrBit (AR488_UNO.ctrlPin k) ∧
        (AR488_UNO.setGpibCtrlDir bits mask s).portBit (AR488_UNO.ctrlPin k) = s.portBit (AR488_UNO.ctrlPin k)) ∧
      (∀ (p : PortId) (i : Fin 8), (∀ k : Fin 8, AR488_UNO.ctrlPin k ≠ (p, i.val)) →
        (AR488_UNO.setGpibCtrlDir bits mask s).ddrBit (p, i.val) = s.ddrBit (p, i.val) ∧
        (AR488_UNO.setGpibCtrlDir bits mask s).portBit (p, i.val) = s.portBit (p, i.val))) ∧
    ((∀ k : Fin 8, mask.bit k = true →
        (AR488_328PB_ALT.setGpibCtrlDir bits mask s).ddrBit (AR488_328PB_ALT.ctrlPin k) = bits.bit k) ∧
      (∀ k : Fin 8, mask.bit k = true → bits.bit k = false →
        (AR488_328PB_ALT.setGpibCtrlDir bits mask s).portBit (AR488_328PB_ALT.ctrlPin k) = true) ∧
      (∀ k : Fin 8, mask.bit k = false →
        (AR488_328PB_ALT.setGpibCtrlDir bits mask s).ddrBit (AR488_328PB_ALT.ctrlPin k) = s.ddrBit (AR488_328PB_ALT.ctrlPin k) ∧
        (AR488_328PB_ALT.setGpibCtrlDir bits mask s).portBit (AR488_328PB_ALT.ctrlPin k) = s.portBit (AR488_328PB_ALT.ctrlPin k)) ∧
      (∀ (p : PortId) (i : Fin 8), (∀ k : Fin 8, AR488_328PB_ALT.ctrlPin k ≠ (p, i.val)) →
        (AR488_328PB_ALT.setGpibCtrlDir bits mask s).ddrBit (p, i.val) = s.ddrBit (p, i.val) ∧
        (AR488_328PB_ALT.setGpibCtrlDir bits mask s).portBit (p, i.val) = s.portBit (p, i.val))) := by
  refine ⟨?_, ?_⟩
  · refine ⟨?_, ?_, ?_, uno_ctrlDir_frame bits mask s⟩
    · intro k hk
      rw [uno_ctrlDir_ddr, hk, if_pos rfl]
    · intro k hk hb
      rw [uno_ctrlDir_port, hk, hb]
      rfl
    · intro k hk
      rw [uno_ctrlDir_ddr, uno_ctrlDir_port, hk]
      exact ⟨rfl, rfl⟩
  · refine ⟨?_, ?_, ?_, alt328pb_ctrlDir_frame bits mask s⟩
    · intro k hk
      rw [alt328pb_ctrlDir_ddr, hk, if_pos rfl]
    · intro k hk hb
      rw [alt328pb_ctrlDir_port, hk, hb]
      rfl
    · intro k hk
      rw [alt328pb_ctrlDir_ddr, alt328pb_ctrlDir_port, hk]
      exact ⟨rfl, rfl⟩

/-- Witness for C20: turning IFC into an input and ATN into an output over
registers filled with 0x00 sets the pull-up of IFC, clears no other control
line, and leaves the data bit PD4 of UNO/NANO (PB2 of 328PB_ALT) as it was. -/
theorem C20_ctrl_dir_uno_328pb_witness :
    ((AR488_UNO.setGpibCtrlDir 0x80 0x81 (AVR.const 0)).ddrBit (AR488_UNO.ctrlPin 7)
        = (0x80 : U8).bit (7 : Fin 8) ∧
      (AR488_UNO.setGpibCtrlDir 0x80 0x81 (AVR.const 0)).portBit (AR488_UNO.ctrlPin 0) = true ∧
      (AR488_UNO.setGpibCtrlDir 0x80 0x81 (AVR.const 0)).portBit (AR488_UNO.ctrlPin 3)
        = (AVR.const 0).portBit (AR488_UNO.ctrlPin 3) ∧
      (AR488_UNO.setGpibCtrlDir 0x80 0x81 (AVR.const 0)).portBit (PortId.D, 4)
        = (AVR.const 0).portBit (PortId.D, 4)) ∧
    ((AR488_328PB_ALT.setGpibCtrlDir 0x80 0x81 (AVR.const 0)).ddrBit (AR488_328PB_ALT.ctrlPin 7)
        = (0x80 : U8).bit (7 : Fin 8) ∧
      (AR488_328PB_ALT.setGpibCtrlDir 0x80 0x81 (AVR.const 0)).portBit
          (AR488_328PB_ALT.ctrlPin 0) = true ∧
      (AR488_328PB_ALT.setGpibCtrlDir 0x80 0x81 (AVR.const 0)).portBit
          (AR488_328PB_ALT.ctrlPin 3) = (AVR.const 0).portBit (AR488_328PB_ALT.ctrlPin 3) ∧
      (AR488_328PB_ALT.setGpibCtrlDir 0x80 0x81 (AVR.const 0)).portBit (PortId.B, 2)
        = (AVR.const 0).portBit (PortId.B, 2)) :=
  ⟨⟨(C20_ctrl_dir_uno_328pb 0x80 0x81 (AVR.const 0)).1.1 7 (by decide),
    (C20_ctrl_dir_uno_328pb 0x80 0x81 (AVR.const 0)).1.2.1 0 (by decide) (by decide),
    ((C20_ctrl_dir_uno_328pb 0x80 0x81 (AVR.const 0)).1.2.2.1 3 (by decide)).2,
    ((C20_ctrl_dir_uno_328pb 0x80 0x81 (AVR.const 0)).1.2.2.2 PortId.D 4 (by decide)).2⟩,
   ⟨(C20_ctrl_dir_uno_328pb 0x80 0x81 (AVR.const 0)).2.1 7 (by decide),
    (C20_ctrl_dir_uno_328pb 0x80 0x81 (AVR.const 0)).2.2.1 0 (by decide) (by decide),
    ((C20_ctrl_dir_uno_328pb 0x80 0x81 (AVR.const 0)).2.2.2.1 3 (by decide)).2,
    ((C20_ctrl_dir_uno_328pb 0x80 0x81 (AVR.const 0)).2.2.2.2 PortId.B 2 (by decide)).2⟩⟩

/-! ## Control-line direction: the `PORT` bit of a line made an output -/

/-- C21, as stated, fails: on UNO/NANO and on 328PB_ALT `setGpibCtrlDir 0x01 0x01`
over registers filled with 0xFF makes IFC an output (`DDR` bit 1) and leaves its
`PORT` bit at 1, not at 0. -/
theorem C21_ctrl_dir_output_port_counterexample :
    (0x01 : U8).bit 0 = true ∧
    (AR488_UNO.setGpibCtrlDir 0x01 0x01 (AVR.const 0xFF)).ddrBit (AR488_UNO.ctrlPin 0) = true ∧
    (AR488_UNO.setGpibCtrlDir 0x01 0x01 (AVR.const 0xFF)).portBit (AR488_UNO.ctrlPin 0) = true ∧
    (AR488_328PB_ALT.setGpibCtrlDir 0x01 0x01 (AVR.const 0xFF)).ddrBit (AR488_328PB_ALT.ctrlPin 0)
      = true ∧
    (AR488_328PB_ALT.setGpibCtrlDir 0x01 0x01 (AVR.const 0xFF)).portBit (AR488_328PB_ALT.ctrlPin 0)
      = true := by
  decide

/-- C21, amended: on the UNO/NANO and 328PB_ALT profiles, for every `bits`,
`mask` and prior `DDR`/`PORT` contents, after `setGpibCtrlDir bits mask` every
control line with mask bit 1 and `bits` bit 1 (switched to output) has its `DDR`
bit at 1 and keeps the `PORT`-register bit it had before the call. -/
theorem C21_ctrl_dir_output_keeps_port (bits mask : U8) (s : AVR) (k : Fin 8)
    (hm : mask.bit k = true) (hb : bits.bit k = true) :
    ((AR488_UNO.setGpibCtrlDir bits mask s).ddrBit (AR488_UNO.ctrlPin k) = true ∧
      (AR488_UNO.setGpibCtrlDir bits mask s).portBit (AR488_UNO.ctrlPin k)
        = s.portBit (AR488_UNO.ctrlPin k)) ∧
    ((AR488_328PB_ALT.setGpibCtrlDir bits mask s).ddrBit (AR488_328PB_ALT.ctrlPin k) = true ∧
      (AR488_328PB_ALT.setGpibCtrlDir bits mask s).portBit (AR488_328PB_ALT.ctrlPin k)
        = s.portBit (AR488_328PB_ALT.ctrlPin k)) := by
  rw [uno_ctrlDir_ddr, uno_ctrlDir_port, alt328pb_ctrlDir_ddr, alt328pb_ctrlDir_port, hm, hb]
  exact ⟨⟨rfl, rfl⟩, ⟨rfl, rfl⟩⟩

/-- Witness for C21: ATN made an output over registers that hold 0x5A keeps
the `PORT` bit it had (PD7 on UNO/NANO, PD4 on 328PB_ALT). -/
theorem C21_ctrl_dir_output_keeps_port_witness :
    (0x80 : U8).bit (7 : Fin 8) = true ∧
    ((AR488_UNO.setGpibCtrlDir 0x80 0x80 (AVR.const 0x5A)).ddrBit (AR488_UNO.ctrlPin 7) = true ∧
      (AR488_UNO.setGpibCtrlDir 0x80 0x80 (AVR.const 0x5A)).portBit (AR488_UNO.ctrlPin 7)
        = (AVR.const 0x5A).portBit (AR488_UNO.ctrlPin 7)) ∧
    ((AR488_328PB_ALT.setGpibCtrlDir 0x80 0x80 (AVR.const 0x5A)).ddrBit (AR488_328PB_ALT.ctrlPin 7)
        = true ∧
      (AR488_328PB_ALT.setGpibCtrlDir 0x80 0x80 (AVR.const 0x5A)).portBit (AR488_328PB_ALT.ctrlPin 7)
        = (AVR.const 0x5A).portBit (AR488_328PB_ALT.ctrlPin 7)) :=
  ⟨by decide, C21_ctrl_dir_output_keeps_port 0x80 0x80 (AVR.const 0x5A) 7 (by decide) (by decide)⟩

/-! ## Control-line direction on the other AVR profiles -/

section
open AR488_MEGA2560_D

theorem mega_d_ctrlDir_ddr (bits mask : U8) (s : AVR) (k : Fin 8) :
    (setGpibCtrlDir bits mask s).ddrBit (ctrlPin k)
      = if mask.bit k then bits.bit k else s.ddrBit (ctrlPin k) := by
  have h1m := mega_d_portH_bit mask k
  have h1b := mega_d_portH_bit bits k
  have h2m := mega_d_portB_bit mask k
  have h2b := mega_d_portB_bit bits k
  simp only [setGpibCtrlDir, AVR.ddrBit, U8.bit] at h1m h1b h2m h2b ⊢
  revert h1m h1b h2m h2b
  fin_cases k <;> intro h1m h1b h2m h2b <;>
    simp only [ctrlPin, AVR.DDR, true_implies] at h1m h1b h2m h2b ⊢ <;>
    rw [testBit_masked _ _ _ _ (by decide)] <;>
    simp only [h1m, h1b, h2m, h2b]

theorem mega_d_ctrlDir_port (bits mask : U8) (s : AVR) (p : PortId) :
    (setGpibCtrlDir bits mask s).PORT p = s.PORT p := by
  unfold setGpibCtrlDir
  dsimp only
  cases p <;> rfl

end

section
open AR488_MEGA2560_E1

theorem e1_ctrlDir_ddr (bits mask : U8) (s : AVR) (k : Fin 8) :
    (setGpibCtrlDir bits mask s).ddrBit (ctrlPin k)
      = if mask.bit k then bits.bit k else s.ddrBit (ctrlPin k) := by
  have hBm := e1_portB_bit mask k
  have hBb := e1_portB_bit bits k
  have hDm := e1_portD_bit mask k
  have hDb := e1_portD_bit bits k
  have hGm := e1_portG_bit mask k
  have hGb := e1_portG_bit bits k
  have hLm := e1_portL_bit mask k
  have hLb := e1_portL_bit bits k
  simp only [setGpibCtrlDir, AVR.ddrBit, U8.bit] at hBm hBb hDm hDb hGm hGb hLm hLb ⊢
  revert hBm hBb hDm hDb hGm hGb hLm hLb
  fin_cases k <;> intro hBm hBb hDm hDb hGm hGb hLm hLb <;>
    simp only [ctrlPin, AVR.DDR, true_implies] at hBm hBb hDm hDb hGm hGb hLm hLb ⊢ <;>
    rw [testBit_masked _ _ _ _ (by decide)] <;>
    simp only [hBm, hBb, hDm, hDb, hGm, hGb, hLm, hLb]

theorem e1_ctrlDir_port (bits mask : U8) (s : AVR) (p : PortId) :
    (setGpibCtrlDir bits mask s).PORT p = s.PORT p := by
  unfold setGpibCtrlDir
  dsimp only
  cases p <;> rfl

end

section
open AR488_MEGA2560_E2

theorem e2_ctrlDir_ddr (bits mask : U8) (s : AVR) (k : Fin 8) :
    (setGpibCtrlDir bits mask s).ddrBit (ctrlPin k)
      = if mask.bit k then bits.bit k else s.ddrBit (ctrlPin k) := by
  have hBm := e2_portB_bit mask k
  have hBb := e2_portB_bit bits k
  have hGm := e2_portG_bit mask k
  have hGb := e2_portG_bit bits k
  have hLm := e2_portL_bit mask k
  have hLb := e2_portL_bit bits k
  simp only [setGpibCtrlDir, AVR.ddrBit, U8.bit] at hBm hBb hGm hGb hLm hLb ⊢
  revert hBm hBb hGm hGb hLm hLb
  fin_cases k <;> intro hBm hBb hGm hGb hLm hLb <;>
    simp only [ctrlPin, AVR.DDR, true_implies] at hBm hBb hGm hGb hLm hLb ⊢ <;>
    rw [testBit_masked _ _ _ _ (by decide)] <;>
    simp only [hBm, hBb, hGm, hGb, hLm, hLb]

theorem e2_ctrlDir_port (bits mask : U8) (s : AVR) (p : PortId) :
    (setGpibCtrlDir bits mask s).PORT p = s.PORT p := by
  unfold setGpibCtrlDir
  dsimp only
  cases p <;> rfl

end

section
open AR488_MEGA32U4_MICRO

theorem micro_ctrlDir_ddr (bits mask : U8) (s : AVR) (k : Fin 8) :
    (setGpibCtrlDir bits mask s).ddrBit (ctrlPin k)
      = if mask.bit k then bits.bit k else s.ddrBit (ctrlPin k) := by
  have hFm := micro_portF_bit mask k
  have hFb := micro_portF_bit bits k
  have hCm := micro_portC_bit mask k
  have hCb := micro_portC_bit bits k
  have hDm := micro_portD_bit mask k
  have hDb := micro_portD_bit bits k
  have hEm := micro_portE_bit mask k
  have hEb := micro_portE_bit bits k
  have gF := micro_guardF_bit mask k
  have gO := micro_guardCDE_bit mask k
  simp only [AVR.ddrBit, U8.bit] at hFm hFb hCm hCb hDm hDb hEm hEb gF gO ⊢
  by_cases h1 : mask.val &&& 0b00011110 = 0 <;> by_cases h2 : mask.val &&& 0b11100001 = 0 <;>
    simp only [setGpibCtrlDir, h1, h2, ne_eq, not_true_eq_false, not_false_eq_true,
      if_true, if_false] <;>
    revert hFm hFb hCm hCb hDm hDb hEm hEb gF gO <;>
    fin_cases k <;> intro hFm hFb hCm hCb hDm hDb hEm hEb gF gO <;>
    simp only [ctrlPin, AVR.DDR, true_implies, ne_eq, reduceCtorEq, not_false_eq_true,
      not_true_eq_false, false_implies, h1, h2] at hFm hFb hCm hCb hDm hDb hEm hEb gF gO ⊢ <;>
    first
    | (rw [testBit_masked _ _ _ _ (by decide)]
       simp only [hFm, hFb, hCm, hCb, hDm, hDb, hEm, hEb])
    | simp [gF, gO]

theorem micro_ctrlDir_port (bits mask : U8) (s : AVR) (p : PortId) :
    (setGpibCtrlDir bits mask s).PORT p = s.PORT p := by
  unfold setGpibCtrlDir
  dsimp only
  split_ifs <;> cases p <;> rfl

end

section
open AR488_MEGA32U4_LR3

theorem lr3_ctrlDir_ddr (bits mask : U8) (s : AVR) (k : Fin 8) :
    (setGpibCtrlDir bits mask s).ddrBit (ctrlPin k)
      = if mask.bit k then bits.bit k else s.ddrBit (ctrlPin k) := by
  have hBm := lr3_portB_bit mask k
  have hBb := lr3_portB_bit bits k
  have hDm := lr3_portD_bit mask k
  have hDb := lr3_portD_bit bits k
  have hEm := lr3_portE_bit mask k
  have hEb := lr3_portE_bit bits k
  simp only [setGpibCtrlDir, AVR.ddrBit, U8.bit] at hBm hBb hDm hDb hEm hEb ⊢
  revert hBm hBb hDm hDb hEm hEb
  fin_cases k <;> intro hBm hBb hDm hDb hEm hEb <;>
    simp only [ctrlPin, AVR.DDR, true_implies] at hBm hBb hDm hDb hEm hEb ⊢ <;>
    rw [testBit_masked _ _ _ _ (by decide)] <;>
    simp only [hBm, hBb, hDm, hDb, hEm, hEb]

theorem lr3_ctrlDir_port (bits mask : U8) (s : AVR) (p : PortId) :
    (setGpibCtrlDir bits mask s).PORT p = s.PORT p := by
  unfold setGpibCtrlDir
  dsimp only
  cases p <;> rfl

end

section
open AR488_MEGA644P_MCGRAW

theorem mcgraw_ctrlDir_ddr (bits mask : U8) (s : AVR) (k : Fin 8) :
    (setGpibCtrlDir bits mask s).ddrBit (ctrlPin k)
      = if mask.bit k then bits.bit k else s.ddrBit (ctrlPin k) := by
  have h1m := mcgraw_portA_bit mask k
  have h1b := mcgraw_portA_bit bits k
  have h2m := mcgraw_portC_bit mask k
  have h2b := mcgraw_portC_bit bits k
  simp only [setGpibCtrlDir, AVR.ddrBit, U8.bit] at h1m h1b h2m h2b ⊢
  revert h1m h1b h2m h2b
  fin_cases k <;> intro h1m h1b h2m h2b <;>
    simp only [ctrlPin, AVR.DDR, true_implies] at h1m h1b h2m h2b ⊢ <;>
    rw [testBit_masked _ _ _ _ (by decide)] <;>
    simp only [h1m, h1b, h2m, h2b]

theorem mcgraw_ctrlDir_port (bits mask : U8) (s : AVR) (p : PortId) :
    (setGpibCtrlDir bits mask s).PORT p = s.PORT p := by
  unfold setGpibCtrlDir
  dsimp only
  cases p <;> rfl

end

/-- C22, as stated, fails on the code: on MEGA2560_D, MEGA2560_E1, MEGA2560_E2,
MEGA32U4_MICRO, MEGA32U4_LR3 and MEGA644P_MCGRAW `setGpibCtrlDir` writes `DDR`
registers only.  Each masked control line gets the bit of `bits` as its `DDR`
bit (so a masked line with `bits` bit 0 is an input), but every `PORT` register
keeps its content, so the pull-up of a line made an input is on only if its
`PORT` bit was 1 before: `setGpibCtrlDir 0x00 0x01` over cleared registers
leaves IFC an input with `PORT` bit 0. -/
theorem C22_ctrl_dir_no_pullup (bits mask : U8) (s : AVR) :
    ((∀ k : Fin 8, (AR488_MEGA2560_D.setGpibCtrlDir bits mask s).ddrBit (AR488_MEGA2560_D.ctrlPin k)
          = if mask.bit k then bits.bit k else s.ddrBit (AR488_MEGA2560_D.ctrlPin k)) ∧
      (∀ p : PortId, (AR488_MEGA2560_D.setGpibCtrlDir bits mask s).PORT p = s.PORT p) ∧
      (AR488_MEGA2560_D.setGpibCtrlDir 0x00 0x01 (AVR.const 0)).ddrBit (AR488_MEGA2560_D.ctrlPin 0) = false ∧
      (AR488_MEGA2560_D.setGpibCtrlDir 0x00 0x01 (AVR.const 0)).portBit (AR488_MEGA2560_D.ctrlPin 0) = false) ∧
    ((∀ k : Fin 8, (AR488_MEGA2560_E1.setGpibCtrlDir bits mask s).ddrBit (AR488_MEGA2560_E1.ctrlPin k)
          = if mask.bit k then bits.bit k else s.ddrBit (AR488_MEGA2560_E1.ctrlPin k)) ∧
      (∀ p : PortId, (AR488_MEGA2560_E1.setGpibCtrlDir bits mask s).PORT p = s.PORT p) ∧
      (AR488_MEGA2560_E1.setGpibCtrlDir 0x00 0x01 (AVR.const 0)).ddrBit (AR488_MEGA2560_E1.ctrlPin 0) = false ∧
      (AR488_MEGA2560_E1.setGpibCtrlDir 0x00 0x01 (AVR.const 0)).portBit (AR488_MEGA2560_E1.ctrlPin 0) = false) ∧
    ((∀ k : Fin 8, (AR488_MEGA2560_E2.setGpibCtrlDir bits mask s).ddrBit (AR488_MEGA2560_E2.ctrlPin k)
          = if mask.bit k then bits.bit k else s.ddrBit (AR488_MEGA2560_E2.ctrlPin k)) ∧
      (∀ p : PortId, (AR488_MEGA2560_E2.setGpibCtrlDir bits mask s).PORT p = s.PORT p) ∧
      (AR488_MEGA2560_E2.setGpibCtrlDir 0x00 0x01 (AVR.const 0)).ddrBit (AR488_MEGA2560_E2.ctrlPin 0) = false ∧
      (AR488_MEGA2560_E2.setGpibCtrlDir 0x00 0x01 (AVR.const 0)).portBit (AR488_MEGA2560_E2.ctrlPin 0) = false) ∧
    ((∀ k : Fin 8, (AR488_MEGA32U4_MICRO.setGpibCtrlDir bits mask s).ddrBit (AR488_MEGA32U4_MICRO.ctrlPin k)
          = if mask.bit k then bits.bit k else s.ddrBit (AR488_MEGA32U4_MICRO.ctrlPin k)) ∧
      (∀ p : PortId, (AR488_MEGA32U4_MICRO.setGpibCtrlDir bits mask s).PORT p = s.PORT p) ∧
      (AR488_MEGA32U4_MICRO.setGpibCtrlDir 0x00 0x01 (AVR.const 0)).ddrBit (AR488_MEGA32U4_MICRO.ctrlPin 0) = false ∧
      (AR488_MEGA32U4_MICRO.setGpibCtrlDir 0x00 0x01 (AVR.const 0)).portBit (AR488_MEGA32U4_MICRO.ctrlPin 0) = false) ∧
    ((∀ k : Fin 8, (AR488_MEGA32U4_LR3.setGpibCtrlDir bits mask s).ddrBit (AR488_MEGA32U4_LR3.ctrlPin k)
          = if mask.bit k then bits.bit k else s.ddrBit (AR488_MEGA32U4_LR3.ctrlPin k)) ∧
      (∀ p : PortId, (AR488_MEGA32U4_LR3.setGpibCtrlDir bits mask s).PORT p = s.PORT p) ∧
      (AR488_MEGA32U4_LR3.setGpibCtrlDir 0x00 0x01 (AVR.const 0)).ddrBit (AR488_MEGA32U4_LR3.ctrlPin 0) = false ∧
      (AR488_MEGA32U4_LR3.setGpibCtrlDir 0x00 0x01 (AVR.const 0)).portBit (AR488_MEGA32U4_LR3.ctrlPin 0) = false) ∧
    ((∀ k : Fin 8, (AR488_MEGA644P_MCGRAW.setGpibCtrlDir bits mask s).ddrBit (AR488_MEGA644P_MCGRAW.ctrlPin k)
          = if mask.bit k then bits.bit k else s.ddrBit (AR488_MEGA644P_MCGRAW.ctrlPin k)) ∧
      (∀ p : PortId, (AR488_MEGA644P_MCGRAW.setGpibCtrlDir bits mask s).PORT p = s.PORT p) ∧
      (AR488_MEGA644P_MCGRAW.setGpibCtrlDir 0x00 0x01 (AVR.const 0)).ddrBit (AR488_MEGA644P_MCGRAW.ctrlPin 0) = false ∧
      (AR488_MEGA644P_MCGRAW.setGpibCtrlDir 0x00 0x01 (AVR.const 0)).portBit (AR488_MEGA644P_MCGRAW.ctrlPin 0) = false) :=
  ⟨⟨mega_d_ctrlDir_ddr bits mask s, mega_d_ctrlDir_port bits mask s, by decide, by decide⟩,
   ⟨e1_ctrlDir_ddr bits mask s, e1_ctrlDir_port bits mask s, by decide, by decide⟩,
   ⟨e2_ctrlDir_ddr bits mask s, e2_ctrlDir_port bits mask s, by decide, by decide⟩,
   ⟨micro_ctrlDir_ddr bits mask s, micro_ctrlDir_port bits mask s, by decide, by decide⟩,
   ⟨lr3_ctrlDir_ddr bits mask s, lr3_ctrlDir_port bits mask s, by decide, by decide⟩,
   ⟨mcgraw_ctrlDir_ddr bits mask s, mcgraw_ctrlDir_port bits mask s, by decide, by decide⟩⟩

/-! ## MCP23S17 expander: control-line direction -/

section
open AR488_MCP23S17

/-- The byte written back to the direction register: complementing on the way
in and on the way out turns the masked update with `bits` into a masked update
with the complement of `bits`. -/
theorem mcp_dir_byte (old bits mask : U8) :
    u8 (bnot (u8 (((u8 (bnot old.val)).val &&& bnot mask.val) ||| (bits.val &&& mask.val))).val)
      = u8 ((old.val &&& bnot mask.val) ||| (bnot bits.val &&& mask.val)) := by
  apply U8.ext_bits
  intro k
  have hk := k.isLt
  simp only [U8.bit, testBit_u8, testBit_bnot, Nat.testBit_and, Nat.testBit_or, hk, decide_True,
    Bool.true_and]
  cases old.val.testBit k <;> cases bits.val.testBit k <;> cases mask.val.testBit k <;> rfl

theorem mcp_ctrlDir_regs (bits mask : U8) (s : Expander) :
    (setGpibCtrlDir bits mask s).regs
      = Function.update s.regs McpReg.MCPDIRA
          (u8 (((s.regs McpReg.MCPDIRA).val &&& bnot mask.val) ||| (bnot bits.val &&& mask.val))) := by
  rw [← mcp_dir_byte]
  rfl

theorem mcp_ctrlDir_spi (bits mask : U8) (s : Expander) :
    (setGpibCtrlDir bits mask s).spi
      = s.spi ++ [SpiXfer.read McpReg.MCPDIRA,
          SpiXfer.write McpReg.MCPDIRA
            (u8 (((s.regs McpReg.MCPDIRA).val &&& bnot mask.val) ||| (bnot bits.val &&& mask.val)))] := by
  rw [← mcp_dir_byte]
  simp [setGpibCtrlDir, mcpByteRead, mcpByteWrite]

end

/-- C23: on the MCP23S17 profile, for every `bits`, `mask` and prior register
contents, after `setGpibCtrlDir bits mask` the direction register `MCPDIRA`
equals `(old & ~mask) | (~bits & mask)` as 8-bit values: a masked line with
`bits` bit 1 has device direction bit 0 (output), a masked line with `bits` bit
0 has device direction bit 1 (input), and unmasked lines keep their bit. -/
theorem C23_mcp_ctrl_dir (bits mask : U8) (s : Expander) :
    ((AR488_MCP23S17.setGpibCtrlDir bits mask s).regs McpReg.MCPDIRA).val
      = ((s.regs McpReg.MCPDIRA).val &&& bnot mask.val) ||| (bnot bits.val &&& mask.val) ∧
    ∀ k : Fin 8, ((AR488_MCP23S17.setGpibCtrlDir bits mask s).regs McpReg.MCPDIRA).bit k
      = if mask.bit k then !bits.bit k else (s.regs McpReg.MCPDIRA).bit k := by
  rw [mcp_ctrlDir_regs, Function.update_same]
  refine ⟨masked_val _ _ _, ?_⟩
  intro k
  unfold U8.bit
  rw [testBit_masked _ _ _ _ k.isLt, testBit_bnot]
  simp [k.isLt]

/-- C24, as stated, fails on the code: `setGpibCtrlDir` of the MCP23S17 profile
makes one read and one write of `MCPDIRA` and nothing else, so the port A
pull-up register (`MCPPUA`) keeps its content whatever `bits` and `mask` are;
`setGpibCtrlDir 0x00 0xFF` over an expander with cleared registers makes all
eight lines inputs (`MCPDIRA` = 0xFF) and leaves all eight pull-ups disabled. -/
theorem C24_mcp_ctrl_dir_no_pullup (bits mask : U8) (s : Expander) :
    (AR488_MCP23S17.setGpibCtrlDir bits mask s).regs McpReg.MCPPUA = s.regs McpReg.MCPPUA ∧
    (AR488_MCP23S17.setGpibCtrlDir bits mask s).spi
      = s.spi ++ [SpiXfer.read McpReg.MCPDIRA,
          SpiXfer.write McpReg.MCPDIRA
            (u8 (((s.regs McpReg.MCPDIRA).val &&& bnot mask.val) ||| (bnot bits.val &&& mask.val)))] ∧
    (AR488_MCP23S17.setGpibCtrlDir 0x00 0xFF ⟨fun _ => 0, [], 0⟩).regs McpReg.MCPDIRA = 0xFF ∧
    (AR488_MCP23S17.setGpibCtrlDir 0x00 0xFF ⟨fun _ => 0, [], 0⟩).regs McpReg.MCPPUA = 0x00 := by
  refine ⟨?_, mcp_ctrlDir_spi bits mask s, by decide, by decide⟩
  rw [mcp_ctrlDir_regs, Function.update_noteq (by decide)]

/-! ## Control-line direction on the Raspberry Pi Pico layouts -/

theorem testBit_u32_or (a b : U32) (j : Nat) :
    (u32 (a.val ||| b.val)).val.testBit j = (a.val.testBit j || b.val.testBit j) := by
  by_cases hj : j < 32
  · simp [testBit_u32, hj]
  · rw [testBit_u32, testBit_u32_ge a j (by omega), testBit_u32_ge b j (by omega)]
    simp [hj]

theorem testBit_u32_andnot (a b : U32) (j : Nat) :
    (u32 (a.val &&& not32 b.val)).val.testBit j = (a.val.testBit j && !b.val.testBit j) := by
  by_cases hj : j < 32
  · simp [testBit_u32, testBit_not32, hj]
  · rw [testBit_u32, testBit_u32_ge a j (by omega)]
    simp [hj]

/-- The loop test `mask & (1 << i)` of the pull-up loops selects bit `i` of the
mask. -/
theorem pico_loop_test (m : U32) (i : Nat) :
    (m.val &&& (u32 (1 <<< i)).val ≠ 0) ↔ m.val.testBit i = true := by
  by_cases hi : i < 32
  · have e : (u32 (1 <<< i)).val = 2 ^ i := by
      rw [u32_val, Nat.one_shiftLeft]
      apply Nat.mod_eq_of_lt
      calc 2 ^ i < 2 ^ 32 := Nat.pow_lt_pow_right (by decide) hi
        _ = 4294967296 := by norm_num
    rw [e]
    constructor
    · intro h
      by_contra hb
      apply h
      apply Nat.eq_of_testBit_eq
      intro j
      rw [Nat.testBit_and, Nat.testBit_two_pow, Nat.zero_testBit]
      by_cases hij : i = j
      · subst hij
        simp [hb]
      · simp [hij]
    · intro hb h
      have h2 : (m.val &&& 2 ^ i).testBit i = true := by
        rw [Nat.testBit_and, Nat.testBit_two_pow, hb]
        simp
      rw [h, Nat.zero_testBit] at h2
      exact Bool.false_ne_true h2
  · have e : (u32 (1 <<< i)).val = 0 := by
      rw [u32_val, Nat.one_shiftLeft]
      have h32 : (4294967296 : Nat) = 2 ^ 32 := by norm_num
      rw [h32]
      exact Nat.mod_eq_zero_of_dvd (Nat.pow_dvd_pow 2 (by omega))
    rw [e, testBit_u32_ge m i (by omega)]
    simp

theorem pico_pull_up_bit (i : Nat) (s : RP2040) (j : Nat) :
    (gpio_pull_up i s).pull_up.val.testBit j
      = (s.pull_up.val.testBit j || (decide (j < 32) && decide (i = j))) := by
  unfold gpio_pull_up
  dsimp only
  rw [testBit_u32, Nat.testBit_or, Nat.one_shiftLeft, Nat.testBit_two_pow]
  by_cases hj : j < 32
  · simp [hj]
  · rw [testBit_u32_ge s.pull_up j (by omega)]
    simp [hj]

theorem pico_disable_pulls_bit (i : Nat) (s : RP2040) (j : Nat) :
    (gpio_disable_pulls i s).pull_up.val.testBit j
      = (s.pull_up.val.testBit j && !(decide (j < 32) && decide (i = j))) := by
  unfold gpio_disable_pulls
  dsimp only
  rw [testBit_u32, Nat.testBit_and, testBit_not32, Nat.one_shiftLeft, Nat.testBit_two_pow]
  by_cases hj : j < 32
  · simp [hj]
  · rw [testBit_u32_ge s.pull_up j (by omega)]
    simp [hj]

/-- The pull-up word after the enabling loop, run over any list of GPIO
numbers. -/
theorem pico_set_pullups_fold (m : U32) (l : List Nat) (s : RP2040) (j : Nat) :
    (l.foldl (fun s i => if m.val &&& (u32 (1 <<< i)).val ≠ 0 then gpio_pull_up i s else s)
        s).pull_up.val.testBit j
      = (s.pull_up.val.testBit j || (decide (j ∈ l) && m.val.testBit j)) := by
  induction l generalizing s with
  | nil => simp
  | cons i l ih =>
    rw [List.foldl_cons, ih]
    by_cases hc : m.val &&& (u32 (1 <<< i)).val ≠ 0
    · have hb := (pico_loop_test m i).1 hc
      rw [if_pos hc, pico_pull_up_bit]
      by_cases hij : i = j
      · subst hij
        have hlt : i < 32 := by
          by_contra hge
          rw [testBit_u32_ge m i (by omega)] at hb
          exact Bool.false_ne_true hb
        simp [hb, hlt]
      · have hji : ¬ j = i := fun h => hij h.symm
        simp [hij, hji]
    · have hb : m.val.testBit i = false := by
        cases h : m.val.testBit i
        · rfl
        · exact absurd ((pico_loop_test m i).2 h) hc
      rw [if_neg hc]
      by_cases hij : i = j
      · subst hij
        simp [hb]
      · have hji : ¬ j = i := fun h => hij h.symm
        simp [hji]

/-- The pull-up word after the disabling loop, run over any list of GPIO
numbers. -/
theorem pico_clear_pullups_fold (m : U32) (l : List Nat) (s : RP2040) (j : Nat) :
    (l.foldl (fun s i => if m.val &&& (u32 (1 <<< i)).val ≠ 0 then gpio_disable_pulls i s else s)
        s).pull_up.val.testBit j
      = (s.pull_up.val.testBit j && !(decide (j ∈ l) && m.val.testBit j)) := by
  induction l generalizing s with
  | nil => simp
  | cons i l ih =>
    rw [List.foldl_cons, ih]
    by_cases hc : m.val &&& (u32 (1 <<< i)).val ≠ 0
    · have hb := (pico_loop_test m i).1 hc
      rw [if_pos hc, pico_disable_pulls_bit]
      by_cases hij : i = j
      · subst hij
        have hlt : i < 32 := by
          by_contra hge
          rw [testBit_u32_ge m i (by omega)] at hb
          exact Bool.false_ne_true hb
        simp [hb, hlt]
      · have hji : ¬ j = i := fun h => hij h.symm
        simp [hij, hji]
    · have hb : m.val.testBit i = false := by
        cases h : m.val.testBit i
        · rfl
        · exact absurd ((pico_loop_test m i).2 h) hc
      rw [if_neg hc]
      by_cases hij : i = j
      · subst hij
        simp [hb]
      · have hji : ¬ j = i := fun h => hij h.symm
        simp [hji]

theorem gpio_set_pullups_masked_bit (m : U32) (s : RP2040) (j : Nat) :
    (gpio_set_pullups_masked m s).pull_up.val.testBit j
      = (s.pull_up.val.testBit j || m.val.testBit j) := by
  unfold gpio_set_pullups_masked
  rw [pico_set_pullups_fold]
  by_cases hj : j < 32
  · simp [List.mem_range, hj]
  · rw [testBit_u32_ge m j (by omega)]
    simp

theorem gpio_clear_pullups_masked_bit (m : U32) (s : RP2040) (j : Nat) :
    (gpio_clear_pullups_masked m s).pull_up.val.testBit j
      = (s.pull_up.val.testBit j && !m.val.testBit j) := by
  unfold gpio_clear_pullups_masked
  rw [pico_clear_pullups_fold]
  by_cases hj : j < 32
  · simp [List.mem_range, hj]
  · rw [testBit_u32_ge m j (by omega)]
    simp

theorem gpio_set_pullups_masked_oe (m : U32) (s : RP2040) :
    (gpio_set_pullups_masked m s).gpio_oe = s.gpio_oe := by
  unfold gpio_set_pullups_masked
  generalize List.range 32 = l
  induction l generalizing s with
  | nil => rfl
  | cons i l ih =>
    rw [List.foldl_cons, ih]
    split_ifs <;> rfl

theorem gpio_clear_pullups_masked_oe (m : U32) (s : RP2040) :
    (gpio_clear_pullups_masked m s).gpio_oe = s.gpio_oe := by
  unfold gpio_clear_pullups_masked
  generalize List.range 32 = l
  induction l generalizing s with
  | nil => rfl
  | cons i l ih =>
    rw [List.foldl_cons, ih]
    split_ifs <;> rfl

/-- The direction and pull-up words after the body of `setGpibCtrlDir`, for any
output mask `o` and input mask `i`: a guard that fails skips two calls that
would have changed nothing. -/
theorem pico_dir_body (o i : U32) (s : RP2040) (j : Nat) :
    ((if i ≠ 0 then
        gpio_set_dir_in_masked i (gpio_set_pullups_masked i
          (if o ≠ 0 then gpio_set_dir_out_masked o (gpio_clear_pullups_masked o s) else s))
      else (if o ≠ 0 then gpio_set_dir_out_masked o (gpio_clear_pullups_masked o s)
        else s)).gpio_oe.val.testBit j
      = ((s.gpio_oe.val.testBit j || o.val.testBit j) && !i.val.testBit j)) ∧
    ((if i ≠ 0 then
        gpio_set_dir_in_masked i (gpio_set_pullups_masked i
          (if o ≠ 0 then gpio_set_dir_out_masked o (gpio_clear_pullups_masked o s) else s))
      else (if o ≠ 0 then gpio_set_dir_out_masked o (gpio_clear_pullups_masked o s)
        else s)).pull_up.val.testBit j
      = ((s.pull_up.val.testBit j && !o.val.testBit j) || i.val.testBit j)) := by
  by_cases ho : o = 0 <;> by_cases hi : i = 0
  · subst ho hi
    simp
  · subst ho
    simp only [ne_eq, hi, not_false_eq_true, if_true, not_true_eq_false, if_false]
    simp [gpio_set_dir_in_masked, testBit_u32_andnot, gpio_set_pullups_masked_oe,
      gpio_set_pullups_masked_bit]
  · subst hi
    simp only [ne_eq, ho, not_false_eq_true, if_true, not_true_eq_false, if_false]
    simp [gpio_set_dir_out_masked, testBit_u32_or, gpio_clear_pullups_masked_oe,
      gpio_clear_pullups_masked_bit]
  · simp only [ne_eq, ho, hi, not_false_eq_true, if_true]
    simp [gpio_set_dir_in_masked, gpio_set_dir_out_masked, testBit_u32_andnot, testBit_u32_or,
      gpio_set_pullups_masked_oe, gpio_clear_pullups_masked_oe, gpio_set_pullups_masked_bit,
      gpio_clear_pullups_masked_bit]

/-- Bit `off + k` of the output mask of `setGpibCtrlDir`. -/
theorem pico_omask_bit (off : Nat) (hoff : off ≤ 24) (bits mask : U8) (k : Fin 8) :
    (u32 ((bits.val &&& mask.val) <<< off)).val.testBit (off + k.val)
      = (bits.bit k && mask.bit k) := by
  have hk := k.isLt
  have h32 : off + k.val < 32 := by omega
  simp [testBit_u32, h32, U8.bit]

/-- Bit `off + k` of the input mask of `setGpibCtrlDir`. -/
theorem pico_imask_bit (off : Nat) (hoff : off ≤ 24) (bits mask : U8) (k : Fin 8) :
    (u32 (((u8 (bnot bits.val)).val &&& mask.val) <<< off)).val.testBit (off + k.val)
      = (!bits.bit k && mask.bit k) := by
  have hk := k.isLt
  have h32 : off + k.val < 32 := by omega
  simp [testBit_u32, testBit_u8, testBit_bnot, h32, hk, U8.bit]

theorem pico_l1_ctrlDir_line (bits mask : U8) (s : RP2040) (k : Fin 8) :
    (RAS_PICO_L1.setGpibCtrlDir bits mask s).gpio_oe.val.testBit
        (RAS_PICO_L1.gpioCtrlOffset + k.val)
      = (if mask.bit k then bits.bit k
          else s.gpio_oe.val.testBit (RAS_PICO_L1.gpioCtrlOffset + k.val)) ∧
    (RAS_PICO_L1.setGpibCtrlDir bits mask s).pull_up.val.testBit
        (RAS_PICO_L1.gpioCtrlOffset + k.val)
      = (if mask.bit k then !bits.bit k
          else s.pull_up.val.testBit (RAS_PICO_L1.gpioCtrlOffset + k.val)) := by
  have h := pico_dir_body (u32 ((bits.val &&& mask.val) <<< RAS_PICO_L1.gpioCtrlOffset))
    (u32 (((u8 (bnot bits.val)).val &&& mask.val) <<< RAS_PICO_L1.gpioCtrlOffset)) s
    (RAS_PICO_L1.gpioCtrlOffset + k.val)
  rw [pico_omask_bit _ (by decide), pico_imask_bit _ (by decide)] at h
  unfold RAS_PICO_L1.setGpibCtrlDir
  dsimp only
  rw [h.1, h.2]
  cases mask.bit k <;> cases bits.bit k <;> simp

theorem pico_l2_ctrlDir_line (bits mask : U8) (s : RP2040) (k : Fin 8) :
    (RAS_PICO_L2.setGpibCtrlDir bits mask s).gpio_oe.val.testBit
        (RAS_PICO_L2.gpioCtrlOffset + k.val)
      = (if mask.bit k then bits.bit k
          else s.gpio_oe.val.testBit (RAS_PICO_L2.gpioCtrlOffset + k.val)) ∧
    (RAS_PICO_L2.setGpibCtrlDir bits mask s).pull_up.val.testBit
        (RAS_PICO_L2.gpioCtrlOffset + k.val)
      = (if mask.bit k then !bits.bit k
          else s.pull_up.val.testBit (RAS_PICO_L2.gpioCtrlOffset + k.val)) := by
  have h := pico_dir_body (u32 ((bits.val &&& mask.val) <<< RAS_PICO_L2.gpioCtrlOffset))
    (u32 (((u8 (bnot bits.val)).val &&& mask.val) <<< RAS_PICO_L2.gpioCtrlOffset)) s
    (RAS_PICO_L2.gpioCtrlOffset + k.val)
  rw [pico_omask_bit _ (by decide), pico_imask_bit _ (by decide)] at h
  unfold RAS_PICO_L2.setGpibCtrlDir
  dsimp only
  rw [h.1, h.2]
  cases mask.bit k <;> cases bits.bit k <;> simp

theorem bit_ff : ∀ k : Fin 8, (0xFF : U8).bit k = true := by
  decide

/-- C25: on RAS_PICO_L1 and RAS_PICO_L2, with direction and pull-up as the bit
sets that `gpio_set_dir_out_masked`, `gpio_set_dir_in_masked`, `gpio_pull_up`
and `gpio_disable_pulls` update: from any prior state, after
`setGpibCtrlDir 0xFF 0xFF` each of the eight control pins is an output with its
pull-up disabled, and after a following `setGpibCtrlDir 0x00 0xFF` each is an
input with its pull-up enabled; in general after `setGpibCtrlDir bits mask` a
masked line is an output without pull-up if its `bits` bit is 1 and an input
with pull-up if it is 0, and an unmasked line keeps direction and pull-up.
Line `k` is GPIO `gpioCtrlOffset + k`. -/
theorem C25_pico_ctrl_dir (bits mask : U8) (s : RP2040) (k : Fin 8) :
    (((RAS_PICO_L1.setGpibCtrlDir bits mask s).gpio_oe.val.testBit
          (RAS_PICO_L1.gpioCtrlOffset + k.val)
        = (if mask.bit k then bits.bit k
            else s.gpio_oe.val.testBit (RAS_PICO_L1.gpioCtrlOffset + k.val)) ∧
      (RAS_PICO_L1.setGpibCtrlDir bits mask s).pull_up.val.testBit
          (RAS_PICO_L1.gpioCtrlOffset + k.val)
        = (if mask.bit k then !bits.bit k
            else s.pull_up.val.testBit (RAS_PICO_L1.gpioCtrlOffset + k.val))) ∧
     ((RAS_PICO_L1.setGpibCtrlDir 0xFF 0xFF s).gpio_oe.val.testBit
          (RAS_PICO_L1.gpioCtrlOffset + k.val) = true ∧
      (RAS_PICO_L1.setGpibCtrlDir 0xFF 0xFF s).pull_up.val.testBit
          (RAS_PICO_L1.gpioCtrlOffset + k.val) = false) ∧
     ((RAS_PICO_L1.setGpibCtrlDir 0x00 0xFF
          (RAS_PICO_L1.setGpibCtrlDir 0xFF 0xFF s)).gpio_oe.val.testBit
          (RAS_PICO_L1.gpioCtrlOffset + k.val) = false ∧
      (RAS_PICO_L1.setGpibCtrlDir 0x00 0xFF
          (RAS_PICO_L1.setGpibCtrlDir 0xFF 0xFF s)).pull_up.val.testBit
          (RAS_PICO_L1.gpioCtrlOffset + k.val) = true)) ∧
    (((RAS_PICO_L2.setGpibCtrlDir bits mask s).gpio_oe.val.testBit
          (RAS_PICO_L2.gpioCtrlOffset + k.val)
        = (if mask.bit k then bits.bit k
            else s.gpio_oe.val.testBit (RAS_PICO_L2.gpioCtrlOffset + k.val)) ∧
      (RAS_PICO_L2.setGpibCtrlDir bits mask s).pull_up.val.testBit
          (RAS_PICO_L2.gpioCtrlOffset + k.val)
        = (if mask.bit k then !bits.bit k
            else s.pull_up.val.testBit (RAS_PICO_L2.gpioCtrlOffset + k.val))) ∧
     ((RAS_PICO_L2.setGpibCtrlDir 0xFF 0xFF s).gpio_oe.val.testBit
          (RAS_PICO_L2.gpioCtrlOffset + k.val) = true ∧
      (RAS_PICO_L2.setGpibCtrlDir 0xFF 0xFF s).pull_up.val.testBit
          (RAS_PICO_L2.gpioCtrlOffset + k.val) = false) ∧
     ((RAS_PICO_L2.setGpibCtrlDir 0x00 0xFF
          (RAS_PICO_L2.setGpibCtrlDir 0xFF 0xFF s)).gpio_oe.val.testBit
          (RAS_PICO_L2.gpioCtrlOffset + k.val) = false ∧
      (RAS_PICO_L2.setGpibCtrlDir 0x00 0xFF
          (RAS_PICO_L2.setGpibCtrlDir 0xFF 0xFF s)).pull_up.val.testBit
          (RAS_PICO_L2.gpioCtrlOffset + k.val) = true)) := by
  have hff := bit_ff k
  have h0 := bit_zero_mask k.val
  refine ⟨⟨pico_l1_ctrlDir_line bits mask s k, ?_, ?_⟩, ⟨pico_l2_ctrlDir_line bits mask s k, ?_, ?_⟩⟩
  · have h := pico_l1_ctrlDir_line 0xFF 0xFF s k
    rw [hff] at h
    exact h
  · have h := pico_l1_ctrlDir_line 0x00 0xFF (RAS_PICO_L1.setGpibCtrlDir 0xFF 0xFF s) k
    rw [hff, h0] at h
    exact h
  · have h := pico_l2_ctrlDir_line 0xFF 0xFF s k
    rw [hff] at h
    exact h
  · have h := pico_l2_ctrlDir_line 0x00 0xFF (RAS_PICO_L2.setGpibCtrlDir 0xFF 0xFF s) k
    rw [hff, h0] at h
    exact h

/-! ## Order of the SDK calls of `setGpibCtrlDir` on the Pico layouts -/

/-- A loop that appends a call for every selected index builds the list of the
calls of the selected indices, in the order of the loop. -/
theorem loop_calls_eq (c : Nat → Prop) [DecidablePred c] (f : Nat → PicoCall) (l : List Nat)
    (t : List PicoCall) :
    l.foldl (fun t i => if c i then t ++ [f i] else t) t
      = t ++ (l.filter (fun i => decide (c i))).map f := by
  induction l generalizing t with
  | nil => simp
  | cons i l ih =>
    rw [List.foldl_cons, ih]
    by_cases h : c i <;> simp [h, List.filter_cons]

/-- Running a list of calls built by one of the two pull-up loops is running
the loop itself. -/
theorem loop_calls_run (c : Nat → Prop) [DecidablePred c] (f : Nat → PicoCall) (l : List Nat)
    (t : List PicoCall) (s : RP2040) :
    (l.foldl (fun t i => if c i then t ++ [f i] else t) t).foldl (fun s x => x.run s) s
      = l.foldl (fun s i => if c i then (f i).run s else s) (t.foldl (fun s x => x.run s) s) := by
  induction l generalizing t with
  | nil => rfl
  | cons i l ih =>
    rw [List.foldl_cons, List.foldl_cons, ih]
    congr 1
    split_ifs <;> simp [List.foldl_append]

theorem set_calls_run (m : U32) (s : RP2040) :
    (gpio_set_pullups_masked_calls m).foldl (fun s x => x.run s) s
      = gpio_set_pullups_masked m s :=
  loop_calls_run (fun i => m.val &&& (u32 (1 <<< i)).val ≠ 0) PicoCall.pull_up (List.range 32) [] s

theorem clear_calls_run (m : U32) (s : RP2040) :
    (gpio_clear_pullups_masked_calls m).foldl (fun s x => x.run s) s
      = gpio_clear_pullups_masked m s :=
  loop_calls_run (fun i => m.val &&& (u32 (1 <<< i)).val ≠ 0) PicoCall.disable_pulls
    (List.range 32) [] s

theorem mem_clear_calls (m : U32) (x : PicoCall) :
    x ∈ gpio_clear_pullups_masked_calls m
      ↔ ∃ i, (i < 32 ∧ m.val.testBit i = true) ∧ PicoCall.disable_pulls i = x := by
  unfold gpio_clear_pullups_masked_calls
  rw [loop_calls_eq, List.nil_append, List.mem_map]
  simp only [List.mem_filter, List.mem_range, decide_eq_true_eq, pico_loop_test]

theorem mem_set_calls (m : U32) (x : PicoCall) :
    x ∈ gpio_set_pullups_masked_calls m
      ↔ ∃ i, (i < 32 ∧ m.val.testBit i = true) ∧ PicoCall.pull_up i = x := by
  unfold gpio_set_pullups_masked_calls
  rw [loop_calls_eq, List.nil_append, List.mem_map]
  simp only [List.mem_filter, List.mem_range, decide_eq_true_eq, pico_loop_test]

/-- The calls `setGpibCtrlDir` makes for the lines it switches to output, by
their GPIO mask. -/
theorem pico_out_group_phase (o : U32) (x : PicoCall)
    (hx : x ∈ gpio_clear_pullups_masked_calls o) : x.phase = 0 := by
  obtain ⟨i, _, rfl⟩ := (mem_clear_calls o x).1 hx
  rfl

theorem pico_in_group_phase (i : U32) (x : PicoCall)
    (hx : x ∈ gpio_set_pullups_masked_calls i) : x.phase = 2 := by
  obtain ⟨j, _, rfl⟩ := (mem_set_calls i x).1 hx
  rfl

theorem pico_out_group_le (o : U32) (x : PicoCall) (hx : x ∈ pico_out_group o) :
    x.phase ≤ 1 := by
  unfold pico_out_group at hx
  split_ifs at hx
  · rcases List.mem_append.1 hx with h | h
    · rw [pico_out_group_phase o x h]
      decide
    · rw [List.mem_singleton.1 h]
      exact Nat.le_refl 1
  · exact absurd hx (List.not_mem_nil x)

theorem pico_in_group_ge (i : U32) (x : PicoCall) (hx : x ∈ pico_in_group i) :
    2 ≤ x.phase := by
  unfold pico_in_group at hx
  split_ifs at hx
  · rcases List.mem_append.1 hx with h | h
    · rw [pico_in_group_phase i x h]
    · rw [List.mem_singleton.1 h]
      exact Nat.le_succ 2
  · exact absurd hx (List.not_mem_nil x)

/-- The calls of the two groups, one after the other, are in phase order. -/
theorem pico_groups_sorted (o i : U32) :
    (pico_out_group o ++ pico_in_group i).Pairwise (fun x y => x.phase ≤ y.phase) := by
  rw [List.pairwise_append]
  refine ⟨?_, ?_, ?_⟩
  · unfold pico_out_group
    split_ifs
    · rw [List.pairwise_append]
      refine ⟨List.pairwise_of_forall_mem_list ?_, List.pairwise_singleton _ _, ?_⟩
      · intro a ha b _
        rw [pico_out_group_phase o a ha]
        exact Nat.zero_le _
      · intro a ha b _
        rw [pico_out_group_phase o a ha]
        exact Nat.zero_le _
    · exact List.Pairwise.nil
  · unfold pico_in_group
    split_ifs
    · rw [List.pairwise_append]
      refine ⟨List.pairwise_of_forall_mem_list ?_, List.pairwise_singleton _ _, ?_⟩
      · intro a ha b hb
        rw [pico_in_group_phase i a ha, pico_in_group_phase i b hb]
      · intro a ha b hb
        rw [pico_in_group_phase i a ha, List.mem_singleton.1 hb]
        exact Nat.le_succ 2
    · exact List.Pairwise.nil
  · intro a ha b hb
    exact Nat.le_trans (pico_out_group_le o a ha)
      (Nat.le_trans (Nat.le_succ 1) (pico_in_group_ge i b hb))

theorem u32_ne_zero_of_bit (m : U32) (j : Nat) (h : m.val.testBit j = true) : m ≠ 0 := by
  intro h0
  rw [h0] at h
  simp at h

/-- A GPIO of the output mask has its pull disable and the direction call in
the output group. -/
theorem pico_out_group_mem (o : U32) (j : Nat) (hj : j < 32) (h : o.val.testBit j = true) :
    PicoCall.disable_pulls j ∈ pico_out_group o ∧
    PicoCall.set_dir_out_masked o ∈ pico_out_group o := by
  unfold pico_out_group
  rw [if_pos (u32_ne_zero_of_bit o j h)]
  exact ⟨List.mem_append_left _ ((mem_clear_calls o _).2 ⟨j, ⟨hj, h⟩, rfl⟩),
    List.mem_append_right _ (List.mem_singleton.2 rfl)⟩

/-- A GPIO of the input mask has its pull-up enable and the direction call in
the input group. -/
theorem pico_in_group_mem (i : U32) (j : Nat) (hj : j < 32) (h : i.val.testBit j = true) :
    PicoCall.pull_up j ∈ pico_in_group i ∧
    PicoCall.set_dir_in_masked i ∈ pico_in_group i := by
  unfold pico_in_group
  rw [if_pos (u32_ne_zero_of_bit i j h)]
  exact ⟨List.mem_append_left _ ((mem_set_calls i _).2 ⟨j, ⟨hj, h⟩, rfl⟩),
    List.mem_append_right _ (List.mem_singleton.2 rfl)⟩


/-- The calls of `setGpibCtrlDir` on the Pico layout 1 are the output group followed by
the input group. -/
theorem pico_l1_calls_split (bits mask : U8) :
    RAS_PICO_L1.setGpibCtrlDirCalls bits mask
      = pico_out_group (u32 ((bits.val &&& mask.val) <<< RAS_PICO_L1.gpioCtrlOffset))
        ++ pico_in_group (u32 (((u8 (bnot bits.val)).val &&& mask.val) <<< RAS_PICO_L1.gpioCtrlOffset)) := by
  unfold RAS_PICO_L1.setGpibCtrlDirCalls pico_out_group pico_in_group
  dsimp only
  split_ifs <;> simp

theorem pico_l1_calls_order (bits mask : U8) (k : Fin 8) :
    (RAS_PICO_L1.setGpibCtrlDirCalls bits mask).Pairwise (fun x y => x.phase ≤ y.phase) ∧
    (mask.bit k = true → bits.bit k = true →
      PicoCall.disable_pulls (RAS_PICO_L1.gpioCtrlOffset + k.val) ∈ RAS_PICO_L1.setGpibCtrlDirCalls bits mask ∧
      PicoCall.set_dir_out_masked (u32 ((bits.val &&& mask.val) <<< RAS_PICO_L1.gpioCtrlOffset))
        ∈ RAS_PICO_L1.setGpibCtrlDirCalls bits mask) ∧
    (mask.bit k = true → bits.bit k = false →
      PicoCall.pull_up (RAS_PICO_L1.gpioCtrlOffset + k.val) ∈ RAS_PICO_L1.setGpibCtrlDirCalls bits mask ∧
      PicoCall.set_dir_in_masked
          (u32 (((u8 (bnot bits.val)).val &&& mask.val) <<< RAS_PICO_L1.gpioCtrlOffset))
        ∈ RAS_PICO_L1.setGpibCtrlDirCalls bits mask) := by
  have hlt : RAS_PICO_L1.gpioCtrlOffset + k.val < 32 := by
    have hk := k.isLt
    unfold RAS_PICO_L1.gpioCtrlOffset
    omega
  rw [pico_l1_calls_split]
  refine ⟨pico_groups_sorted _ _, ?_, ?_⟩
  · intro hm hb
    have hbit := pico_omask_bit RAS_PICO_L1.gpioCtrlOffset (by decide) bits mask k
    rw [hm, hb] at hbit
    have h := pico_out_group_mem _ _ hlt hbit
    exact ⟨List.mem_append_left _ h.1, List.mem_append_left _ h.2⟩
  · intro hm hb
    have hbit := pico_imask_bit RAS_PICO_L1.gpioCtrlOffset (by decide) bits mask k
    rw [hm, hb] at hbit
    have h := pico_in_group_mem _ _ hlt hbit
    exact ⟨List.mem_append_right _ h.1, List.mem_append_right _ h.2⟩

/-- Running the calls of `setGpibCtrlDir` on the Pico layout 1 in order over the GPIO
bank gives the state `setGpibCtrlDir` gives. -/
theorem pico_l1_calls_run (bits mask : U8) (s : RP2040) :
    (RAS_PICO_L1.setGpibCtrlDirCalls bits mask).foldl (fun s c => c.run s) s
      = RAS_PICO_L1.setGpibCtrlDir bits mask s := by
  unfold RAS_PICO_L1.setGpibCtrlDirCalls RAS_PICO_L1.setGpibCtrlDir
  dsimp only
  split_ifs <;>
    simp only [List.foldl_append, List.foldl_cons, List.foldl_nil, List.append_nil,
      List.nil_append, clear_calls_run, set_calls_run] <;>
    rfl

/-- The calls of `setGpibCtrlDir` on the Pico layout 2 are the output group followed by
the input group. -/
theorem pico_l2_calls_split (bits mask : U8) :
    RAS_PICO_L2.setGpibCtrlDirCalls bits mask
      = pico_out_group (u32 ((bits.val &&& mask.val) <<< RAS_PICO_L2.gpioCtrlOffset))
        ++ pico_in_group (u32 (((u8 (bnot bits.val)).val &&& mask.val) <<< RAS_PICO_L2.gpioCtrlOffset)) := by
  unfold RAS_PICO_L2.setGpibCtrlDirCalls pico_out_group pico_in_group
  dsimp only
  split_ifs <;> simp

theorem pico_l2_calls_order (bits mask : U8) (k : Fin 8) :
    (RAS_PICO_L2.setGpibCtrlDirCalls bits mask).Pairwise (fun x y => x.phase ≤ y.phase) ∧
    (mask.bit k = true → bits.bit k = true →
      PicoCall.disable_pulls (RAS_PICO_L2.gpioCtrlOffset + k.val) ∈ RAS_PICO_L2.setGpibCtrlDirCalls bits mask ∧
      PicoCall.set_dir_out_masked (u32 ((bits.val &&& mask.val) <<< RAS_PICO_L2.gpioCtrlOffset))
        ∈ RAS_PICO_L2.setGpibCtrlDirCalls bits mask) ∧
    (mask.bit k = true → bits.bit k = false →
      PicoCall.pull_up (RAS_PICO_L2.gpioCtrlOffset + k.val) ∈ RAS_PICO_L2.setGpibCtrlDirCalls bits mask ∧
      PicoCall.set_dir_in_masked
          (u32 (((u8 (bnot bits.val)).val &&& mask.val) <<< RAS_PICO_L2.gpioCtrlOffset))
        ∈ RAS_PICO_L2.setGpibCtrlDirCalls bits mask) := by
  have hlt : RAS_PICO_L2.gpioCtrlOffset + k.val < 32 := by
    have hk := k.isLt
    unfold RAS_PICO_L2.gpioCtrlOffset
    omega
  rw [pico_l2_calls_split]
  refine ⟨pico_groups_sorted _ _, ?_, ?_⟩
  · intro hm hb
    have hbit := pico_omask_bit RAS_PICO_L2.gpioCtrlOffset (by decide) bits mask k
    rw [hm, hb] at hbit
    have h := pico_out_group_mem _ _ hlt hbit
    exact ⟨List.mem_append_left _ h.1, List.mem_append_left _ h.2⟩
  · intro hm hb
    have hbit := pico_imask_bit RAS_PICO_L2.gpioCtrlOffset (by decide) bits mask k
    rw [hm, hb] at hbit
    have h := pico_in_group_mem _ _ hlt hbit
    exact ⟨List.mem_append_right _ h.1, List.mem_append_right _ h.2⟩

/-- Running the calls of `setGpibCtrlDir` on the Pico layout 2 in order over the GPIO
bank gives the state `setGpibCtrlDir` gives. -/
theorem pico_l2_calls_run (bits mask : U8) (s : RP2040) :
    (RAS_PICO_L2.setGpibCtrlDirCalls bits mask).foldl (fun s c => c.run s) s
      = RAS_PICO_L2.setGpibCtrlDir bits mask s := by
  unfold RAS_PICO_L2.setGpibCtrlDirCalls RAS_PICO_L2.setGpibCtrlDir
  dsimp only
  split_ifs <;>
    simp only [List.foldl_append, List.foldl_cons, List.foldl_nil, List.append_nil,
      List.nil_append, clear_calls_run, set_calls_run] <;>
    rfl

/-- Running the calls of `readyGpibDbus` on the Pico layout 1 in order over the
GPIO bank gives the state `readyGpibDbus` gives. -/
theorem pico_l1_ready_calls_run (s : RP2040) :
    RAS_PICO_L1.readyGpibDbusCalls.foldl (fun s c => c.run s) s
      = RAS_PICO_L1.readyGpibDbus s := by
  unfold RAS_PICO_L1.readyGpibDbusCalls RAS_PICO_L1.readyGpibDbus
  dsimp only
  simp only [List.foldl_append, List.foldl_cons, List.foldl_nil, set_calls_run]
  rfl

/-- Running the calls of `readyGpibDbus` on the Pico layout 2 in order over the
GPIO bank gives the state `readyGpibDbus` gives. -/
theorem pico_l2_ready_calls_run (s : RP2040) :
    RAS_PICO_L2.readyGpibDbusCalls.foldl (fun s c => c.run s) s
      = RAS_PICO_L2.readyGpibDbus s := by
  unfold RAS_PICO_L2.readyGpibDbusCalls RAS_PICO_L2.readyGpibDbus
  dsimp only
  simp only [List.foldl_append, List.foldl_cons, List.foldl_nil, set_calls_run]
  rfl

/-- On both Pico layouts `setGpibCtrlDir 0x00 0x01` (IFC to input) makes
exactly two SDK calls: the pull-up enable of the IFC pin first and the
direction-to-input call second. -/
theorem pico_ctrl_dir_in_trace :
    RAS_PICO_L1.setGpibCtrlDirCalls 0x00 0x01
      = [PicoCall.pull_up 14, PicoCall.set_dir_in_masked 0x4000] ∧
    RAS_PICO_L2.setGpibCtrlDirCalls 0x00 0x01
      = [PicoCall.pull_up 6, PicoCall.set_dir_in_masked 0x40] := by
  decide

/-- On both Pico layouts `readyGpibDbus` makes the direction-to-input call on
the data pins first and the eight pull-up enables after it. -/
theorem pico_ready_trace :
    RAS_PICO_L1.readyGpibDbusCalls
      = [PicoCall.set_dir_in_masked 0x00003FC0, PicoCall.pull_up 6, PicoCall.pull_up 7,
          PicoCall.pull_up 8, PicoCall.pull_up 9, PicoCall.pull_up 10, PicoCall.pull_up 11,
          PicoCall.pull_up 12, PicoCall.pull_up 13] ∧
    RAS_PICO_L2.readyGpibDbusCalls
      = [PicoCall.set_dir_in_masked 0x003FC000, PicoCall.pull_up 14, PicoCall.pull_up 15,
          PicoCall.pull_up 16, PicoCall.pull_up 17, PicoCall.pull_up 18, PicoCall.pull_up 19,
          PicoCall.pull_up 20, PicoCall.pull_up 21] := by
  decide

/-- C26 does not hold of the code in its second half.  On RAS_PICO_L1 and
RAS_PICO_L2 the SDK calls made by `setGpibCtrlDir bits mask` come in phase order
(pull disables, direction-to-output, pull-up enables, direction-to-input) and
every masked line has the pull call of its GPIO and the direction call of its
group among them: for the pins switched to output the pull-up disable precedes
the direction-to-output call, as claimed, but for the pins switched to input
the pull-up enable precedes the direction-to-input call, where the claim has it
after.  `setGpibCtrlDir 0x00 0x01` makes exactly the calls pull-up enable of the
IFC pin, then direction-to-input; `readyGpibDbus` of the same two profiles makes
the direction-to-input call first and the pull-up enables after it. -/
theorem C26_pico_ctrl_dir_call_order (bits mask : U8) (k : Fin 8) :
    ((RAS_PICO_L1.setGpibCtrlDirCalls bits mask).Pairwise (fun x y => x.phase ≤ y.phase) ∧
      (mask.bit k = true → bits.bit k = true →
        PicoCall.disable_pulls (RAS_PICO_L1.gpioCtrlOffset + k.val)
          ∈ RAS_PICO_L1.setGpibCtrlDirCalls bits mask ∧
        PicoCall.set_dir_out_masked (u32 ((bits.val &&& mask.val) <<< RAS_PICO_L1.gpioCtrlOffset))
          ∈ RAS_PICO_L1.setGpibCtrlDirCalls bits mask) ∧
      (mask.bit k = true → bits.bit k = false →
        PicoCall.pull_up (RAS_PICO_L1.gpioCtrlOffset + k.val)
          ∈ RAS_PICO_L1.setGpibCtrlDirCalls bits mask ∧
        PicoCall.set_dir_in_masked
            (u32 (((u8 (bnot bits.val)).val &&& mask.val) <<< RAS_PICO_L1.gpioCtrlOffset))
          ∈ RAS_PICO_L1.setGpibCtrlDirCalls bits mask)) ∧
    ((RAS_PICO_L2.setGpibCtrlDirCalls bits mask).Pairwise (fun x y => x.phase ≤ y.phase) ∧
      (mask.bit k = true → bits.bit k = true →
        PicoCall.disable_pulls (RAS_PICO_L2.gpioCtrlOffset + k.val)
          ∈ RAS_PICO_L2.setGpibCtrlDirCalls bits mask ∧
        PicoCall.set_dir_out_masked (u32 ((bits.val &&& mask.val) <<< RAS_PICO_L2.gpioCtrlOffset))
          ∈ RAS_PICO_L2.setGpibCtrlDirCalls bits mask) ∧
      (mask.bit k = true → bits.bit k = false →
        PicoCall.pull_up (RAS_PICO_L2.gpioCtrlOffset + k.val)
          ∈ RAS_PICO_L2.setGpibCtrlDirCalls bits mask ∧
        PicoCall.set_dir_in_masked
            (u32 (((u8 (bnot bits.val)).val &&& mask.val) <<< RAS_PICO_L2.gpioCtrlOffset))
          ∈ RAS_PICO_L2.setGpibCtrlDirCalls bits mask)) ∧
    (RAS_PICO_L1.setGpibCtrlDirCalls 0x00 0x01
        = [PicoCall.pull_up 14, PicoCall.set_dir_in_masked 0x4000] ∧
      RAS_PICO_L2.setGpibCtrlDirCalls 0x00 0x01
        = [PicoCall.pull_up 6, PicoCall.set_dir_in_masked 0x40]) ∧
    (RAS_PICO_L1.readyGpibDbusCalls
        = [PicoCall.set_dir_in_masked 0x00003FC0, PicoCall.pull_up 6, PicoCall.pull_up 7,
            PicoCall.pull_up 8, PicoCall.pull_up 9, PicoCall.pull_up 10, PicoCall.pull_up 11,
            PicoCall.pull_up 12, PicoCall.pull_up 13] ∧
      RAS_PICO_L2.readyGpibDbusCalls
        = [PicoCall.set_dir_in_masked 0x003FC000, PicoCall.pull_up 14, PicoCall.pull_up 15,
            PicoCall.pull_up 16, PicoCall.pull_up 17, PicoCall.pull_up 18, PicoCall.pull_up 19,
            PicoCall.pull_up 20, PicoCall.pull_up 21]) :=
  ⟨pico_l1_calls_order bits mask k, pico_l2_calls_order bits mask k, pico_ctrl_dir_in_trace,
    pico_ready_trace⟩

/-- Witness for C26: with IFC made an output and NDAC an input in one call,
layout 1 disables the pull of GPIO 14 and issues the direction-to-output call,
and layout 2 enables the pull-up of GPIO 7 and issues the direction-to-input
call. -/
theorem C26_pico_ctrl_dir_call_order_witness :
    ((0x03 : U8).bit (0 : Fin 8) = true ∧ (0x01 : U8).bit (0 : Fin 8) = true ∧
      PicoCall.disable_pulls (RAS_PICO_L1.gpioCtrlOffset + (0 : Fin 8).val)
        ∈ RAS_PICO_L1.setGpibCtrlDirCalls 0x01 0x03 ∧
      PicoCall.set_dir_out_masked
          (u32 (((0x01 : U8).val &&& (0x03 : U8).val) <<< RAS_PICO_L1.gpioCtrlOffset))
        ∈ RAS_PICO_L1.setGpibCtrlDirCalls 0x01 0x03) ∧
    ((0x03 : U8).bit (1 : Fin 8) = true ∧ (0x01 : U8).bit (1 : Fin 8) = false ∧
      PicoCall.pull_up (RAS_PICO_L2.gpioCtrlOffset + (1 : Fin 8).val)
        ∈ RAS_PICO_L2.setGpibCtrlDirCalls 0x01 0x03 ∧
      PicoCall.set_dir_in_masked
          (u32 (((u8 (bnot (0x01 : U8).val)).val &&& (0x03 : U8).val) <<< RAS_PICO_L2.gpioCtrlOffset))
        ∈ RAS_PICO_L2.setGpibCtrlDirCalls 0x01 0x03) :=
  ⟨⟨by decide, by decide,
    (C26_pico_ctrl_dir_call_order 0x01 0x03 0).1.2.1 (by decide) (by decide)⟩,
   ⟨by decide, by decide,
    (C26_pico_ctrl_dir_call_order 0x01 0x03 1).2.1.2.2 (by decide) (by decide)⟩⟩

/-! ## Data bus: to input with pull-up, and what `setGpibDbus` leaves alone -/

section
open AR488_UNO

theorem uno_readyGpibDbus_data (s : AVR) (k : Fin 8) :
    (readyGpibDbus s).ddrBit (dataPin k) = false ∧
    (readyGpibDbus s).portBit (dataPin k) = true := by
  fin_cases k <;> constructor <;> rw [Bool.eq_iff_iff] <;>
    simp +decide [-Nat.testBit_zero, readyGpibDbus, AVR.ddrBit, AVR.portBit, AVR.DDR, AVR.PORT,
      U8.bit, dataPin, testBit_u8]

theorem uno_readyGpibDbus_frame (s : AVR) (p : PortId) (i : Fin 8)
    (h : ∀ k : Fin 8, dataPin k ≠ (p, i.val)) :
    (readyGpibDbus s).ddrBit (p, i.val) = s.ddrBit (p, i.val) ∧
    (readyGpibDbus s).portBit (p, i.val) = s.portBit (p, i.val) := by
  cases p with
  | C =>
    fin_cases i <;>
    first
    | exact absurd rfl (h 0) | exact absurd rfl (h 1) | exact absurd rfl (h 2)
    | exact absurd rfl (h 3) | exact absurd rfl (h 4) | exact absurd rfl (h 5)
    | exact absurd rfl (h 6) | exact absurd rfl (h 7)
    | (constructor <;> rw [Bool.eq_iff_iff] <;>
        simp +decide [-Nat.testBit_zero, readyGpibDbus, AVR.ddrBit, AVR.portBit, AVR.DDR, AVR.PORT,
          U8.bit, testBit_u8])
  | D =>
    fin_cases i <;>
    first
    | exact absurd rfl (h 0) | exact absurd rfl (h 1) | exact absurd rfl (h 2)
    | exact absurd rfl (h 3) | exact absurd rfl (h 4) | exact absurd rfl (h 5)
    | exact absurd rfl (h 6) | exact absurd rfl (h 7)
    | (constructor <;> rw [Bool.eq_iff_iff] <;>
        simp +decide [-Nat.testBit_zero, readyGpibDbus, AVR.ddrBit, AVR.portBit, AVR.DDR, AVR.PORT,
          U8.bit, testBit_u8])
  | _ => exact ⟨rfl, rfl⟩

theorem uno_setGpibDbus_frame (v : U8) (s : AVR) (p : PortId) (i : Fin 8)
    (h : ∀ k : Fin 8, dataPin k ≠ (p, i.val)) :
    (setGpibDbus v s).ddrBit (p, i.val) = s.ddrBit (p, i.val) ∧
    (setGpibDbus v s).portBit (p, i.val) = s.portBit (p, i.val) := by
  cases p with
  | C =>
    fin_cases i <;>
    first
    | exact absurd rfl (h 0) | exact absurd rfl (h 1) | exact absurd rfl (h 2)
    | exact absurd rfl (h 3) | exact absurd rfl (h 4) | exact absurd rfl (h 5)
    | exact absurd rfl (h 6) | exact absurd rfl (h 7)
    | (constructor <;> rw [Bool.eq_iff_iff] <;>
        simp +decide [-Nat.testBit_zero, setGpibDbus, AVR.ddrBit, AVR.portBit, AVR.DDR, AVR.PORT,
          U8.bit, testBit_u8, testBit_bnot])
  | D =>
    fin_cases i <;>
    first
    | exact absurd rfl (h 0) | exact absurd rfl (h 1) | exact absurd rfl (h 2)
    | exact absurd rfl (h 3) | exact absurd rfl (h 4) | exact absurd rfl (h 5)
    | exact absurd rfl (h 6) | exact absurd rfl (h 7)
    | (constructor <;> rw [Bool.eq_iff_iff] <;>
        simp +decide [-Nat.testBit_zero, setGpibDbus, AVR.ddrBit, AVR.portBit, AVR.DDR, AVR.PORT,
          U8.bit, testBit_u8, testBit_bnot])
  | _ => exact ⟨rfl, rfl⟩

theorem uno_data_not_ctrl : ∀ k j : Fin 8, dataPin j ≠ ctrlPin k := by
  decide

end

section
open AR488_MEGA2560_D

theorem mega_d_readyGpibDbus_data (s : AVR) (k : Fin 8) :
    (readyGpibDbus s).ddrBit (dataPin k) = false ∧
    (readyGpibDbus s).portBit (dataPin k) = true := by
  fin_cases k <;> constructor <;> rw [Bool.eq_iff_iff] <;>
    simp +decide [-Nat.testBit_zero, readyGpibDbus, AVR.ddrBit, AVR.portBit, AVR.DDR, AVR.PORT,
      U8.bit, dataPin, testBit_u8]

theorem mega_d_readyGpibDbus_frame (s : AVR) (p : PortId) (i : Fin 8)
    (h : ∀ k : Fin 8, dataPin k ≠ (p, i.val)) :
    (readyGpibDbus s).ddrBit (p, i.val) = s.ddrBit (p, i.val) ∧
    (readyGpibDbus s).portBit (p, i.val) = s.portBit (p, i.val) := by
  cases p with
  | F =>
    fin_cases i <;>
    first
    | exact absurd rfl (h 0) | exact absurd rfl (h 1) | exact absurd rfl (h 2)
    | exact absurd rfl (h 3) | exact absurd rfl (h 4) | exact absurd rfl (h 5)
    | exact absurd rfl (h 6) | exact absurd rfl (h 7)
  | _ => exact ⟨rfl, rfl⟩

theorem mega_d_setGpibDbus_frame (v : U8) (s : AVR) (p : PortId) (i : Fin 8)
    (h : ∀ k : Fin 8, dataPin k ≠ (p, i.val)) :
    (setGpibDbus v s).ddrBit (p, i.val) = s.ddrBit (p, i.val) ∧
    (setGpibDbus v s).portBit (p, i.val) = s.portBit (p, i.val) := by
  cases p with
  | F =>
    fin_cases i <;>
    first
    | exact absurd rfl (h 0) | exact absurd rfl (h 1) | exact absurd rfl (h 2)
    | exact absurd rfl (h 3) | exact absurd rfl (h 4) | exact absurd rfl (h 5)
    | exact absurd rfl (h 6) | exact absurd rfl (h 7)
  | _ => exact ⟨rfl, rfl⟩

theorem mega_d_data_not_ctrl : ∀ k j : Fin 8, dataPin j ≠ ctrlPin k := by
  decide

end

section
open AR488_MEGA2560_E1

theorem e1_readyGpibDbus_data (s : AVR) (k : Fin 8) :
    (readyGpibDbus s).ddrBit (dataPin k) = false ∧
    (readyGpibDbus s).portBit (dataPin k) = true := by
  fin_cases k <;> constructor <;> rw [Bool.eq_iff_iff] <;>
    simp +decide [-Nat.testBit_zero, readyGpibDbus, AVR.ddrBit, AVR.portBit, AVR.DDR, AVR.PORT,
      U8.bit, dataPin, testBit_u8]

theorem e1_readyGpibDbus_frame (s : AVR) (p : PortId) (i : Fin 8)
    (h : ∀ k : Fin 8, dataPin k ≠ (p, i.val)) :
    (readyGpibDbus s).ddrBit (p, i.val) = s.ddrBit (p, i.val) ∧
    (readyGpibDbus s).portBit (p, i.val) = s.portBit (p, i.val) := by
  cases p with
  | A =>
    fin_cases i <;>
    first
    | exact absurd rfl (h 0) | exact absurd rfl (h 1) | exact absurd rfl (h 2)
    | exact absurd rfl (h 3) | exact absurd rfl (h 4) | exact absurd rfl (h 5)
    | exact absurd rfl (h 6) | exact absurd rfl (h 7)
    | (constructor <;> rw [Bool.eq_iff_iff] <;>
        simp +decide [-Nat.testBit_zero, readyGpibDbus, AVR.ddrBit, AVR.portBit, AVR.DDR, AVR.PORT,
          U8.bit, testBit_u8])
  | C =>
    fin_cases i <;>
    first
    | exact absurd rfl (h 0) | exact absurd rfl (h 1) | exact absurd rfl (h 2)
    | exact absurd rfl (h 3) | exact absurd rfl (h 4) | exact absurd rfl (h 5)
    | exact absurd rfl (h 6) | exact absurd rfl (h 7)
    | (constructor <;> rw [Bool.eq_iff_iff] <;>
        simp +decide [-Nat.testBit_zero, readyGpibDbus, AVR.ddrBit, AVR.portBit, AVR.DDR, AVR.PORT,
          U8.bit, testBit_u8])
  | _ => exact ⟨rfl, rfl⟩

theorem e1_setGpibDbus_frame (v : U8) (s : AVR) (p : PortId) (i : Fin 8)
    (h : ∀ k : Fin 8, dataPin k ≠ (p, i.val)) :
    (setGpibDbus v s).ddrBit (p, i.val) = s.ddrBit (p, i.val) ∧
    (setGpibDbus v s).portBit (p, i.val) = s.portBit (p, i.val) := by
  cases p with
  | A =>
    fin_cases i <;>
    first
    | exact absurd rfl (h 0) | exact absurd rfl (h 1) | exact absurd rfl (h 2)
    | exact absurd rfl (h 3) | exact absurd rfl (h 4) | exact absurd rfl (h 5)
    | exact absurd rfl (h 6) | exact absurd rfl (h 7)
    | (constructor <;> rw [Bool.eq_iff_iff] <;>
        simp +decide [-Nat.testBit_zero, setGpibDbus, AVR.ddrBit, AVR.portBit, AVR.DDR, AVR.PORT,
          U8.bit, testBit_u8, testBit_bnot])
  | C =>
    fin_cases i <;>
    first
    | exact absurd rfl (h 0) | exact absurd rfl (h 1) | exact absurd rfl (h 2)
    | exact absurd rfl (h 3) | exact absurd rfl (h 4) | exact absurd rfl (h 5)
    | exact absurd rfl (h 6) | exact absurd rfl (h 7)
    | (constructor <;> rw [Bool.eq_iff_iff] <;>
        simp +decide [-Nat.testBit_zero, setGpibDbus, AVR.ddrBit, AVR.portBit, AVR.DDR, AVR.PORT,
          U8.bit, testBit_u8, testBit_bnot])
  | _ => exact ⟨rfl, rfl⟩

theorem e1_data_not_ctrl : ∀ k j : Fin 8, dataPin j ≠ ctrlPin k := by
  decide

end

section
open AR488_MEGA2560_E2

theorem e2_readyGpibDbus_data (s : AVR) (k : Fin 8) :
    (readyGpibDbus s).ddrBit (dataPin k) = false ∧
    (readyGpibDbus s).portBit (dataPin k) = true := by
  fin_cases k <;> constructor <;> rw [Bool.eq_iff_iff] <;>
    simp +decide [-Nat.testBit_zero, readyGpibDbus, AVR.ddrBit, AVR.portBit, AVR.DDR, AVR.PORT,
      U8.bit, dataPin, testBit_u8]

theorem e2_readyGpibDbus_frame (s : AVR) (p : PortId) (i : Fin 8)
    (h : ∀ k : Fin 8, dataPin k ≠ (p, i.val)) :
    (readyGpibDbus s).ddrBit (p, i.val) = s.ddrBit (p, i.val) ∧
    (readyGpibDbus s).portBit (p, i.val) = s.portBit (p, i.val) := by
  cases p with
  | A =>
    fin_cases i <;>
    first
    | exact absurd rfl (h 0) | exact absurd rfl (h 1) | exact absurd rfl (h 2)
    | exact absurd rfl (h 3) | exact absurd rfl (h 4) | exact absurd rfl (h 5)
    | exact absurd rfl (h 6) | exact absurd rfl (h 7)
    | (constructor <;> rw [Bool.eq_iff_iff] <;>
        simp +decide [-Nat.testBit_zero, readyGpibDbus, AVR.ddrBit, AVR.portBit, AVR.DDR, AVR.PORT,
          U8.bit, testBit_u8])
  | C =>
    fin_cases i <;>
    first
    | exact absurd rfl (h 0) | exact absurd rfl (h 1) | exact absurd rfl (h 2)
    | exact absurd rfl (h 3) | exact absurd rfl (h 4) | exact absurd rfl (h 5)
    | exact absurd rfl (h 6) | exact absurd rfl (h 7)
    | (constructor <;> rw [Bool.eq_iff_iff] <;>
        simp +decide [-Nat.testBit_zero, readyGpibDbus, AVR.ddrBit, AVR.portBit, AVR.DDR, AVR.PORT,
          U8.bit, testBit_u8])
  | _ => exact ⟨rfl, rfl⟩

theorem e2_setGpibDbus_frame (v : U8) (s : AVR) (p : PortId) (i : Fin 8)
    (h : ∀ k : Fin 8, dataPin k ≠ (p, i.val)) :
    (setGpibDbus v s).ddrBit (p, i.val) = s.ddrBit (p, i.val) ∧
    (setGpibDbus v s).portBit (p, i.val) = s.portBit (p, i.val) := by
  cases p with
  | A =>
    fin_cases i <;>
    first
    | exact absurd rfl (h 0) | exact absurd rfl (h 1) | exact absurd rfl (h 2)
    | exact absurd rfl (h 3) | exact absurd rfl (h 4) | exact absurd rfl (h 5)
    | exact absurd rfl (h 6) | exact absurd rfl (h 7)
    | (constructor <;> rw [Bool.eq_iff_iff] <;>
        simp +decide [-Nat.testBit_zero, setGpibDbus, AVR.ddrBit, AVR.portBit, AVR.DDR, AVR.PORT,
          U8.bit, testBit_u8, testBit_bnot])
  | C =>
    fin_cases i <;>
    first
    | exact absurd rfl (h 0) | exact absurd rfl (h 1) | exact absurd rfl (h 2)
    | exact absurd rfl (h 3) | exact absurd rfl (h 4) | exact absurd rfl (h 5)
    | exact absurd rfl (h 6) | exact absurd rfl (h 7)
    | (constructor <;> rw [Bool.eq_iff_iff] <;>
        simp +decide [-Nat.testBit_zero, setGpibDbus, AVR.ddrBit, AVR.portBit, AVR.DDR, AVR.PORT,
          U8.bit, testBit_u8, testBit_bnot])
  | _ => exact ⟨rfl, rfl⟩

theorem e2_data_not_ctrl : ∀ k j : Fin 8, dataPin j ≠ ctrlPin k := by
  decide

end

section
open AR488_MEGA32U4_MICRO

theorem micro_readyGpibDbus_data (s : AVR) (k : Fin 8) :
    (readyGpibDbus s).ddrBit (dataPin k) = false ∧
    (readyGpibDbus s).portBit (dataPin k) = true := by
  fin_cases k <;> constructor <;> rw [Bool.eq_iff_iff] <;>
    simp +decide [-Nat.testBit_zero, readyGpibDbus, AVR.ddrBit, AVR.portBit, AVR.DDR, AVR.PORT,
      U8.bit, dataPin, testBit_u8]

theorem micro_readyGpibDbus_frame (s : AVR) (p : PortId) (i : Fin 8)
    (h : ∀ k : Fin 8, dataPin k ≠ (p, i.val)) :
    (readyGpibDbus s).ddrBit (p, i.val) = s.ddrBit (p, i.val) ∧
    (readyGpibDbus s).portBit (p, i.val) = s.portBit (p, i.val) := by
  cases p with
  | B =>
    fin_cases i <;>
    first
    | exact absurd rfl (h 0) | exact absurd rfl (h 1) | exact absurd rfl (h 2)
    | exact absurd rfl (h 3) | exact absurd rfl (h 4) | exact absurd rfl (h 5)
    | exact absurd rfl (h 6) | exact absurd rfl (h 7)
    | (constructor <;> rw [Bool.eq_iff_iff] <;>
        simp +decide [-Nat.testBit_zero, readyGpibDbus, AVR.ddrBit, AVR.portBit, AVR.DDR, AVR.PORT,
          U8.bit, testBit_u8])
  | D =>
    fin_cases i <;>
    first
    | exact absurd rfl (h 0) | exact absurd rfl (h 1) | exact absurd rfl (h 2)
    | exact absurd rfl (h 3) | exact absurd rfl (h 4) | exact absurd rfl (h 5)
    | exact absurd rfl (h 6) | exact absurd rfl (h 7)
    | (constructor <;> rw [Bool.eq_iff_iff] <;>
        simp +decide [-Nat.testBit_zero, readyGpibDbus, AVR.ddrBit, AVR.portBit, AVR.DDR, AVR.PORT,
          U8.bit, testBit_u8])
  | _ => exact ⟨rfl, rfl⟩

theorem micro_setGpibDbus_frame (v : U8) (s : AVR) (p : PortId) (i : Fin 8)
    (h : ∀ k : Fin 8, dataPin k ≠ (p, i.val)) :
    (setGpibDbus v s).ddrBit (p, i.val) = s.ddrBit (p, i.val) ∧
    (setGpibDbus v s).portBit (p, i.val) = s.portBit (p, i.val) := by
  cases p with
  | B =>
    fin_cases i <;>
    first
    | exact absurd rfl (h 0) | exact absurd rfl (h 1) | exact absurd rfl (h 2)
    | exact absurd rfl (h 3) | exact absurd rfl (h 4) | exact absurd rfl (h 5)
    | exact absurd rfl (h 6) | exact absurd rfl (h 7)
    | (constructor <;> rw [Bool.eq_iff_iff] <;>
        simp +decide [-Nat.testBit_zero, setGpibDbus, AVR.ddrBit, AVR.portBit, AVR.DDR, AVR.PORT,
          U8.bit, testBit_u8, testBit_bnot])
  | D =>
    fin_cases i <;>
    first
    | exact absurd rfl (h 0) | exact absurd rfl (h 1) | exact absurd rfl (h 2)
    | exact absurd rfl (h 3) | exact absurd rfl (h 4) | exact absurd rfl (h 5)
    | exact absurd rfl (h 6) | exact absurd rfl (h 7)
    | (constructor <;> rw [Bool.eq_iff_iff] <;>
        simp +decide [-Nat.testBit_zero, setGpibDbus, AVR.ddrBit, AVR.portBit, AVR.DDR, AVR.PORT,
          U8.bit, testBit_u8, testBit_bnot])
  | _ => exact ⟨rfl, rfl⟩

theorem micro_data_not_ctrl : ∀ k j : Fin 8, dataPin j ≠ ctrlPin k := by
  decide

end

section
open AR488_MEGA32U4_LR3

theorem lr3_readyGpibDbus_data (s : AVR) (k : Fin 8) :
    (readyGpibDbus s).ddrBit (dataPin k) = false ∧
    (readyGpibDbus s).portBit (dataPin k) = true := by
  fin_cases k <;> constructor <;> rw [Bool.eq_iff_iff] <;>
    simp +decide [-Nat.testBit_zero, readyGpibDbus, AVR.ddrBit, AVR.portBit, AVR.DDR, AVR.PORT,
      U8.bit, dataPin, testBit_u8]

theorem lr3_readyGpibDbus_frame (s : AVR) (p : PortId) (i : Fin 8)
    (h : ∀ k : Fin 8, dataPin k ≠ (p, i.val)) :
    (readyGpibDbus s).ddrBit (p, i.val) = s.ddrBit (p, i.val) ∧
    (readyGpibDbus s).portBit (p, i.val) = s.portBit (p, i.val) := by
  cases p with
  | C =>
    fin_cases i <;>
    first
    | exact absurd rfl (h 0) | exact absurd rfl (h 1) | exact absurd rfl (h 2)
    | exact absurd rfl (h 3) | exact absurd rfl (h 4) | exact absurd rfl (h 5)
    | exact absurd rfl (h 6) | exact absurd rfl (h 7)
    | (constructor <;> rw [Bool.eq_iff_iff] <;>
        simp +decide [-Nat.testBit_zero, readyGpibDbus, AVR.ddrBit, AVR.portBit, AVR.DDR, AVR.PORT,
          U8.bit, testBit_u8])
  | D =>
    fin_cases i <;>
    first
    | exact absurd rfl (h 0) | exact absurd rfl (h 1) | exact absurd rfl (h 2)
    | exact absurd rfl (h 3) | exact absurd rfl (h 4) | exact absurd rfl (h 5)
    | exact absurd rfl (h 6) | exact absurd rfl (h 7)
    | (constructor <;> rw [Bool.eq_iff_iff] <;>
        simp +decide [-Nat.testBit_zero, readyGpibDbus, AVR.ddrBit, AVR.portBit, AVR.DDR, AVR.PORT,
          U8.bit, testBit_u8])
  | F =>
    fin_cases i <;>
    first
    | exact absurd rfl (h 0) | exact absurd rfl (h 1) | exact absurd rfl (h 2)
    | exact absurd rfl (h 3) | exact absurd rfl (h 4) | exact absurd rfl (h 5)
    | exact absurd rfl (h 6) | exact absurd rfl (h 7)
    | (constructor <;> rw [Bool.eq_iff_iff] <;>
        simp +decide [-Nat.testBit_zero, readyGpibDbus, AVR.ddrBit, AVR.portBit, AVR.DDR, AVR.PORT,
          U8.bit, testBit_u8])
  | _ => exact ⟨rfl, rfl⟩

theorem lr3_setGpibDbus_frame (v : U8) (s : AVR) (p : PortId) (i : Fin 8)
    (h : ∀ k : Fin 8, dataPin k ≠ (p, i.val)) :
    (setGpibDbus v s).ddrBit (p, i.val) = s.ddrBit (p, i.val) ∧
    (setGpibDbus v s).portBit (p, i.val) = s.portBit (p, i.val) := by
  cases p with
  | C =>
    fin_cases i <;>
    first
    | exact absurd rfl (h 0) | exact absurd rfl (h 1) | exact absurd rfl (h 2)
    | exact absurd rfl (h 3) | exact absurd rfl (h 4) | exact absurd rfl (h 5)
    | exact absurd rfl (h 6) | exact absurd rfl (h 7)
    | (constructor <;> rw [Bool.eq_iff_iff] <;>
        simp +decide [-Nat.testBit_zero, setGpibDbus, AVR.ddrBit, AVR.portBit, AVR.DDR, AVR.PORT,
          U8.bit, testBit_u8, testBit_bnot])
  | D =>
    fin_cases i <;>
    first
    | exact absurd rfl (h 0) | exact absurd rfl (h 1) | exact absurd rfl (h 2)
    | exact absurd rfl (h 3) | exact absurd rfl (h 4) | exact absurd rfl (h 5)
    | exact absurd rfl (h 6) | exact absurd rfl (h 7)
    | (constructor <;> rw [Bool.eq_iff_iff] <;>
        simp +decide [-Nat.testBit_zero, setGpibDbus, AVR.ddrBit, AVR.portBit, AVR.DDR, AVR.PORT,
          U8.bit, testBit_u8, testBit_bnot])
  | F =>
    fin_cases i <;>
    first
    | exact absurd rfl (h 0) | exact absurd rfl (h 1) | exact absurd rfl (h 2)
    | exact absurd rfl (h 3) | exact absurd rfl (h 4) | exact absurd rfl (h 5)
    | exact absurd rfl (h 6) | exact absurd rfl (h 7)
    | (constructor <;> rw [Bool.eq_iff_iff] <;>
        simp +decide [-Nat.testBit_zero, setGpibDbus, AVR.ddrBit, AVR.portBit, AVR.DDR, AVR.PORT,
          U8.bit, testBit_u8, testBit_bnot])
  | _ => exact ⟨rfl, rfl⟩

theorem lr3_data_not_ctrl : ∀ k j : Fin 8, dataPin j ≠ ctrlPin k := by
  decide

end

section
open AR488_MEGA644P_MCGRAW

theorem mcgraw_readyGpibDbus_data (s : AVR) (k : Fin 8) :
    (readyGpibDbus s).ddrBit (dataPin k) = false ∧
    (readyGpibDbus s).portBit (dataPin k) = true := by
  fin_cases k <;> constructor <;> rw [Bool.eq_iff_iff] <;>
    simp +decide [-Nat.testBit_zero, readyGpibDbus, AVR.ddrBit, AVR.portBit, AVR.DDR, AVR.PORT,
      U8.bit, dataPin, testBit_u8]

theorem mcgraw_readyGpibDbus_frame (s : AVR) (p : PortId) (i : Fin 8)
    (h : ∀ k : Fin 8, dataPin k ≠ (p, i.val)) :
    (readyGpibDbus s).ddrBit (p, i.val) = s.ddrBit (p, i.val) ∧
    (readyGpibDbus s).portBit (p, i.val) = s.portBit (p, i.val) := by
  cases p with
  | C =>
    fin_cases i <;>
    first
    | exact absurd rfl (h 0) | exact absurd rfl (h 1) | exact absurd rfl (h 2)
    | exact absurd rfl (h 3) | exact absurd rfl (h 4) | exact absurd rfl (h 5)
    | exact absurd rfl (h 6) | exact absurd rfl (h 7)
    | (constructor <;> rw [Bool.eq_iff_iff] <;>
        simp +decide [-Nat.testBit_zero, readyGpibDbus, AVR.ddrBit, AVR.portBit, AVR.DDR, AVR.PORT,
          U8.bit, testBit_u8])
  | D =>
    fin_cases i <;>
    first
    | exact absurd rfl (h 0) | exact absurd rfl (h 1) | exact absurd rfl (h 2)
    | exact absurd rfl (h 3) | exact absurd rfl (h 4) | exact absurd rfl (h 5)
    | exact absurd rfl (h 6) | exact absurd rfl (h 7)
    | (constructor <;> rw [Bool.eq_iff_iff] <;>
        simp +decide [-Nat.testBit_zero, readyGpibDbus, AVR.ddrBit, AVR.portBit, AVR.DDR, AVR.PORT,
          U8.bit, testBit_u8])
  | _ => exact ⟨rfl, rfl⟩

theorem mcgraw_setGpibDbus_frame (v : U8) (s : AVR) (p : PortId) (i : Fin 8)
    (h : ∀ k : Fin 8, dataPin k ≠ (p, i.val)) :
    (setGpibDbus v s).ddrBit (p, i.val) = s.ddrBit (p, i.val) ∧
    (setGpibDbus v s).portBit (p, i.val) = s.portBit (p, i.val) := by
  cases p with
  | C =>
    fin_cases i <;>
    first
    | exact absurd rfl (h 0) | exact absurd rfl (h 1) | exact absurd rfl (h 2)
    | exact absurd rfl (h 3) | exact absurd rfl (h 4) | exact absurd rfl (h 5)
    | exact absurd rfl (h 6) | exact absurd rfl (h 7)
    | (constructor <;> rw [Bool.eq_iff_iff] <;>
        simp +decide [-Nat.testBit_zero, setGpibDbus, AVR.ddrBit, AVR.portBit, AVR.DDR, AVR.PORT,
          U8.bit, testBit_u8, testBit_bnot])
  | D =>
    fin_cases i <;>
    first
    | exact absurd rfl (h 0) | exact absurd rfl (h 1) | exact absurd rfl (h 2)
    | exact absurd rfl (h 3) | exact absurd rfl (h 4) | exact absurd rfl (h 5)
    | exact absurd rfl (h 6) | exact absurd rfl (h 7)
    | (constructor <;> rw [Bool.eq_iff_iff] <;>
        simp +decide [-Nat.testBit_zero, setGpibDbus, AVR.ddrBit, AVR.portBit, AVR.DDR, AVR.PORT,
          U8.bit, testBit_u8, testBit_bnot])
  | _ => exact ⟨rfl, rfl⟩

theorem mcgraw_data_not_ctrl : ∀ k j : Fin 8, dataPin j ≠ ctrlPin k := by
  decide

end

section
open AR488_328PB_ALT

theorem alt328pb_readyGpibDbus_data (s : AVR) (k : Fin 8) :
    (readyGpibDbus s).ddrBit (dataPin k) = false ∧
    (readyGpibDbus s).portBit (dataPin k) = true := by
  fin_cases k <;> constructor <;> rw [Bool.eq_iff_iff] <;>
    simp +decide [-Nat.testBit_zero, readyGpibDbus, AVR.ddrBit, AVR.portBit, AVR.DDR, AVR.PORT,
      U8.bit, dataPin, testBit_u8]

theorem alt328pb_readyGpibDbus_frame (s : AVR) (p : PortId) (i : Fin 8)
    (h : ∀ k : Fin 8, dataPin k ≠ (p, i.val)) :
    (readyGpibDbus s).ddrBit (p, i.val) = s.ddrBit (p, i.val) ∧
    (readyGpibDbus s).portBit (p, i.val) = s.portBit (p, i.val) := by
  cases p with
  | C =>
    fin_cases i <;>
    first
    | exact absurd rfl (h 0) | exact absurd rfl (h 1) | exact absurd rfl (h 2)
    | exact absurd rfl (h 3) | exact absurd rfl (h 4) | exact absurd rfl (h 5)
    | exact absurd rfl (h 6) | exact absurd rfl (h 7)
    | (constructor <;> rw [Bool.eq_iff_iff] <;>
        simp +decide [-Nat.testBit_zero, readyGpibDbus, AVR.ddrBit, AVR.portBit, AVR.DDR, AVR.PORT,
          U8.bit, testBit_u8])
  | E =>
    fin_cases i <;>
    first
    | exact absurd rfl (h 0) | exact absurd rfl (h 1) | exact absurd rfl (h 2)
    | exact absurd rfl (h 3) | exact absurd rfl (h 4) | exact absurd rfl (h 5)
    | exact absurd rfl (h 6) | exact absurd rfl (h 7)
    | (constructor <;> rw [Bool.eq_iff_iff] <;>
        simp +decide [-Nat.testBit_zero, readyGpibDbus, AVR.ddrBit, AVR.portBit, AVR.DDR, AVR.PORT,
          U8.bit, testBit_u8])
  | _ => exact ⟨rfl, rfl⟩

theorem alt328pb_setGpibDbus_frame (v : U8) (s : AVR) (p : PortId) (i : Fin 8)
    (h : ∀ k : Fin 8, dataPin k ≠ (p, i.val)) :
    (setGpibDbus v s).ddrBit (p, i.val) = s.ddrBit (p, i.val) ∧
    (setGpibDbus v s).portBit (p, i.val) = s.portBit (p, i.val) := by
  cases p with
  | C =>
    fin_cases i <;>
    first
    | exact absurd rfl (h 0) | exact absurd rfl (h 1) | exact absurd rfl (h 2)
    | exact absurd rfl (h 3) | exact absurd rfl (h 4) | exact absurd rfl (h 5)
    | exact absurd rfl (h 6) | exact absurd rfl (h 7)
    | (constructor <;> rw [Bool.eq_iff_iff] <;>
        simp +decide [-Nat.testBit_zero, setGpibDbus, AVR.ddrBit, AVR.portBit, AVR.DDR, AVR.PORT,
          U8.bit, testBit_u8, testBit_bnot])
  | E =>
    fin_cases i <;>
    first
    | exact absurd rfl (h 0) | exact absurd rfl (h 1) | exact absurd rfl (h 2)
    | exact absurd rfl (h 3) | exact absurd rfl (h 4) | exact absurd rfl (h 5)
    | exact absurd rfl (h 6) | exact absurd rfl (h 7)
    | (constructor <;> rw [Bool.eq_iff_iff] <;>
        simp +decide [-Nat.testBit_zero, setGpibDbus, AVR.ddrBit, AVR.portBit, AVR.DDR, AVR.PORT,
          U8.bit, testBit_u8, testBit_bnot])
  | _ => exact ⟨rfl, rfl⟩

theorem alt328pb_data_not_ctrl : ∀ k j : Fin 8, dataPin j ≠ ctrlPin k := by
  decide

end

/-! ## The data bus after `setGpibDbus` followed by `readyGpibDbus` -/

theorem uno_ctrlPin_lt : ∀ k : Fin 8, (AR488_UNO.ctrlPin k).2 < 8 := by
  decide

theorem uno_setGpibDbus_ctrl (v : U8) (s : AVR) (k : Fin 8) :
    (AR488_UNO.setGpibDbus v s).ddrBit (AR488_UNO.ctrlPin k) = s.ddrBit (AR488_UNO.ctrlPin k) ∧
    (AR488_UNO.setGpibDbus v s).portBit (AR488_UNO.ctrlPin k) = s.portBit (AR488_UNO.ctrlPin k) :=
  uno_setGpibDbus_frame v s (AR488_UNO.ctrlPin k).1 ⟨(AR488_UNO.ctrlPin k).2, uno_ctrlPin_lt k⟩
    (fun j => uno_data_not_ctrl k j)

theorem uno_set_ready_frame (v : U8) (s : AVR) (p : PortId) (i : Fin 8)
    (h : ∀ k : Fin 8, AR488_UNO.dataPin k ≠ (p, i.val)) :
    (AR488_UNO.readyGpibDbus (AR488_UNO.setGpibDbus v s)).ddrBit (p, i.val) = s.ddrBit (p, i.val) ∧
    (AR488_UNO.readyGpibDbus (AR488_UNO.setGpibDbus v s)).portBit (p, i.val) = s.portBit (p, i.val) := by
  have h1 := uno_readyGpibDbus_frame (AR488_UNO.setGpibDbus v s) p i h
  have h2 := uno_setGpibDbus_frame v s p i h
  exact ⟨h1.1.trans h2.1, h1.2.trans h2.2⟩

theorem mega_d_ctrlPin_lt : ∀ k : Fin 8, (AR488_MEGA2560_D.ctrlPin k).2 < 8 := by
  decide

theorem mega_d_setGpibDbus_ctrl (v : U8) (s : AVR) (k : Fin 8) :
    (AR488_MEGA2560_D.setGpibDbus v s).ddrBit (AR488_MEGA2560_D.ctrlPin k) = s.ddrBit (AR488_MEGA2560_D.ctrlPin k) ∧
    (AR488_MEGA2560_D.setGpibDbus v s).portBit (AR488_MEGA2560_D.ctrlPin k) = s.portBit (AR488_MEGA2560_D.ctrlPin k) :=
  mega_d_setGpibDbus_frame v s (AR488_MEGA2560_D.ctrlPin k).1 ⟨(AR488_MEGA2560_D.ctrlPin k).2, mega_d_ctrlPin_lt k⟩
    (fun j => mega_d_data_not_ctrl k j)

theorem mega_d_set_ready_frame (v : U8) (s : AVR) (p : PortId) (i : Fin 8)
    (h : ∀ k : Fin 8, AR488_MEGA2560_D.dataPin k ≠ (p, i.val)) :
    (AR488_MEGA2560_D.readyGpibDbus (AR488_MEGA2560_D.setGpibDbus v s)).ddrBit (p, i.val) = s.ddrBit (p, i.val) ∧
    (AR488_MEGA2560_D.readyGpibDbus (AR488_MEGA2560_D.setGpibDbus v s)).portBit (p, i.val) = s.portBit (p, i.val) := by
  have h1 := mega_d_readyGpibDbus_frame (AR488_MEGA2560_D.setGpibDbus v s) p i h
  have h2 := mega_d_setGpibDbus_frame v s p i h
  exact ⟨h1.1.trans h2.1, h1.2.trans h2.2⟩

theorem e1_ctrlPin_lt : ∀ k : Fin 8, (AR488_MEGA2560_E1.ctrlPin k).2 < 8 := by
  decide

theorem e1_setGpibDbus_ctrl (v : U8) (s : AVR) (k : Fin 8) :
    (AR488_MEGA2560_E1.setGpibDbus v s).ddrBit (AR488_MEGA2560_E1.ctrlPin k) = s.ddrBit (AR488_MEGA2560_E1.ctrlPin k) ∧
    (AR488_MEGA2560_E1.setGpibDbus v s).portBit (AR488_MEGA2560_E1.ctrlPin k) = s.portBit (AR488_MEGA2560_E1.ctrlPin k) :=
  e1_setGpibDbus_frame v s (AR488_MEGA2560_E1.ctrlPin k).1 ⟨(AR488_MEGA2560_E1.ctrlPin k).2, e1_ctrlPin_lt k⟩
    (fun j => e1_data_not_ctrl k j)

theorem e1_set_ready_frame (v : U8) (s : AVR) (p : PortId) (i : Fin 8)
    (h : ∀ k : Fin 8, AR488_MEGA2560_E1.dataPin k ≠ (p, i.val)) :
    (AR488_MEGA2560_E1.readyGpibDbus (AR488_MEGA2560_E1.setGpibDbus v s)).ddrBit (p, i.val) = s.ddrBit (p, i.val) ∧
    (AR488_MEGA2560_E1.readyGpibDbus (AR488_MEGA2560_E1.setGpibDbus v s)).portBit (p, i.val) = s.portBit (p, i.val) := by
  have h1 := e1_readyGpibDbus_frame (AR488_MEGA2560_E1.setGpibDbus v s) p i h
  have h2 := e1_setGpibDbus_frame v s p i h
  exact ⟨h1.1.trans h2.1, h1.2.trans h2.2⟩

theorem e2_ctrlPin_lt : ∀ k : Fin 8, (AR488_MEGA2560_E2.ctrlPin k).2 < 8 := by
  decide

theorem e2_setGpibDbus_ctrl (v : U8) (s : AVR) (k : Fin 8) :
    (AR488_MEGA2560_E2.setGpibDbus v s).ddrBit (AR488_MEGA2560_E2.ctrlPin k) = s.ddrBit (AR488_MEGA2560_E2.ctrlPin k) ∧
    (AR488_MEGA2560_E2.setGpibDbus v s).portBit (AR488_MEGA2560_E2.ctrlPin k) = s.portBit (AR488_MEGA2560_E2.ctrlPin k) :=
  e2_setGpibDbus_frame v s (AR488_MEGA2560_E2.ctrlPin k).1 ⟨(AR488_MEGA2560_E2.ctrlPin k).2, e2_ctrlPin_lt k⟩
    (fun j => e2_data_not_ctrl k j)

theorem e2_set_ready_frame (v : U8) (s : AVR) (p : PortId) (i : Fin 8)
    (h : ∀ k : Fin 8, AR488_MEGA2560_E2.dataPin k ≠ (p, i.val)) :
    (AR488_MEGA2560_E2.readyGpibDbus (AR488_MEGA2560_E2.setGpibDbus v s)).ddrBit (p, i.val) = s.ddrBit (p, i.val) ∧
    (AR488_MEGA2560_E2.readyGpibDbus (AR488_MEGA2560_E2.setGpibDbus v s)).portBit (p, i.val) = s.portBit (p, i.val) := by
  have h1 := e2_readyGpibDbus_frame (AR488_MEGA2560_E2.setGpibDbus v s) p i h
  have h2 := e2_setGpibDbus_frame v s p i h
  exact ⟨h1.1.trans h2.1, h1.2.trans h2.2⟩

theorem micro_ctrlPin_lt : ∀ k : Fin 8, (AR488_MEGA32U4_MICRO.ctrlPin k).2 < 8 := by
  decide

theorem micro_setGpibDbus_ctrl (v : U8) (s : AVR) (k : Fin 8) :
    (AR488_MEGA32U4_MICRO.setGpibDbus v s).ddrBit (AR488_MEGA32U4_MICRO.ctrlPin k) = s.ddrBit (AR488_MEGA32U4_MICRO.ctrlPin k) ∧
    (AR488_MEGA32U4_MICRO.setGpibDbus v s).portBit (AR488_MEGA32U4_MICRO.ctrlPin k) = s.portBit (AR488_MEGA32U4_MICRO.ctrlPin k) :=
  micro_setGpibDbus_frame v s (AR488_MEGA32U4_MICRO.ctrlPin k).1 ⟨(AR488_MEGA32U4_MICRO.ctrlPin k).2, micro_ctrlPin_lt k⟩
    (fun j => micro_data_not_ctrl k j)

theorem micro_set_ready_frame (v : U8) (s : AVR) (p : PortId) (i : Fin 8)
    (h : ∀ k : Fin 8, AR488_MEGA32U4_MICRO.dataPin k ≠ (p, i.val)) :
    (AR488_MEGA32U4_MICRO.readyGpibDbus (AR488_MEGA32U4_MICRO.setGpibDbus v s)).ddrBit (p, i.val) = s.ddrBit (p, i.val) ∧
    (AR488_MEGA32U4_MICRO.readyGpibDbus (AR488_MEGA32U4_MICRO.setGpibDbus v s)).portBit (p, i.val) = s.portBit (p, i.val) := by
  have h1 := micro_readyGpibDbus_frame (AR488_MEGA32U4_MICRO.setGpibDbus v s) p i h
  have h2 := micro_setGpibDbus_frame v s p i h
  exact ⟨h1.1.trans h2.1, h1.2.trans h2.2⟩

theorem lr3_ctrlPin_lt : ∀ k : Fin 8, (AR488_MEGA32U4_LR3.ctrlPin k).2 < 8 := by
  decide

theorem lr3_setGpibDbus_ctrl (v : U8) (s : AVR) (k : Fin 8) :
    (AR488_MEGA32U4_LR3.setGpibDbus v s).ddrBit (AR488_MEGA32U4_LR3.ctrlPin k) = s.ddrBit (AR488_MEGA32U4_LR3.ctrlPin k) ∧
    (AR488_MEGA32U4_LR3.setGpibDbus v s).portBit (AR488_MEGA32U4_LR3.ctrlPin k) = s.portBit (AR488_MEGA32U4_LR3.ctrlPin k) :=
  lr3_setGpibDbus_frame v s (AR488_MEGA32U4_LR3.ctrlPin k).1 ⟨(AR488_MEGA32U4_LR3.ctrlPin k).2, lr3_ctrlPin_lt k⟩
    (fun j => lr3_data_not_ctrl k j)

theorem lr3_set_ready_frame (v : U8) (s : AVR) (p : PortId) (i : Fin 8)
    (h : ∀ k : Fin 8, AR488_MEGA32U4_LR3.dataPin k ≠ (p, i.val)) :
    (AR488_MEGA32U4_LR3.readyGpibDbus (AR488_MEGA32U4_LR3.setGpibDbus v s)).ddrBit (p, i.val) = s.ddrBit (p, i.val) ∧
    (AR488_MEGA32U4_LR3.readyGpibDbus (AR488_MEGA32U4_LR3.setGpibDbus v s)).portBit (p, i.val) = s.portBit (p, i.val) := by
  have h1 := lr3_readyGpibDbus_frame (AR488_MEGA32U4_LR3.setGpibDbus v s) p i h
  have h2 := lr3_setGpibDbus_frame v s p i h
  exact ⟨h1.1.trans h2.1, h1.2.trans h2.2⟩

theorem mcgraw_ctrlPin_lt : ∀ k : Fin 8, (AR488_MEGA644P_MCGRAW.ctrlPin k).2 < 8 := by
  decide

theorem mcgraw_setGpibDbus_ctrl (v : U8) (s : AVR) (k : Fin 8) :
    (AR488_MEGA644P_MCGRAW.setGpibDbus v s).ddrBit (AR488_MEGA644P_MCGRAW.ctrlPin k) = s.ddrBit (AR488_MEGA644P_MCGRAW.ctrlPin k) ∧
    (AR488_MEGA644P_MCGRAW.setGpibDbus v s).portBit (AR488_MEGA644P_MCGRAW.ctrlPin k) = s.portBit (AR488_MEGA644P_MCGRAW.ctrlPin k) :=
  mcgraw_setGpibDbus_frame v s (AR488_MEGA644P_MCGRAW.ctrlPin k).1 ⟨(AR488_MEGA644P_MCGRAW.ctrlPin k).2, mcgraw_ctrlPin_lt k⟩
    (fun j => mcgraw_data_not_ctrl k j)

theorem mcgraw_set_ready_frame (v : U8) (s : AVR) (p : PortId) (i : Fin 8)
    (h : ∀ k : Fin 8, AR488_MEGA644P_MCGRAW.dataPin k ≠ (p, i.val)) :
    (AR488_MEGA644P_MCGRAW.readyGpibDbus (AR488_MEGA644P_MCGRAW.setGpibDbus v s)).ddrBit (p, i.val) = s.ddrBit (p, i.val) ∧
    (AR488_MEGA644P_MCGRAW.readyGpibDbus (AR488_MEGA644P_MCGRAW.setGpibDbus v s)).portBit (p, i.val) = s.portBit (p, i.val) := by
  have h1 := mcgraw_readyGpibDbus_frame (AR488_MEGA644P_MCGRAW.setGpibDbus v s) p i h
  have h2 := mcgraw_setGpibDbus_frame v s p i h
  exact ⟨h1.1.trans h2.1, h1.2.trans h2.2⟩

theorem alt328pb_ctrlPin_lt : ∀ k : Fin 8, (AR488_328PB_ALT.ctrlPin k).2 < 8 := by
  decide

theorem alt328pb_setGpibDbus_ctrl (v : U8) (s : AVR) (k : Fin 8) :
    (AR488_328PB_ALT.setGpibDbus v s).ddrBit (AR488_328PB_ALT.ctrlPin k) = s.ddrBit (AR488_328PB_ALT.ctrlPin k) ∧
    (AR488_328PB_ALT.setGpibDbus v s).portBit (AR488_328PB_ALT.ctrlPin k) = s.portBit (AR488_328PB_ALT.ctrlPin k) :=
  alt328pb_setGpibDbus_frame v s (AR488_328PB_ALT.ctrlPin k).1 ⟨(AR488_328PB_ALT.ctrlPin k).2, alt328pb_ctrlPin_lt k⟩
    (fun j => alt328pb_data_not_ctrl k j)

theorem alt328pb_set_ready_frame (v : U8) (s : AVR) (p : PortId) (i : Fin 8)
    (h : ∀ k : Fin 8, AR488_328PB_ALT.dataPin k ≠ (p, i.val)) :
    (AR488_328PB_ALT.readyGpibDbus (AR488_328PB_ALT.setGpibDbus v s)).ddrBit (p, i.val) = s.ddrBit (p, i.val) ∧
    (AR488_328PB_ALT.readyGpibDbus (AR488_328PB_ALT.setGpibDbus v s)).portBit (p, i.val) = s.portBit (p, i.val) := by
  have h1 := alt328pb_readyGpibDbus_frame (AR488_328PB_ALT.setGpibDbus v s) p i h
  have h2 := alt328pb_setGpibDbus_frame v s p i h
  exact ⟨h1.1.trans h2.1, h1.2.trans h2.2⟩

/-- C27: on every AVR port-register profile (UNO/NANO, MEGA2560_D, MEGA2560_E1,
MEGA2560_E2, MEGA32U4_MICRO, MEGA32U4_LR3, MEGA644P_MCGRAW, 328PB_ALT), for
every byte `v` and every prior register state, after `setGpibDbus v` followed by
`readyGpibDbus` each of the eight data pins has `DDR` bit 0 (input) and `PORT`
bit 1 (pull-up enabled), and every `DDR` and `PORT` bit that does not belong to
a data pin has the value it had before the sequence.  The data pins are the
ones the three data-bus functions of the profile use. -/
theorem C27_dbus_ready_after_set (v : U8) (s : AVR) :
    ((∀ k : Fin 8,
        (AR488_UNO.readyGpibDbus (AR488_UNO.setGpibDbus v s)).ddrBit (AR488_UNO.dataPin k) = false ∧
        (AR488_UNO.readyGpibDbus (AR488_UNO.setGpibDbus v s)).portBit (AR488_UNO.dataPin k) = true) ∧
      (∀ (p : PortId) (i : Fin 8), (∀ k : Fin 8, AR488_UNO.dataPin k ≠ (p, i.val)) →
        (AR488_UNO.readyGpibDbus (AR488_UNO.setGpibDbus v s)).ddrBit (p, i.val) = s.ddrBit (p, i.val) ∧
        (AR488_UNO.readyGpibDbus (AR488_UNO.setGpibDbus v s)).portBit (p, i.val) = s.portBit (p, i.val))) ∧
    ((∀ k : Fin 8,
        (AR488_MEGA2560_D.readyGpibDbus (AR488_MEGA2560_D.setGpibDbus v s)).ddrBit (AR488_MEGA2560_D.dataPin k) = false ∧
        (AR488_MEGA2560_D.readyGpibDbus (AR488_MEGA2560_D.setGpibDbus v s)).portBit (AR488_MEGA2560_D.dataPin k) = true) ∧
      (∀ (p : PortId) (i : Fin 8), (∀ k : Fin 8, AR488_MEGA2560_D.dataPin k ≠ (p, i.val)) →
        (AR488_MEGA2560_D.readyGpibDbus (AR488_MEGA2560_D.setGpibDbus v s)).ddrBit (p, i.val) = s.ddrBit (p, i.val) ∧
        (AR488_MEGA2560_D.readyGpibDbus (AR488_MEGA2560_D.setGpibDbus v s)).portBit (p, i.val) = s.portBit (p, i.val))) ∧
    ((∀ k : Fin 8,
        (AR488_MEGA2560_E1.readyGpibDbus (AR488_MEGA2560_E1.setGpibDbus v s)).ddrBit (AR488_MEGA2560_E1.dataPin k) = false ∧
        (AR488_MEGA2560_E1.readyGpibDbus (AR488_MEGA2560_E1.setGpibDbus v s)).portBit (AR488_MEGA2560_E1.dataPin k) = true) ∧
      (∀ (p : PortId) (i : Fin 8), (∀ k : Fin 8, AR488_MEGA2560_E1.dataPin k ≠ (p, i.val)) →
        (AR488_MEGA2560_E1.readyGpibDbus (AR488_MEGA2560_E1.setGpibDbus v s)).ddrBit (p, i.val) = s.ddrBit (p, i.val) ∧
        (AR488_MEGA2560_E1.readyGpibDbus (AR488_MEGA2560_E1.setGpibDbus v s)).portBit (p, i.val) = s.portBit (p, i.val))) ∧
    ((∀ k : Fin 8,
        (AR488_MEGA2560_E2.readyGpibDbus (AR488_MEGA2560_E2.setGpibDbus v s)).ddrBit (AR488_MEGA2560_E2.dataPin k) = false ∧
        (AR488_MEGA2560_E2.readyGpibDbus (AR488_MEGA2560_E2.setGpibDbus v s)).portBit (AR488_MEGA2560_E2.dataPin k) = true) ∧
      (∀ (p : PortId) (i : Fin 8), (∀ k : Fin 8, AR488_MEGA2560_E2.dataPin k ≠ (p, i.val)) →
        (AR488_MEGA2560_E2.readyGpibDbus (AR488_MEGA2560_E2.setGpibDbus v s)).ddrBit (p, i.val) = s.ddrBit (p, i.val) ∧
        (AR488_MEGA2560_E2.readyGpibDbus (AR488_MEGA2560_E2.setGpibDbus v s)).portBit (p, i.val) = s.portBit (p, i.val))) ∧
    ((∀ k : Fin 8,
        (AR488_MEGA32U4_MICRO.readyGpibDbus (AR488_MEGA32U4_MICRO.setGpibDbus v s)).ddrBit (AR488_MEGA32U4_MICRO.dataPin k) = false ∧
        (AR488_MEGA32U4_MICRO.readyGpibDbus (AR488_MEGA32U4_MICRO.setGpibDbus v s)).portBit (AR488_MEGA32U4_MICRO.dataPin k) = true) ∧
      (∀ (p : PortId) (i : Fin 8), (∀ k : Fin 8, AR488_MEGA32U4_MICRO.dataPin k ≠ (p, i.val)) →
        (AR488_MEGA32U4_MICRO.readyGpibDbus (AR488_MEGA32U4_MICRO.setGpibDbus v s)).ddrBit (p, i.val) = s.ddrBit (p, i.val) ∧
        (AR488_MEGA32U4_MICRO.readyGpibDbus (AR488_MEGA32U4_MICRO.setGpibDbus v s)).portBit (p, i.val) = s.portBit (p, i.val))) ∧
    ((∀ k : Fin 8,
        (AR488_MEGA32U4_LR3.readyGpibDbus (AR488_MEGA32U4_LR3.setGpibDbus v s)).ddrBit (AR488_MEGA32U4_LR3.dataPin k) = false ∧
        (AR488_MEGA32U4_LR3.readyGpibDbus (AR488_MEGA32U4_LR3.setGpibDbus v s)).portBit (AR488_MEGA32U4_LR3.dataPin k) = true) ∧
      (∀ (p : PortId) (i : Fin 8), (∀ k : Fin 8, AR488_MEGA32U4_LR3.dataPin k ≠ (p, i.val)) →
        (AR488_MEGA32U4_LR3.readyGpibDbus (AR488_MEGA32U4_LR3.setGpibDbus v s)).ddrBit (p, i.val) = s.ddrBit (p, i.val) ∧
        (AR488_MEGA32U4_LR3.readyGpibDbus (AR488_MEGA32U4_LR3.setGpibDbus v s)).portBit (p, i.val) = s.portBit (p, i.val))) ∧
    ((∀ k : Fin 8,
        (AR488_MEGA644P_MCGRAW.readyGpibDbus (AR488_MEGA644P_MCGRAW.setGpibDbus v s)).ddrBit (AR488_MEGA644P_MCGRAW.dataPin k) = false ∧
        (AR488_MEGA644P_MCGRAW.readyGpibDbus (AR488_MEGA644P_MCGRAW.setGpibDbus v s)).portBit (AR488_MEGA644P_MCGRAW.dataPin k) = true) ∧
      (∀ (p : PortId) (i : Fin 8), (∀ k : Fin 8, AR488_MEGA644P_MCGRAW.dataPin k ≠ (p, i.val)) →
        (AR488_MEGA644P_MCGRAW.readyGpibDbus (AR488_MEGA644P_MCGRAW.setGpibDbus v s)).ddrBit (p, i.val) = s.ddrBit (p, i.val) ∧
        (AR488_MEGA644P_MCGRAW.readyGpibDbus (AR488_MEGA644P_MCGRAW.setGpibDbus v s)).portBit (p, i.val) = s.portBit (p, i.val))) ∧
    ((∀ k : Fin 8,
        (AR488_328PB_ALT.readyGpibDbus (AR488_328PB_ALT.setGpibDbus v s)).ddrBit (AR488_328PB_ALT.dataPin k) = false ∧
        (AR488_328PB_ALT.readyGpibDbus (AR488_328PB_ALT.setGpibDbus v s)).portBit (AR488_328PB_ALT.dataPin k) = true) ∧
      (∀ (p : PortId) (i : Fin 8), (∀ k : Fin 8, AR488_328PB_ALT.dataPin k ≠ (p, i.val)) →
        (AR488_328PB_ALT.readyGpibDbus (AR488_328PB_ALT.setGpibDbus v s)).ddrBit (p, i.val) = s.ddrBit (p, i.val) ∧
        (AR488_328PB_ALT.readyGpibDbus (AR488_328PB_ALT.setGpibDbus v s)).portBit (p, i.val) = s.portBit (p, i.val))) :=
  ⟨⟨fun k => uno_readyGpibDbus_data _ k, uno_set_ready_frame v s⟩,
   ⟨fun k => mega_d_readyGpibDbus_data _ k, mega_d_set_ready_frame v s⟩,
   ⟨fun k => e1_readyGpibDbus_data _ k, e1_set_ready_frame v s⟩,
   ⟨fun k => e2_readyGpibDbus_data _ k, e2_set_ready_frame v s⟩,
   ⟨fun k => micro_readyGpibDbus_data _ k, micro_set_ready_frame v s⟩,
   ⟨fun k => lr3_readyGpibDbus_data _ k, lr3_set_ready_frame v s⟩,
   ⟨fun k => mcgraw_readyGpibDbus_data _ k, mcgraw_set_ready_frame v s⟩,
   ⟨fun k => alt328pb_readyGpibDbus_data _ k, alt328pb_set_ready_frame v s⟩⟩

/-- Witness for C27: after driving 0xA5 and readying the bus over cleared
registers, PD2 of UNO/NANO (the SRQ line, on a port shared with DIO7 and DIO8)
and PF2 of the Leonardo R3 (between the data bits of port F) are as before. -/
theorem C27_dbus_ready_after_set_witness :
    ((AR488_UNO.readyGpibDbus (AR488_UNO.setGpibDbus 0xA5 (AVR.const 0))).ddrBit (PortId.D, 2)
        = (AVR.const 0).ddrBit (PortId.D, 2) ∧
      (AR488_UNO.readyGpibDbus (AR488_UNO.setGpibDbus 0xA5 (AVR.const 0))).portBit (PortId.D, 2)
        = (AVR.const 0).portBit (PortId.D, 2)) ∧
    ((AR488_MEGA32U4_LR3.readyGpibDbus (AR488_MEGA32U4_LR3.setGpibDbus 0xA5 (AVR.const 0))).ddrBit
          (PortId.F, 2) = (AVR.const 0).ddrBit (PortId.F, 2) ∧
      (AR488_MEGA32U4_LR3.readyGpibDbus (AR488_MEGA32U4_LR3.setGpibDbus 0xA5 (AVR.const 0))).portBit
          (PortId.F, 2) = (AVR.const 0).portBit (PortId.F, 2)) :=
  ⟨(C27_dbus_ready_after_set 0xA5 (AVR.const 0)).1.2 PortId.D 2 (by decide),
   (C27_dbus_ready_after_set 0xA5 (AVR.const 0)).2.2.2.2.2.1.2 PortId.F 2 (by decide)⟩

/-! ## `setGpibDbus` and the control bus -/

/-- C29: on every AVR port-register profile, `setGpibDbus v` never disturbs the
control bus: for every byte `v` and every prior register state, the `DDR` bit
and the `PORT` bit of each of the eight control lines are the same after
`setGpibDbus v` as before it, also where control lines share a port with data
lines (port D on UNO/NANO, MEGA32U4_MICRO and MEGA32U4_LR3, port C on
MEGA644P_MCGRAW). -/
theorem C29_set_dbus_keeps_ctrl (v : U8) (s : AVR) (k : Fin 8) :
    ((AR488_UNO.setGpibDbus v s).ddrBit (AR488_UNO.ctrlPin k) = s.ddrBit (AR488_UNO.ctrlPin k) ∧
      (AR488_UNO.setGpibDbus v s).portBit (AR488_UNO.ctrlPin k) = s.portBit (AR488_UNO.ctrlPin k)) ∧
    ((AR488_MEGA2560_D.setGpibDbus v s).ddrBit (AR488_MEGA2560_D.ctrlPin k) = s.ddrBit (AR488_MEGA2560_D.ctrlPin k) ∧
      (AR488_MEGA2560_D.setGpibDbus v s).portBit (AR488_MEGA2560_D.ctrlPin k) = s.portBit (AR488_MEGA2560_D.ctrlPin k)) ∧
    ((AR488_MEGA2560_E1.setGpibDbus v s).ddrBit (AR488_MEGA2560_E1.ctrlPin k) = s.ddrBit (AR488_MEGA2560_E1.ctrlPin k) ∧
      (AR488_MEGA2560_E1.setGpibDbus v s).portBit (AR488_MEGA2560_E1.ctrlPin k) = s.portBit (AR488_MEGA2560_E1.ctrlPin k)) ∧
    ((AR488_MEGA2560_E2.setGpibDbus v s).ddrBit (AR488_MEGA2560_E2.ctrlPin k) = s.ddrBit (AR488_MEGA2560_E2.ctrlPin k) ∧
      (AR488_MEGA2560_E2.setGpibDbus v s).portBit (AR488_MEGA2560_E2.ctrlPin k) = s.portBit (AR488_MEGA2560_E2.ctrlPin k)) ∧
    ((AR488_MEGA32U4_MICRO.setGpibDbus v s).ddrBit (AR488_MEGA32U4_MICRO.ctrlPin k) = s.ddrBit (AR488_MEGA32U4_MICRO.ctrlPin k) ∧
      (AR488_MEGA32U4_MICRO.setGpibDbus v s).portBit (AR488_MEGA32U4_MICRO.ctrlPin k) = s.portBit (AR488_MEGA32U4_MICRO.ctrlPin k)) ∧
    ((AR488_MEGA32U4_LR3.setGpibDbus v s).ddrBit (AR488_MEGA32U4_LR3.ctrlPin k) = s.ddrBit (AR488_MEGA32U4_LR3.ctrlPin k) ∧
      (AR488_MEGA32U4_LR3.setGpibDbus v s).portBit (AR488_MEGA32U4_LR3.ctrlPin k) = s.portBit (AR488_MEGA32U4_LR3.ctrlPin k)) ∧
    ((AR488_MEGA644P_MCGRAW.setGpibDbus v s).ddrBit (AR488_MEGA644P_MCGRAW.ctrlPin k) = s.ddrBit (AR488_MEGA644P_MCGRAW.ctrlPin k) ∧
      (AR488_MEGA644P_MCGRAW.setGpibDbus v s).portBit (AR488_MEGA644P_MCGRAW.ctrlPin k) = s.portBit (AR488_MEGA644P_MCGRAW.ctrlPin k)) ∧
    ((AR488_328PB_ALT.setGpibDbus v s).ddrBit (AR488_328PB_ALT.ctrlPin k) = s.ddrBit (AR488_328PB_ALT.ctrlPin k) ∧
      (AR488_328PB_ALT.setGpibDbus v s).portBit (AR488_328PB_ALT.ctrlPin k) = s.portBit (AR488_328PB_ALT.ctrlPin k)) :=
  ⟨uno_setGpibDbus_ctrl v s k,
   mega_d_setGpibDbus_ctrl v s k,
   e1_setGpibDbus_ctrl v s k,
   e2_setGpibDbus_ctrl v s k,
   micro_setGpibDbus_ctrl v s k,
   lr3_setGpibDbus_ctrl v s k,
   mcgraw_setGpibDbus_ctrl v s k,
   alt328pb_setGpibDbus_ctrl v s k⟩

/-! ## PoE Ethernet GPIB adaptor: data bus to input -/

section
open POE_ETHERNET_GPIB_ADAPTOR

/-- A `PINnCTRL` byte with the pull-up enable bit ORed in has that bit set. -/
theorem poe_pullup_or : ∀ x : U8, (u8 (x.val ||| 0x08)).val &&& 0x08 = 0x08 := by
  decide!

/-- On the structure `setPortPullupBits` computes with `reg = 0xFF`,
`readPortPullupReg` gives 0xFF: the two functions agree on the bit layout. -/
theorem poe_pullup_copy (port : PORT_t) :
    readPortPullupReg (setPortPullupBits port 0b11111111) = 0xFF := by
  have cb : PORT_PULLUPEN_bm.val = 0x08 := rfl
  have c0 : ((0b11111111 : U8).val <<< 3) &&& 0x08 = 0x08 := by decide
  have c1 : ((0b11111111 : U8).val <<< 2) &&& 0x08 = 0x08 := by decide
  have c2 : ((0b11111111 : U8).val <<< 1) &&& 0x08 = 0x08 := by decide
  have c3 : (0b11111111 : U8).val &&& 0x08 = 0x08 := by decide
  have c4 : ((0b11111111 : U8).val >>> 1) &&& 0x08 = 0x08 := by decide
  have c5 : ((0b11111111 : U8).val >>> 2) &&& 0x08 = 0x08 := by decide
  have c6 : ((0b11111111 : U8).val >>> 3) &&& 0x08 = 0x08 := by decide
  have c7 : ((0b11111111 : U8).val >>> 4) &&& 0x08 = 0x08 := by decide
  unfold readPortPullupReg setPortPullupBits
  dsimp only
  rw [cb, c0, c1, c2, c3, c4, c5, c6, c7]
  simp only [poe_pullup_or]
  decide

theorem poe_ready_dir (s : MegaAVR0) : (readyGpibDbus s).PORTD.DIR = 0 := by
  apply Fin.ext
  simp [readyGpibDbus, u8_val]

end

/-- C28, as stated, fails on the code: `readyGpibDbus` of the PoE adaptor clears
`PORTD.DIR`, but the pull-up enable bits it means to set are set in the copy of
the port structure that `setPortPullupBits` received by value, not in the
registers: `PORTD.PIN0CTRL` .. `PORTD.PIN7CTRL` are as before the call, and so
is what `readPortPullupReg(PORTD)` returns, 0x00 and not 0xFF when the pull-ups
were disabled before.  The copy itself would read back as 0xFF. -/
theorem C28_poe_ready_no_pullup (s : MegaAVR0) :
    (POE_ETHERNET_GPIB_ADAPTOR.readyGpibDbus s).PORTD.DIR = 0 ∧
    (POE_ETHERNET_GPIB_ADAPTOR.readyGpibDbus s).PORTD.PIN0CTRL = s.PORTD.PIN0CTRL ∧
    (POE_ETHERNET_GPIB_ADAPTOR.readyGpibDbus s).PORTD.PIN1CTRL = s.PORTD.PIN1CTRL ∧
    (POE_ETHERNET_GPIB_ADAPTOR.readyGpibDbus s).PORTD.PIN2CTRL = s.PORTD.PIN2CTRL ∧
    (POE_ETHERNET_GPIB_ADAPTOR.readyGpibDbus s).PORTD.PIN3CTRL = s.PORTD.PIN3CTRL ∧
    (POE_ETHERNET_GPIB_ADAPTOR.readyGpibDbus s).PORTD.PIN4CTRL = s.PORTD.PIN4CTRL ∧
    (POE_ETHERNET_GPIB_ADAPTOR.readyGpibDbus s).PORTD.PIN5CTRL = s.PORTD.PIN5CTRL ∧
    (POE_ETHERNET_GPIB_ADAPTOR.readyGpibDbus s).PORTD.PIN6CTRL = s.PORTD.PIN6CTRL ∧
    (POE_ETHERNET_GPIB_ADAPTOR.readyGpibDbus s).PORTD.PIN7CTRL = s.PORTD.PIN7CTRL ∧
    POE_ETHERNET_GPIB_ADAPTOR.readPortPullupReg (POE_ETHERNET_GPIB_ADAPTOR.readyGpibDbus s).PORTD
      = POE_ETHERNET_GPIB_ADAPTOR.readPortPullupReg s.PORTD ∧
    POE_ETHERNET_GPIB_ADAPTOR.readPortPullupReg
        (POE_ETHERNET_GPIB_ADAPTOR.readyGpibDbus
          ⟨⟨0, 0, 0, 0, 0, 0, 0, 0, 0, 0, 0⟩, ⟨0xFF, 0, 0, 0, 0, 0, 0, 0, 0, 0, 0⟩⟩).PORTD = 0x00 ∧
    POE_ETHERNET_GPIB_ADAPTOR.readPortPullupReg
        (POE_ETHERNET_GPIB_ADAPTOR.setPortPullupBits
          (POE_ETHERNET_GPIB_ADAPTOR.readyGpibDbus s).PORTD 0b11111111) = 0xFF :=
  ⟨poe_ready_dir s, rfl, rfl, rfl, rfl, rfl, rfl, rfl, rfl, rfl, by decide, poe_pullup_copy _⟩

/-! ## MCP23S17 expander: reading one control pin -/

/-- C30: on the MCP23S17 profile, for every pin value `p` (0..255) and every
expander state, `getGpibPinState p` returns 0 with no serial transaction when
`p > 7`, and otherwise makes one read of `MCPPORTA` and returns 1 if bit `p` of
that register is set and 0 if not; it always returns, and it never changes an
expander register (nor `mcpIntAReg`). -/
theorem C30_mcp_pin_state (p : U8) (s : Expander) :
    (AR488_MCP23S17.getGpibPinState p s).1
      = (if p.val > 7 then 0 else if (s.regs McpReg.MCPPORTA).val.testBit p.val then 1 else 0) ∧
    (AR488_MCP23S17.getGpibPinState p s).2.spi
      = (if p.val > 7 then s.spi else s.spi ++ [SpiXfer.read McpReg.MCPPORTA]) ∧
    (AR488_MCP23S17.getGpibPinState p s).2.regs = s.regs ∧
    (AR488_MCP23S17.getGpibPinState p s).2.mcpIntAReg = s.mcpIntAReg := by
  unfold AR488_MCP23S17.getGpibPinState AR488_MCP23S17.mcpDigitalRead
  by_cases h : p.val > 7
  · simp [h]
  · have hb := custom_maskbit (s.regs McpReg.MCPPORTA) ⟨p.val, by omega⟩
    simp only [U8.bit] at hb
    simp only [h, if_false, AR488_MCP23S17.mcpByteRead, and_true]
    rw [← hb]
    by_cases hz : (s.regs McpReg.MCPPORTA).val &&& (1 <<< p.val) ≠ 0
    · simp only [hz, ne_eq, not_false_eq_true, if_true, decide_True]
      rfl
    · simp only [hz, if_false, decide_False]
      rfl

/-! ## Bit reversal -/

/-- C31: for every 8-bit value `x`, `reverseBits (reverseBits x) = x`, for the
`uint8_t reverseBits` that the MEGA32U4_LR3, MEGA644P_MCGRAW and
POE_ETHERNET_GPIB_ADAPTOR profiles define with the same body. -/
theorem C31_reverseBits_involutive : ∀ x : U8, reverseBits (reverseBits x) = x := by
  decide!

/-- C32: for every 8-bit value `x` and every `i` in 0..7, bit `i` of
`reverseBits x` equals bit `7 - i` of `x`: the nibble-swap, pair-swap, bit-swap
sequence reverses the bit order of the byte. -/
theorem C32_reverseBits_reverses (x : U8) (i : Fin 8) :
    (reverseBits x).bit i.val = x.bit (7 - i.val) :=
  reverseBits_bit x i

/-! ## MCP23S17 expander: the interrupt handler and the masked updates -/

/-- C33: on the MCP23S17 profile `mcpIntHandler` makes exactly one serial
transaction, a read of the capture register `MCPINTCAPA`; it leaves every
expander register as it was and changes only `mcpIntAReg`, so that
`getMcpIntAReg` afterwards returns the byte read from `MCPINTCAPA`.
`setGpibCtrlState` and `setGpibCtrlDir` in turn add to the transaction log one
read and one write of `MCPPORTA`, respectively of `MCPDIRA`, and nothing that
names `MCPINTCAPA`; they leave `mcpIntAReg` as it was. -/
theorem C33_mcp_int_handler_disjoint (bits mask : U8) (s : Expander) :
    (AR488_MCP23S17.mcpIntHandler s).spi = s.spi ++ [SpiXfer.read McpReg.MCPINTCAPA] ∧
    (AR488_MCP23S17.mcpIntHandler s).regs = s.regs ∧
    (AR488_MCP23S17.mcpIntHandler s).mcpIntAReg = s.regs McpReg.MCPINTCAPA ∧
    AR488_MCP23S17.getMcpIntAReg (AR488_MCP23S17.mcpIntHandler s) = s.regs McpReg.MCPINTCAPA ∧
    (AR488_MCP23S17.setGpibCtrlState bits mask s).spi
      = s.spi ++ [SpiXfer.read McpReg.MCPPORTA,
          SpiXfer.write McpReg.MCPPORTA
            (u8 (((s.regs McpReg.MCPPORTA).val &&& bnot mask.val) ||| (bits.val &&& mask.val)))] ∧
    (AR488_MCP23S17.setGpibCtrlDir bits mask s).spi
      = s.spi ++ [SpiXfer.read McpReg.MCPDIRA,
          SpiXfer.write McpReg.MCPDIRA
            (u8 (((s.regs McpReg.MCPDIRA).val &&& bnot mask.val) ||| (bnot bits.val &&& mask.val)))] ∧
    (AR488_MCP23S17.setGpibCtrlState bits mask s).regs McpReg.MCPINTCAPA
      = s.regs McpReg.MCPINTCAPA ∧
    (AR488_MCP23S17.setGpibCtrlDir bits mask s).regs McpReg.MCPINTCAPA
      = s.regs McpReg.MCPINTCAPA ∧
    (AR488_MCP23S17.setGpibCtrlState bits mask s).mcpIntAReg = s.mcpIntAReg ∧
    (AR488_MCP23S17.setGpibCtrlDir bits mask s).mcpIntAReg = s.mcpIntAReg := by
  refine ⟨rfl, rfl, rfl, rfl, mcp_ctrlState_spi bits mask s, mcp_ctrlDir_spi bits mask s,
    ?_, ?_, rfl, rfl⟩
  · rw [mcp_ctrlState_regs, Function.update_noteq (by decide)]
  · rw [mcp_ctrlDir_regs, Function.update_noteq (by decide)]

/-! ## Fragments as bit placements -/

/-- Bit `k` of `b` under a mask that selects it is bit `k` of `b & m`. -/
theorem bit_of_and_eq (b b' m : U8) (h : b.val &&& m.val = b'.val &&& m.val) (k : Nat) :
    (b.val.testBit k && m.val.testBit k) = (b'.val.testBit k && m.val.testBit k) := by
  have e := congrArg (fun n => Nat.testBit n k) h
  simpa only [Nat.testBit_and] using e

/-- A placement of bits applied to `bits` and to `mask`: the masked fragment
depends on `bits` only through `bits & mask`. -/
theorem frag_and_congr (f : U8 → U8)
    (hf : ∀ i : Fin 8, (∃ k : Fin 8, ∀ x : U8, (f x).bit i = x.bit k) ∨ ∀ x : U8, (f x).bit i = false)
    (b b' m : U8) (h : b.val &&& m.val = b'.val &&& m.val) :
    (f b).val &&& (f m).val = (f b').val &&& (f m).val := by
  apply Nat.eq_of_testBit_eq
  intro i
  rw [Nat.testBit_and, Nat.testBit_and]
  by_cases hi : i < 8
  · rcases hf ⟨i, hi⟩ with ⟨k, hk⟩ | h0
    · have e1 := hk b
      have e2 := hk b'
      have e3 := hk m
      simp only [U8.bit] at e1 e2 e3
      rw [e1, e2, e3]
      exact bit_of_and_eq b b' m h k
    · have e1 := h0 b
      have e2 := h0 b'
      simp only [U8.bit] at e1 e2
      rw [e1, e2]
  · rw [testBit_val_ge (f b) i (by omega), testBit_val_ge (f b') i (by omega)]

/-- The complement of a placed fragment under the placed mask depends on `bits`
only through `bits & mask` as well. -/
theorem frag_bnot_and_congr (f : U8 → U8)
    (hf : ∀ i : Fin 8, (∃ k : Fin 8, ∀ x : U8, (f x).bit i = x.bit k) ∨ ∀ x : U8, (f x).bit i = false)
    (b b' m : U8) (h : b.val &&& m.val = b'.val &&& m.val) :
    bnot (f b).val &&& (f m).val = bnot (f b').val &&& (f m).val := by
  have e := frag_and_congr f hf b b' m h
  apply Nat.eq_of_testBit_eq
  intro i
  have ei := congrArg (fun n => Nat.testBit n i) e
  simp only [Nat.testBit_and] at ei
  rw [Nat.testBit_and, Nat.testBit_and, testBit_bnot, testBit_bnot]
  revert ei
  cases (f b).val.testBit i <;> cases (f b').val.testBit i <;> cases (f m).val.testBit i <;>
    cases decide (i < 8) <;> simp

/-- The byte-level instance: `~bits & mask` depends on `bits` only through
`bits & mask`. -/
theorem bnot_and_congr (b b' m : U8) (h : b.val &&& m.val = b'.val &&& m.val) :
    (u8 (bnot b.val)).val &&& m.val = (u8 (bnot b'.val)).val &&& m.val := by
  apply Nat.eq_of_testBit_eq
  intro i
  have ei := bit_of_and_eq b b' m h i
  rw [Nat.testBit_and, Nat.testBit_and, testBit_u8, testBit_u8, testBit_bnot, testBit_bnot]
  revert ei
  cases b.val.testBit i <;> cases b'.val.testBit i <;> cases m.val.testBit i <;>
    cases decide (i < 8) <;> simp

/-- A placement maps the empty byte to the empty fragment. -/
theorem frag_zero (f : U8 → U8)
    (hf : ∀ i : Fin 8, (∃ k : Fin 8, ∀ x : U8, (f x).bit i = x.bit k) ∨ ∀ x : U8, (f x).bit i = false) :
    f 0 = 0 := by
  apply U8.ext_bits
  intro i
  rcases hf i with ⟨k, hk⟩ | h0
  · rw [hk 0, bit_zero_mask, bit_zero_mask]
  · rw [h0 0, bit_zero_mask]

/-- Two masked updates of a register through a placement, one after the other,
are the one masked update with the merged byte and the union of the masks. -/
theorem frag_compose (f : U8 → U8)
    (hf : ∀ i : Fin 8, (∃ k : Fin 8, ∀ x : U8, (f x).bit i = x.bit k) ∨ ∀ x : U8, (f x).bit i = false)
    (p b1 m1 b2 m2 : U8) :
    u8 (((u8 ((p.val &&& bnot (f m1).val) ||| ((f b1).val &&& (f m1).val))).val
          &&& bnot (f m2).val) ||| ((f b2).val &&& (f m2).val))
      = u8 ((p.val &&& bnot (f (u8 (m1.val ||| m2.val))).val)
          ||| ((f (u8 ((b1.val &&& bnot m2.val) ||| (b2.val &&& m2.val)))).val
            &&& (f (u8 (m1.val ||| m2.val))).val)) := by
  apply U8.ext_bits
  intro i
  unfold U8.bit
  rw [testBit_masked _ _ _ _ i.isLt, testBit_masked _ _ _ _ i.isLt, testBit_masked _ _ _ _ i.isLt]
  rcases hf i with ⟨k, hk⟩ | h0
  · have e1 := hk b1
    have e2 := hk m1
    have e3 := hk b2
    have e4 := hk m2
    have e5 := hk (u8 (m1.val ||| m2.val))
    have e6 := hk (u8 ((b1.val &&& bnot m2.val) ||| (b2.val &&& m2.val)))
    simp only [U8.bit] at e1 e2 e3 e4 e5 e6
    rw [e1, e2, e3, e4, e5, e6, testBit_masked _ _ _ _ k.isLt, testBit_u8, Nat.testBit_or]
    have hk8 := k.isLt
    simp only [hk8, decide_True, Bool.true_and]
    cases m1.val.testBit k <;> cases m2.val.testBit k <;> cases b1.val.testBit k <;>
      cases b2.val.testBit k <;> rfl
  · have e2 := h0 m1
    have e4 := h0 m2
    have e5 := h0 (u8 (m1.val ||| m2.val))
    simp only [U8.bit] at e2 e4 e5
    rw [e2, e4, e5]
    rfl

theorem byte_or_self (m : U8) : u8 (m.val ||| m.val) = m := by
  apply Fin.ext
  rw [u8_val, Nat.or_self]
  exact Nat.mod_eq_of_lt m.isLt

theorem byte_merge_self (b m : U8) : u8 ((b.val &&& bnot m.val) ||| (b.val &&& m.val)) = b := by
  apply U8.ext_bits
  intro k
  unfold U8.bit
  rw [testBit_masked _ _ _ _ k.isLt]
  cases m.val.testBit k <;> rfl

/-- With disjoint masks the two merged bytes agree under the union of the
masks. -/
theorem byte_merge_comm (b1 m1 b2 m2 : U8) (h : m1.val &&& m2.val = 0) :
    (u8 ((b1.val &&& bnot m2.val) ||| (b2.val &&& m2.val))).val &&& (u8 (m1.val ||| m2.val)).val
      = (u8 ((b2.val &&& bnot m1.val) ||| (b1.val &&& m1.val))).val
          &&& (u8 (m1.val ||| m2.val)).val := by
  apply Nat.eq_of_testBit_eq
  intro i
  have hi := congrArg (fun n => Nat.testBit n i) h
  simp only [Nat.testBit_and, Nat.zero_testBit] at hi
  rw [Nat.testBit_and, Nat.testBit_and]
  by_cases h8 : i < 8
  · rw [testBit_masked _ _ _ _ h8, testBit_masked _ _ _ _ h8, testBit_u8, Nat.testBit_or]
    revert hi
    cases m1.val.testBit i <;> cases m2.val.testBit i <;> cases b1.val.testBit i <;>
      cases b2.val.testBit i <;> simp [h8]
  · rw [testBit_val_ge (u8 (m1.val ||| m2.val)) i (by omega)]
    simp

/-- Repeating a composable masked update changes nothing. -/
theorem compose_idem {α : Type} (f : U8 → U8 → α → α)
    (hcomp : ∀ b1 m1 b2 m2 s, f b2 m2 (f b1 m1 s)
      = f (u8 ((b1.val &&& bnot m2.val) ||| (b2.val &&& m2.val))) (u8 (m1.val ||| m2.val)) s)
    (b m : U8) (s : α) : f b m (f b m s) = f b m s := by
  rw [hcomp, byte_merge_self, byte_or_self]

/-- Composable masked updates with disjoint masks commute. -/
theorem compose_comm {α : Type} (f : U8 → U8 → α → α)
    (hcomp : ∀ b1 m1 b2 m2 s, f b2 m2 (f b1 m1 s)
      = f (u8 ((b1.val &&& bnot m2.val) ||| (b2.val &&& m2.val))) (u8 (m1.val ||| m2.val)) s)
    (hcongr : ∀ b b' m s, b.val &&& m.val = b'.val &&& m.val → f b m s = f b' m s)
    (b1 m1 b2 m2 : U8) (s : α) (h : m1.val &&& m2.val = 0) :
    f b2 m2 (f b1 m1 s) = f b1 m1 (f b2 m2 s) := by
  rw [hcomp, hcomp, Nat.lor_comm m2.val m1.val]
  exact hcongr _ _ _ s (byte_merge_comm b1 m1 b2 m2 h)

/-! ## Control-line updates: dependence on `bits & mask`, and composition -/

section
open AR488_UNO

/-- The port B fragment places bits: each of its bits is a fixed bit of the
control byte or is always 0. -/
theorem uno_portB_place : ∀ i : Fin 8,
    (∃ k : Fin 8, ∀ x : U8, (portB x).bit i = x.bit k) ∨ ∀ x : U8, (portB x).bit i = false := by
  intro i
  by_cases h : ∃ k : Fin 8, ctrlPin k = (PortId.B, i.val)
  · obtain ⟨k, hk⟩ := h
    left
    refine ⟨k, fun x => ?_⟩
    have e := uno_portB_bit x k (by rw [hk])
    rw [hk] at e
    exact e
  · right
    intro x
    exact uno_portB_off x i (fun k hk => h ⟨k, hk⟩)

/-- The port D fragment places bits: each of its bits is a fixed bit of the
control byte or is always 0. -/
theorem uno_portD_place : ∀ i : Fin 8,
    (∃ k : Fin 8, ∀ x : U8, (portD x).bit i = x.bit k) ∨ ∀ x : U8, (portD x).bit i = false := by
  intro i
  by_cases h : ∃ k : Fin 8, ctrlPin k = (PortId.D, i.val)
  · obtain ⟨k, hk⟩ := h
    left
    refine ⟨k, fun x => ?_⟩
    have e := uno_portD_bit x k (by rw [hk])
    rw [hk] at e
    exact e
  · right
    intro x
    exact uno_portD_off x i (fun k hk => h ⟨k, hk⟩)

theorem uno_ctrlState_congr (bits bits' mask : U8) (s : AVR)
    (h : bits.val &&& mask.val = bits'.val &&& mask.val) :
    setGpibCtrlState bits mask s = setGpibCtrlState bits' mask s := by
  unfold setGpibCtrlState
  dsimp only
  rw [frag_and_congr portB uno_portB_place bits bits' mask h, frag_and_congr portD uno_portD_place bits bits' mask h]

theorem uno_ctrlDir_congr (bits bits' mask : U8) (s : AVR)
    (h : bits.val &&& mask.val = bits'.val &&& mask.val) :
    setGpibCtrlDir bits mask s = setGpibCtrlDir bits' mask s := by
  unfold setGpibCtrlDir
  dsimp only
  rw [frag_and_congr portB uno_portB_place bits bits' mask h, frag_and_congr portD uno_portD_place bits bits' mask h, frag_bnot_and_congr portB uno_portB_place bits bits' mask h, frag_bnot_and_congr portD uno_portD_place bits bits' mask h]

/-- The early return on an empty mask skips updates that would change nothing. -/
theorem uno_ctrlState_unguarded (bits mask : U8) (s : AVR) :
    setGpibCtrlState bits mask s
      = { s with
          PORTB := u8 ((s.PORTB.val &&& bnot (portB mask).val) ||| ((portB bits).val &&& (portB mask).val)),
          PORTD := u8 ((s.PORTD.val &&& bnot (portD mask).val) ||| ((portD bits).val &&& (portD mask).val)) } := by
  unfold setGpibCtrlState
  dsimp only
  split_ifs with hm
  · subst hm
    rw [frag_zero portB uno_portB_place, frag_zero portD uno_portD_place]
    simp only [masked_zero]
  · rfl

theorem uno_ctrlState_compose (b1 m1 b2 m2 : U8) (s : AVR) :
    setGpibCtrlState b2 m2 (setGpibCtrlState b1 m1 s)
      = setGpibCtrlState (u8 ((b1.val &&& bnot m2.val) ||| (b2.val &&& m2.val)))
          (u8 (m1.val ||| m2.val)) s := by
  rw [uno_ctrlState_unguarded, uno_ctrlState_unguarded, uno_ctrlState_unguarded]
  dsimp only
  rw [frag_compose portB uno_portB_place s.PORTB b1 m1 b2 m2, frag_compose portD uno_portD_place s.PORTD b1 m1 b2 m2]

end

section
open AR488_MEGA2560_D

/-- The port H fragment places bits: each of its bits is a fixed bit of the
control byte or is always 0. -/
theorem mega_d_portH_place : ∀ i : Fin 8,
    (∃ k : Fin 8, ∀ x : U8, (portH x).bit i = x.bit k) ∨ ∀ x : U8, (portH x).bit i = false := by
  intro i
  by_cases h : ∃ k : Fin 8, ctrlPin k = (PortId.H, i.val)
  · obtain ⟨k, hk⟩ := h
    left
    refine ⟨k, fun x => ?_⟩
    have e := mega_d_portH_bit x k (by rw [hk])
    rw [hk] at e
    exact e
  · right
    intro x
    exact mega_d_portH_off x i (fun k hk => h ⟨k, hk⟩)

/-- The port B fragment places bits: each of its bits is a fixed bit of the
control byte or is always 0. -/
theorem mega_d_portB_place : ∀ i : Fin 8,
    (∃ k : Fin 8, ∀ x : U8, (portB x).bit i = x.bit k) ∨ ∀ x : U8, (portB x).bit i = false := by
  intro i
  by_cases h : ∃ k : Fin 8, ctrlPin k = (PortId.B, i.val)
  · obtain ⟨k, hk⟩ := h
    left
    refine ⟨k, fun x => ?_⟩
    have e := mega_d_portB_bit x k (by rw [hk])
    rw [hk] at e
    exact e
  · right
    intro x
    exact mega_d_portB_off x i (fun k hk => h ⟨k, hk⟩)

theorem mega_d_ctrlState_congr (bits bits' mask : U8) (s : AVR)
    (h : bits.val &&& mask.val = bits'.val &&& mask.val) :
    setGpibCtrlState bits mask s = setGpibCtrlState bits' mask s := by
  unfold setGpibCtrlState
  dsimp only
  rw [frag_and_congr portH mega_d_portH_place bits bits' mask h, frag_and_congr portB mega_d_portB_place bits bits' mask h]

theorem mega_d_ctrlDir_congr (bits bits' mask : U8) (s : AVR)
    (h : bits.val &&& mask.val = bits'.val &&& mask.val) :
    setGpibCtrlDir bits mask s = setGpibCtrlDir bits' mask s := by
  unfold setGpibCtrlDir
  dsimp only
  rw [frag_and_congr portH mega_d_portH_place bits bits' mask h, frag_and_congr portB mega_d_portB_place bits bits' mask h]

theorem mega_d_ctrlState_compose (b1 m1 b2 m2 : U8) (s : AVR) :
    setGpibCtrlState b2 m2 (setGpibCtrlState b1 m1 s)
      = setGpibCtrlState (u8 ((b1.val &&& bnot m2.val) ||| (b2.val &&& m2.val)))
          (u8 (m1.val ||| m2.val)) s := by
  unfold setGpibCtrlState
  dsimp only
  rw [frag_compose portH mega_d_portH_place s.PORTH b1 m1 b2 m2, frag_compose portB mega_d_portB_place s.PORTB b1 m1 b2 m2]

end

section
open AR488_MEGA2560_E1

/-- The port B fragment places bits: each of its bits is a fixed bit of the
control byte or is always 0. -/
theorem e1_portB_place : ∀ i : Fin 8,
    (∃ k : Fin 8, ∀ x : U8, (portB x).bit i = x.bit k) ∨ ∀ x : U8, (portB x).bit i = false := by
  intro i
  by_cases h : ∃ k : Fin 8, ctrlPin k = (PortId.B, i.val)
  · obtain ⟨k, hk⟩ := h
    left
    refine ⟨k, fun x => ?_⟩
    have e := e1_portB_bit x k (by rw [hk])
    rw [hk] at e
    exact e
  · right
    intro x
    exact e1_portB_off x i (fun k hk => h ⟨k, hk⟩)

/-- The port D fragment places bits: each of its bits is a fixed bit of the
control byte or is always 0. -/
theorem e1_portD_place : ∀ i : Fin 8,
    (∃ k : Fin 8, ∀ x : U8, (portD x).bit i = x.bit k) ∨ ∀ x : U8, (portD x).bit i = false := by
  intro i
  by_cases h : ∃ k : Fin 8, ctrlPin k = (PortId.D, i.val)
  · obtain ⟨k, hk⟩ := h
    left
    refine ⟨k, fun x => ?_⟩
    have e := e1_portD_bit x k (by rw [hk])
    rw [hk] at e
    exact e
  · right
    intro x
    exact e1_portD_off x i (fun k hk => h ⟨k, hk⟩)

/-- The port G fragment places bits: each of its bits is a fixed bit of the
control byte or is always 0. -/
theorem e1_portG_place : ∀ i : Fin 8,
    (∃ k : Fin 8, ∀ x : U8, (portG x).bit i = x.bit k) ∨ ∀ x : U8, (portG x).bit i = false := by
  intro i
  by_cases h : ∃ k : Fin 8, ctrlPin k = (PortId.G, i.val)
  · obtain ⟨k, hk⟩ := h
    left
    refine ⟨k, fun x => ?_⟩
    have e := e1_portG_bit x k (by rw [hk])
    rw [hk] at e
    exact e
  · right
    intro x
    exact e1_portG_off x i (fun k hk => h ⟨k, hk⟩)

/-- The port L fragment places bits: each of its bits is a fixed bit of the
control byte or is always 0. -/
theorem e1_portL_place : ∀ i : Fin 8,
    (∃ k : Fin 8, ∀ x : U8, (portL x).bit i = x.bit k) ∨ ∀ x : U8, (portL x).bit i = false := by
  intro i
  by_cases h : ∃ k : Fin 8, ctrlPin k = (PortId.L, i.val)
  · obtain ⟨k, hk⟩ := h
    left
    refine ⟨k, fun x => ?_⟩
    have e := e1_portL_bit x k (by rw [hk])
    rw [hk] at e
    exact e
  · right
    intro x
    exact e1_portL_off x i (fun k hk => h ⟨k, hk⟩)

theorem e1_ctrlState_congr (bits bits' mask : U8) (s : AVR)
    (h : bits.val &&& mask.val = bits'.val &&& mask.val) :
    setGpibCtrlState bits mask s = setGpibCtrlState bits' mask s := by
  unfold setGpibCtrlState
  dsimp only
  rw [frag_and_congr portB e1_portB_place bits bits' mask h, frag_and_congr portD e1_portD_place bits bits' mask h, frag_and_congr portG e1_portG_place bits bits' mask h, frag_and_congr portL e1_portL_place bits bits' mask h]

theorem e1_ctrlDir_congr (bits bits' mask : U8) (s : AVR)
    (h : bits.val &&& mask.val = bits'.val &&& mask.val) :
    setGpibCtrlDir bits mask s = setGpibCtrlDir bits' mask s := by
  unfold setGpibCtrlDir
  dsimp only
  rw [frag_and_congr portB e1_portB_place bits bits' mask h, frag_and_congr portD e1_portD_place bits bits' mask h, frag_and_congr portG e1_portG_place bits bits' mask h, frag_and_congr portL e1_portL_place bits bits' mask h]

theorem e1_ctrlState_compose (b1 m1 b2 m2 : U8) (s : AVR) :
    setGpibCtrlState b2 m2 (setGpibCtrlState b1 m1 s)
      = setGpibCtrlState (u8 ((b1.val &&& bnot m2.val) ||| (b2.val &&& m2.val)))
          (u8 (m1.val ||| m2.val)) s := by
  unfold setGpibCtrlState
  dsimp only
  rw [frag_compose portB e1_portB_place s.PORTB b1 m1 b2 m2, frag_compose portD e1_portD_place s.PORTD b1 m1 b2 m2, frag_compose portG e1_portG_place s.PORTG b1 m1 b2 m2, frag_compose portL e1_portL_place s.PORTL b1 m1 b2 m2]

end

section
open AR488_MEGA2560_E2

/-- The port B fragment places bits: each of its bits is a fixed bit of the
control byte or is always 0. -/
theorem e2_portB_place : ∀ i : Fin 8,
    (∃ k : Fin 8, ∀ x : U8, (portB x).bit i = x.bit k) ∨ ∀ x : U8, (portB x).bit i = false := by
  intro i
  by_cases h : ∃ k : Fin 8, ctrlPin k = (PortId.B, i.val)
  · obtain ⟨k, hk⟩ := h
    left
    refine ⟨k, fun x => ?_⟩
    have e := e2_portB_bit x k (by rw [hk])
    rw [hk] at e
    exact e
  · right
    intro x
    exact e2_portB_off x i (fun k hk => h ⟨k, hk⟩)

/-- The port G fragment places bits: each of its bits is a fixed bit of the
control byte or is always 0. -/
theorem e2_portG_place : ∀ i : Fin 8,
    (∃ k : Fin 8, ∀ x : U8, (portG x).bit i = x.bit k) ∨ ∀ x : U8, (portG x).bit i = false := by
  intro i
  by_cases h : ∃ k : Fin 8, ctrlPin k = (PortId.G, i.val)
  · obtain ⟨k, hk⟩ := h
    left
    refine ⟨k, fun x => ?_⟩
    have e := e2_portG_bit x k (by rw [hk])
    rw [hk] at e
    exact e
  · right
    intro x
    exact e2_portG_off x i (fun k hk => h ⟨k, hk⟩)

/-- The port L fragment places bits: each of its bits is a fixed bit of the
control byte or is always 0. -/
theorem e2_portL_place : ∀ i : Fin 8,
    (∃ k : Fin 8, ∀ x : U8, (portL x).bit i = x.bit k) ∨ ∀ x : U8, (portL x).bit i = false := by
  intro i
  by_cases h : ∃ k : Fin 8, ctrlPin k = (PortId.L, i.val)
  · obtain ⟨k, hk⟩ := h
    left
    refine ⟨k, fun x => ?_⟩
    have e := e2_portL_bit x k (by rw [hk])
    rw [hk] at e
    exact e
  · right
    intro x
    exact e2_portL_off x i (fun k hk => h ⟨k, hk⟩)

theorem e2_ctrlState_congr (bits bits' mask : U8) (s : AVR)
    (h : bits.val &&& mask.val = bits'.val &&& mask.val) :
    setGpibCtrlState bits mask s = setGpibCtrlState bits' mask s := by
  unfold setGpibCtrlState
  dsimp only
  rw [frag_and_congr portB e2_portB_place bits bits' mask h, frag_and_congr portG e2_portG_place bits bits' mask h, frag_and_congr portL e2_portL_place bits bits' mask h]

theorem e2_ctrlDir_congr (bits bits' mask : U8) (s : AVR)
    (h : bits.val &&& mask.val = bits'.val &&& mask.val) :
    setGpibCtrlDir bits mask s = setGpibCtrlDir bits' mask s := by
  unfold setGpibCtrlDir
  dsimp only
  rw [frag_and_congr portB e2_portB_place bits bits' mask h, frag_and_congr portG e2_portG_place bits bits' mask h, frag_and_congr portL e2_portL_place bits bits' mask h]

theorem e2_ctrlState_compose (b1 m1 b2 m2 : U8) (s : AVR) :
    setGpibCtrlState b2 m2 (setGpibCtrlState b1 m1 s)
      = setGpibCtrlState (u8 ((b1.val &&& bnot m2.val) ||| (b2.val &&& m2.val)))
          (u8 (m1.val ||| m2.val)) s := by
  unfold setGpibCtrlState
  dsimp only
  rw [frag_compose portB e2_portB_place s.PORTB b1 m1 b2 m2, frag_compose portG e2_portG_place s.PORTG b1 m1 b2 m2, frag_compose portL e2_portL_place s.PORTL b1 m1 b2 m2]

end

section
open AR488_MEGA32U4_MICRO

/-- The port F fragment places bits: each of its bits is a fixed bit of the
control byte or is always 0. -/
theorem micro_portF_place : ∀ i : Fin 8,
    (∃ k : Fin 8, ∀ x : U8, (portF x).bit i = x.bit k) ∨ ∀ x : U8, (portF x).bit i = false := by
  intro i
  by_cases h : ∃ k : Fin 8, ctrlPin k = (PortId.F, i.val)
  · obtain ⟨k, hk⟩ := h
    left
    refine ⟨k, fun x => ?_⟩
    have e := micro_portF_bit x k (by rw [hk])
    rw [hk] at e
    exact e
  · right
    intro x
    exact micro_portF_off x i (fun k hk => h ⟨k, hk⟩)

/-- The port C fragment places bits: each of its bits is a fixed bit of the
control byte or is always 0. -/
theorem micro_portC_place : ∀ i : Fin 8,
    (∃ k : Fin 8, ∀ x : U8, (portC x).bit i = x.bit k) ∨ ∀ x : U8, (portC x).bit i = false := by
  intro i
  by_cases h : ∃ k : Fin 8, ctrlPin k = (PortId.C, i.val)
  · obtain ⟨k, hk⟩ := h
    left
    refine ⟨k, fun x => ?_⟩
    have e := micro_portC_bit x k (by rw [hk])
    rw [hk] at e
    exact e
  · right
    intro x
    exact micro_portC_off x i (fun k hk => h ⟨k, hk⟩)

/-- The port D fragment places bits: each of its bits is a fixed bit of the
control byte or is always 0. -/
theorem micro_portD_place : ∀ i : Fin 8,
    (∃ k : Fin 8, ∀ x : U8, (portD x).bit i = x.bit k) ∨ ∀ x : U8, (portD x).bit i = false := by
  intro i
  by_cases h : ∃ k : Fin 8, ctrlPin k = (PortId.D, i.val)
  · obtain ⟨k, hk⟩ := h
    left
    refine ⟨k, fun x => ?_⟩
    have e := micro_portD_bit x k (by rw [hk])
    rw [hk] at e
    exact e
  · right
    intro x
    exact micro_portD_off x i (fun k hk => h ⟨k, hk⟩)

/-- The port E fragment places bits: each of its bits is a fixed bit of the
control byte or is always 0. -/
theorem micro_portE_place : ∀ i : Fin 8,
    (∃ k : Fin 8, ∀ x : U8, (portE x).bit i = x.bit k) ∨ ∀ x : U8, (portE x).bit i = false := by
  intro i
  by_cases h : ∃ k : Fin 8, ctrlPin k = (PortId.E, i.val)
  · obtain ⟨k, hk⟩ := h
    left
    refine ⟨k, fun x => ?_⟩
    have e := micro_portE_bit x k (by rw [hk])
    rw [hk] at e
    exact e
  · right
    intro x
    exact micro_portE_off x i (fun k hk => h ⟨k, hk⟩)

theorem micro_ctrlState_congr (bits bits' mask : U8) (s : AVR)
    (h : bits.val &&& mask.val = bits'.val &&& mask.val) :
    setGpibCtrlState bits mask s = setGpibCtrlState bits' mask s := by
  unfold setGpibCtrlState
  dsimp only
  rw [frag_and_congr portF micro_portF_place bits bits' mask h, frag_and_congr portC micro_portC_place bits bits' mask h, frag_and_congr portD micro_portD_place bits bits' mask h, frag_and_congr portE micro_portE_place bits bits' mask h]

theorem micro_ctrlDir_congr (bits bits' mask : U8) (s : AVR)
    (h : bits.val &&& mask.val = bits'.val &&& mask.val) :
    setGpibCtrlDir bits mask s = setGpibCtrlDir bits' mask s := by
  unfold setGpibCtrlDir
  dsimp only
  rw [frag_and_congr portF micro_portF_place bits bits' mask h, frag_and_congr portC micro_portC_place bits bits' mask h, frag_and_congr portD micro_portD_place bits bits' mask h, frag_and_congr portE micro_portE_place bits bits' mask h]

theorem micro_guardF_zero : ∀ m : U8, m.val &&& 0b00011110 = 0 → portF m = 0 := by
  decide!

theorem micro_guardCDE_zero : ∀ m : U8,
    m.val &&& 0b11100001 = 0 → portC m = 0 ∧ portD m = 0 ∧ portE m = 0 := by
  decide!

/-- The two guards skip updates that would change nothing. -/
theorem micro_ctrlState_unguarded (bits mask : U8) (s : AVR) :
    setGpibCtrlState bits mask s
      = { s with
          PORTF := u8 ((s.PORTF.val &&& bnot (portF mask).val) ||| ((portF bits).val &&& (portF mask).val)),
          PORTC := u8 ((s.PORTC.val &&& bnot (portC mask).val) ||| ((portC bits).val &&& (portC mask).val)),
          PORTD := u8 ((s.PORTD.val &&& bnot (portD mask).val) ||| ((portD bits).val &&& (portD mask).val)),
          PORTE := u8 ((s.PORTE.val &&& bnot (portE mask).val) ||| ((portE bits).val &&& (portE mask).val)) } := by
  unfold setGpibCtrlState
  dsimp only
  by_cases h1 : mask.val &&& 0b00011110 = 0 <;> by_cases h2 : mask.val &&& 0b11100001 = 0 <;>
    simp only [h1, h2, ne_eq, not_true_eq_false, not_false_eq_true, if_true, if_false] <;>
    (try rw [micro_guardF_zero mask h1]) <;>
    (try rw [(micro_guardCDE_zero mask h2).1, (micro_guardCDE_zero mask h2).2.1,
      (micro_guardCDE_zero mask h2).2.2]) <;>
    simp only [masked_zero]

theorem micro_ctrlState_compose (b1 m1 b2 m2 : U8) (s : AVR) :
    setGpibCtrlState b2 m2 (setGpibCtrlState b1 m1 s)
      = setGpibCtrlState (u8 ((b1.val &&& bnot m2.val) ||| (b2.val &&& m2.val)))
          (u8 (m1.val ||| m2.val)) s := by
  rw [micro_ctrlState_unguarded, micro_ctrlState_unguarded, micro_ctrlState_unguarded]
  dsimp only
  rw [frag_compose portF micro_portF_place s.PORTF b1 m1 b2 m2, frag_compose portC micro_portC_place s.PORTC b1 m1 b2 m2, frag_compose portD micro_portD_place s.PORTD b1 m1 b2 m2, frag_compose portE micro_portE_place s.PORTE b1 m1 b2 m2]

end

section
open AR488_MEGA32U4_LR3

/-- The port B fragment places bits: each of its bits is a fixed bit of the
control byte or is always 0. -/
theorem lr3_portB_place : ∀ i : Fin 8,
    (∃ k : Fin 8, ∀ x : U8, (portB x).bit i = x.bit k) ∨ ∀ x : U8, (portB x).bit i = false := by
  intro i
  by_cases h : ∃ k : Fin 8, ctrlPin k = (PortId.B, i.val)
  · obtain ⟨k, hk⟩ := h
    left
    refine ⟨k, fun x => ?_⟩
    have e := lr3_portB_bit x k (by rw [hk])
    rw [hk] at e
    exact e
  · right
    intro x
    exact lr3_portB_off x i (fun k hk => h ⟨k, hk⟩)

/-- The port D fragment places bits: each of its bits is a fixed bit of the
control byte or is always 0. -/
theorem lr3_portD_place : ∀ i : Fin 8,
    (∃ k : Fin 8, ∀ x : U8, (portD x).bit i = x.bit k) ∨ ∀ x : U8, (portD x).bit i = false := by
  intro i
  by_cases h : ∃ k : Fin 8, ctrlPin k = (PortId.D, i.val)
  · obtain ⟨k, hk⟩ := h
    left
    refine ⟨k, fun x => ?_⟩
    have e := lr3_portD_bit x k (by rw [hk])
    rw [hk] at e
    exact e
  · right
    intro x
    exact lr3_portD_off x i (fun k hk => h ⟨k, hk⟩)

/-- The port E fragment places bits: each of its bits is a fixed bit of the
control byte or is always 0. -/
theorem lr3_portE_place : ∀ i : Fin 8,
    (∃ k : Fin 8, ∀ x : U8, (portE x).bit i = x.bit k) ∨ ∀ x : U8, (portE x).bit i = false := by
  intro i
  by_cases h : ∃ k : Fin 8, ctrlPin k = (PortId.E, i.val)
  · obtain ⟨k, hk⟩ := h
    left
    refine ⟨k, fun x => ?_⟩
    have e := lr3_portE_bit x k (by rw [hk])
    rw [hk] at e
    exact e
  · right
    intro x
    exact lr3_portE_off x i (fun k hk => h ⟨k, hk⟩)

theorem lr3_ctrlState_congr (bits bits' mask : U8) (s : AVR)
    (h : bits.val &&& mask.val = bits'.val &&& mask.val) :
    setGpibCtrlState bits mask s = setGpibCtrlState bits' mask s := by
  unfold setGpibCtrlState
  dsimp only
  rw [frag_and_congr portB lr3_portB_place bits bits' mask h, frag_and_congr portD lr3_portD_place bits bits' mask h, frag_and_congr portE lr3_portE_place bits bits' mask h]

theorem lr3_ctrlDir_congr (bits bits' mask : U8) (s : AVR)
    (h : bits.val &&& mask.val = bits'.val &&& mask.val) :
    setGpibCtrlDir bits mask s = setGpibCtrlDir bits' mask s := by
  unfold setGpibCtrlDir
  dsimp only
  rw [frag_and_congr portB lr3_portB_place bits bits' mask h, frag_and_congr portD lr3_portD_place bits bits' mask h, frag_and_congr portE lr3_portE_place bits bits' mask h]

theorem lr3_ctrlState_compose (b1 m1 b2 m2 : U8) (s : AVR) :
    setGpibCtrlState b2 m2 (setGpibCtrlState b1 m1 s)
      = setGpibCtrlState (u8 ((b1.val &&& bnot m2.val) ||| (b2.val &&& m2.val)))
          (u8 (m1.val ||| m2.val)) s := by
  unfold setGpibCtrlState
  dsimp only
  rw [frag_compose portB lr3_portB_place s.PORTB b1 m1 b2 m2, frag_compose portD lr3_portD_place s.PORTD b1 m1 b2 m2, frag_compose portE lr3_portE_place s.PORTE b1 m1 b2 m2]

end

section
open AR488_MEGA644P_MCGRAW

/-- The port A fragment places bits: each of its bits is a fixed bit of the
control byte or is always 0. -/
theorem mcgraw_portA_place : ∀ i : Fin 8,
    (∃ k : Fin 8, ∀ x : U8, (portA x).bit i = x.bit k) ∨ ∀ x : U8, (portA x).bit i = false := by
  intro i
  by_cases h : ∃ k : Fin 8, ctrlPin k = (PortId.A, i.val)
  · obtain ⟨k, hk⟩ := h
    left
    refine ⟨k, fun x => ?_⟩
    have e := mcgraw_portA_bit x k (by rw [hk])
    rw [hk] at e
    exact e
  · right
    intro x
    exact mcgraw_portA_off x i (fun k hk => h ⟨k, hk⟩)

/-- The port C fragment places bits: each of its bits is a fixed bit of the
control byte or is always 0. -/
theorem mcgraw_portC_place : ∀ i : Fin 8,
    (∃ k : Fin 8, ∀ x : U8, (portC x).bit i = x.bit k) ∨ ∀ x : U8, (portC x).bit i = false := by
  intro i
  by_cases h : ∃ k : Fin 8, ctrlPin k = (PortId.C, i.val)
  · obtain ⟨k, hk⟩ := h
    left
    refine ⟨k, fun x => ?_⟩
    have e := mcgraw_portC_bit x k (by rw [hk])
    rw [hk] at e
    exact e
  · right
    intro x
    exact mcgraw_portC_off x i (fun k hk => h ⟨k, hk⟩)

theorem mcgraw_ctrlState_congr (bits bits' mask : U8) (s : AVR)
    (h : bits.val &&& mask.val = bits'.val &&& mask.val) :
    setGpibCtrlState bits mask s = setGpibCtrlState bits' mask s := by
  unfold setGpibCtrlState
  dsimp only
  rw [frag_and_congr portA mcgraw_portA_place bits bits' mask h, frag_and_congr portC mcgraw_portC_place bits bits' mask h]

theorem mcgraw_ctrlDir_congr (bits bits' mask : U8) (s : AVR)
    (h : bits.val &&& mask.val = bits'.val &&& mask.val) :
    setGpibCtrlDir bits mask s = setGpibCtrlDir bits' mask s := by
  unfold setGpibCtrlDir
  dsimp only
  rw [frag_and_congr portA mcgraw_portA_place bits bits' mask h, frag_and_congr portC mcgraw_portC_place bits bits' mask h]

theorem mcgraw_ctrlState_compose (b1 m1 b2 m2 : U8) (s : AVR) :
    setGpibCtrlState b2 m2 (setGpibCtrlState b1 m1 s)
      = setGpibCtrlState (u8 ((b1.val &&& bnot m2.val) ||| (b2.val &&& m2.val)))
          (u8 (m1.val ||| m2.val)) s := by
  unfold setGpibCtrlState
  dsimp only
  rw [frag_compose portA mcgraw_portA_place s.PORTA b1 m1 b2 m2, frag_compose portC mcgraw_portC_place s.PORTC b1 m1 b2 m2]

end

section
open AR488_328PB_ALT

/-- The port B fragment places bits: each of its bits is a fixed bit of the
control byte or is always 0. -/
theorem alt328pb_portB_place : ∀ i : Fin 8,
    (∃ k : Fin 8, ∀ x : U8, (portB x).bit i = x.bit k) ∨ ∀ x : U8, (portB x).bit i = false := by
  intro i
  by_cases h : ∃ k : Fin 8, ctrlPin k = (PortId.B, i.val)
  · obtain ⟨k, hk⟩ := h
    left
    refine ⟨k, fun x => ?_⟩
    have e := alt328pb_portB_bit x k (by rw [hk])
    rw [hk] at e
    exact e
  · right
    intro x
    exact alt328pb_portB_off x i (fun k hk => h ⟨k, hk⟩)

/-- The port D fragment places bits: each of its bits is a fixed bit of the
control byte or is always 0. -/
theorem alt328pb_portD_place : ∀ i : Fin 8,
    (∃ k : Fin 8, ∀ x : U8, (portD x).bit i = x.bit k) ∨ ∀ x : U8, (portD x).bit i = false := by
  intro i
  by_cases h : ∃ k : Fin 8, ctrlPin k = (PortId.D, i.val)
  · obtain ⟨k, hk⟩ := h
    left
    refine ⟨k, fun x => ?_⟩
    have e := alt328pb_portD_bit x k (by rw [hk])
    rw [hk] at e
    exact e
  · right
    intro x
    exact alt328pb_portD_off x i (fun k hk => h ⟨k, hk⟩)

theorem alt328pb_ctrlState_congr (bits bits' mask : U8) (s : AVR)
    (h : bits.val &&& mask.val = bits'.val &&& mask.val) :
    setGpibCtrlState bits mask s = setGpibCtrlState bits' mask s := by
  unfold setGpibCtrlState
  dsimp only
  rw [frag_and_congr portB alt328pb_portB_place bits bits' mask h, frag_and_congr portD alt328pb_portD_place bits bits' mask h]

theorem alt328pb_ctrlDir_congr (bits bits' mask : U8) (s : AVR)
    (h : bits.val &&& mask.val = bits'.val &&& mask.val) :
    setGpibCtrlDir bits mask s = setGpibCtrlDir bits' mask s := by
  unfold setGpibCtrlDir
  dsimp only
  rw [frag_and_congr portB alt328pb_portB_place bits bits' mask h, frag_and_congr portD alt328pb_portD_place bits bits' mask h, frag_bnot_and_congr portB alt328pb_portB_place bits bits' mask h, frag_bnot_and_congr portD alt328pb_portD_place bits bits' mask h]

/-- The early return on an empty mask skips updates that would change nothing. -/
theorem alt328pb_ctrlState_unguarded (bits mask : U8) (s : AVR) :
    setGpibCtrlState bits mask s
      = { s with
          PORTB := u8 ((s.PORTB.val &&& bnot (portB mask).val) ||| ((portB bits).val &&& (portB mask).val)),
          PORTD := u8 ((s.PORTD.val &&& bnot (portD mask).val) ||| ((portD bits).val &&& (portD mask).val)) } := by
  unfold setGpibCtrlState
  dsimp only
  split_ifs with hm
  · subst hm
    rw [frag_zero portB alt328pb_portB_place, frag_zero portD alt328pb_portD_place]
    simp only [masked_zero]
  · rfl

theorem alt328pb_ctrlState_compose (b1 m1 b2 m2 : U8) (s : AVR) :
    setGpibCtrlState b2 m2 (setGpibCtrlState b1 m1 s)
      = setGpibCtrlState (u8 ((b1.val &&& bnot m2.val) ||| (b2.val &&& m2.val)))
          (u8 (m1.val ||| m2.val)) s := by
  rw [alt328pb_ctrlState_unguarded, alt328pb_ctrlState_unguarded, alt328pb_ctrlState_unguarded]
  dsimp only
  rw [frag_compose portB alt328pb_portB_place s.PORTB b1 m1 b2 m2, frag_compose portD alt328pb_portD_place s.PORTD b1 m1 b2 m2]

end

section
open POE_ETHERNET_GPIB_ADAPTOR

/-- `bitsToPort` places bits: bit `ctrlBit k` of the image is bit `k` of the
control byte, and every bit of the image is such a bit. -/
theorem poe_bitsToPort_place : ∀ i : Fin 8,
    (∃ k : Fin 8, ∀ x : U8, (bitsToPort x).bit i = x.bit k)
      ∨ ∀ x : U8, (bitsToPort x).bit i = false := by
  intro i
  left
  obtain ⟨k, hk⟩ := poe_ctrlBit_bijective.2 i
  refine ⟨k, fun x => ?_⟩
  rw [← hk]
  exact poe_bitsToPort_bit x k

theorem poe_ctrlState_congr (bits bits' mask : U8) (s : MegaAVR0)
    (h : bits.val &&& mask.val = bits'.val &&& mask.val) :
    setGpibCtrlState bits mask s = setGpibCtrlState bits' mask s := by
  unfold setGpibCtrlState
  dsimp only
  rw [frag_and_congr bitsToPort poe_bitsToPort_place bits bits' mask h]

theorem poe_ctrlDir_congr (bits bits' mask : U8) (s : MegaAVR0)
    (h : bits.val &&& mask.val = bits'.val &&& mask.val) :
    setGpibCtrlDir bits mask s = setGpibCtrlDir bits' mask s := by
  unfold setGpibCtrlDir
  dsimp only
  rw [frag_and_congr bitsToPort poe_bitsToPort_place bits bits' mask h]

end

section
open AR488_MCP23S17

theorem mcp_ctrlState_congr (bits bits' mask : U8) (s : Expander)
    (h : bits.val &&& mask.val = bits'.val &&& mask.val) :
    setGpibCtrlState bits mask s = setGpibCtrlState bits' mask s := by
  unfold setGpibCtrlState
  dsimp only
  rw [h]

theorem mcp_ctrlDir_congr (bits bits' mask : U8) (s : Expander)
    (h : bits.val &&& mask.val = bits'.val &&& mask.val) :
    setGpibCtrlDir bits mask s = setGpibCtrlDir bits' mask s := by
  unfold setGpibCtrlDir
  dsimp only
  rw [h]

end

theorem pico_l1_ctrlState_congr (bits bits' mask : U8) (s : RP2040)
    (h : bits.val &&& mask.val = bits'.val &&& mask.val) :
    RAS_PICO_L1.setGpibCtrlState bits mask s = RAS_PICO_L1.setGpibCtrlState bits' mask s := by
  unfold RAS_PICO_L1.setGpibCtrlState
  dsimp only
  rw [h]

theorem pico_l1_ctrlDir_congr (bits bits' mask : U8) (s : RP2040)
    (h : bits.val &&& mask.val = bits'.val &&& mask.val) :
    RAS_PICO_L1.setGpibCtrlDir bits mask s = RAS_PICO_L1.setGpibCtrlDir bits' mask s := by
  unfold RAS_PICO_L1.setGpibCtrlDir
  dsimp only
  rw [h, bnot_and_congr bits bits' mask h]

theorem pico_l2_ctrlState_congr (bits bits' mask : U8) (s : RP2040)
    (h : bits.val &&& mask.val = bits'.val &&& mask.val) :
    RAS_PICO_L2.setGpibCtrlState bits mask s = RAS_PICO_L2.setGpibCtrlState bits' mask s := by
  unfold RAS_PICO_L2.setGpibCtrlState
  dsimp only
  rw [h]

theorem pico_l2_ctrlDir_congr (bits bits' mask : U8) (s : RP2040)
    (h : bits.val &&& mask.val = bits'.val &&& mask.val) :
    RAS_PICO_L2.setGpibCtrlDir bits mask s = RAS_PICO_L2.setGpibCtrlDir bits' mask s := by
  unfold RAS_PICO_L2.setGpibCtrlDir
  dsimp only
  rw [h, bnot_and_congr bits bits' mask h]

/-- Under a mask that selects line `i`, the test `bits & (1 << i)` of the custom
layout gives the same answer for two bytes that agree under the mask. -/
theorem custom_test_congr (bits bits' mask : U8)
    (h : bits.val &&& mask.val = bits'.val &&& mask.val) (i : Fin 8)
    (hm : mask.val &&& (1 <<< i.val) ≠ 0) :
    (bits.val &&& (1 <<< i.val) ≠ 0) ↔ (bits'.val &&& (1 <<< i.val) ≠ 0) := by
  have e1 := custom_maskbit bits i
  have e2 := custom_maskbit bits' i
  have e3 := custom_maskbit mask i
  have hb := bit_of_and_eq bits bits' mask h i.val
  rw [decide_eq_true hm] at e3
  simp only [U8.bit] at e1 e2 e3
  rw [← e3, Bool.and_true, Bool.and_true, ← e1, ← e2] at hb
  exact decide_eq_decide.1 hb

section
open AR488_CUSTOM

theorem custom_ctrlState_congr (ctrlbus : Fin 8 → U8) (bits bits' mask : U8) (s : ArduinoPins)
    (h : bits.val &&& mask.val = bits'.val &&& mask.val) :
    setGpibCtrlState ctrlbus bits mask s = setGpibCtrlState ctrlbus bits' mask s := by
  unfold setGpibCtrlState
  congr 1
  funext s i
  by_cases hm : mask.val &&& (1 <<< i.val) ≠ 0
  · rw [if_pos hm, if_pos hm, decide_eq_decide.2 (custom_test_congr bits bits' mask h i hm)]
  · rw [if_neg hm, if_neg hm]

theorem custom_ctrlDir_congr (ctrlbus : Fin 8 → U8) (bits bits' mask : U8) (s : ArduinoModes)
    (h : bits.val &&& mask.val = bits'.val &&& mask.val) :
    setGpibCtrlDir ctrlbus bits mask s = setGpibCtrlDir ctrlbus bits' mask s := by
  unfold setGpibCtrlDir
  congr 1
  funext s i
  by_cases hm : mask.val &&& (1 <<< i.val) ≠ 0
  · rw [if_pos hm, if_pos hm]
    by_cases hb : bits.val &&& (1 <<< i.val) ≠ 0
    · rw [if_pos hb, if_pos ((custom_test_congr bits bits' mask h i hm).1 hb)]
    · rw [if_neg hb, if_neg (fun hb' => hb ((custom_test_congr bits bits' mask h i hm).2 hb'))]
  · rw [if_neg hm, if_neg hm]

end

/-! ## Composition of control-state updates -/

/-- C34: on every AVR port-register profile two successive masked
control-state updates compose into one: for all bytes `b1`, `m1`, `b2`, `m2` and
every prior register state, the state after `setGpibCtrlState b1 m1` followed by
`setGpibCtrlState b2 m2` is the state after the single call
`setGpibCtrlState ((b1 & ~m2) | (b2 & m2)) (m1 | m2)`; hence calls with disjoint
masks commute, and repeating a call changes nothing. -/
theorem C34_ctrl_state_compose (b1 m1 b2 m2 : U8) (s : AVR) :
    (AR488_UNO.setGpibCtrlState b2 m2 (AR488_UNO.setGpibCtrlState b1 m1 s)
        = AR488_UNO.setGpibCtrlState (u8 ((b1.val &&& bnot m2.val) ||| (b2.val &&& m2.val)))
            (u8 (m1.val ||| m2.val)) s ∧
      (m1.val &&& m2.val = 0 →
        AR488_UNO.setGpibCtrlState b2 m2 (AR488_UNO.setGpibCtrlState b1 m1 s)
          = AR488_UNO.setGpibCtrlState b1 m1 (AR488_UNO.setGpibCtrlState b2 m2 s)) ∧
      AR488_UNO.setGpibCtrlState b1 m1 (AR488_UNO.setGpibCtrlState b1 m1 s) = AR488_UNO.setGpibCtrlState b1 m1 s) ∧
    (AR488_MEGA2560_D.setGpibCtrlState b2 m2 (AR488_MEGA2560_D.setGpibCtrlState b1 m1 s)
        = AR488_MEGA2560_D.setGpibCtrlState (u8 ((b1.val &&& bnot m2.val) ||| (b2.val &&& m2.val)))
            (u8 (m1.val ||| m2.val)) s ∧
      (m1.val &&& m2.val = 0 →
        AR488_MEGA2560_D.setGpibCtrlState b2 m2 (AR488_MEGA2560_D.setGpibCtrlState b1 m1 s)
          = AR488_MEGA2560_D.setGpibCtrlState b1 m1 (AR488_MEGA2560_D.setGpibCtrlState b2 m2 s)) ∧
      AR488_MEGA2560_D.setGpibCtrlState b1 m1 (AR488_MEGA2560_D.setGpibCtrlState b1 m1 s) = AR488_MEGA2560_D.setGpibCtrlState b1 m1 s) ∧
    (AR488_MEGA2560_E1.setGpibCtrlState b2 m2 (AR488_MEGA2560_E1.setGpibCtrlState b1 m1 s)
        = AR488_MEGA2560_E1.setGpibCtrlState (u8 ((b1.val &&& bnot m2.val) ||| (b2.val &&& m2.val)))
            (u8 (m1.val ||| m2.val)) s ∧
      (m1.val &&& m2.val = 0 →
        AR488_MEGA2560_E1.setGpibCtrlState b2 m2 (AR488_MEGA2560_E1.setGpibCtrlState b1 m1 s)
          = AR488_MEGA2560_E1.setGpibCtrlState b1 m1 (AR488_MEGA2560_E1.setGpibCtrlState b2 m2 s)) ∧
      AR488_MEGA2560_E1.setGpibCtrlState b1 m1 (AR488_MEGA2560_E1.setGpibCtrlState b1 m1 s) = AR488_MEGA2560_E1.setGpibCtrlState b1 m1 s) ∧
    (AR488_MEGA2560_E2.setGpibCtrlState b2 m2 (AR488_MEGA2560_E2.setGpibCtrlState b1 m1 s)
        = AR488_MEGA2560_E2.setGpibCtrlState (u8 ((b1.val &&& bnot m2.val) ||| (b2.val &&& m2.val)))
            (u8 (m1.val ||| m2.val)) s ∧
      (m1.val &&& m2.val = 0 →
        AR488_MEGA2560_E2.setGpibCtrlState b2 m2 (AR488_MEGA2560_E2.setGpibCtrlState b1 m1 s)
          = AR488_MEGA2560_E2.setGpibCtrlState b1 m1 (AR488_MEGA2560_E2.setGpibCtrlState b2 m2 s)) ∧
      AR488_MEGA2560_E2.setGpibCtrlState b1 m1 (AR488_MEGA2560_E2.setGpibCtrlState b1 m1 s) = AR488_MEGA2560_E2.setGpibCtrlState b1 m1 s) ∧
    (AR488_MEGA32U4_MICRO.setGpibCtrlState b2 m2 (AR488_MEGA32U4_MICRO.setGpibCtrlState b1 m1 s)
        = AR488_MEGA32U4_MICRO.setGpibCtrlState (u8 ((b1.val &&& bnot m2.val) ||| (b2.val &&& m2.val)))
            (u8 (m1.val ||| m2.val)) s ∧
      (m1.val &&& m2.val = 0 →
        AR488_MEGA32U4_MICRO.setGpibCtrlState b2 m2 (AR488_MEGA32U4_MICRO.setGpibCtrlState b1 m1 s)
          = AR488_MEGA32U4_MICRO.setGpibCtrlState b1 m1 (AR488_MEGA32U4_MICRO.setGpibCtrlState b2 m2 s)) ∧
      AR488_MEGA32U4_MICRO.setGpibCtrlState b1 m1 (AR488_MEGA32U4_MICRO.setGpibCtrlState b1 m1 s) = AR488_MEGA32U4_MICRO.setGpibCtrlState b1 m1 s) ∧
    (AR488_MEGA32U4_LR3.setGpibCtrlState b2 m2 (AR488_MEGA32U4_LR3.setGpibCtrlState b1 m1 s)
        = AR488_MEGA32U4_LR3.setGpibCtrlState (u8 ((b1.val &&& bnot m2.val) ||| (b2.val &&& m2.val)))
            (u8 (m1.val ||| m2.val)) s ∧
      (m1.val &&& m2.val = 0 →
        AR488_MEGA32U4_LR3.setGpibCtrlState b2 m2 (AR488_MEGA32U4_LR3.setGpibCtrlState b1 m1 s)
          = AR488_MEGA32U4_LR3.setGpibCtrlState b1 m1 (AR488_MEGA32U4_LR3.setGpibCtrlState b2 m2 s)) ∧
      AR488_MEGA32U4_LR3.setGpibCtrlState b1 m1 (AR488_MEGA32U4_LR3.setGpibCtrlState b1 m1 s) = AR488_MEGA32U4_LR3.setGpibCtrlState b1 m1 s) ∧
    (AR488_MEGA644P_MCGRAW.setGpibCtrlState b2 m2 (AR488_MEGA644P_MCGRAW.setGpibCtrlState b1 m1 s)
        = AR488_MEGA644P_MCGRAW.setGpibCtrlState (u8 ((b1.val &&& bnot m2.val) ||| (b2.val &&& m2.val)))
            (u8 (m1.val ||| m2.val)) s ∧
      (m1.val &&& m2.val = 0 →
        AR488_MEGA644P_MCGRAW.setGpibCtrlState b2 m2 (AR488_MEGA644P_MCGRAW.setGpibCtrlState b1 m1 s)
          = AR488_MEGA644P_MCGRAW.setGpibCtrlState b1 m1 (AR488_MEGA644P_MCGRAW.setGpibCtrlState b2 m2 s)) ∧
      AR488_MEGA644P_MCGRAW.setGpibCtrlState b1 m1 (AR488_MEGA644P_MCGRAW.setGpibCtrlState b1 m1 s) = AR488_MEGA644P_MCGRAW.setGpibCtrlState b1 m1 s) ∧
    (AR488_328PB_ALT.setGpibCtrlState b2 m2 (AR488_328PB_ALT.setGpibCtrlState b1 m1 s)
        = AR488_328PB_ALT.setGpibCtrlState (u8 ((b1.val &&& bnot m2.val) ||| (b2.val &&& m2.val)))
            (u8 (m1.val ||| m2.val)) s ∧
      (m1.val &&& m2.val = 0 →
        AR488_328PB_ALT.setGpibCtrlState b2 m2 (AR488_328PB_ALT.setGpibCtrlState b1 m1 s)
          = AR488_328PB_ALT.setGpibCtrlState b1 m1 (AR488_328PB_ALT.setGpibCtrlState b2 m2 s)) ∧
      AR488_328PB_ALT.setGpibCtrlState b1 m1 (AR488_328PB_ALT.setGpibCtrlState b1 m1 s) = AR488_328PB_ALT.setGpibCtrlState b1 m1 s) :=
  ⟨⟨uno_ctrlState_compose b1 m1 b2 m2 s,
    compose_comm AR488_UNO.setGpibCtrlState uno_ctrlState_compose uno_ctrlState_congr b1 m1 b2 m2 s,
    compose_idem AR488_UNO.setGpibCtrlState uno_ctrlState_compose b1 m1 s⟩,
   ⟨mega_d_ctrlState_compose b1 m1 b2 m2 s,
    compose_comm AR488_MEGA2560_D.setGpibCtrlState mega_d_ctrlState_compose mega_d_ctrlState_congr b1 m1 b2 m2 s,
    compose_idem AR488_MEGA2560_D.setGpibCtrlState mega_d_ctrlState_compose b1 m1 s⟩,
   ⟨e1_ctrlState_compose b1 m1 b2 m2 s,
    compose_comm AR488_MEGA2560_E1.setGpibCtrlState e1_ctrlState_compose e1_ctrlState_congr b1 m1 b2 m2 s,
    compose_idem AR488_MEGA2560_E1.setGpibCtrlState e1_ctrlState_compose b1 m1 s⟩,
   ⟨e2_ctrlState_compose b1 m1 b2 m2 s,
    compose_comm AR488_MEGA2560_E2.setGpibCtrlState e2_ctrlState_compose e2_ctrlState_congr b1 m1 b2 m2 s,
    compose_idem AR488_MEGA2560_E2.setGpibCtrlState e2_ctrlState_compose b1 m1 s⟩,
   ⟨micro_ctrlState_compose b1 m1 b2 m2 s,
    compose_comm AR488_MEGA32U4_MICRO.setGpibCtrlState micro_ctrlState_compose micro_ctrlState_congr b1 m1 b2 m2 s,
    compose_idem AR488_MEGA32U4_MICRO.setGpibCtrlState micro_ctrlState_compose b1 m1 s⟩,
   ⟨lr3_ctrlState_compose b1 m1 b2 m2 s,
    compose_comm AR488_MEGA32U4_LR3.setGpibCtrlState lr3_ctrlState_compose lr3_ctrlState_congr b1 m1 b2 m2 s,
    compose_idem AR488_MEGA32U4_LR3.setGpibCtrlState lr3_ctrlState_compose b1 m1 s⟩,
   ⟨mcgraw_ctrlState_compose b1 m1 b2 m2 s,
    compose_comm AR488_MEGA644P_MCGRAW.setGpibCtrlState mcgraw_ctrlState_compose mcgraw_ctrlState_congr b1 m1 b2 m2 s,
    compose_idem AR488_MEGA644P_MCGRAW.setGpibCtrlState mcgraw_ctrlState_compose b1 m1 s⟩,
   ⟨alt328pb_ctrlState_compose b1 m1 b2 m2 s,
    compose_comm AR488_328PB_ALT.setGpibCtrlState alt328pb_ctrlState_compose alt328pb_ctrlState_congr b1 m1 b2 m2 s,
    compose_idem AR488_328PB_ALT.setGpibCtrlState alt328pb_ctrlState_compose b1 m1 s⟩⟩

/-- Witness for C34: on UNO/NANO, over registers filled with 0xA5, raising ATN
and then lowering IFC gives the same state as the two calls in the other
order. -/
theorem C34_ctrl_state_compose_witness :
    (0x80 : U8).val &&& (0x01 : U8).val = 0 ∧
    AR488_UNO.setGpibCtrlState 0x00 0x01 (AR488_UNO.setGpibCtrlState 0x80 0x80 (AVR.const 0xA5))
      = AR488_UNO.setGpibCtrlState 0x80 0x80 (AR488_UNO.setGpibCtrlState 0x00 0x01 (AVR.const 0xA5)) :=
  ⟨by decide, (C34_ctrl_state_compose 0x80 0x80 0x00 0x01 (AVR.const 0xA5)).1.2.1 (by decide)⟩

/-! ## The split of a control byte into port fragments -/

section
open AR488_UNO

/-- The fragments of a control byte have together as many set bits as the
byte. -/
theorem uno_popcount : ∀ x : U8, (portB x).popcount + (portD x).popcount = x.popcount := by
  decide!

theorem uno_ctrlPin_injective : Function.Injective ctrlPin := by
  decide

theorem uno_dataPin_lt : ∀ j : Fin 8, (dataPin j).2 < 8 := by
  decide

theorem uno_portB_data (x : U8) (j : Fin 8) (hj : (dataPin j).1 = PortId.B) :
    (portB x).bit (dataPin j).2 = false :=
  uno_portB_off x ⟨(dataPin j).2, uno_dataPin_lt j⟩
    (fun k hk => uno_data_not_ctrl k j (by rw [hk, ← hj]))

theorem uno_portD_data (x : U8) (j : Fin 8) (hj : (dataPin j).1 = PortId.D) :
    (portD x).bit (dataPin j).2 = false :=
  uno_portD_off x ⟨(dataPin j).2, uno_dataPin_lt j⟩
    (fun k hk => uno_data_not_ctrl k j (by rw [hk, ← hj]))

/-- Where sub-fragments are joined by `+`, the sum is the fragment itself
(nothing is lost in the store to a byte) and equals the bitwise OR. -/
theorem uno_plus_or : ∀ x : U8,
    ((portD x).val = (x.val &&& 0x80) + ((x.val &&& 0x40) >>> 4) + ((x.val &&& 0x20) >>> 2) ∧
      (x.val &&& 0x80) + ((x.val &&& 0x40) >>> 4) + ((x.val &&& 0x20) >>> 2) = (x.val &&& 0x80) ||| ((x.val &&& 0x40) >>> 4) ||| ((x.val &&& 0x20) >>> 2)) := by
  decide!

end

section
open AR488_MEGA2560_D

/-- The fragments of a control byte have together as many set bits as the
byte. -/
theorem mega_d_popcount : ∀ x : U8, (portH x).popcount + (portB x).popcount = x.popcount := by
  decide!

theorem mega_d_ctrlPin_injective : Function.Injective ctrlPin := by
  decide

theorem mega_d_dataPin_lt : ∀ j : Fin 8, (dataPin j).2 < 8 := by
  decide

theorem mega_d_portH_data (x : U8) (j : Fin 8) (hj : (dataPin j).1 = PortId.H) :
    (portH x).bit (dataPin j).2 = false :=
  mega_d_portH_off x ⟨(dataPin j).2, mega_d_dataPin_lt j⟩
    (fun k hk => mega_d_data_not_ctrl k j (by rw [hk, ← hj]))

theorem mega_d_portB_data (x : U8) (j : Fin 8) (hj : (dataPin j).1 = PortId.B) :
    (portB x).bit (dataPin j).2 = false :=
  mega_d_portB_off x ⟨(dataPin j).2, mega_d_dataPin_lt j⟩
    (fun k hk => mega_d_data_not_ctrl k j (by rw [hk, ← hj]))

/-- Where sub-fragments are joined by `+`, the sum is the fragment itself
(nothing is lost in the store to a byte) and equals the bitwise OR. -/
theorem mega_d_plus_or : ∀ x : U8,
    ((portH x).val = ((x.val &&& 0x3C) <<< 1) + (x.val &&& 0x03) ∧
      ((x.val &&& 0x3C) <<< 1) + (x.val &&& 0x03) = ((x.val &&& 0x3C) <<< 1) ||| (x.val &&& 0x03)) := by
  decide!

end

section
open AR488_MEGA2560_E1

/-- The fragments of a control byte have together as many set bits as the
byte. -/
theorem e1_popcount : ∀ x : U8, (portB x).popcount + (portD x).popcount + (portG x).popcount + (portL x).popcount = x.popcount := by
  decide!

theorem e1_ctrlPin_injective : Function.Injective ctrlPin := by
  decide

theorem e1_dataPin_lt : ∀ j : Fin 8, (dataPin j).2 < 8 := by
  decide

theorem e1_portB_data (x : U8) (j : Fin 8) (hj : (dataPin j).1 = PortId.B) :
    (portB x).bit (dataPin j).2 = false :=
  e1_portB_off x ⟨(dataPin j).2, e1_dataPin_lt j⟩
    (fun k hk => e1_data_not_ctrl k j (by rw [hk, ← hj]))

theorem e1_portD_data (x : U8) (j : Fin 8) (hj : (dataPin j).1 = PortId.D) :
    (portD x).bit (dataPin j).2 = false :=
  e1_portD_off x ⟨(dataPin j).2, e1_dataPin_lt j⟩
    (fun k hk => e1_data_not_ctrl k j (by rw [hk, ← hj]))

theorem e1_portG_data (x : U8) (j : Fin 8) (hj : (dataPin j).1 = PortId.G) :
    (portG x).bit (dataPin j).2 = false :=
  e1_portG_off x ⟨(dataPin j).2, e1_dataPin_lt j⟩
    (fun k hk => e1_data_not_ctrl k j (by rw [hk, ← hj]))

theorem e1_portL_data (x : U8) (j : Fin 8) (hj : (dataPin j).1 = PortId.L) :
    (portL x).bit (dataPin j).2 = false :=
  e1_portL_off x ⟨(dataPin j).2, e1_dataPin_lt j⟩
    (fun k hk => e1_data_not_ctrl k j (by rw [hk, ← hj]))

/-- Where sub-fragments are joined by `+`, the sum is the fragment itself
(nothing is lost in the store to a byte) and equals the bitwise OR. -/
theorem e1_plus_or : ∀ x : U8,
    ((portB x).val = (((x.val >>> 7) &&& 1) <<< 1) + (((x.val >>> 6) &&& 1) <<< 3) ∧
      (((x.val >>> 7) &&& 1) <<< 1) + (((x.val >>> 6) &&& 1) <<< 3) = (((x.val >>> 7) &&& 1) <<< 1) ||| (((x.val >>> 6) &&& 1) <<< 3)) ∧
    ((portL x).val = (((x.val >>> 0) &&& 1) <<< 1) + (((x.val >>> 1) &&& 1) <<< 3) + (((x.val >>> 2) &&& 1) <<< 5) + (((x.val >>> 3) &&& 1) <<< 7) ∧
      (((x.val >>> 0) &&& 1) <<< 1) + (((x.val >>> 1) &&& 1) <<< 3) + (((x.val >>> 2) &&& 1) <<< 5) + (((x.val >>> 3) &&& 1) <<< 7) = (((x.val >>> 0) &&& 1) <<< 1) ||| (((x.val >>> 1) &&& 1) <<< 3) ||| (((x.val >>> 2) &&& 1) <<< 5) ||| (((x.val >>> 3) &&& 1) <<< 7)) := by
  decide!

end

section
open AR488_MEGA2560_E2

/-- The fragments of a control byte have together as many set bits as the
byte. -/
theorem e2_popcount : ∀ x : U8, (portB x).popcount + (portG x).popcount + (portL x).popcount = x.popcount := by
  decide!

theorem e2_ctrlPin_injective : Function.Injective ctrlPin := by
  decide

theorem e2_dataPin_lt : ∀ j : Fin 8, (dataPin j).2 < 8 := by
  decide

theorem e2_portB_data (x : U8) (j : Fin 8) (hj : (dataPin j).1 = PortId.B) :
    (portB x).bit (dataPin j).2 = false :=
  e2_portB_off x ⟨(dataPin j).2, e2_dataPin_lt j⟩
    (fun k hk => e2_data_not_ctrl k j (by rw [hk, ← hj]))

theorem e2_portG_data (x : U8) (j : Fin 8) (hj : (dataPin j).1 = PortId.G) :
    (portG x).bit (dataPin j).2 = false :=
  e2_portG_off x ⟨(dataPin j).2, e2_dataPin_lt j⟩
    (fun k hk => e2_data_not_ctrl k j (by rw [hk, ← hj]))

theorem e2_portL_data (x : U8) (j : Fin 8) (hj : (dataPin j).1 = PortId.L) :
    (portL x).bit (dataPin j).2 = false :=
  e2_portL_off x ⟨(dataPin j).2, e2_dataPin_lt j⟩
    (fun k hk => e2_data_not_ctrl k j (by rw [hk, ← hj]))

/-- Where sub-fragments are joined by `+`, the sum is the fragment itself
(nothing is lost in the store to a byte) and equals the bitwise OR. -/
theorem e2_plus_or : ∀ x : U8,
    ((portB x).val = (((x.val >>> 7) &&& 1) <<< 0) + (((x.val >>> 6) &&& 1) <<< 2) ∧
      (((x.val >>> 7) &&& 1) <<< 0) + (((x.val >>> 6) &&& 1) <<< 2) = (((x.val >>> 7) &&& 1) <<< 0) ||| (((x.val >>> 6) &&& 1) <<< 2)) ∧
    ((portG x).val = (((x.val >>> 4) &&& 1) <<< 0) + (((x.val >>> 5) &&& 1) <<< 2) ∧
      (((x.val >>> 4) &&& 1) <<< 0) + (((x.val >>> 5) &&& 1) <<< 2) = (((x.val >>> 4) &&& 1) <<< 0) ||| (((x.val >>> 5) &&& 1) <<< 2)) ∧
    ((portL x).val = (((x.val >>> 0) &&& 1) <<< 0) + (((x.val >>> 1) &&& 1) <<< 2) + (((x.val >>> 2) &&& 1) <<< 4) + (((x.val >>> 3) &&& 1) <<< 6) ∧
      (((x.val >>> 0) &&& 1) <<< 0) + (((x.val >>> 1) &&& 1) <<< 2) + (((x.val >>> 2) &&& 1) <<< 4) + (((x.val >>> 3) &&& 1) <<< 6) = (((x.val >>> 0) &&& 1) <<< 0) ||| (((x.val >>> 1) &&& 1) <<< 2) ||| (((x.val >>> 2) &&& 1) <<< 4) ||| (((x.val >>> 3) &&& 1) <<< 6)) := by
  decide!

end

section
open AR488_MEGA32U4_MICRO

/-- The fragments of a control byte have together as many set bits as the
byte. -/
theorem micro_popcount : ∀ x : U8, (portF x).popcount + (portC x).popcount + (portD x).popcount + (portE x).popcount = x.popcount := by
  decide!

theorem micro_ctrlPin_injective : Function.Injective ctrlPin := by
  decide

theorem micro_dataPin_lt : ∀ j : Fin 8, (dataPin j).2 < 8 := by
  decide

theorem micro_portF_data (x : U8) (j : Fin 8) (hj : (dataPin j).1 = PortId.F) :
    (portF x).bit (dataPin j).2 = false :=
  micro_portF_off x ⟨(dataPin j).2, micro_dataPin_lt j⟩
    (fun k hk => micro_data_not_ctrl k j (by rw [hk, ← hj]))

theorem micro_portC_data (x : U8) (j : Fin 8) (hj : (dataPin j).1 = PortId.C) :
    (portC x).bit (dataPin j).2 = false :=
  micro_portC_off x ⟨(dataPin j).2, micro_dataPin_lt j⟩
    (fun k hk => micro_data_not_ctrl k j (by rw [hk, ← hj]))

theorem micro_portD_data (x : U8) (j : Fin 8) (hj : (dataPin j).1 = PortId.D) :
    (portD x).bit (dataPin j).2 = false :=
  micro_portD_off x ⟨(dataPin j).2, micro_dataPin_lt j⟩
    (fun k hk => micro_data_not_ctrl k j (by rw [hk, ← hj]))

theorem micro_portE_data (x : U8) (j : Fin 8) (hj : (dataPin j).1 = PortId.E) :
    (portE x).bit (dataPin j).2 = false :=
  micro_portE_off x ⟨(dataPin j).2, micro_dataPin_lt j⟩
    (fun k hk => micro_data_not_ctrl k j (by rw [hk, ← hj]))

end

section
open AR488_MEGA32U4_LR3

/-- The fragments of a control byte have together as many set bits as the
byte. -/
theorem lr3_popcount : ∀ x : U8, (portB x).popcount + (portD x).popcount + (portE x).popcount = x.popcount := by
  decide!

theorem lr3_ctrlPin_injective : Function.Injective ctrlPin := by
  decide

theorem lr3_dataPin_lt : ∀ j : Fin 8, (dataPin j).2 < 8 := by
  decide

theorem lr3_portB_data (x : U8) (j : Fin 8) (hj : (dataPin j).1 = PortId.B) :
    (portB x).bit (dataPin j).2 = false :=
  lr3_portB_off x ⟨(dataPin j).2, lr3_dataPin_lt j⟩
    (fun k hk => lr3_data_not_ctrl k j (by rw [hk, ← hj]))

theorem lr3_portD_data (x : U8) (j : Fin 8) (hj : (dataPin j).1 = PortId.D) :
    (portD x).bit (dataPin j).2 = false :=
  lr3_portD_off x ⟨(dataPin j).2, lr3_dataPin_lt j⟩
    (fun k hk => lr3_data_not_ctrl k j (by rw [hk, ← hj]))

theorem lr3_portE_data (x : U8) (j : Fin 8) (hj : (dataPin j).1 = PortId.E) :
    (portE x).bit (dataPin j).2 = false :=
  lr3_portE_off x ⟨(dataPin j).2, lr3_dataPin_lt j⟩
    (fun k hk => lr3_data_not_ctrl k j (by rw [hk, ← hj]))

/-- Where sub-fragments are joined by `+`, the sum is the fragment itself
(nothing is lost in the store to a byte) and equals the bitwise OR. -/
theorem lr3_plus_or : ∀ x : U8,
    ((portD x).val = ((x.val &&& 0x10) <<< 2) + ((x.val &&& 0x20) >>> 5) + ((x.val &&& 0x40) >>> 5) ∧
      ((x.val &&& 0x10) <<< 2) + ((x.val &&& 0x20) >>> 5) + ((x.val &&& 0x40) >>> 5) = ((x.val &&& 0x10) <<< 2) ||| ((x.val &&& 0x20) >>> 5) ||| ((x.val &&& 0x40) >>> 5)) := by
  decide!

end

section
open AR488_MEGA644P_MCGRAW

/-- The fragments of a control byte have together as many set bits as the
byte. -/
theorem mcgraw_popcount : ∀ x : U8, (portA x).popcount + (portC x).popcount = x.popcount := by
  decide!

theorem mcgraw_ctrlPin_injective : Function.Injective ctrlPin := by
  decide

theorem mcgraw_dataPin_lt : ∀ j : Fin 8, (dataPin j).2 < 8 := by
  decide

theorem mcgraw_portA_data (x : U8) (j : Fin 8) (hj : (dataPin j).1 = PortId.A) :
    (portA x).bit (dataPin j).2 = false :=
  mcgraw_portA_off x ⟨(dataPin j).2, mcgraw_dataPin_lt j⟩
    (fun k hk => mcgraw_data_not_ctrl k j (by rw [hk, ← hj]))

theorem mcgraw_portC_data (x : U8) (j : Fin 8) (hj : (dataPin j).1 = PortId.C) :
    (portC x).bit (dataPin j).2 = false :=
  mcgraw_portC_off x ⟨(dataPin j).2, mcgraw_dataPin_lt j⟩
    (fun k hk => mcgraw_data_not_ctrl k j (by rw [hk, ← hj]))

/-- Where sub-fragments are joined by `+`, the sum is the fragment itself
(nothing is lost in the store to a byte) and equals the bitwise OR. -/
theorem mcgraw_plus_or : ∀ x : U8,
    ((portA x).val = ((x.val &&& 0x20) >>> 5) + (x.val &&& 0x80) ∧
      ((x.val &&& 0x20) >>> 5) + (x.val &&& 0x80) = ((x.val &&& 0x20) >>> 5) ||| (x.val &&& 0x80)) ∧
    ((portC x).val = portCrev x + portCsrq x ∧
      portCrev x + portCsrq x = portCrev x ||| portCsrq x) := by
  decide!

end

section
open AR488_328PB_ALT

/-- The fragments of a control byte have together as many set bits as the
byte. -/
theorem alt328pb_popcount : ∀ x : U8, (portB x).popcount + (portD x).popcount = x.popcount := by
  decide!

theorem alt328pb_ctrlPin_injective : Function.Injective ctrlPin := by
  decide

theorem alt328pb_dataPin_lt : ∀ j : Fin 8, (dataPin j).2 < 8 := by
  decide

theorem alt328pb_portB_data (x : U8) (j : Fin 8) (hj : (dataPin j).1 = PortId.B) :
    (portB x).bit (dataPin j).2 = false :=
  alt328pb_portB_off x ⟨(dataPin j).2, alt328pb_dataPin_lt j⟩
    (fun k hk => alt328pb_data_not_ctrl k j (by rw [hk, ← hj]))

theorem alt328pb_portD_data (x : U8) (j : Fin 8) (hj : (dataPin j).1 = PortId.D) :
    (portD x).bit (dataPin j).2 = false :=
  alt328pb_portD_off x ⟨(dataPin j).2, alt328pb_dataPin_lt j⟩
    (fun k hk => alt328pb_data_not_ctrl k j (by rw [hk, ← hj]))

/-- Where sub-fragments are joined by `+`, the sum is the fragment itself
(nothing is lost in the store to a byte) and equals the bitwise OR. -/
theorem alt328pb_plus_or : ∀ x : U8,
    ((portD x).val = ((x.val &&& 0x07) <<< 5) + ((x.val &&& 0xE0) >>> 3) ∧
      ((x.val &&& 0x07) <<< 5) + ((x.val &&& 0xE0) >>> 3) = ((x.val &&& 0x07) <<< 5) ||| ((x.val &&& 0xE0) >>> 3)) := by
  decide!

end

/-- C35: in every AVR port-register profile the split of a control byte into
per-port fragments is an injective bit placement.  For every byte `x`: the
fragments computed from `x` have in total exactly as many set bits as `x`; the
control pin map is injective and each fragment carries logical bit `k` on the
pin of line `k`, so no two logical bits land on the same physical bit; no
fragment has a bit on a data pin of its port; and wherever sub-fragments are
joined by `+`, the sum fits the byte and equals the bitwise OR of the
sub-fragments. -/
theorem C35_ctrl_fragments_placement (x : U8) :
    (((AR488_UNO.portB x).popcount + (AR488_UNO.portD x).popcount = x.popcount) ∧
      Function.Injective AR488_UNO.ctrlPin ∧
      (∀ k : Fin 8, (AR488_UNO.ctrlPin k).1 = PortId.B →
        (AR488_UNO.portB x).bit (AR488_UNO.ctrlPin k).2 = x.bit k) ∧
      (∀ j : Fin 8, (AR488_UNO.dataPin j).1 = PortId.B →
        (AR488_UNO.portB x).bit (AR488_UNO.dataPin j).2 = false) ∧
      (∀ k : Fin 8, (AR488_UNO.ctrlPin k).1 = PortId.D →
        (AR488_UNO.portD x).bit (AR488_UNO.ctrlPin k).2 = x.bit k) ∧
      (∀ j : Fin 8, (AR488_UNO.dataPin j).1 = PortId.D →
        (AR488_UNO.portD x).bit (AR488_UNO.dataPin j).2 = false) ∧
      ((AR488_UNO.portD x).val = (x.val &&& 0x80) + ((x.val &&& 0x40) >>> 4) + ((x.val &&& 0x20) >>> 2) ∧
        (x.val &&& 0x80) + ((x.val &&& 0x40) >>> 4) + ((x.val &&& 0x20) >>> 2) = (x.val &&& 0x80) ||| ((x.val &&& 0x40) >>> 4) ||| ((x.val &&& 0x20) >>> 2))) ∧
    (((AR488_MEGA2560_D.portH x).popcount + (AR488_MEGA2560_D.portB x).popcount = x.popcount) ∧
      Function.Injective AR488_MEGA2560_D.ctrlPin ∧
      (∀ k : Fin 8, (AR488_MEGA2560_D.ctrlPin k).1 = PortId.H →
        (AR488_MEGA2560_D.portH x).bit (AR488_MEGA2560_D.ctrlPin k).2 = x.bit k) ∧
      (∀ j : Fin 8, (AR488_MEGA2560_D.dataPin j).1 = PortId.H →
        (AR488_MEGA2560_D.portH x).bit (AR488_MEGA2560_D.dataPin j).2 = false) ∧
      (∀ k : Fin 8, (AR488_MEGA2560_D.ctrlPin k).1 = PortId.B →
        (AR488_MEGA2560_D.portB x).bit (AR488_MEGA2560_D.ctrlPin k).2 = x.bit k) ∧
      (∀ j : Fin 8, (AR488_MEGA2560_D.dataPin j).1 = PortId.B →
        (AR488_MEGA2560_D.portB x).bit (AR488_MEGA2560_D.dataPin j).2 = false) ∧
      ((AR488_MEGA2560_D.portH x).val = ((x.val &&& 0x3C) <<< 1) + (x.val &&& 0x03) ∧
        ((x.val &&& 0x3C) <<< 1) + (x.val &&& 0x03) = ((x.val &&& 0x3C) <<< 1) ||| (x.val &&& 0x03))) ∧
    (((AR488_MEGA2560_E1.portB x).popcount + (AR488_MEGA2560_E1.portD x).popcount + (AR488_MEGA2560_E1.portG x).popcount + (AR488_MEGA2560_E1.portL x).popcount = x.popcount) ∧
      Function.Injective AR488_MEGA2560_E1.ctrlPin ∧
      (∀ k : Fin 8, (AR488_MEGA2560_E1.ctrlPin k).1 = PortId.B →
        (AR488_MEGA2560_E1.portB x).bit (AR488_MEGA2560_E1.ctrlPin k).2 = x.bit k) ∧
      (∀ j : Fin 8, (AR488_MEGA2560_E1.dataPin j).1 = PortId.B →
        (AR488_MEGA2560_E1.portB x).bit (AR488_MEGA2560_E1.dataPin j).2 = false) ∧
      (∀ k : Fin 8, (AR488_MEGA2560_E1.ctrlPin k).1 = PortId.D →
        (AR488_MEGA2560_E1.portD x).bit (AR488_MEGA2560_E1.ctrlPin k).2 = x.bit k) ∧
      (∀ j : Fin 8, (AR488_MEGA2560_E1.dataPin j).1 = PortId.D →
        (AR488_MEGA2560_E1.portD x).bit (AR488_MEGA2560_E1.dataPin j).2 = false) ∧
      (∀ k : Fin 8, (AR488_MEGA2560_E1.ctrlPin k).1 = PortId.G →
        (AR488_MEGA2560_E1.portG x).bit (AR488_MEGA2560_E1.ctrlPin k).2 = x.bit k) ∧
      (∀ j : Fin 8, (AR488_MEGA2560_E1.dataPin j).1 = PortId.G →
        (AR488_MEGA2560_E1.portG x).bit (AR488_MEGA2560_E1.dataPin j).2 = false) ∧
      (∀ k : Fin 8, (AR488_MEGA2560_E1.ctrlPin k).1 = PortId.L →
        (AR488_MEGA2560_E1.portL x).bit (AR488_MEGA2560_E1.ctrlPin k).2 = x.bit k) ∧
      (∀ j : Fin 8, (AR488_MEGA2560_E1.dataPin j).1 = PortId.L →
        (AR488_MEGA2560_E1.portL x).bit (AR488_MEGA2560_E1.dataPin j).2 = false) ∧
      ((AR488_MEGA2560_E1.portB x).val = (((x.val >>> 7) &&& 1) <<< 1) + (((x.val >>> 6) &&& 1) <<< 3) ∧
        (((x.val >>> 7) &&& 1) <<< 1) + (((x.val >>> 6) &&& 1) <<< 3) = (((x.val >>> 7) &&& 1) <<< 1) ||| (((x.val >>> 6) &&& 1) <<< 3)) ∧
      ((AR488_MEGA2560_E1.portL x).val = (((x.val >>> 0) &&& 1) <<< 1) + (((x.val >>> 1) &&& 1) <<< 3) + (((x.val >>> 2) &&& 1) <<< 5) + (((x.val >>> 3) &&& 1) <<< 7) ∧
        (((x.val >>> 0) &&& 1) <<< 1) + (((x.val >>> 1) &&& 1) <<< 3) + (((x.val >>> 2) &&& 1) <<< 5) + (((x.val >>> 3) &&& 1) <<< 7) = (((x.val >>> 0) &&& 1) <<< 1) ||| (((x.val >>> 1) &&& 1) <<< 3) ||| (((x.val >>> 2) &&& 1) <<< 5) ||| (((x.val >>> 3) &&& 1) <<< 7))) ∧
    (((AR488_MEGA2560_E2.portB x).popcount + (AR488_MEGA2560_E2.portG x).popcount + (AR488_MEGA2560_E2.portL x).popcount = x.popcount) ∧
      Function.Injective AR488_MEGA2560_E2.ctrlPin ∧
      (∀ k : Fin 8, (AR488_MEGA2560_E2.ctrlPin k).1 = PortId.B →
        (AR488_MEGA2560_E2.portB x).bit (AR488_MEGA2560_E2.ctrlPin k).2 = x.bit k) ∧
      (∀ j : Fin 8, (AR488_MEGA2560_E2.dataPin j).1 = PortId.B →
        (AR488_MEGA2560_E2.portB x).bit (AR488_MEGA2560_E2.dataPin j).2 = false) ∧
      (∀ k : Fin 8, (AR488_MEGA2560_E2.ctrlPin k).1 = PortId.G →
        (AR488_MEGA2560_E2.portG x).bit (AR488_MEGA2560_E2.ctrlPin k).2 = x.bit k) ∧
      (∀ j : Fin 8, (AR488_MEGA2560_E2.dataPin j).1 = PortId.G →
        (AR488_MEGA2560_E2.portG x).bit (AR488_MEGA2560_E2.dataPin j).2 = false) ∧
      (∀ k : Fin 8, (AR488_MEGA2560_E2.ctrlPin k).1 = PortId.L →
        (AR488_MEGA2560_E2.portL x).bit (AR488_MEGA2560_E2.ctrlPin k).2 = x.bit k) ∧
      (∀ j : Fin 8, (AR488_MEGA2560_E2.dataPin j).1 = PortId.L →
        (AR488_MEGA2560_E2.portL x).bit (AR488_MEGA2560_E2.dataPin j).2 = false) ∧
      ((AR488_MEGA2560_E2.portB x).val = (((x.val >>> 7) &&& 1) <<< 0) + (((x.val >>> 6) &&& 1) <<< 2) ∧
        (((x.val >>> 7) &&& 1) <<< 0) + (((x.val >>> 6) &&& 1) <<< 2) = (((x.val >>> 7) &&& 1) <<< 0) ||| (((x.val >>> 6) &&& 1) <<< 2)) ∧
      ((AR488_MEGA2560_E2.portG x).val = (((x.val >>> 4) &&& 1) <<< 0) + (((x.val >>> 5) &&& 1) <<< 2) ∧
        (((x.val >>> 4) &&& 1) <<< 0) + (((x.val >>> 5) &&& 1) <<< 2) = (((x.val >>> 4) &&& 1) <<< 0) ||| (((x.val >>> 5) &&& 1) <<< 2)) ∧
      ((AR488_MEGA2560_E2.portL x).val = (((x.val >>> 0) &&& 1) <<< 0) + (((x.val >>> 1) &&& 1) <<< 2) + (((x.val >>> 2) &&& 1) <<< 4) + (((x.val >>> 3) &&& 1) <<< 6) ∧
        (((x.val >>> 0) &&& 1) <<< 0) + (((x.val >>> 1) &&& 1) <<< 2) + (((x.val >>> 2) &&& 1) <<< 4) + (((x.val >>> 3) &&& 1) <<< 6) = (((x.val >>> 0) &&& 1) <<< 0) ||| (((x.val >>> 1) &&& 1) <<< 2) ||| (((x.val >>> 2) &&& 1) <<< 4) ||| (((x.val >>> 3) &&& 1) <<< 6))) ∧
    (((AR488_MEGA32U4_MICRO.portF x).popcount + (AR488_MEGA32U4_MICRO.portC x).popcount + (AR488_MEGA32U4_MICRO.portD x).popcount + (AR488_MEGA32U4_MICRO.portE x).popcount = x.popcount) ∧
      Function.Injective AR488_MEGA32U4_MICRO.ctrlPin ∧
      (∀ k : Fin 8, (AR488_MEGA32U4_MICRO.ctrlPin k).1 = PortId.F →
        (AR488_MEGA32U4_MICRO.portF x).bit (AR488_MEGA32U4_MICRO.ctrlPin k).2 = x.bit k) ∧
      (∀ j : Fin 8, (AR488_MEGA32U4_MICRO.dataPin j).1 = PortId.F →
        (AR488_MEGA32U4_MICRO.portF x).bit (AR488_MEGA32U4_MICRO.dataPin j).2 = false) ∧
      (∀ k : Fin 8, (AR488_MEGA32U4_MICRO.ctrlPin k).1 = PortId.C →
        (AR488_MEGA32U4_MICRO.portC x).bit (AR488_MEGA32U4_MICRO.ctrlPin k).2 = x.bit k) ∧
      (∀ j : Fin 8, (AR488_MEGA32U4_MICRO.dataPin j).1 = PortId.C →
        (AR488_MEGA32U4_MICRO.portC x).bit (AR488_MEGA32U4_MICRO.dataPin j).2 = false) ∧
      (∀ k : Fin 8, (AR488_MEGA32U4_MICRO.ctrlPin k).1 = PortId.D →
        (AR488_MEGA32U4_MICRO.portD x).bit (AR488_MEGA32U4_MICRO.ctrlPin k).2 = x.bit k) ∧
      (∀ j : Fin 8, (AR488_MEGA32U4_MICRO.dataPin j).1 = PortId.D →
        (AR488_MEGA32U4_MICRO.portD x).bit (AR488_MEGA32U4_MICRO.dataPin j).2 = false) ∧
      (∀ k : Fin 8, (AR488_MEGA32U4_MICRO.ctrlPin k).1 = PortId.E →
        (AR488_MEGA32U4_MICRO.portE x).bit (AR488_MEGA32U4_MICRO.ctrlPin k).2 = x.bit k) ∧
      (∀ j : Fin 8, (AR488_MEGA32U4_MICRO.dataPin j).1 = PortId.E →
        (AR488_MEGA32U4_MICRO.portE x).bit (AR488_MEGA32U4_MICRO.dataPin j).2 = false)) ∧
    (((AR488_MEGA32U4_LR3.portB x).popcount + (AR488_MEGA32U4_LR3.portD x).popcount + (AR488_MEGA32U4_LR3.portE x).popcount = x.popcount) ∧
      Function.Injective AR488_MEGA32U4_LR3.ctrlPin ∧
      (∀ k : Fin 8, (AR488_MEGA32U4_LR3.ctrlPin k).1 = PortId.B →
        (AR488_MEGA32U4_LR3.portB x).bit (AR488_MEGA32U4_LR3.ctrlPin k).2 = x.bit k) ∧
      (∀ j : Fin 8, (AR488_MEGA32U4_LR3.dataPin j).1 = PortId.B →
        (AR488_MEGA32U4_LR3.portB x).bit (AR488_MEGA32U4_LR3.dataPin j).2 = false) ∧
      (∀ k : Fin 8, (AR488_MEGA32U4_LR3.ctrlPin k).1 = PortId.D →
        (AR488_MEGA32U4_LR3.portD x).bit (AR488_MEGA32U4_LR3.ctrlPin k).2 = x.bit k) ∧
      (∀ j : Fin 8, (AR488_MEGA32U4_LR3.dataPin j).1 = PortId.D →
        (AR488_MEGA32U4_LR3.portD x).bit (AR488_MEGA32U4_LR3.dataPin j).2 = false) ∧
      (∀ k : Fin 8, (AR488_MEGA32U4_LR3.ctrlPin k).1 = PortId.E →
        (AR488_MEGA32U4_LR3.portE x).bit (AR488_MEGA32U4_LR3.ctrlPin k).2 = x.bit k) ∧
      (∀ j : Fin 8, (AR488_MEGA32U4_LR3.dataPin j).1 = PortId.E →
        (AR488_MEGA32U4_LR3.portE x).bit (AR488_MEGA32U4_LR3.dataPin j).2 = false) ∧
      ((AR488_MEGA32U4_LR3.portD x).val = ((x.val &&& 0x10) <<< 2) + ((x.val &&& 0x20) >>> 5) + ((x.val &&& 0x40) >>> 5) ∧
        ((x.val &&& 0x10) <<< 2) + ((x.val &&& 0x20) >>> 5) + ((x.val &&& 0x40) >>> 5) = ((x.val &&& 0x10) <<< 2) ||| ((x.val &&& 0x20) >>> 5) ||| ((x.val &&& 0x40) >>> 5))) ∧
    (((AR488_MEGA644P_MCGRAW.portA x).popcount + (AR488_MEGA644P_MCGRAW.portC x).popcount = x.popcount) ∧
      Function.Injective AR488_MEGA644P_MCGRAW.ctrlPin ∧
      (∀ k : Fin 8, (AR488_MEGA644P_MCGRAW.ctrlPin k).1 = PortId.A →
        (AR488_MEGA644P_MCGRAW.portA x).bit (AR488_MEGA644P_MCGRAW.ctrlPin k).2 = x.bit k) ∧
      (∀ j : Fin 8, (AR488_MEGA644P_MCGRAW.dataPin j).1 = PortId.A →
        (AR488_MEGA644P_MCGRAW.portA x).bit (AR488_MEGA644P_MCGRAW.dataPin j).2 = false) ∧
      (∀ k : Fin 8, (AR488_MEGA644P_MCGRAW.ctrlPin k).1 = PortId.C →
        (AR488_MEGA644P_MCGRAW.portC x).bit (AR488_MEGA644P_MCGRAW.ctrlPin k).2 = x.bit k) ∧
      (∀ j : Fin 8, (AR488_MEGA644P_MCGRAW.dataPin j).1 = PortId.C →
        (AR488_MEGA644P_MCGRAW.portC x).bit (AR488_MEGA644P_MCGRAW.dataPin j).2 = false) ∧
      ((AR488_MEGA644P_MCGRAW.portA x).val = ((x.val &&& 0x20) >>> 5) + (x.val &&& 0x80) ∧
        ((x.val &&& 0x20) >>> 5) + (x.val &&& 0x80) = ((x.val &&& 0x20) >>> 5) ||| (x.val &&& 0x80)) ∧
      ((AR488_MEGA644P_MCGRAW.portC x).val = AR488_MEGA644P_MCGRAW.portCrev x + AR488_MEGA644P_MCGRAW.portCsrq x ∧
        AR488_MEGA644P_MCGRAW.portCrev x + AR488_MEGA644P_MCGRAW.portCsrq x = AR488_MEGA644P_MCGRAW.portCrev x ||| AR488_MEGA644P_MCGRAW.portCsrq x)) ∧
    (((AR488_328PB_ALT.portB x).popcount + (AR488_328PB_ALT.portD x).popcount = x.popcount) ∧
      Function.Injective AR488_328PB_ALT.ctrlPin ∧
      (∀ k : Fin 8, (AR488_328PB_ALT.ctrlPin k).1 = PortId.B →
        (AR488_328PB_ALT.portB x).bit (AR488_328PB_ALT.ctrlPin k).2 = x.bit k) ∧
      (∀ j : Fin 8, (AR488_328PB_ALT.dataPin j).1 = PortId.B →
        (AR488_328PB_ALT.portB x).bit (AR488_328PB_ALT.dataPin j).2 = false) ∧
      (∀ k : Fin 8, (AR488_328PB_ALT.ctrlPin k).1 = PortId.D →
        (AR488_328PB_ALT.portD x).bit (AR488_328PB_ALT.ctrlPin k).2 = x.bit k) ∧
      (∀ j : Fin 8, (AR488_328PB_ALT.dataPin j).1 = PortId.D →
        (AR488_328PB_ALT.portD x).bit (AR488_328PB_ALT.dataPin j).2 = false) ∧
      ((AR488_328PB_ALT.portD x).val = ((x.val &&& 0x07) <<< 5) + ((x.val &&& 0xE0) >>> 3) ∧
        ((x.val &&& 0x07) <<< 5) + ((x.val &&& 0xE0) >>> 3) = ((x.val &&& 0x07) <<< 5) ||| ((x.val &&& 0xE0) >>> 3))) :=
  ⟨⟨uno_popcount x,
    uno_ctrlPin_injective,
    uno_portB_bit x,
    uno_portB_data x,
    uno_portD_bit x,
    uno_portD_data x,
    uno_plus_or x⟩,
   ⟨mega_d_popcount x,
    mega_d_ctrlPin_injective,
    mega_d_portH_bit x,
    mega_d_portH_data x,
    mega_d_portB_bit x,
    mega_d_portB_data x,
    mega_d_plus_or x⟩,
   ⟨e1_popcount x,
    e1_ctrlPin_injective,
    e1_portB_bit x,
    e1_portB_data x,
    e1_portD_bit x,
    e1_portD_data x,
    e1_portG_bit x,
    e1_portG_data x,
    e1_portL_bit x,
    e1_portL_data x,
    e1_plus_or x⟩,
   ⟨e2_popcount x,
    e2_ctrlPin_injective,
    e2_portB_bit x,
    e2_portB_data x,
    e2_portG_bit x,
    e2_portG_data x,
    e2_portL_bit x,
    e2_portL_data x,
    e2_plus_or x⟩,
   ⟨micro_popcount x,
    micro_ctrlPin_injective,
    micro_portF_bit x,
    micro_portF_data x,
    micro_portC_bit x,
    micro_portC_data x,
    micro_portD_bit x,
    micro_portD_data x,
    micro_portE_bit x,
    micro_portE_data x⟩,
   ⟨lr3_popcount x,
    lr3_ctrlPin_injective,
    lr3_portB_bit x,
    lr3_portB_data x,
    lr3_portD_bit x,
    lr3_portD_data x,
    lr3_portE_bit x,
    lr3_portE_data x,
    lr3_plus_or x⟩,
   ⟨mcgraw_popcount x,
    mcgraw_ctrlPin_injective,
    mcgraw_portA_bit x,
    mcgraw_portA_data x,
    mcgraw_portC_bit x,
    mcgraw_portC_data x,
    mcgraw_plus_or x⟩,
   ⟨alt328pb_popcount x,
    alt328pb_ctrlPin_injective,
    alt328pb_portB_bit x,
    alt328pb_portB_data x,
    alt328pb_portD_bit x,
    alt328pb_portD_data x,
    alt328pb_plus_or x⟩⟩

/-- Witness for C35: on UNO/NANO the port D fragment of 0xE0 carries REN, SRQ
and ATN on PD3, PD2 and PD7 and has no bit on DIO7 (PD4); on MEGA644P_MCGRAW the
port C fragment of 0x5F has no bit on DIO8 (PC1). -/
theorem C35_ctrl_fragments_placement_witness :
    ((AR488_UNO.ctrlPin 5).1 = PortId.D ∧
      (AR488_UNO.portD 0xE0).bit (AR488_UNO.ctrlPin 5).2 = (0xE0 : U8).bit (5 : Fin 8)) ∧
    ((AR488_UNO.dataPin 6).1 = PortId.D ∧
      (AR488_UNO.portD 0xE0).bit (AR488_UNO.dataPin 6).2 = false) ∧
    ((AR488_MEGA644P_MCGRAW.dataPin 7).1 = PortId.C ∧
      (AR488_MEGA644P_MCGRAW.portC 0x5F).bit (AR488_MEGA644P_MCGRAW.dataPin 7).2 = false) :=
  ⟨⟨by decide, (C35_ctrl_fragments_placement 0xE0).1.2.2.2.2.1 5 (by decide)⟩,
   ⟨by decide, (C35_ctrl_fragments_placement 0xE0).1.2.2.2.2.2.1 6 (by decide)⟩,
   ⟨by decide, (C35_ctrl_fragments_placement 0x5F).2.2.2.2.2.2.1.2.2.2.2.2.1 7 (by decide)⟩⟩

/-! ## Dependence of the control-line updates on `bits & mask` -/

/-- C36: on every profile that has them, the effect of `setGpibCtrlState` and
of `setGpibCtrlDir` depends on `bits` only through `bits & mask`: for all bytes
`b`, `b'`, `m` with `b & m = b' & m` and every prior state, `setGpibCtrlState b m`
and `setGpibCtrlState b' m` give the same final state, and so do
`setGpibCtrlDir b m` and `setGpibCtrlDir b' m` (the pull-up bits written on
UNO/NANO and 328PB_ALT included).  The profiles are the eight AVR profiles, the
PoE adaptor, the MCP23S17 expander (registers and transaction log), the two
Pico layouts and the custom layout. -/
theorem C36_ctrl_depends_on_masked_bits (b b' m : U8) (h : b.val &&& m.val = b'.val &&& m.val) :
    (∀ s : AVR, AR488_UNO.setGpibCtrlState b m s = AR488_UNO.setGpibCtrlState b' m s ∧
      AR488_UNO.setGpibCtrlDir b m s = AR488_UNO.setGpibCtrlDir b' m s) ∧
    (∀ s : AVR, AR488_MEGA2560_D.setGpibCtrlState b m s = AR488_MEGA2560_D.setGpibCtrlState b' m s ∧
      AR488_MEGA2560_D.setGpibCtrlDir b m s = AR488_MEGA2560_D.setGpibCtrlDir b' m s) ∧
    (∀ s : AVR, AR488_MEGA2560_E1.setGpibCtrlState b m s = AR488_MEGA2560_E1.setGpibCtrlState b' m s ∧
      AR488_MEGA2560_E1.setGpibCtrlDir b m s = AR488_MEGA2560_E1.setGpibCtrlDir b' m s) ∧
    (∀ s : AVR, AR488_MEGA2560_E2.setGpibCtrlState b m s = AR488_MEGA2560_E2.setGpibCtrlState b' m s ∧
      AR488_MEGA2560_E2.setGpibCtrlDir b m s = AR488_MEGA2560_E2.setGpibCtrlDir b' m s) ∧
    (∀ s : AVR, AR488_MEGA32U4_MICRO.setGpibCtrlState b m s = AR488_MEGA32U4_MICRO.setGpibCtrlState b' m s ∧
      AR488_MEGA32U4_MICRO.setGpibCtrlDir b m s = AR488_MEGA32U4_MICRO.setGpibCtrlDir b' m s) ∧
    (∀ s : AVR, AR488_MEGA32U4_LR3.setGpibCtrlState b m s = AR488_MEGA32U4_LR3.setGpibCtrlState b' m s ∧
      AR488_MEGA32U4_LR3.setGpibCtrlDir b m s = AR488_MEGA32U4_LR3.setGpibCtrlDir b' m s) ∧
    (∀ s : AVR, AR488_MEGA644P_MCGRAW.setGpibCtrlState b m s = AR488_MEGA644P_MCGRAW.setGpibCtrlState b' m s ∧
      AR488_MEGA644P_MCGRAW.setGpibCtrlDir b m s = AR488_MEGA644P_MCGRAW.setGpibCtrlDir b' m s) ∧
    (∀ s : AVR, AR488_328PB_ALT.setGpibCtrlState b m s = AR488_328PB_ALT.setGpibCtrlState b' m s ∧
      AR488_328PB_ALT.setGpibCtrlDir b m s = AR488_328PB_ALT.setGpibCtrlDir b' m s) ∧
    (∀ s : MegaAVR0, POE_ETHERNET_GPIB_ADAPTOR.setGpibCtrlState b m s = POE_ETHERNET_GPIB_ADAPTOR.setGpibCtrlState b' m s ∧
      POE_ETHERNET_GPIB_ADAPTOR.setGpibCtrlDir b m s = POE_ETHERNET_GPIB_ADAPTOR.setGpibCtrlDir b' m s) ∧
    (∀ s : Expander, AR488_MCP23S17.setGpibCtrlState b m s = AR488_MCP23S17.setGpibCtrlState b' m s ∧
      AR488_MCP23S17.setGpibCtrlDir b m s = AR488_MCP23S17.setGpibCtrlDir b' m s) ∧
    (∀ s : RP2040, RAS_PICO_L1.setGpibCtrlState b m s = RAS_PICO_L1.setGpibCtrlState b' m s ∧
      RAS_PICO_L1.setGpibCtrlDir b m s = RAS_PICO_L1.setGpibCtrlDir b' m s) ∧
    (∀ s : RP2040, RAS_PICO_L2.setGpibCtrlState b m s = RAS_PICO_L2.setGpibCtrlState b' m s ∧
      RAS_PICO_L2.setGpibCtrlDir b m s = RAS_PICO_L2.setGpibCtrlDir b' m s) ∧
    (∀ (ctrlbus : Fin 8 → U8) (s : ArduinoPins),
      AR488_CUSTOM.setGpibCtrlState ctrlbus b m s = AR488_CUSTOM.setGpibCtrlState ctrlbus b' m s) ∧
    (∀ (ctrlbus : Fin 8 → U8) (s : ArduinoModes),
      AR488_CUSTOM.setGpibCtrlDir ctrlbus b m s = AR488_CUSTOM.setGpibCtrlDir ctrlbus b' m s) :=
  ⟨fun s => ⟨uno_ctrlState_congr b b' m s h, uno_ctrlDir_congr b b' m s h⟩,
   fun s => ⟨mega_d_ctrlState_congr b b' m s h, mega_d_ctrlDir_congr b b' m s h⟩,
   fun s => ⟨e1_ctrlState_congr b b' m s h, e1_ctrlDir_congr b b' m s h⟩,
   fun s => ⟨e2_ctrlState_congr b b' m s h, e2_ctrlDir_congr b b' m s h⟩,
   fun s => ⟨micro_ctrlState_congr b b' m s h, micro_ctrlDir_congr b b' m s h⟩,
   fun s => ⟨lr3_ctrlState_congr b b' m s h, lr3_ctrlDir_congr b b' m s h⟩,
   fun s => ⟨mcgraw_ctrlState_congr b b' m s h, mcgraw_ctrlDir_congr b b' m s h⟩,
   fun s => ⟨alt328pb_ctrlState_congr b b' m s h, alt328pb_ctrlDir_congr b b' m s h⟩,
   fun s => ⟨poe_ctrlState_congr b b' m s h, poe_ctrlDir_congr b b' m s h⟩,
   fun s => ⟨mcp_ctrlState_congr b b' m s h, mcp_ctrlDir_congr b b' m s h⟩,
   fun s => ⟨pico_l1_ctrlState_congr b b' m s h, pico_l1_ctrlDir_congr b b' m s h⟩,
   fun s => ⟨pico_l2_ctrlState_congr b b' m s h, pico_l2_ctrlDir_congr b b' m s h⟩,
   fun ctrlbus s => custom_ctrlState_congr ctrlbus b b' m s h,
   fun ctrlbus s => custom_ctrlDir_congr ctrlbus b b' m s h⟩

/-- Witness for C36: under the mask 0x0F the bytes 0x05 and 0xF5 agree, and on
UNO/NANO over registers filled with 0xA5 they give the same state and the same
direction. -/
theorem C36_ctrl_depends_on_masked_bits_witness :
    (0x05 : U8).val &&& (0x0F : U8).val = (0xF5 : U8).val &&& (0x0F : U8).val ∧
    AR488_UNO.setGpibCtrlState 0x05 0x0F (AVR.const 0xA5)
      = AR488_UNO.setGpibCtrlState 0xF5 0x0F (AVR.const 0xA5) ∧
    AR488_UNO.setGpibCtrlDir 0x05 0x0F (AVR.const 0xA5)
      = AR488_UNO.setGpibCtrlDir 0xF5 0x0F (AVR.const 0xA5) :=
  ⟨by decide, (C36_ctrl_depends_on_masked_bits 0x05 0xF5 0x0F (by decide)).1 (AVR.const 0xA5)⟩

/-! ## What `readGpibDbus` depends on -/

section
open AR488_MEGA2560_D

theorem mega_d_readGpibDbus_bit (t : AVR) (k : Fin 8) :
    (readGpibDbus t).bit k = !t.pinBit (dataPin k) := by
  unfold readGpibDbus
  fin_cases k <;> rw [Bool.eq_iff_iff] <;>
    simp +decide [-Nat.testBit_zero, U8.bit, AVR.pinBit, AVR.PIN, dataPin, testBit_u8,
      testBit_bnot]

end

/-- Two bytes that are the complemented levels of the same eight pins, read in
two states that agree on those pins, are equal. -/
theorem read_congr (pins : Fin 8 → Pin) (r r' : U8) (s t : AVR)
    (hr : ∀ k : Fin 8, r.bit k = !s.pinBit (pins k))
    (hr' : ∀ k : Fin 8, r'.bit k = !t.pinBit (pins k))
    (h : ∀ k : Fin 8, s.pinBit (pins k) = t.pinBit (pins k)) : r = r' := by
  apply U8.ext_bits
  intro k
  rw [hr k, hr' k, h k]

/-- Two such bytes, read in two states that differ on pin `j` and agree on the
other seven pins, differ in bit `j` and in no other bit. -/
theorem read_flip (pins : Fin 8 → Pin) (r r' : U8) (s t : AVR) (j : Fin 8)
    (hr : ∀ k : Fin 8, r.bit k = !s.pinBit (pins k))
    (hr' : ∀ k : Fin 8, r'.bit k = !t.pinBit (pins k))
    (hj : s.pinBit (pins j) ≠ t.pinBit (pins j))
    (hk : ∀ k : Fin 8, k ≠ j → s.pinBit (pins k) = t.pinBit (pins k)) :
    r.bit j ≠ r'.bit j ∧ ∀ k : Fin 8, k ≠ j → r.bit k = r'.bit k := by
  refine ⟨?_, ?_⟩
  · rw [hr j, hr' j]
    intro h
    apply hj
    cases hs : s.pinBit (pins j) <;> cases ht : t.pinBit (pins j) <;> simp [hs, ht] at h ⊢
  · intro k hkj
    rw [hr k, hr' k, hk k hkj]

/-- C37: on every AVR port-register profile `readGpibDbus` depends only on
the `PIN` bits of the eight data pins: two register states that agree on those
eight bits (and differ arbitrarily elsewhere) give the same byte, and two
states that differ on the `PIN` bit of one data pin `j` and agree on the other
seven give bytes that differ in bit `j` and in no other bit. -/
theorem C37_read_dbus_depends_on_data_pins (s t : AVR) :
    (((∀ k : Fin 8, s.pinBit (AR488_UNO.dataPin k) = t.pinBit (AR488_UNO.dataPin k)) →
        AR488_UNO.readGpibDbus s = AR488_UNO.readGpibDbus t) ∧
      (∀ j : Fin 8, s.pinBit (AR488_UNO.dataPin j) ≠ t.pinBit (AR488_UNO.dataPin j) →
        (∀ k : Fin 8, k ≠ j → s.pinBit (AR488_UNO.dataPin k) = t.pinBit (AR488_UNO.dataPin k)) →
        (AR488_UNO.readGpibDbus s).bit j ≠ (AR488_UNO.readGpibDbus t).bit j ∧
        ∀ k : Fin 8, k ≠ j → (AR488_UNO.readGpibDbus s).bit k = (AR488_UNO.readGpibDbus t).bit k)) ∧
    (((∀ k : Fin 8, s.pinBit (AR488_MEGA2560_D.dataPin k) = t.pinBit (AR488_MEGA2560_D.dataPin k)) →
        AR488_MEGA2560_D.readGpibDbus s = AR488_MEGA2560_D.readGpibDbus t) ∧
      (∀ j : Fin 8, s.pinBit (AR488_MEGA2560_D.dataPin j) ≠ t.pinBit (AR488_MEGA2560_D.dataPin j) →
        (∀ k : Fin 8, k ≠ j → s.pinBit (AR488_MEGA2560_D.dataPin k) = t.pinBit (AR488_MEGA2560_D.dataPin k)) →
        (AR488_MEGA2560_D.readGpibDbus s).bit j ≠ (AR488_MEGA2560_D.readGpibDbus t).bit j ∧
        ∀ k : Fin 8, k ≠ j → (AR488_MEGA2560_D.readGpibDbus s).bit k = (AR488_MEGA2560_D.readGpibDbus t).bit k)) ∧
    (((∀ k : Fin 8, s.pinBit (AR488_MEGA2560_E1.dataPin k) = t.pinBit (AR488_MEGA2560_E1.dataPin k)) →
        AR488_MEGA2560_E1.readGpibDbus s = AR488_MEGA2560_E1.readGpibDbus t) ∧
      (∀ j : Fin 8, s.pinBit (AR488_MEGA2560_E1.dataPin j) ≠ t.pinBit (AR488_MEGA2560_E1.dataPin j) →
        (∀ k : Fin 8, k ≠ j → s.pinBit (AR488_MEGA2560_E1.dataPin k) = t.pinBit (AR488_MEGA2560_E1.dataPin k)) →
        (AR488_MEGA2560_E1.readGpibDbus s).bit j ≠ (AR488_MEGA2560_E1.readGpibDbus t).bit j ∧
        ∀ k : Fin 8, k ≠ j → (AR488_MEGA2560_E1.readGpibDbus s).bit k = (AR488_MEGA2560_E1.readGpibDbus t).bit k)) ∧
    (((∀ k : Fin 8, s.pinBit (AR488_MEGA2560_E2.dataPin k) = t.pinBit (AR488_MEGA2560_E2.dataPin k)) →
        AR488_MEGA2560_E2.readGpibDbus s = AR488_MEGA2560_E2.readGpibDbus t) ∧
      (∀ j : Fin 8, s.pinBit (AR488_MEGA2560_E2.dataPin j) ≠ t.pinBit (AR488_MEGA2560_E2.dataPin j) →
        (∀ k : Fin 8, k ≠ j → s.pinBit (AR488_MEGA2560_E2.dataPin k) = t.pinBit (AR488_MEGA2560_E2.dataPin k)) →
        (AR488_MEGA2560_E2.readGpibDbus s).bit j ≠ (AR488_MEGA2560_E2.readGpibDbus t).bit j ∧
        ∀ k : Fin 8, k ≠ j → (AR488_MEGA2560_E2.readGpibDbus s).bit k = (AR488_MEGA2560_E2.readGpibDbus t).bit k)) ∧
    (((∀ k : Fin 8, s.pinBit (AR488_MEGA32U4_MICRO.dataPin k) = t.pinBit (AR488_MEGA32U4_MICRO.dataPin k)) →
        AR488_MEGA32U4_MICRO.readGpibDbus s = AR488_MEGA32U4_MICRO.readGpibDbus t) ∧
      (∀ j : Fin 8, s.pinBit (AR488_MEGA32U4_MICRO.dataPin j) ≠ t.pinBit (AR488_MEGA32U4_MICRO.dataPin j) →
        (∀ k : Fin 8, k ≠ j → s.pinBit (AR488_MEGA32U4_MICRO.dataPin k) = t.pinBit (AR488_MEGA32U4_MICRO.dataPin k)) →
        (AR488_MEGA32U4_MICRO.readGpibDbus s).bit j ≠ (AR488_MEGA32U4_MICRO.readGpibDbus t).bit j ∧
        ∀ k : Fin 8, k ≠ j → (AR488_MEGA32U4_MICRO.readGpibDbus s).bit k = (AR488_MEGA32U4_MICRO.readGpibDbus t).bit k)) ∧
    (((∀ k : Fin 8, s.pinBit (AR488_MEGA32U4_LR3.dataPin k) = t.pinBit (AR488_MEGA32U4_LR3.dataPin k)) →
        AR488_MEGA32U4_LR3.readGpibDbus s = AR488_MEGA32U4_LR3.readGpibDbus t) ∧
      (∀ j : Fin 8, s.pinBit (AR488_MEGA32U4_LR3.dataPin j) ≠ t.pinBit (AR488_MEGA32U4_LR3.dataPin j) →
        (∀ k : Fin 8, k ≠ j → s.pinBit (AR488_MEGA32U4_LR3.dataPin k) = t.pinBit (AR488_MEGA32U4_LR3.dataPin k)) →
        (AR488_MEGA32U4_LR3.readGpibDbus s).bit j ≠ (AR488_MEGA32U4_LR3.readGpibDbus t).bit j ∧
        ∀ k : Fin 8, k ≠ j → (AR488_MEGA32U4_LR3.readGpibDbus s).bit k = (AR488_MEGA32U4_LR3.readGpibDbus t).bit k)) ∧
    (((∀ k : Fin 8, s.pinBit (AR488_MEGA644P_MCGRAW.dataPin k) = t.pinBit (AR488_MEGA644P_MCGRAW.dataPin k)) →
        AR488_MEGA644P_MCGRAW.readGpibDbus s = AR488_MEGA644P_MCGRAW.readGpibDbus t) ∧
      (∀ j : Fin 8, s.pinBit (AR488_MEGA644P_MCGRAW.dataPin j) ≠ t.pinBit (AR488_MEGA644P_MCGRAW.dataPin j) →
        (∀ k : Fin 8, k ≠ j → s.pinBit (AR488_MEGA644P_MCGRAW.dataPin k) = t.pinBit (AR488_MEGA644P_MCGRAW.dataPin k)) →
        (AR488_MEGA644P_MCGRAW.readGpibDbus s).bit j ≠ (AR488_MEGA644P_MCGRAW.readGpibDbus t).bit j ∧
        ∀ k : Fin 8, k ≠ j → (AR488_MEGA644P_MCGRAW.readGpibDbus s).bit k = (AR488_MEGA644P_MCGRAW.readGpibDbus t).bit k)) ∧
    (((∀ k : Fin 8, s.pinBit (AR488_328PB_ALT.dataPin k) = t.pinBit (AR488_328PB_ALT.dataPin k)) →
        AR488_328PB_ALT.readGpibDbus s = AR488_328PB_ALT.readGpibDbus t) ∧
      (∀ j : Fin 8, s.pinBit (AR488_328PB_ALT.dataPin j) ≠ t.pinBit (AR488_328PB_ALT.dataPin j) →
        (∀ k : Fin 8, k ≠ j → s.pinBit (AR488_328PB_ALT.dataPin k) = t.pinBit (AR488_328PB_ALT.dataPin k)) →
        (AR488_328PB_ALT.readGpibDbus s).bit j ≠ (AR488_328PB_ALT.readGpibDbus t).bit j ∧
        ∀ k : Fin 8, k ≠ j → (AR488_328PB_ALT.readGpibDbus s).bit k = (AR488_328PB_ALT.readGpibDbus t).bit k)) :=
  ⟨⟨read_congr _ _ _ s t (uno_readGpibDbus_bit s) (uno_readGpibDbus_bit t),
    fun j => read_flip _ _ _ s t j (uno_readGpibDbus_bit s) (uno_readGpibDbus_bit t)⟩,
   ⟨read_congr _ _ _ s t (mega_d_readGpibDbus_bit s) (mega_d_readGpibDbus_bit t),
    fun j => read_flip _ _ _ s t j (mega_d_readGpibDbus_bit s) (mega_d_readGpibDbus_bit t)⟩,
   ⟨read_congr _ _ _ s t (e1_readGpibDbus_bit s) (e1_readGpibDbus_bit t),
    fun j => read_flip _ _ _ s t j (e1_readGpibDbus_bit s) (e1_readGpibDbus_bit t)⟩,
   ⟨read_congr _ _ _ s t (e2_readGpibDbus_bit s) (e2_readGpibDbus_bit t),
    fun j => read_flip _ _ _ s t j (e2_readGpibDbus_bit s) (e2_readGpibDbus_bit t)⟩,
   ⟨read_congr _ _ _ s t (micro_readGpibDbus_bit s) (micro_readGpibDbus_bit t),
    fun j => read_flip _ _ _ s t j (micro_readGpibDbus_bit s) (micro_readGpibDbus_bit t)⟩,
   ⟨read_congr _ _ _ s t (lr3_readGpibDbus_bit s) (lr3_readGpibDbus_bit t),
    fun j => read_flip _ _ _ s t j (lr3_readGpibDbus_bit s) (lr3_readGpibDbus_bit t)⟩,
   ⟨read_congr _ _ _ s t (mcgraw_readGpibDbus_bit s) (mcgraw_readGpibDbus_bit t),
    fun j => read_flip _ _ _ s t j (mcgraw_readGpibDbus_bit s) (mcgraw_readGpibDbus_bit t)⟩,
   ⟨read_congr _ _ _ s t (alt328pb_readGpibDbus_bit s) (alt328pb_readGpibDbus_bit t),
    fun j => read_flip _ _ _ s t j (alt328pb_readGpibDbus_bit s) (alt328pb_readGpibDbus_bit t)⟩⟩

/-- Witness for C37: on UNO/NANO a state with all `PIN` registers 0x00 and one
whose `PIND` is 0x8C (control lines PD2, PD3, PD7 high) read the same byte, and
on MEGA644P_MCGRAW raising PC0 (DIO7) alone flips bit 6 of the byte read. -/
theorem C37_read_dbus_depends_on_data_pins_witness :
    AR488_UNO.readGpibDbus (AVR.const 0) = AR488_UNO.readGpibDbus { AVR.const 0 with PIND := 0x8C } ∧
    ((AR488_MEGA644P_MCGRAW.readGpibDbus (AVR.const 0)).bit (6 : Fin 8)
        ≠ (AR488_MEGA644P_MCGRAW.readGpibDbus { AVR.const 0 with PINC := 0x01 }).bit (6 : Fin 8) ∧
      ∀ k : Fin 8, k ≠ 6 →
        (AR488_MEGA644P_MCGRAW.readGpibDbus (AVR.const 0)).bit k
          = (AR488_MEGA644P_MCGRAW.readGpibDbus { AVR.const 0 with PINC := 0x01 }).bit k) :=
  ⟨(C37_read_dbus_depends_on_data_pins (AVR.const 0) { AVR.const 0 with PIND := 0x8C }).1.1
      (by decide),
   (C37_read_dbus_depends_on_data_pins (AVR.const 0)
      { AVR.const 0 with PINC := 0x01 }).2.2.2.2.2.2.1.2 6 (by decide) (by decide)⟩

/-! ## The GPIO sets of `setGpibCtrlDir` on the Pico layouts -/

/-- Bit `j` of a byte moved up by `off` places in a 32-bit word. -/
theorem shift_byte_testBit (x off j : Nat) (hx : x < 256) (hoff : off ≤ 24) :
    (u32 (x <<< off)).val.testBit j = (decide (off ≤ j) && x.testBit (j - off)) := by
  rw [testBit_u32, Nat.testBit_shiftLeft]
  by_cases hj : j < 32
  · simp [hj]
  · have hz : x.testBit (j - off) = false := by
      apply Nat.testBit_lt_two_pow
      calc x < 2 ^ 8 := hx
        _ ≤ 2 ^ (j - off) := Nat.pow_le_pow_right (by decide) (by omega)
    simp [hj, hz]

theorem and_lt_256 (x : Nat) (m : U8) : x &&& m.val < 256 :=
  Nat.and_lt_two_pow x (show m.val < 2 ^ 8 from m.isLt)

/-- The output set and the input set of `setGpibCtrlDir` are disjoint and
together make up the shifted mask, whatever the offset. -/
theorem pico_dir_masks (off : Nat) (hoff : off ≤ 24) (bits mask : U8) :
    (u32 ((bits.val &&& mask.val) <<< off)).val
        &&& (u32 (((u8 (bnot bits.val)).val &&& mask.val) <<< off)).val = 0 ∧
    (u32 ((bits.val &&& mask.val) <<< off)).val
        ||| (u32 (((u8 (bnot bits.val)).val &&& mask.val) <<< off)).val
      = (u32 (mask.val <<< off)).val := by
  refine ⟨?_, ?_⟩ <;> apply Nat.eq_of_testBit_eq <;> intro j
  · rw [Nat.testBit_and, shift_byte_testBit _ _ _ (and_lt_256 _ _) hoff,
      shift_byte_testBit _ _ _ (and_lt_256 _ _) hoff, Nat.zero_testBit, Nat.testBit_and,
      Nat.testBit_and, testBit_u8, testBit_bnot]
    cases decide (off ≤ j) <;> cases bits.val.testBit (j - off) <;>
      cases mask.val.testBit (j - off) <;> cases decide (j - off < 8) <;> rfl
  · rw [Nat.testBit_or, shift_byte_testBit _ _ _ (and_lt_256 _ _) hoff,
      shift_byte_testBit _ _ _ (and_lt_256 _ _) hoff, shift_byte_testBit _ _ _ mask.isLt hoff,
      Nat.testBit_and, Nat.testBit_and, testBit_u8, testBit_bnot]
    by_cases h8 : j - off < 8
    · simp only [h8, decide_True, Bool.true_and]
      cases decide (off ≤ j) <;> cases bits.val.testBit (j - off) <;>
        cases mask.val.testBit (j - off) <;> rfl
    · rw [testBit_val_ge mask (j - off) (by omega)]
      simp


/-- On the Pico layout 1 every shifted mask byte lies inside `gpioCtrlMask` and outside
`gpioDbMask`. -/
theorem pico_l1_shifted_mask : ∀ m : U8,
    (u32 (m.val <<< RAS_PICO_L1.gpioCtrlOffset)).val &&& RAS_PICO_L1.gpioCtrlMask.val
      = (u32 (m.val <<< RAS_PICO_L1.gpioCtrlOffset)).val ∧
    (u32 (m.val <<< RAS_PICO_L1.gpioCtrlOffset)).val &&& RAS_PICO_L1.gpioDbMask.val = 0 := by
  decide!

/-- On the Pico layout 1 `setGpibCtrlDir` leaves direction and pull-up of every GPIO
outside `gpioCtrlMask` as they were. -/
theorem pico_l1_ctrlDir_frame (bits mask : U8) (s : RP2040) (j : Nat)
    (hj : RAS_PICO_L1.gpioCtrlMask.val.testBit j = false) :
    (RAS_PICO_L1.setGpibCtrlDir bits mask s).gpio_oe.val.testBit j = s.gpio_oe.val.testBit j ∧
    (RAS_PICO_L1.setGpibCtrlDir bits mask s).pull_up.val.testBit j = s.pull_up.val.testBit j := by
  have h := pico_dir_body (u32 ((bits.val &&& mask.val) <<< RAS_PICO_L1.gpioCtrlOffset))
    (u32 (((u8 (bnot bits.val)).val &&& mask.val) <<< RAS_PICO_L1.gpioCtrlOffset)) s j
  have hm := pico_dir_masks RAS_PICO_L1.gpioCtrlOffset (by decide) bits mask
  have hc := (pico_l1_shifted_mask mask).1
  have hM : (u32 (mask.val <<< RAS_PICO_L1.gpioCtrlOffset)).val.testBit j = false := by
    rw [← hc, Nat.testBit_and, hj, Bool.and_false]
  have hOI := congrArg (fun n => Nat.testBit n j) hm.2
  simp only [Nat.testBit_or, hM, Bool.or_eq_false_iff] at hOI
  unfold RAS_PICO_L1.setGpibCtrlDir
  dsimp only
  rw [h.1, h.2, hOI.1, hOI.2]
  simp


/-- On the Pico layout 2 every shifted mask byte lies inside `gpioCtrlMask` and outside
`gpioDbMask`. -/
theorem pico_l2_shifted_mask : ∀ m : U8,
    (u32 (m.val <<< RAS_PICO_L2.gpioCtrlOffset)).val &&& RAS_PICO_L2.gpioCtrlMask.val
      = (u32 (m.val <<< RAS_PICO_L2.gpioCtrlOffset)).val ∧
    (u32 (m.val <<< RAS_PICO_L2.gpioCtrlOffset)).val &&& RAS_PICO_L2.gpioDbMask.val = 0 := by
  decide!

/-- On the Pico layout 2 `setGpibCtrlDir` leaves direction and pull-up of every GPIO
outside `gpioCtrlMask` as they were. -/
theorem pico_l2_ctrlDir_frame (bits mask : U8) (s : RP2040) (j : Nat)
    (hj : RAS_PICO_L2.gpioCtrlMask.val.testBit j = false) :
    (RAS_PICO_L2.setGpibCtrlDir bits mask s).gpio_oe.val.testBit j = s.gpio_oe.val.testBit j ∧
    (RAS_PICO_L2.setGpibCtrlDir bits mask s).pull_up.val.testBit j = s.pull_up.val.testBit j := by
  have h := pico_dir_body (u32 ((bits.val &&& mask.val) <<< RAS_PICO_L2.gpioCtrlOffset))
    (u32 (((u8 (bnot bits.val)).val &&& mask.val) <<< RAS_PICO_L2.gpioCtrlOffset)) s j
  have hm := pico_dir_masks RAS_PICO_L2.gpioCtrlOffset (by decide) bits mask
  have hc := (pico_l2_shifted_mask mask).1
  have hM : (u32 (mask.val <<< RAS_PICO_L2.gpioCtrlOffset)).val.testBit j = false := by
    rw [← hc, Nat.testBit_and, hj, Bool.and_false]
  have hOI := congrArg (fun n => Nat.testBit n j) hm.2
  simp only [Nat.testBit_or, hM, Bool.or_eq_false_iff] at hOI
  unfold RAS_PICO_L2.setGpibCtrlDir
  dsimp only
  rw [h.1, h.2, hOI.1, hOI.2]
  simp


/-- C38: on RAS_PICO_L1 and RAS_PICO_L2, for all bytes `bits` and `mask`, the
GPIO set `setGpibCtrlDir` switches to output, `(bits & mask) << gpioCtrlOffset`,
and the set it switches to input, `(~bits & mask) << gpioCtrlOffset`, are
disjoint, their union is `mask << gpioCtrlOffset`, and that union lies inside
`gpioCtrlMask` and is disjoint from `gpioDbMask`; and `setGpibCtrlDir` leaves
the direction and the pull-up of every GPIO outside `gpioCtrlMask` (every data
pin among them) as they were. -/
theorem C38_pico_ctrl_dir_masks (bits mask : U8) (s : RP2040) (j : Nat) :
    (((u32 ((bits.val &&& mask.val) <<< RAS_PICO_L1.gpioCtrlOffset)).val
          &&& (u32 (((u8 (bnot bits.val)).val &&& mask.val) <<< RAS_PICO_L1.gpioCtrlOffset)).val = 0 ∧
      (u32 ((bits.val &&& mask.val) <<< RAS_PICO_L1.gpioCtrlOffset)).val
          ||| (u32 (((u8 (bnot bits.val)).val &&& mask.val) <<< RAS_PICO_L1.gpioCtrlOffset)).val
        = (u32 (mask.val <<< RAS_PICO_L1.gpioCtrlOffset)).val ∧
      (u32 (mask.val <<< RAS_PICO_L1.gpioCtrlOffset)).val &&& RAS_PICO_L1.gpioCtrlMask.val
        = (u32 (mask.val <<< RAS_PICO_L1.gpioCtrlOffset)).val ∧
      (u32 (mask.val <<< RAS_PICO_L1.gpioCtrlOffset)).val &&& RAS_PICO_L1.gpioDbMask.val = 0) ∧
     (RAS_PICO_L1.gpioCtrlMask.val.testBit j = false →
      (RAS_PICO_L1.setGpibCtrlDir bits mask s).gpio_oe.val.testBit j = s.gpio_oe.val.testBit j ∧
      (RAS_PICO_L1.setGpibCtrlDir bits mask s).pull_up.val.testBit j = s.pull_up.val.testBit j)) ∧
    (((u32 ((bits.val &&& mask.val) <<< RAS_PICO_L2.gpioCtrlOffset)).val
          &&& (u32 (((u8 (bnot bits.val)).val &&& mask.val) <<< RAS_PICO_L2.gpioCtrlOffset)).val = 0 ∧
      (u32 ((bits.val &&& mask.val) <<< RAS_PICO_L2.gpioCtrlOffset)).val
          ||| (u32 (((u8 (bnot bits.val)).val &&& mask.val) <<< RAS_PICO_L2.gpioCtrlOffset)).val
        = (u32 (mask.val <<< RAS_PICO_L2.gpioCtrlOffset)).val ∧
      (u32 (mask.val <<< RAS_PICO_L2.gpioCtrlOffset)).val &&& RAS_PICO_L2.gpioCtrlMask.val
        = (u32 (mask.val <<< RAS_PICO_L2.gpioCtrlOffset)).val ∧
      (u32 (mask.val <<< RAS_PICO_L2.gpioCtrlOffset)).val &&& RAS_PICO_L2.gpioDbMask.val = 0) ∧
     (RAS_PICO_L2.gpioCtrlMask.val.testBit j = false →
      (RAS_PICO_L2.setGpibCtrlDir bits mask s).gpio_oe.val.testBit j = s.gpio_oe.val.testBit j ∧
      (RAS_PICO_L2.setGpibCtrlDir bits mask s).pull_up.val.testBit j = s.pull_up.val.testBit j)) :=
  ⟨⟨⟨(pico_dir_masks _ (by decide) bits mask).1, (pico_dir_masks _ (by decide) bits mask).2,
      (pico_l1_shifted_mask mask).1, (pico_l1_shifted_mask mask).2⟩,
    pico_l1_ctrlDir_frame bits mask s j⟩,
   ⟨⟨(pico_dir_masks _ (by decide) bits mask).1, (pico_dir_masks _ (by decide) bits mask).2,
      (pico_l2_shifted_mask mask).1, (pico_l2_shifted_mask mask).2⟩,
    pico_l2_ctrlDir_frame bits mask s j⟩⟩

/-- Witness for C38: making all eight control lines outputs on layout 1, and
inputs on layout 2, over a bank with every direction and pull-up bit set leaves
GPIO 6 of layout 1 and GPIO 14 of layout 2 (DIO1 in both) as they were. -/
theorem C38_pico_ctrl_dir_masks_witness :
    (RAS_PICO_L1.gpioCtrlMask.val.testBit 6 = false ∧
      (RAS_PICO_L1.setGpibCtrlDir 0xFF 0xFF ⟨0, 0, 0xFFFFFFFF, 0xFFFFFFFF⟩).gpio_oe.val.testBit 6
        = (0xFFFFFFFF : U32).val.testBit 6 ∧
      (RAS_PICO_L1.setGpibCtrlDir 0xFF 0xFF ⟨0, 0, 0xFFFFFFFF, 0xFFFFFFFF⟩).pull_up.val.testBit 6
        = (0xFFFFFFFF : U32).val.testBit 6) ∧
    (RAS_PICO_L2.gpioCtrlMask.val.testBit 14 = false ∧
      (RAS_PICO_L2.setGpibCtrlDir 0x00 0xFF ⟨0, 0, 0xFFFFFFFF, 0xFFFFFFFF⟩).gpio_oe.val.testBit 14
        = (0xFFFFFFFF : U32).val.testBit 14 ∧
      (RAS_PICO_L2.setGpibCtrlDir 0x00 0xFF ⟨0, 0, 0xFFFFFFFF, 0xFFFFFFFF⟩).pull_up.val.testBit 14
        = (0xFFFFFFFF : U32).val.testBit 14) :=
  ⟨⟨by decide,
    (C38_pico_ctrl_dir_masks 0xFF 0xFF ⟨0, 0, 0xFFFFFFFF, 0xFFFFFFFF⟩ 6).1.2 (by decide)⟩,
   ⟨by decide,
    (C38_pico_ctrl_dir_masks 0x00 0xFF ⟨0, 0, 0xFFFFFFFF, 0xFFFFFFFF⟩ 14).2.2 (by decide)⟩⟩

end AR488
